import Mathlib

/-!
RiftRunner (`src/game.js`, "Asteroid Corridor"): shallow embedding and contract proofs.

Modelling conventions.

* JavaScript numbers are modelled as exact rationals (`ℚ`).  Where the rounding of a
  double decides what the program does next, the operation is rounded with `roundDouble`:
  the subtraction of the landing countdown and the loops of `normalizeAngle`
  (`normalizeAngleDouble`).  The one `NaN` the terrain generator can produce is tracked by
  `Terrain.sampleIsNaN`; the infinities of IEEE doubles are outside the model.
  Integer-valued counters that the code only ever increments or guards (`level`, list
  lengths) are `ℕ`, `ammo` is `ℤ`.
* `Math.sin`, `Math.cos`, `Math.sqrt`, `Math.pow` and `Math.random` are supplied by a
  `MathEnv` value; `Math.random` is a stream indexed by a cursor kept in the state.
  `Math.PI` is the exact value of the double `3.141592653589793`.
* Objects become structures, methods become pure functions returning the updated
  object, `null` is `Option.none`, an uncaught `TypeError` is recorded in `Outcome`.
* Rendering, DOM updates, sounds and particles have no effect on the simulation state
  and are left out (their random draws are therefore not consumed from the stream).
  `setTimeout(() => this.gameOver(reason), 800)` is recorded as `pendingGameOver`.
-/

namespace RiftRunner

/-! ## Host environment and utility functions (game.js 8-38) -/

/-- The host `Math` object: transcendental functions and the random stream. -/
structure MathEnv where
  sin : ℚ → ℚ
  cos : ℚ → ℚ
  sqrt : ℚ → ℚ
  pow : ℚ → ℚ → ℚ
  rand : ℕ → ℚ

/-- `Math.PI`, the double nearest to pi, as an exact rational. -/
def PI : ℚ := 884279719003555 / 281474976710656

/-- `clamp(value, min, max)`, game.js 8-10. -/
def clamp (value lo hi : ℚ) : ℚ := max lo (min hi value)

/-- `lerp(a, b, t)`, game.js 12-14. -/
def lerp (a b t : ℚ) : ℚ := a + (b - a) * t

/-- `random(min, max)`, game.js 16-18, reading the draw at cursor `rng`. -/
def random (E : MathEnv) (rng : ℕ) (lo hi : ℚ) : ℚ := E.rand rng * (hi - lo) + lo

/-- `randomInt(min, max)`, game.js 20-22. -/
def randomInt (E : MathEnv) (rng : ℕ) (lo hi : ℚ) : ℤ := ⌊random E rng lo (hi + 1)⌋

/-- `distance(x1, y1, x2, y2)`, game.js 30-32. -/
def distance (E : MathEnv) (x1 y1 x2 y2 : ℚ) : ℚ :=
  E.sqrt ((x2 - x1) ^ 2 + (y2 - y1) ^ 2)

/-! ## Double arithmetic -/

/-- Round to the nearest integer, a tie going to the even neighbour. -/
def roundHalfEven (q : ℚ) : ℤ :=
  if q - ⌊q⌋ < 1 / 2 then ⌊q⌋
  else if 1 / 2 < q - ⌊q⌋ then ⌊q⌋ + 1
  else if ⌊q⌋ % 2 = 0 then ⌊q⌋
  else ⌊q⌋ + 1

/-- The spacing of the doubles around `q`: `2 ^ (e - 52)` for `2 ^ e <= |q| < 2 ^ (e + 1)`
(53-bit significands). -/
def ulp (q : ℚ) : ℚ := (2 : ℚ) ^ (Int.log 2 |q| - 52)

/-- The double nearest to `q`, ties to even: what a JavaScript `+` or `-` of two doubles
returns when the exact result is `q`.  The exponent is not bounded, so overflow to
`Infinity` (beyond 1.8e308) is not modelled; sums and differences of doubles that fall
below `2 ^ -1022` are exact in IEEE arithmetic and exact here. -/
def roundDouble (q : ℚ) : ℚ := (roundHalfEven (q / ulp q) : ℚ) * ulp q

theorem PI_pos : 0 < PI := by
  unfold PI; norm_num

theorem normalize_down_measure (a : ℚ) (h : PI < a) :
    (⌈(a - 2 * PI - PI) / (2 * PI)⌉).toNat < (⌈(a - PI) / (2 * PI)⌉).toNat := by
  have hp := PI_pos
  have e : (a - 2 * PI - PI) / (2 * PI) = (a - PI) / (2 * PI) - 1 := by
    field_simp
    ring
  rw [e, Int.ceil_sub_one]
  have hpos : 0 < ⌈(a - PI) / (2 * PI)⌉ := by
    apply Int.ceil_pos.mpr
    apply div_pos <;> linarith
  omega

theorem normalize_up_measure (a : ℚ) (h : a < -PI) :
    (⌈(-PI - (a + 2 * PI)) / (2 * PI)⌉).toNat < (⌈(-PI - a) / (2 * PI)⌉).toNat := by
  have hp := PI_pos
  have e : (-PI - (a + 2 * PI)) / (2 * PI) = (-PI - a) / (2 * PI) - 1 := by
    field_simp
    ring
  rw [e, Int.ceil_sub_one]
  have hpos : 0 < ⌈(-PI - a) / (2 * PI)⌉ := by
    apply Int.ceil_pos.mpr
    apply div_pos <;> linarith
  omega

/-- First loop of `normalizeAngle`: `while (angle > Math.PI) angle -= Math.PI * 2`. -/
def normalizeDown (angle : ℚ) : ℚ :=
  if h : PI < angle then normalizeDown (angle - 2 * PI) else angle
termination_by (⌈(angle - PI) / (2 * PI)⌉).toNat
decreasing_by exact normalize_down_measure angle h

/-- Second loop of `normalizeAngle`: `while (angle < -Math.PI) angle += Math.PI * 2`. -/
def normalizeUp (angle : ℚ) : ℚ :=
  if h : angle < -PI then normalizeUp (angle + 2 * PI) else angle
termination_by (⌈(-PI - angle) / (2 * PI)⌉).toNat
decreasing_by exact normalize_up_measure angle h

/-- `normalizeAngle(angle)`, game.js 34-38, in exact arithmetic, as the rocket model uses
it; `normalizeAngleDouble` is the same function with every sum and difference rounded. -/
def normalizeAngle (angle : ℚ) : ℚ := normalizeUp (normalizeDown angle)

/-- First loop of `normalizeAngle` in double arithmetic, game.js 35:
`while (angle > Math.PI) angle -= Math.PI * 2`, run for at most `fuel` iterations; `none`
when the loop has not exited by then.  `Math.PI * 2` is exact. -/
def normalizeDownDouble : ℕ → ℚ → Option ℚ
  | 0, angle => if PI < angle then none else some angle
  | fuel + 1, angle =>
    if PI < angle then normalizeDownDouble fuel (roundDouble (angle - PI * 2)) else some angle

/-- Second loop of `normalizeAngle` in double arithmetic, game.js 36:
`while (angle < -Math.PI) angle += Math.PI * 2`, run for at most `fuel` iterations. -/
def normalizeUpDouble : ℕ → ℚ → Option ℚ
  | 0, angle => if angle < -PI then none else some angle
  | fuel + 1, angle =>
    if angle < -PI then normalizeUpDouble fuel (roundDouble (angle + PI * 2)) else some angle

/-- `normalizeAngle(angle)` in double arithmetic, game.js 34-38: the value returned when
each loop exits within `fuel` iterations, `none` otherwise. -/
def normalizeAngleDouble (fuel : ℕ) (angle : ℚ) : Option ℚ :=
  (normalizeDownDouble fuel angle).bind (normalizeUpDouble fuel)

/-! ## Input snapshot (game.js 1413-1427) -/

/-- The object returned by `InputHandler.getInput()`. -/
structure Input where
  left : Bool
  right : Bool
  thrust : Bool
  fire : Bool
  pause : Bool

/-! ## Missile (game.js 285-307) -/

/-- Fields of `Missile`. -/
structure Missile where
  x : ℚ
  y : ℚ
  angle : ℚ
  speed : ℚ
  width : ℚ
  height : ℚ

/-- `new Missile(x, y, angle)`, game.js 286-293. -/
def Missile.new (x y angle : ℚ) : Missile :=
  { x := x, y := y, angle := angle, speed := 600, width := 4, height := 15 }

/-- `Missile.update(dt)`, game.js 295-298. -/
def Missile.update (E : MathEnv) (m : Missile) (dt : ℚ) : Missile :=
  { m with x := m.x + E.sin m.angle * m.speed * dt,
           y := m.y - E.cos m.angle * m.speed * dt }

/-- `Missile.isOffScreen(canvasWidth, canvasHeight)`, game.js 300-303. -/
def Missile.isOffScreen (m : Missile) (canvasWidth canvasHeight : ℚ) : Bool :=
  decide (m.y < -m.height) || decide (m.y > canvasHeight + m.height) ||
    decide (m.x < -m.width) || decide (m.x > canvasWidth + m.width)

/-! ## Asteroid (game.js 338-372) -/

/-- Simulation fields of `Asteroid` (the render-only polygon and colours are left out). -/
structure Asteroid where
  x : ℚ
  y : ℚ
  size : ℚ
  rotation : ℚ
  rotationSpeed : ℚ

/-- `new Asteroid(x, y, size)`, game.js 339-348: `size || random(15, 40)` draws only when
`size` is falsy (zero); then the rotation and the rotation speed are drawn. -/
def Asteroid.new (E : MathEnv) (rng : ℕ) (x y size : ℚ) : Asteroid × ℕ :=
  let size' := if size = 0 then random E rng 15 40 else size
  let rng1 := if size = 0 then rng + 1 else rng
  ({ x := x, y := y, size := size',
     rotation := random E rng1 0 (PI * 2),
     rotationSpeed := random E (rng1 + 1) (-1) 1 }, rng1 + 2)

/-- `Asteroid.update(dt, scrollSpeed)`, game.js 361-364. -/
def Asteroid.update (a : Asteroid) (dt scrollSpeed : ℚ) : Asteroid :=
  { a with y := a.y + scrollSpeed * dt, rotation := a.rotation + a.rotationSpeed * dt }

/-- `Asteroid.isOffScreen(canvasHeight)`, game.js 366-368. -/
def Asteroid.isOffScreen (a : Asteroid) (canvasHeight : ℚ) : Bool :=
  decide (a.y > canvasHeight + a.size * 2)

/-- `Asteroid.checkCollision(x, y, radius)`, game.js 370-372. -/
def Asteroid.checkCollision (E : MathEnv) (a : Asteroid) (x y radius : ℚ) : Bool :=
  decide (distance E a.x a.y x y < a.size * (4 / 5) + radius)

/-- `Missile.checkCollision(asteroid)`, game.js 305-307. -/
def Missile.checkCollision (E : MathEnv) (m : Missile) (asteroid : Asteroid) : Bool :=
  decide (distance E m.x m.y asteroid.x asteroid.y < asteroid.size)

/-! ## Terrain (game.js 416-483) -/

/-- A height-map point `{ x, y }`. -/
structure Point where
  x : ℚ
  y : ℚ

/-- Fields of `Terrain`. -/
structure Terrain where
  points : List Point
  canvasWidth : ℚ
  canvasHeight : ℚ
  padX : ℚ
  padWidth : ℚ

/-- One iteration of the sampling loop of `Terrain.generate`, game.js 437-462: the point for
index `i` and the advanced random cursor.  `Math.random()` is the left operand of `&&`, so it
is drawn for every sample outside the pad span; `random(30, 80)` only for a spike. -/
def Terrain.sample (E : MathEnv) (canvasWidth canvasHeight padX padWidth : ℚ) (rng : ℕ)
    (i : ℕ) : Point × ℕ :=
  let segmentWidth : ℚ := 12
  let baseHeight := canvasHeight - 60
  let padLeft := padX - padWidth / 2
  let padRight := padX + padWidth / 2
  let padY := canvasHeight - 80
  let x := (i : ℚ) * segmentWidth
  if x ≥ padLeft - 10 ∧ x ≤ padRight + 10 then
    ({ x := x, y := max padY 80 }, rng)
  else
    let distFromCenter := |x - canvasWidth / 2|
    let normalizedDist := distFromCenter / (canvasWidth / 2)
    let mountainHeight := E.pow normalizedDist (13 / 10) * 350
    let noise1 := E.sin (x * (15 / 1000)) * 50
    let noise2 := E.sin (x * (4 / 100) + 3 / 2) * 30
    let noise3 := E.sin (x * (8 / 100) + 3) * 20
    let noise4 := E.sin (x * (12 / 100) + 7 / 10) * 10
    let y := baseHeight - mountainHeight - noise1 - noise2 - noise3 - noise4
    let spike : Bool := decide (E.rand rng < 8 / 100) &&
      (decide (x < padLeft - 60) || decide (x > padRight + 60))
    let y := if spike then y - random E (rng + 1) 30 80 else y
    ({ x := x, y := max y 80 }, if spike then rng + 2 else rng + 1)

/-- Whether the `y` that the sampling loop computes for index `i` is `NaN` in the code,
game.js 443-460.  Outside the flattened span `normalizedDist` is the quotient
`distFromCenter / (canvasWidth / 2)`: it is `0 / 0 = NaN` when both are zero, and when it
is negative `Math.pow(normalizedDist, 1.3)` is `NaN`; `NaN` passes through the
subtractions and through `Math.max(y, 80)`.  Where this is false and the canvas width is
not zero, `Terrain.sample` gives the code's value. -/
def Terrain.sampleIsNaN (canvasWidth padX padWidth : ℚ) (i : ℕ) : Bool :=
  let segmentWidth : ℚ := 12
  let padLeft := padX - padWidth / 2
  let padRight := padX + padWidth / 2
  let x := (i : ℚ) * segmentWidth
  if x ≥ padLeft - 10 ∧ x ≤ padRight + 10 then false
  else
    let distFromCenter := |x - canvasWidth / 2|
    (decide (distFromCenter = 0) && decide (canvasWidth / 2 = 0)) ||
      decide (distFromCenter / (canvasWidth / 2) < 0)

/-- The sampling loop of `Terrain.generate`, game.js 436-463, for `i = 0 .. count - 1`. -/
def Terrain.samples (E : MathEnv) (canvasWidth canvasHeight padX padWidth : ℚ) (rng : ℕ)
    (count : ℕ) : List Point × ℕ :=
  (List.range count).foldl
    (fun (acc : List Point × ℕ) (i : ℕ) =>
      let s := Terrain.sample E canvasWidth canvasHeight padX padWidth acc.2 i
      (acc.1 ++ [s.1], s.2))
    ([], rng)

/-- One step of a smoothing pass, game.js 466-471, at index `i` (points are updated in place,
so the left neighbour is already smoothed). -/
def Terrain.smoothAt (padX padWidth : ℚ) (pts : List Point) (i : ℕ) : List Point :=
  let padLeft := padX - padWidth / 2
  let padRight := padX + padWidth / 2
  let z : Point := { x := 0, y := 0 }
  let x := (pts.getD i z).x
  if x < padLeft - 20 ∨ x > padRight + 20 then
    pts.set i { x := x,
                y := ((pts.getD (i - 1) z).y + (pts.getD i z).y + (pts.getD (i + 1) z).y) / 3 }
  else pts

/-- One smoothing pass, game.js 466-471: `for (i = 1; i < points.length - 1; i++)`. -/
def Terrain.smoothPass (padX padWidth : ℚ) (pts : List Point) : List Point :=
  (List.range (pts.length - 2)).foldl
    (fun (acc : List Point) (k : ℕ) => Terrain.smoothAt padX padWidth acc (k + 1)) pts

/-- `new Terrain(canvasWidth, canvasHeight, padX, padWidth)` with `generate()`,
game.js 417-473. -/
def Terrain.new (E : MathEnv) (rng : ℕ) (canvasWidth canvasHeight padX padWidth : ℚ) :
    Terrain × ℕ :=
  let numSegments : ℤ := ⌈canvasWidth / 12⌉ + 1
  let s := Terrain.samples E canvasWidth canvasHeight padX padWidth rng (numSegments + 1).toNat
  let pts := Terrain.smoothPass padX padWidth (Terrain.smoothPass padX padWidth s.1)
  ({ points := pts, canvasWidth := canvasWidth, canvasHeight := canvasHeight,
     padX := padX, padWidth := padWidth }, s.2)

/-- The search loop of `Terrain.getHeightAt`, game.js 476-481. -/
def Terrain.heightIn : List Point → ℚ → Option ℚ
  | p :: q :: rest, x =>
    if x ≥ p.x ∧ x ≤ q.x then
      some (lerp p.y q.y ((x - p.x) / (q.x - p.x)))
    else Terrain.heightIn (q :: rest) x
  | _, _ => none

/-- `Terrain.getHeightAt(x)`, game.js 475-483. -/
def Terrain.getHeightAt (t : Terrain) (x : ℚ) : ℚ :=
  (Terrain.heightIn t.points x).getD t.canvasHeight

/-! ## Rocket (game.js 530-795) -/

/-- Fields of `Rocket`. -/
structure Rocket where
  x : ℚ
  y : ℚ
  baseY : ℚ
  width : ℚ
  height : ℚ
  collisionRadius : ℚ
  vx : ℚ
  vy : ℚ
  angle : ℚ
  angularVelocity : ℚ
  rotationSpeed : ℚ
  thrustPower : ℚ
  maxSpeed : ℚ
  maxShield : ℚ
  maxHealth : ℚ
  maxAmmo : ℤ
  shield : ℚ
  health : ℚ
  ammo : ℤ
  invulnerable : Bool
  invulnerableTimer : ℚ
  invulnerableDuration : ℚ
  boosted : Bool
  boostTimer : ℚ
  shootCooldown : ℚ
  shootCooldownTime : ℚ
  thrusting : Bool
  landingMode : Bool
  fuel : ℚ
  maxFuel : ℚ
  gravity : ℚ
  landingThrustPower : ℚ

/-- `new Rocket(x, y)`, game.js 531-572. -/
def Rocket.new (x y : ℚ) : Rocket :=
  { x := x, y := y, baseY := y, width := 30, height := 50, collisionRadius := 18,
    vx := 0, vy := 0, angle := 0, angularVelocity := 0,
    rotationSpeed := 3, thrustPower := 300, maxSpeed := 500,
    maxShield := 100, maxHealth := 100, maxAmmo := 12,
    shield := 100, health := 100, ammo := 12,
    invulnerable := false, invulnerableTimer := 0, invulnerableDuration := 2 / 5,
    boosted := false, boostTimer := 0,
    shootCooldown := 0, shootCooldownTime := 1 / 5,
    thrusting := false,
    landingMode := false, fuel := 50, maxFuel := 50, gravity := 50,
    landingThrustPower := 120 }

/-- The angular velocity after acceleration, clamping and damping, game.js 577-588. -/
def Rocket.turnRate (E : MathEnv) (r : Rocket) (dt : ℚ) (input : Input) : ℚ :=
  let ROT_ACCEL : ℚ := 10
  let MAX_TURN_RATE : ℚ := 16 / 5
  let av := r.angularVelocity
  let av := if input.left then av - ROT_ACCEL * dt else av
  let av := if input.right then av + ROT_ACCEL * dt else av
  let av := clamp av (-MAX_TURN_RATE) MAX_TURN_RATE
  let dampingPer60fps : ℚ := 19 / 20
  av * E.pow dampingPer60fps (dt * 60)

/-- The angle after integration and normalisation, game.js 590-592. -/
def Rocket.integratedAngle (E : MathEnv) (r : Rocket) (dt : ℚ) (input : Input) : ℚ :=
  normalizeAngle (r.angle + r.turnRate E dt input * dt)

/-- Rotation block of `Rocket.update`, game.js 577-601. -/
def Rocket.updateRotation (E : MathEnv) (r : Rocket) (dt : ℚ) (input : Input) : Rocket :=
  let MAX_TILT : ℚ := PI / 2
  let angle := r.integratedAngle E dt input
  if angle > MAX_TILT then
    { r with angle := MAX_TILT, angularVelocity := 0 }
  else if angle < -MAX_TILT then
    { r with angle := -MAX_TILT, angularVelocity := 0 }
  else
    { r with angle := angle, angularVelocity := r.turnRate E dt input }

/-- `Rocket.updateFlying`, game.js 625-678. -/
def Rocket.updateFlying (E : MathEnv) (r : Rocket) (dt : ℚ) (input : Input)
    (canvasWidth canvasHeight scrollSpeed : ℚ) : Rocket :=
  let baseThrust := scrollSpeed * (4 / 5)
  let thrustX := E.sin r.angle
  let thrustY := -E.cos r.angle
  let vx := r.vx + thrustX * baseThrust * dt
  let vy := r.vy + thrustY * baseThrust * dt
  let vx := if input.thrust then vx + thrustX * r.thrustPower * dt else vx
  let vy := if input.thrust then vy + thrustY * r.thrustPower * dt else vy
  let vx := vx * (49 / 50)
  let vy := vy * (49 / 50)
  let speed := E.sqrt (vx * vx + vy * vy)
  let scale := r.maxSpeed / speed
  let vx' := if speed > r.maxSpeed then vx * scale else vx
  let vy' := if speed > r.maxSpeed then vy * scale else vy
  let x := r.x + vx' * dt
  let y := r.y + vy' * dt
  let minY := canvasHeight * (3 / 10)
  let maxY := canvasHeight - 60
  let vy1 := if y < minY then |vy'| * (1 / 2) else vy'
  let y1 := if y < minY then minY else y
  let vy2 := if y1 > maxY then -|vy1| * (1 / 2) else vy1
  let y2 := if y1 > maxY then maxY else y1
  let x1 := if x < -r.width then canvasWidth + r.width else x
  let x2 := if x1 > canvasWidth + r.width then -r.width else x1
  { r with thrusting := input.thrust, vx := vx', vy := vy2, x := x2, y := y2 }

/-- `Rocket.updateLanding`, game.js 680-720. -/
def Rocket.updateLanding (E : MathEnv) (r : Rocket) (dt : ℚ) (input : Input)
    (canvasWidth _canvasHeight : ℚ) : Rocket :=
  let vy := r.vy + r.gravity * dt
  let burning : Bool := decide (r.fuel > 0) && input.thrust
  let thrustX := E.sin r.angle * r.landingThrustPower
  let thrustY := -E.cos r.angle * r.landingThrustPower
  let vx := if burning then r.vx + thrustX * dt else r.vx
  let vy := if burning then vy + thrustY * dt else vy
  let fuel := if burning then r.fuel - 12 * dt else r.fuel
  let fuel := max 0 fuel
  let vx := vx * (999 / 1000)
  let vy := vy * (999 / 1000)
  let x := r.x + vx * dt
  let y := r.y + vy * dt
  let vx1 := if x < r.width / 2 then -vx * (3 / 10) else vx
  let x1 := if x < r.width / 2 then r.width / 2 else x
  let vx2 := if x1 > canvasWidth - r.width / 2 then -vx1 * (3 / 10) else vx1
  let x2 := if x1 > canvasWidth - r.width / 2 then canvasWidth - r.width / 2 else x1
  let vy1 := if y < r.height / 2 then |vy| * (3 / 10) else vy
  let y1 := if y < r.height / 2 then r.height / 2 else y
  { r with thrusting := burning, fuel := fuel, vx := vx2, vy := vy1, x := x2, y := y1 }

/-- Timer block of `Rocket.update`, game.js 609-622. -/
def Rocket.updateTimers (r : Rocket) (dt : ℚ) : Rocket :=
  let invulnerableTimer := if r.invulnerable then r.invulnerableTimer - dt else r.invulnerableTimer
  let invulnerable : Bool :=
    if r.invulnerable then (if invulnerableTimer ≤ 0 then false else r.invulnerable)
    else r.invulnerable
  let boostTimer := if r.boosted then r.boostTimer - dt else r.boostTimer
  let boosted : Bool :=
    if r.boosted then (if boostTimer ≤ 0 then false else r.boosted) else r.boosted
  let shootCooldown := if r.shootCooldown > 0 then r.shootCooldown - dt else r.shootCooldown
  { r with invulnerableTimer := invulnerableTimer, invulnerable := invulnerable,
           boostTimer := boostTimer, boosted := boosted, shootCooldown := shootCooldown }

/-- `Rocket.update(dt, input, canvasWidth, canvasHeight, scrollSpeed)`, game.js 574-623. -/
def Rocket.update (E : MathEnv) (r : Rocket) (dt : ℚ) (input : Input)
    (canvasWidth canvasHeight scrollSpeed : ℚ) : Rocket :=
  let r1 := r.updateRotation E dt input
  let r2 := if r1.landingMode then r1.updateLanding E dt input canvasWidth canvasHeight
    else r1.updateFlying E dt input canvasWidth canvasHeight scrollSpeed
  r2.updateTimers dt

/-- `Rocket.canShoot()`, game.js 722-724. -/
def Rocket.canShoot (r : Rocket) : Bool :=
  decide (r.ammo > 0) && decide (r.shootCooldown ≤ 0) && !r.landingMode

/-- `Rocket.shoot()`, game.js 726-735: the missile (or `null`) and the updated rocket. -/
def Rocket.shoot (E : MathEnv) (r : Rocket) : Option Missile × Rocket :=
  if !r.canShoot then (none, r)
  else
    let noseX := r.x + E.sin r.angle * r.height / 2
    let noseY := r.y - E.cos r.angle * r.height / 2
    (some (Missile.new noseX noseY r.angle),
      { r with ammo := r.ammo - 1, shootCooldown := r.shootCooldownTime })

/-- `Rocket.takeDamage(amount)`, game.js 737-749: the returned flag and the updated rocket. -/
def Rocket.takeDamage (r : Rocket) (amount : ℚ) : Bool × Rocket :=
  if r.invulnerable then (false, r)
  else
    let shield := if r.shield > 0 then max 0 (r.shield - amount) else r.shield
    let health := if r.shield > 0 then r.health else max 0 (r.health - amount)
    (true, { r with shield := shield, health := health, invulnerable := true,
                    invulnerableTimer := r.invulnerableDuration })

/-- `Rocket.addShield(amount)`, game.js 751-753. -/
def Rocket.addShield (r : Rocket) (amount : ℚ) : Rocket :=
  { r with shield := min r.maxShield (r.shield + amount) }

/-- `Rocket.addHealth(amount)`, game.js 755-757. -/
def Rocket.addHealth (r : Rocket) (amount : ℚ) : Rocket :=
  { r with health := min r.maxHealth (r.health + amount) }

/-- `Rocket.activateBoost(duration)`, game.js 759-762. -/
def Rocket.activateBoost (r : Rocket) (duration : ℚ) : Rocket :=
  { r with boosted := true, boostTimer := duration }

/-- `Rocket.repairAll()`, game.js 764-768. -/
def Rocket.repairAll (r : Rocket) : Rocket :=
  { r with health := r.maxHealth, shield := r.maxShield, ammo := r.maxAmmo }

/-- `Rocket.isAlive()`, game.js 770-772. -/
def Rocket.isAlive (r : Rocket) : Bool := decide (r.health > 0)

/-- `Rocket.startLanding(canvasWidth)`, game.js 774-784; draws two random numbers. -/
def Rocket.startLanding (E : MathEnv) (r : Rocket) (rng : ℕ) (canvasWidth : ℚ) : Rocket × ℕ :=
  ({ r with landingMode := true, x := canvasWidth / 2 + random E rng (-100) 100, y := 80,
            vx := random E (rng + 1) (-20) 20, vy := 0, angle := 0, angularVelocity := 0,
            fuel := r.maxFuel, thrusting := false },
    rng + 2)

/-- `Rocket.endLanding(canvasWidth, baseY)`, game.js 786-795. -/
def Rocket.endLanding (r : Rocket) (canvasWidth baseY : ℚ) : Rocket :=
  { r with landingMode := false, x := canvasWidth / 2, y := baseY, baseY := baseY,
           vx := 0, vy := 0, angle := 0, angularVelocity := 0 }

/-! ## Landing pad (game.js 889-916) -/

/-- Fields of `LandingPad`. -/
structure LandingPad where
  x : ℚ
  y : ℚ
  width : ℚ
  height : ℚ
  beaconPhase : ℚ

/-- `new LandingPad(x, y, width)`, game.js 890-896. -/
def LandingPad.new (x y width : ℚ) : LandingPad :=
  { x := x, y := y, width := width, height := 8, beaconPhase := 0 }

/-- `LandingPad.update(dt)`, game.js 898-900. -/
def LandingPad.update (p : LandingPad) (dt : ℚ) : LandingPad :=
  { p with beaconPhase := p.beaconPhase + dt * 3 }

/-- The object `{ onPad, safeVelocity, safeAngle }` returned by `checkLanding`. -/
structure LandingCheck where
  onPad : Bool
  safeVelocity : Bool
  safeAngle : Bool

/-- `LandingPad.checkLanding(rocket)`, game.js 902-916. -/
def LandingPad.checkLanding (E : MathEnv) (p : LandingPad) (rocket : Rocket) : LandingCheck :=
  let rocketBottom := rocket.y + rocket.height / 2 * E.cos rocket.angle
  let rocketLeft := rocket.x - rocket.width / 2
  let rocketRight := rocket.x + rocket.width / 2
  let onPad : Bool := decide (rocketBottom ≥ p.y - 5) &&
    decide (rocketBottom ≤ p.y + p.height + 15) &&
    decide (rocketLeft ≥ p.x - p.width / 2 - 10) &&
    decide (rocketRight ≤ p.x + p.width / 2 + 10)
  let safeVelocity : Bool := decide (|rocket.vy| < 50) && decide (|rocket.vx| < 30)
  let safeAngle : Bool := decide (|rocket.angle| < PI / 12)
  { onPad := onPad, safeVelocity := safeVelocity, safeAngle := safeAngle }

/-! ## Corridor (game.js 973-1081) -/

/-- A corridor segment `{ y, centerX, width }`. -/
structure Segment where
  y : ℚ
  centerX : ℚ
  width : ℚ

/-- Fields of `Corridor`. -/
structure Corridor where
  segments : List Segment
  segmentHeight : ℚ
  canvasHeight : ℚ
  baseWidth : ℚ
  minWidth : ℚ
  width : ℚ
  centerX : ℚ
  targetCenterX : ℚ
  waviness : ℚ
  noiseOffset : ℚ
  scrollSpeed : ℚ
  baseScrollSpeed : ℚ

/-- `new Corridor(canvasHeight)`, game.js 974-990. -/
def Corridor.new (canvasHeight : ℚ) : Corridor :=
  { segments := [], segmentHeight := 20, canvasHeight := canvasHeight,
    baseWidth := 350, minWidth := 120, width := 350,
    centerX := 0, targetCenterX := 0, waviness := 1 / 2, noiseOffset := 0,
    scrollSpeed := 60, baseScrollSpeed := 60 }

/-- `Corridor.init(canvasWidth, canvasHeight)`, game.js 992-1007. -/
def Corridor.init (c : Corridor) (canvasWidth canvasHeight : ℚ) : Corridor :=
  let centerX := canvasWidth / 2
  let numSegments : ℤ := ⌈canvasHeight / c.segmentHeight⌉ + 10
  { c with canvasHeight := canvasHeight, centerX := centerX, targetCenterX := centerX,
           segments := (List.range numSegments.toNat).map fun (i : ℕ) =>
             { y := canvasHeight - (i : ℚ) * c.segmentHeight, centerX := centerX,
               width := c.width } }

/-- The refill loop of `Corridor.update`, game.js 1026-1035: push segments above the last
one while the stack is shorter than `target`. -/
def Corridor.refill (E : MathEnv) (segmentHeight centerX width : ℚ) (target : ℤ)
    (segs : List Segment) (rng : ℕ) : List Segment × ℕ :=
  if (segs.length : ℤ) < target then
    let newY := match segs.getLast? with
      | some lastSegment => lastSegment.y - segmentHeight
      | none => 0
    Corridor.refill E segmentHeight centerX width target
      (segs ++ [{ y := newY, centerX := centerX + random E rng (-5) 5, width := width }])
      (rng + 1)
  else (segs, rng)
termination_by (target - segs.length).toNat
decreasing_by
  simp only [List.length_append, List.length_singleton]
  omega

/-- `Corridor.update(dt, canvasWidth, canvasHeight)`, game.js 1009-1036. -/
def Corridor.update (E : MathEnv) (c : Corridor) (rng : ℕ) (dt canvasWidth canvasHeight : ℚ) :
    Corridor × ℕ :=
  let scrollAmount := c.scrollSpeed * dt
  let moved := c.segments.map fun s => { s with y := s.y + scrollAmount }
  let noiseOffset := c.noiseOffset + dt * c.waviness
  let targetOffset := E.sin noiseOffset * (canvasWidth * (1 / 4)) * c.waviness
  let targetCenterX := canvasWidth / 2 + targetOffset
  let centerX := lerp c.centerX targetCenterX (dt * 2)
  let kept := moved.filter fun s => decide (s.y < canvasHeight + c.segmentHeight * 2)
  let filled := Corridor.refill E c.segmentHeight centerX c.width
    (⌈canvasHeight / c.segmentHeight⌉ + 10) kept rng
  ({ c with canvasHeight := canvasHeight, noiseOffset := noiseOffset,
            targetCenterX := targetCenterX, centerX := centerX, segments := filled.1 },
    filled.2)

/-- The object `{ left, right, centerX, width }` returned by `getBoundsAtY`. -/
structure Bounds where
  left : ℚ
  right : ℚ
  centerX : ℚ
  width : ℚ

/-- The `lower` variable after the scan of `getBoundsAtY`, game.js 1042-1045: the first
segment with the least `y` among those with `segment.y >= y`, starting from `acc`. -/
def Corridor.scanLower (y : ℚ) : Option Segment → List Segment → Option Segment
  | acc, [] => acc
  | acc, s :: rest =>
    let acc' := if s.y ≥ y then
        (match acc with
          | none => some s
          | some l => if s.y < l.y then some s else some l)
      else acc
    Corridor.scanLower y acc' rest

/-- The `upper` variable after the scan of `getBoundsAtY`, game.js 1046-1048: the first
segment with the greatest `y` among those with `segment.y <= y`, starting from `acc`. -/
def Corridor.scanUpper (y : ℚ) : Option Segment → List Segment → Option Segment
  | acc, [] => acc
  | acc, s :: rest =>
    let acc' := if s.y ≤ y then
        (match acc with
          | none => some s
          | some u => if s.y > u.y then some s else some u)
      else acc
    Corridor.scanUpper y acc' rest

/-- `Corridor.getBoundsAtY(y)`, game.js 1038-1070.  The fallback object is built with
`right: this.canvasHeight`, as in the source. -/
def Corridor.getBoundsAtY (c : Corridor) (y : ℚ) : Bounds :=
  match Corridor.scanLower y none c.segments, Corridor.scanUpper y none c.segments with
  | some lower, some upper =>
    let t := if lower.y = upper.y then 0 else (y - upper.y) / (lower.y - upper.y)
    let centerX := lerp upper.centerX lower.centerX t
    let width := lerp upper.width lower.width t
    { left := centerX - width / 2, right := centerX + width / 2, centerX := centerX,
      width := width }
  | _, _ =>
    { left := 0, right := c.canvasHeight, centerX := c.centerX, width := c.width }

/-- `Corridor.setDifficulty(level)`, game.js 1072-1076. -/
def Corridor.setDifficulty (c : Corridor) (level : ℕ) : Corridor :=
  { c with scrollSpeed := c.baseScrollSpeed + ((level : ℚ) - 1) * 8,
           width := max c.minWidth (c.baseWidth - ((level : ℚ) - 1) * 25),
           waviness := 1 / 2 + ((level : ℚ) - 1) * (12 / 100) }

/-- `Corridor.checkCollision(x, y, radius)`, game.js 1078-1081. -/
def Corridor.checkCollision (c : Corridor) (x y radius : ℚ) : Bool :=
  let bounds := c.getBoundsAtY y
  decide (x - radius < bounds.left) || decide (x + radius > bounds.right)

/-! ## Pickup (game.js 1165-1203) -/

/-- The `type` string of a pickup. -/
inductive PickupType where
  | shield
  | health
  | boost

/-- Simulation fields of `Pickup` (colour and icon are left out). -/
structure Pickup where
  x : ℚ
  y : ℚ
  type : PickupType
  radius : ℚ
  pulsePhase : ℚ
  value : ℚ

/-- `new Pickup(x, y, type)`, game.js 1166-1190; draws the pulse phase. -/
def Pickup.new (E : MathEnv) (rng : ℕ) (x y : ℚ) (type : PickupType) : Pickup × ℕ :=
  ({ x := x, y := y, type := type, radius := 18, pulsePhase := E.rand rng * PI * 2,
     value := match type with
       | PickupType.shield => 30
       | PickupType.health => 25
       | PickupType.boost => 3 }, rng + 1)

/-- `Pickup.update(dt, scrollSpeed)`, game.js 1192-1195. -/
def Pickup.update (p : Pickup) (dt scrollSpeed : ℚ) : Pickup :=
  { p with y := p.y + scrollSpeed * dt, pulsePhase := p.pulsePhase + dt * 5 }

/-- `Pickup.isOffScreen(canvasHeight)`, game.js 1197-1199. -/
def Pickup.isOffScreen (p : Pickup) (canvasHeight : ℚ) : Bool :=
  decide (p.y > canvasHeight + p.radius * 2)

/-- `Pickup.checkCollision(x, y, radius)`, game.js 1201-1203. -/
def Pickup.checkCollision (E : MathEnv) (p : Pickup) (x y radius : ℚ) : Bool :=
  decide (distance E p.x p.y x y < p.radius + radius)

/-! ## Game (game.js 1431-2295) -/

/-- The `state` string of `Game`. -/
inductive GameState where
  | menu
  | playing
  | paused
  | landing
  | landingWait
  | station
  | gameOver
deriving DecidableEq

/-- Simulation fields of `Game`.  `canvasWidth`/`canvasHeight` stand for `canvas.width` and
`canvas.height`, `storedBest` for the `localStorage` entry, `pendingGameOver` for the callback
scheduled by `crashLanding`, `rng` for the position in the `Math.random` stream.  `rocket`
and `corridor` are `null` only before the first `startGame`; every state that `update`
dispatches on is entered after `startGame`, so the model keeps them non-optional. -/
structure Game where
  canvasWidth : ℚ
  canvasHeight : ℚ
  rocket : Rocket
  corridor : Corridor
  terrain : Option Terrain
  asteroids : List Asteroid
  missiles : List Missile
  pickups : List Pickup
  landingPad : Option LandingPad
  state : GameState
  previousState : Option GameState
  level : ℕ
  levelDistance : ℚ
  totalTime : ℚ
  score : ℚ
  bestScore : ℤ
  storedBest : Option ℤ
  deathReason : String
  damageAmount : ℚ
  shakeAmount : ℚ
  shakeDuration : ℚ
  currentScrollSpeed : ℚ
  asteroidSpawnTimer : ℚ
  asteroidSpawnInterval : ℚ
  pickupSpawnTimer : ℚ
  pickupSpawnInterval : ℚ
  checkpointWarningShown : Bool
  checkpointLevel : ℕ
  landingCrashed : Bool
  landingSuccessTimer : ℚ
  pendingGameOver : Option String
  rng : ℕ

/-- The result of a method that can be cut short by an uncaught exception: the state reached
and whether an exception escaped. -/
structure Outcome where
  game : Game
  thrown : Bool

/-- `Game.startGame()`, game.js 1599-1634. -/
def Game.startGame (g : Game) : Game :=
  { g with state := GameState.playing, level := 1, levelDistance := 0, totalTime := 0,
           score := 0, asteroids := [], missiles := [], pickups := [],
           asteroidSpawnTimer := 0, pickupSpawnTimer := 0, checkpointWarningShown := false,
           deathReason := "", landingCrashed := false,
           rocket := Rocket.new (g.canvasWidth / 2) (g.canvasHeight - 120),
           corridor := ((Corridor.new g.canvasHeight).init g.canvasWidth
             g.canvasHeight).setDifficulty 1 }

/-- `new Game()` (game.js 1432-1536) on a canvas of the given size with the given stored best
score, followed by the first `startGame()`. -/
def Game.new (canvasWidth canvasHeight : ℚ) (stored : Option ℤ) : Game :=
  Game.startGame
    { canvasWidth := canvasWidth, canvasHeight := canvasHeight,
      rocket := Rocket.new (canvasWidth / 2) (canvasHeight - 120),
      corridor := Corridor.new canvasHeight,
      terrain := none, asteroids := [], missiles := [], pickups := [], landingPad := none,
      state := GameState.menu, previousState := none, level := 1, levelDistance := 0,
      totalTime := 0, score := 0, bestScore := stored.getD 0, storedBest := stored,
      deathReason := "", damageAmount := 12, shakeAmount := 0, shakeDuration := 0,
      currentScrollSpeed := 0, asteroidSpawnTimer := 0, asteroidSpawnInterval := 4 / 5,
      pickupSpawnTimer := 0, pickupSpawnInterval := 12, checkpointWarningShown := false,
      checkpointLevel := 5, landingCrashed := false, landingSuccessTimer := 0,
      pendingGameOver := none, rng := 0 }

/-- `Game.pauseGame()`, game.js 1652-1659.  `InputHandler` (game.js 1240-1428) defines no
`clearPause`, so `this.input.clearPause()` raises a `TypeError` after the state switch. -/
def Game.pauseGame (g : Game) : Outcome :=
  if g.state = GameState.playing ∨ g.state = GameState.landing then
    { game := { g with previousState := some g.state, state := GameState.paused },
      thrown := true }
  else { game := g, thrown := false }

/-- `Game.resumeGame()`, game.js 1661-1667; the same missing `clearPause` is called. -/
def Game.resumeGame (g : Game) : Outcome :=
  if g.state = GameState.paused then
    { game := { g with state := g.previousState.getD GameState.playing }, thrown := true }
  else { game := g, thrown := false }

/-- The `finalScore` of `Game.gameOver`, game.js 1674 (also shown by `updateHUD`, 1941). -/
def Game.finalScore (g : Game) : ℤ := ⌊g.totalTime * 10⌋ + ((g.level : ℤ) - 1) * 100

/-- `Game.gameOver(reason)`, game.js 1669-1698. -/
def Game.gameOver (g : Game) (reason : String) : Game :=
  let finalScore := g.finalScore
  let isNewBest : Bool := decide (finalScore > g.bestScore)
  { g with state := GameState.gameOver, deathReason := reason,
           bestScore := if isNewBest then finalScore else g.bestScore,
           storedBest := if isNewBest then some finalScore else g.storedBest }

/-- `Game.triggerShake(amount, duration)`, game.js 1921-1924. -/
def Game.triggerShake (g : Game) (amount duration : ℚ) : Game :=
  { g with shakeAmount := amount, shakeDuration := duration }

/-- `Game.showStationMenu()`, game.js 1805-1816. -/
def Game.showStationMenu (g : Game) : Game :=
  { g with state := GameState.station }

/-- `Game.beginLandingSuccessCountdown()`, game.js 1718-1745. -/
def Game.beginLandingSuccessCountdown (g : Game) : Game :=
  if g.state = GameState.landingWait then g
  else
    let x := match g.landingPad with
      | some pad => pad.x
      | none => g.rocket.x
    let y := match g.landingPad with
      | some pad => pad.y - g.rocket.height / 2
      | none => g.rocket.y
    { g with state := GameState.landingWait, landingSuccessTimer := 2,
             rocket := { g.rocket with x := x, y := y, vx := 0, vy := 0, angularVelocity := 0,
                                       angle := 0, thrusting := false } }

/-- `Game.updateLandingSuccessWait(dt)`, game.js 1747-1774.  The timer is a double and
`this.landingSuccessTimer -= dt` rounds the difference. -/
def Game.updateLandingSuccessWait (g : Game) (dt : ℚ) : Game :=
  let g1 := { g with landingPad := g.landingPad.map fun pad => pad.update dt,
                     shakeAmount := 0, shakeDuration := 0,
                     landingSuccessTimer := roundDouble (g.landingSuccessTimer - dt) }
  if g1.landingSuccessTimer ≤ 0 then g1.showStationMenu else g1

/-- `Game.startLandingPhase()`, game.js 1777-1803. -/
def Game.startLandingPhase (E : MathEnv) (g : Game) : Game :=
  let started := g.rocket.startLanding E g.rng g.canvasWidth
  let padWidth : ℚ := 100
  let padY := g.canvasHeight - 80
  let pad := LandingPad.new (g.canvasWidth / 2) padY padWidth
  let made := Terrain.new E started.2 g.canvasWidth g.canvasHeight pad.x padWidth
  { g with state := GameState.landing, shakeAmount := 0, shakeDuration := 0,
           landingCrashed := false, rocket := started.1, landingPad := some pad,
           terrain := some made.1, asteroids := [], missiles := [], pickups := [],
           rng := made.2 }

/-- `Game.continueFromStation()`, game.js 1827-1847. -/
def Game.continueFromStation (g : Game) : Game :=
  { g with rocket := g.rocket.endLanding g.canvasWidth (g.canvasHeight - 120),
           corridor := (g.corridor.init g.canvasWidth g.canvasHeight).setDifficulty g.level,
           landingPad := none, terrain := none, checkpointWarningShown := false,
           asteroidSpawnTimer := 0, levelDistance := 0, state := GameState.playing }

/-- `Game.repairAndContinue()`, game.js 1818-1821. -/
def Game.repairAndContinue (g : Game) : Game :=
  Game.continueFromStation { g with rocket := g.rocket.repairAll }

/-- `Game.continueWithoutRepair()`, game.js 1823-1825. -/
def Game.continueWithoutRepair (g : Game) : Game := g.continueFromStation

/-- `Game.getAsteroidTargetCount()`, game.js 1877-1881. -/
def Game.getAsteroidTargetCount (g : Game) : ℕ :=
  if g.level < 3 then 0 else 5 + (g.level - 3) * 3

/-- `Game.spawnAsteroid(yOverride)`, game.js 1883-1890. -/
def Game.spawnAsteroid (E : MathEnv) (g : Game) (yOverride : Option ℚ) : Game :=
  let bounds := g.corridor.getBoundsAtY 0
  let margin : ℚ := 40
  let x := random E g.rng (bounds.left + margin) (bounds.right - margin)
  let size := random E (g.rng + 1) 20 (35 + (g.level : ℚ) * 3)
  let y := match yOverride with
    | some v => v
    | none => -size
  let made := Asteroid.new E (g.rng + 2) x y size
  { g with asteroids := g.asteroids ++ [made.1], rng := made.2 }

/-- `Game.spawnPickup()`, game.js 1892-1907. -/
def Game.spawnPickup (E : MathEnv) (g : Game) : Game :=
  let bounds := g.corridor.getBoundsAtY 0
  let x := random E g.rng (bounds.left + 40) (bounds.right - 40)
  let rand := E.rand (g.rng + 1)
  let type := if rand < 4 / 10 then PickupType.shield
    else if rand < 3 / 4 then PickupType.health
    else PickupType.boost
  let made := Pickup.new E (g.rng + 2) x (-30) type
  { g with pickups := g.pickups ++ [made.1], rng := made.2 }

/-- The seeding loop of `Game.nextLevel`, game.js 1867-1870, for `i = 0 .. target - 1`. -/
def Game.seedAsteroids (E : MathEnv) (g : Game) (target : ℕ) : Game :=
  (List.range target).foldl
    (fun (acc : Game) (i : ℕ) =>
      let spacing : ℚ := 95
      let y := -random E acc.rng 80 (acc.canvasHeight + 80) - (i : ℚ) * spacing
      Game.spawnAsteroid E { acc with rng := acc.rng + 1 } (some y))
    g

/-- `Game.nextLevel()`, game.js 1849-1874. -/
def Game.nextLevel (E : MathEnv) (g : Game) : Game :=
  let g1 := { g with level := g.level + 1, levelDistance := 0, checkpointWarningShown := false }
  if g1.level % g1.checkpointLevel = 0 then
    Game.startLandingPhase E g1
  else
    let g2 := { g1 with corridor := g1.corridor.setDifficulty g1.level,
                        asteroidSpawnInterval :=
                          max (3 / 10) (4 / 5 - ((g1.level : ℚ) - 1) * (8 / 100)) }
    let target := g2.getAsteroidTargetCount
    let g3 := { g2 with asteroids := [], missiles := [] }
    if target > 0 then Game.seedAsteroids E g3 target else g3

/-! ### The playing frame (game.js 1981-2228) -/

/-- The `appliedScrollSpeed` of `updatePlaying`, game.js 1991-1996. -/
def Game.appliedScrollSpeed (g : Game) : ℚ :=
  if g.rocket.boosted then g.corridor.scrollSpeed * (1 / 2) else g.corridor.scrollSpeed

/-- Time and level progress, game.js 1989-2013: the updated game and whether the frame
returned here (the level ended and `nextLevel` ran). -/
def Game.stepProgress (E : MathEnv) (g : Game) (dt : ℚ) : Game × Bool :=
  let levelDistance := g.levelDistance + g.appliedScrollSpeed * dt
  let levelLength := g.canvasHeight * 2
  let progress := clamp (levelDistance / levelLength) 0 1
  let warn : Bool := decide ((g.level + 1) % g.checkpointLevel = 0) &&
    decide (progress ≥ 3 / 4) && !g.checkpointWarningShown
  let g1 := { g with totalTime := g.totalTime + dt, levelDistance := levelDistance,
                     checkpointWarningShown := warn || g.checkpointWarningShown }
  if levelDistance ≥ levelLength then
    (Game.nextLevel E { g1 with levelDistance := 0 }, true)
  else (g1, false)

/-- Corridor scroll, rocket update and shooting, game.js 2016-2040. -/
def Game.stepMotion (E : MathEnv) (g : Game) (dt : ℚ) (input : Input) (applied : ℚ) : Game :=
  let actualScrollSpeed := g.corridor.scrollSpeed
  let scrolled := Corridor.update E { g.corridor with scrollSpeed := applied } g.rng dt
    g.canvasWidth g.canvasHeight
  let corridor := { scrolled.1 with scrollSpeed := actualScrollSpeed }
  let rocket := g.rocket.update E dt input g.canvasWidth g.canvasHeight applied
  let fired := if input.fire && rocket.canShoot then rocket.shoot E else (none, rocket)
  let missiles := match fired.1 with
    | some missile => g.missiles ++ [missile]
    | none => g.missiles
  { g with currentScrollSpeed := applied, corridor := corridor, rocket := fired.2,
           missiles := missiles, rng := scrolled.2 }

/-- Wall containment and wall damage, game.js 2042-2089: the updated game and whether the
frame returned here (game over). -/
def Game.stepWalls (g : Game) : Game × Bool :=
  let r := g.rocket.collisionRadius
  let bounds := g.corridor.getBoundsAtY g.rocket.y
  let hitLeft : Bool := decide (g.rocket.x - r < bounds.left)
  let hitRight : Bool := !hitLeft && decide (g.rocket.x + r > bounds.right)
  let x := if hitLeft then bounds.left + r else if hitRight then bounds.right - r
    else g.rocket.x
  let vx := if hitLeft then max 0 g.rocket.vx else if hitRight then min 0 g.rocket.vx
    else g.rocket.vx
  let rocket := { g.rocket with x := x, vx := vx }
  let touchingWall : Bool := decide (rocket.x - r ≤ bounds.left + 1 / 2) ||
    decide (rocket.x + r ≥ bounds.right - 1 / 2)
  if touchingWall then
    let hit := rocket.takeDamage g.damageAmount
    let g1 := { g with rocket := hit.2 }
    let g2 := if hit.1 then g1.triggerShake 8 (1 / 5) else g1
    if !g2.rocket.isAlive then (g2.gameOver "Crashed into the wall!", true)
    else (g2, false)
  else ({ g with rocket := rocket }, false)

/-- The spawn interval of `updatePlaying`, game.js 2100. -/
def Game.spawnInterval (asteroidSpawnInterval : ℚ) (asteroidTarget count : ℕ) : ℚ :=
  max (1 / 4) (asteroidSpawnInterval *
    clamp ((asteroidTarget : ℚ) / max 1 ((count : ℚ) + 1)) (6 / 10) (14 / 10))

/-- Asteroid spawning, game.js 2092-2105. -/
def Game.stepSpawnAsteroids (E : MathEnv) (g : Game) (dt : ℚ) : Game :=
  let asteroidTarget := g.getAsteroidTargetCount
  if asteroidTarget = 0 then
    if g.asteroids.length > 0 then { g with asteroids := [] } else g
  else
    let g1 := { g with asteroidSpawnTimer := g.asteroidSpawnTimer + dt }
    let interval := Game.spawnInterval g1.asteroidSpawnInterval asteroidTarget
      g1.asteroids.length
    if g1.asteroids.length < asteroidTarget ∧ g1.asteroidSpawnTimer ≥ interval then
      Game.spawnAsteroid E { g1 with asteroidSpawnTimer := 0 } none
    else g1

/-- The inner loop of the missile pass, game.js 2118-2140 (`j` runs from the last asteroid
down): the index of the asteroid the missile destroys, if any. -/
def Game.findHit (E : MathEnv) (missile : Missile) : List Asteroid → Option ℕ
  | [] => none
  | asteroid :: rest =>
    match Game.findHit E missile rest with
    | some j => some (j + 1)
    | none => if missile.checkCollision E asteroid then some 0 else none

/-- The state threaded through the missile pass. -/
structure MissilePass where
  missiles : List Missile
  asteroids : List Asteroid
  score : ℚ

/-- The missile pass, game.js 2108-2141.  The loop index runs from the last missile down, so
the tail of the list is processed before its head. -/
def Game.missilePass (E : MathEnv) (dt canvasWidth canvasHeight : ℚ) :
    List Missile → List Asteroid → ℚ → MissilePass
  | [], asteroids, score => { missiles := [], asteroids := asteroids, score := score }
  | missile :: rest, asteroids, score =>
    let done := Game.missilePass E dt canvasWidth canvasHeight rest asteroids score
    let moved := missile.update E dt
    if moved.isOffScreen canvasWidth canvasHeight then done
    else
      match Game.findHit E moved done.asteroids with
      | some j =>
        { missiles := done.missiles, asteroids := done.asteroids.eraseIdx j,
          score := done.score + 10 }
      | none => { done with missiles := moved :: done.missiles }

/-- Update missiles, game.js 2108-2141. -/
def Game.stepMissiles (E : MathEnv) (g : Game) (dt : ℚ) : Game :=
  let done := Game.missilePass E dt g.canvasWidth g.canvasHeight g.missiles g.asteroids g.score
  { g with missiles := done.missiles, asteroids := done.asteroids, score := done.score }

/-- The state threaded through the asteroid pass: the asteroid list, the game (rocket and
shake) and whether the pass returned with game over. -/
structure AsteroidPass where
  asteroids : List Asteroid
  game : Game
  over : Bool

/-- The asteroid pass, game.js 2143-2177, from the last asteroid down.  After game over the
loop has returned, so the remaining (earlier) asteroids are left as they were. -/
def Game.asteroidPass (E : MathEnv) (dt : ℚ) : List Asteroid → Game → AsteroidPass
  | [], g => { asteroids := [], game := g, over := false }
  | asteroid :: rest, g =>
    let done := Game.asteroidPass E dt rest g
    if done.over then { done with asteroids := asteroid :: done.asteroids }
    else
      let g1 := done.game
      let moved := asteroid.update dt g1.currentScrollSpeed
      let hit := g1.rocket.takeDamage g1.damageAmount
      if moved.checkCollision E g1.rocket.x g1.rocket.y g1.rocket.collisionRadius && hit.1 then
        let g2 := Game.triggerShake { g1 with rocket := hit.2 } 10 (1 / 4)
        if !g2.rocket.isAlive then
          { asteroids := done.asteroids, game := g2.gameOver "Destroyed by asteroid!",
            over := true }
        else { asteroids := done.asteroids, game := g2, over := false }
      else if moved.isOffScreen g1.canvasHeight then
        { asteroids := done.asteroids, game := g1, over := false }
      else { asteroids := moved :: done.asteroids, game := g1, over := false }

/-- Update asteroids, game.js 2143-2177: the updated game and whether the frame returned
here (game over). -/
def Game.stepAsteroids (E : MathEnv) (g : Game) (dt : ℚ) : Game × Bool :=
  let done := Game.asteroidPass E dt g.asteroids g
  ({ done.game with asteroids := done.asteroids }, done.over)

/-- The pickup pass, game.js 2186-2217, from the last pickup down: the remaining pickups and
the rocket after the effects. -/
def Game.pickupPass (E : MathEnv) (dt scrollSpeed canvasHeight : ℚ) :
    List Pickup → Rocket → List Pickup × Rocket
  | [], rocket => ([], rocket)
  | pickup :: rest, rocket =>
    let done := Game.pickupPass E dt scrollSpeed canvasHeight rest rocket
    let moved := pickup.update dt scrollSpeed
    if moved.checkCollision E done.2.x done.2.y done.2.collisionRadius then
      (done.1, match moved.type with
        | PickupType.shield => done.2.addShield moved.value
        | PickupType.health => done.2.addHealth moved.value
        | PickupType.boost => done.2.activateBoost moved.value)
    else if moved.isOffScreen canvasHeight then done
    else (moved :: done.1, done.2)

/-- Pickup spawning, pickup pass and shake decay, game.js 2179-2225. -/
def Game.stepPickups (E : MathEnv) (g : Game) (dt : ℚ) : Game :=
  let g1 := { g with pickupSpawnTimer := g.pickupSpawnTimer + dt }
  let g2 := if g1.pickupSpawnTimer ≥ g1.pickupSpawnInterval then
      Game.spawnPickup E { g1 with pickupSpawnTimer := 0 }
    else g1
  let done := Game.pickupPass E dt g2.currentScrollSpeed g2.canvasHeight g2.pickups g2.rocket
  { g2 with pickups := done.1, rocket := done.2,
            shakeDuration := if g2.shakeDuration > 0 then g2.shakeDuration - dt
              else g2.shakeDuration,
            shakeAmount := if g2.shakeDuration > 0 then g2.shakeAmount else 0 }

/-- `Game.updatePlaying(dt)`, game.js 1981-2228, with the input snapshot of the frame. -/
def Game.updatePlaying (E : MathEnv) (g : Game) (input : Input) (dt : ℚ) : Outcome :=
  if input.pause then g.pauseGame
  else
    let progressed := Game.stepProgress E g dt
    if progressed.2 then { game := progressed.1, thrown := false }
    else
      let moved := Game.stepMotion E progressed.1 dt input g.appliedScrollSpeed
      let walled := Game.stepWalls moved
      if walled.2 then { game := walled.1, thrown := false }
      else
        let spawned := Game.stepSpawnAsteroids E walled.1 dt
        let shot := Game.stepMissiles E spawned dt
        let struck := Game.stepAsteroids E shot dt
        if struck.2 then { game := struck.1, thrown := false }
        else { game := Game.stepPickups E struck.1 dt, thrown := false }

/-! ### The landing frame (game.js 2230-2295) -/

/-- `Game.crashLanding(reason)`, game.js 2277-2295; the `setTimeout` callback
`gameOver(reason)` is recorded in `pendingGameOver`. -/
def Game.crashLanding (g : Game) (reason : String) : Game :=
  { g with landingCrashed := true, shakeAmount := 15, shakeDuration := 1 / 2,
           pendingGameOver := some reason }

/-- The callback scheduled by `crashLanding`, run 800 ms later, game.js 2292-2294. -/
def Game.firePendingGameOver (g : Game) : Game :=
  match g.pendingGameOver with
  | some reason => Game.gameOver { g with pendingGameOver := none } reason
  | none => g

/-- `Game.updateLanding(dt)`, game.js 2230-2275, with the input snapshot of the frame.
`this.landingPad.update` and `this.terrain.getHeightAt` raise a `TypeError` on `null`. -/
def Game.updateLanding (E : MathEnv) (g : Game) (input : Input) (dt : ℚ) : Outcome :=
  if g.landingCrashed then { game := g, thrown := false }
  else if input.pause then g.pauseGame
  else
    let rocket := g.rocket.update E dt input g.canvasWidth g.canvasHeight 0
    let g1 := { g with rocket := rocket }
    match g1.landingPad, g1.terrain with
    | none, _ => { game := g1, thrown := true }
    | some pad0, terrainOpt =>
      let pad := pad0.update dt
      let g2 := { g1 with landingPad := some pad,
                          shakeDuration := if g1.shakeDuration > 0 then g1.shakeDuration - dt
                            else g1.shakeDuration,
                          shakeAmount := if g1.shakeDuration > 0 then g1.shakeAmount else 0 }
      match terrainOpt with
      | none => { game := g2, thrown := true }
      | some terrain =>
        let rocketBottom := g2.rocket.y + g2.rocket.height / 2
        let terrainHeight := terrain.getHeightAt g2.rocket.x
        if rocketBottom ≥ terrainHeight then
          let landing := pad.checkLanding E g2.rocket
          if landing.onPad then
            if landing.safeVelocity && landing.safeAngle then
              { game := g2.beginLandingSuccessCountdown, thrown := false }
            else
              { game := g2.crashLanding
                  (if landing.safeVelocity then "Ship not level! Angle too steep!"
                   else "Crashed on landing pad! Too fast!"),
                thrown := false }
          else { game := g2.crashLanding "Crashed into the terrain!", thrown := false }
        else { game := g2, thrown := false }

/-- `Game.update(dt)`, game.js 1971-1979. -/
def Game.update (E : MathEnv) (g : Game) (input : Input) (dt : ℚ) : Outcome :=
  if g.state = GameState.playing then Game.updatePlaying E g input dt
  else if g.state = GameState.landing then Game.updateLanding E g input dt
  else if g.state = GameState.landingWait then
    { game := g.updateLandingSuccessWait dt, thrown := false }
  else { game := g, thrown := false }

/-! ## Drivers: call sequences used to state the contracts -/

/-- A call that changes the rocket's shield or health, or a frame update in between. -/
inductive RocketOp where
  | takeDamage (amount : ℚ)
  | addShield (amount : ℚ)
  | addHealth (amount : ℚ)
  | repairAll
  | update (E : MathEnv) (dt : ℚ) (input : Input) (canvasWidth canvasHeight scrollSpeed : ℚ)

/-- The amount passed to the call (zero where the call takes none). -/
def RocketOp.amount : RocketOp → ℚ
  | RocketOp.takeDamage amount => amount
  | RocketOp.addShield amount => amount
  | RocketOp.addHealth amount => amount
  | RocketOp.repairAll => 0
  | RocketOp.update _ _ _ _ _ _ => 0

/-- Perform one call on the rocket. -/
def Rocket.applyOp (r : Rocket) : RocketOp → Rocket
  | RocketOp.takeDamage amount => (r.takeDamage amount).2
  | RocketOp.addShield amount => r.addShield amount
  | RocketOp.addHealth amount => r.addHealth amount
  | RocketOp.repairAll => r.repairAll
  | RocketOp.update E dt input canvasWidth canvasHeight scrollSpeed =>
    r.update E dt input canvasWidth canvasHeight scrollSpeed

/-- Perform a sequence of calls, first to last. -/
def Rocket.applyOps (r : Rocket) (ops : List RocketOp) : Rocket := ops.foldl Rocket.applyOp r

/-- The arguments of one `Rocket.update` call. -/
structure RocketFrame where
  dt : ℚ
  input : Input
  canvasWidth : ℚ
  canvasHeight : ℚ
  scrollSpeed : ℚ

/-- A sequence of `Rocket.update` calls, first to last. -/
def Rocket.runFrames (E : MathEnv) (r : Rocket) (frames : List RocketFrame) : Rocket :=
  frames.foldl
    (fun acc f => acc.update E f.dt f.input f.canvasWidth f.canvasHeight f.scrollSpeed) r

/-- The bounds `0 <= shield <= maxShield` and `0 <= health <= maxHealth`. -/
def Rocket.StatsInBounds (r : Rocket) : Prop :=
  0 ≤ r.shield ∧ r.shield ≤ r.maxShield ∧ 0 ≤ r.health ∧ r.health ≤ r.maxHealth

/-- A rational stand-in for the host `Math` object, used to evaluate the model on concrete
inputs: second-order Taylor polynomials for `sin` and `cos`, the identity for `sqrt`, the
constant 1 for `pow`, and the constant stream 1/2 for `Math.random`. -/
def sampleMath : MathEnv :=
  { sin := fun a => a, cos := fun a => 1 - a ^ 2 / 2, sqrt := fun v => v,
    pow := fun _ _ => 1, rand := fun _ => 1 / 2 }

/-- A two-segment corridor stack used to evaluate `getBoundsAtY` on a concrete input. -/
def sampleCorridor : Corridor :=
  { Corridor.new 600 with
    segments := [{ y := 100, centerX := 400, width := 350 },
                 { y := 80, centerX := 410, width := 300 }] }

/-- The state on entry to the missile pass of an `updatePlaying` frame (game.js 2108), or
`none` when the frame returned before reaching it (pause, level end, wall crash). -/
def Game.enterMissilePass (E : MathEnv) (g : Game) (input : Input) (dt : ℚ) : Option Game :=
  if input.pause then none
  else
    let progressed := Game.stepProgress E g dt
    if progressed.2 then none
    else
      let walled := Game.stepWalls (Game.stepMotion E progressed.1 dt input g.appliedScrollSpeed)
      if walled.2 then none else some (Game.stepSpawnAsteroids E walled.1 dt)

/-- The asteroids a missile at its turn in the pass is tested against (game.js 2118): those
that the missiles handled before it (the later list entries) have not destroyed.  Each of
them is told by `Missile.checkCollision`, not by what the pass removes. -/
def Game.targetsLeft (E : MathEnv) (dt canvasWidth canvasHeight : ℚ) (handled : List Missile)
    (asteroids : List Asteroid) : List Asteroid :=
  (Game.missilePass E dt canvasWidth canvasHeight handled asteroids 0).asteroids

/-- The number of missiles that hit an asteroid in the missile pass, game.js 2108-2141: a
missile counts when, after its move, it is still on screen and is closer than
`asteroid.size` to one of the asteroids left at its turn. -/
def Game.missileHits (E : MathEnv) (dt canvasWidth canvasHeight : ℚ) :
    List Missile → List Asteroid → ℕ
  | [], _ => 0
  | missile :: rest, asteroids =>
    Game.missileHits E dt canvasWidth canvasHeight rest asteroids +
      (if !(missile.update E dt).isOffScreen canvasWidth canvasHeight &&
          (Game.targetsLeft E dt canvasWidth canvasHeight rest asteroids).any
            (fun a => (missile.update E dt).checkCollision E a)
       then 1 else 0)

/-- The number of missiles that hit an asteroid in one `Game.update` frame: the hits among
the missiles and asteroids on entry to the missile pass (zero when the pass is not
reached). -/
def Game.missileKills (E : MathEnv) (g : Game) (input : Input) (dt : ℚ) : ℕ :=
  if g.state = GameState.playing then
    match Game.enterMissilePass E g input dt with
    | some entry =>
      Game.missileHits E dt entry.canvasWidth entry.canvasHeight entry.missiles entry.asteroids
    | none => 0
  else 0

/-- A run of `Game.update` frames, each with its input snapshot and `dt`.  An uncaught
exception ends the run, as the animation loop is not rescheduled. -/
def Game.run (E : MathEnv) (g : Game) : List (Input × ℚ) → Game
  | [] => g
  | f :: rest =>
    if (Game.update E g f.1 f.2).thrown then (Game.update E g f.1 f.2).game
    else Game.run E (Game.update E g f.1 f.2).game rest

/-- The number of asteroids destroyed by missiles over a run of frames. -/
def Game.killsInRun (E : MathEnv) (g : Game) : List (Input × ℚ) → ℕ
  | [] => 0
  | f :: rest =>
    Game.missileKills E g f.1 f.2 +
      (if (Game.update E g f.1 f.2).thrown then 0
       else Game.killsInRun E (Game.update E g f.1 f.2).game rest)

/-- An input snapshot with nothing pressed. -/
def noInput : Input :=
  { left := false, right := false, thrust := false, fire := false, pause := false }

/-- A flat terrain at the pad height 520 across an 800 x 600 canvas. -/
def sampleTerrain : Terrain :=
  { points := [{ x := 0, y := 520 }, { x := 800, y := 520 }],
    canvasWidth := 800, canvasHeight := 600, padX := 400, padWidth := 100 }

/-- A landing-phase game on an 800 x 600 canvas: pad centred at 400 with its surface at 520,
the rocket just left of the pad centre at height `y`, descending with velocity `(vx, vy)`. -/
def sampleLanding (y vx vy : ℚ) : Game :=
  { Game.new 800 600 none with
    state := GameState.landing,
    landingPad := some (LandingPad.new 400 520 100),
    terrain := some sampleTerrain,
    rocket := { Rocket.new 399 y with landingMode := true, vx := vx, vy := vy } }

/-- A playing game on an 800 x 600 canvas at the given level, as left by
`continueFromStation` (corridor difficulty of that level), with the given distance scrolled
within the level. -/
def samplePlaying (level : ℕ) (levelDistance : ℚ) : Game :=
  { Game.continueFromStation { Game.new 800 600 none with level := level } with
    levelDistance := levelDistance }

/-- The stand-in `sampleMath` with `Math.random()` returning 0 on every draw. -/
def lowMath : MathEnv := { sampleMath with rand := fun _ => 0 }

/-- The landing phase as `startLandingPhase` enters it on a 100 x 160 canvas when
`Math.random()` returns 0: pad centred at 50 with its surface at 80, rocket spawned at
`x = -50`, `y = 80` with `vx = -20`. -/
def smallLanding : Game :=
  Game.startLandingPhase lowMath { Game.new 100 160 none with level := 5 }

/-- The height map generated for `smallLanding`: eleven samples, all at the floor 80. -/
def smallPoints : List Point :=
  [{ x := 0, y := 80 }, { x := 12, y := 80 }, { x := 24, y := 80 }, { x := 36, y := 80 },
   { x := 48, y := 80 }, { x := 60, y := 80 }, { x := 72, y := 80 }, { x := 84, y := 80 },
   { x := 96, y := 80 }, { x := 108, y := 80 }, { x := 120, y := 80 }]

/-- An input snapshot with only the pause key down. -/
def pauseInput : Input :=
  { left := false, right := false, thrust := false, fire := false, pause := true }


/-- The accumulated `dt` of a list of frames. -/
def elapsed (frames : List (Input × ℚ)) : ℚ :=
  (frames.map Prod.snd).sum

/-- The countdown timer after a list of frames, from the value `timer`: every frame
subtracts its `dt` and rounds, as `this.landingSuccessTimer -= dt` does (game.js 1755). -/
def countdown (timer : ℚ) (frames : List (Input × ℚ)) : ℚ :=
  frames.foldl (fun (t : ℚ) (f : Input × ℚ) => roundDouble (t - f.2)) timer

/-- The double nearest to 0.4, the frame time of the countdown example. -/
def dt04 : ℚ := 3602879701896397 / 9007199254740992

/-- Frames with nothing pressed and the given `dt`. -/
def idleFrames (count : ℕ) (dt : ℚ) : List (Input × ℚ) :=
  List.replicate count (noInput, dt)

/-- The shape of the segment stack for canvas height `h`: `ceil(h/20) + 10` segments whose
`y` values step down by 20 from a first value `y0` with `h <= y0 < h + 40`. -/
def Corridor.Ladder (c : Corridor) (h : ℚ) : Prop :=
  c.segmentHeight = 20 ∧ ∃ y0 : ℚ, h ≤ y0 ∧ y0 < h + 40 ∧
    c.segments.map Segment.y =
      (List.range (⌈h / 20⌉ + 10).toNat).map fun (i : ℕ) => y0 - (i : ℚ) * 20

/-- One `Corridor.update` call of a run: the scroll speed in force, `dt` and the canvas
width passed to the call. -/
structure CorridorFrame where
  scrollSpeed : ℚ
  dt : ℚ
  canvasWidth : ℚ

/-- A corridor (with the cursor of the random stream) updated once per frame, with the same
canvas height in every call. -/
def Corridor.runFrames (E : MathEnv) (canvasHeight : ℚ) :
    Corridor × ℕ → List CorridorFrame → Corridor × ℕ
  | s, [] => s
  | s, f :: rest =>
    Corridor.runFrames E canvasHeight
      (Corridor.update E { s.1 with scrollSpeed := f.scrollSpeed } s.2 f.dt f.canvasWidth
        canvasHeight) rest

/-- The part of a rocket that the wall containment reads and that damage, pickups and
shooting leave alone: position, collision radius and landing flag. -/
def Rocket.track (r : Rocket) : ℚ × ℚ × ℚ × Bool :=
  (r.x, r.y, r.collisionRadius, r.landingMode)

/-- The part of a game that the wall containment reads: corridor, canvas height and the
rocket's track. -/
def Game.track (g : Game) : Corridor × ℚ × (ℚ × ℚ × ℚ × Bool) :=
  (g.corridor, g.canvasHeight, g.rocket.track)

/-- What holds between the frames of level 1: a non-negative canvas height, a segment stack
spanning the screen, the constructor's scroll speed and width, and a flying rocket with the
constructor's collision radius. -/
def Game.OnTrack (g : Game) : Prop :=
  0 ≤ g.canvasHeight ∧ g.corridor.Ladder g.canvasHeight ∧ g.corridor.scrollSpeed = 60 ∧
  g.corridor.width = 350 ∧ (∀ s ∈ g.corridor.segments, s.width = 350) ∧
  g.rocket.collisionRadius = 18 ∧ g.rocket.landingMode = false

/-- The horizontal distance between the rocket and the corridor centre at its height. -/
def Game.drift (g : Game) : ℚ :=
  |g.rocket.x - (g.corridor.getBoundsAtY g.rocket.y).centerX|

/-- The state after `startGame()` with the corridor's waviness set to 0. -/
def Game.straightStart (g : Game) : Game :=
  { g.startGame with corridor := { g.startGame.corridor with waviness := 0 } }

/-- An input snapshot with only the thrust key down. -/
def thrustInput : Input :=
  { left := false, right := false, thrust := true, fire := false, pause := false }

/-- The score figure written to the HUD by `updateHUD`, game.js 1941. -/
def Game.hudScore (g : Game) : ℤ := ⌊g.totalTime * 10⌋ + ((g.level : ℤ) - 1) * 100

/-- The rocket after the solid constraint of the wall step, game.js 2043-2056: pushed back
inside the bounds at its height, with the offending velocity component clamped. -/
def Game.containedRocket (g : Game) : Rocket :=
  let r := g.rocket.collisionRadius
  let bounds := g.corridor.getBoundsAtY g.rocket.y
  let hitLeft : Bool := decide (g.rocket.x - r < bounds.left)
  let hitRight : Bool := !hitLeft && decide (g.rocket.x + r > bounds.right)
  let x := if hitLeft then bounds.left + r else if hitRight then bounds.right - r
    else g.rocket.x
  let vx := if hitLeft then max 0 g.rocket.vx else if hitRight then min 0 g.rocket.vx
    else g.rocket.vx
  { g.rocket with x := x, vx := vx }

/-- The flag `touchingWall` of the wall step, game.js 2058-2060. -/
def Game.touchingWall (g : Game) : Bool :=
  let r := g.rocket.collisionRadius
  let bounds := g.corridor.getBoundsAtY g.rocket.y
  decide (g.containedRocket.x - r ≤ bounds.left + 1 / 2) ||
    decide (g.containedRocket.x + r ≥ bounds.right - 1 / 2)

/-- A playing game whose corridor is `sampleCorridor` with the rocket at height 95 and the
given `x` and horizontal velocity. -/
def sampleWalled (x vx : ℚ) : Game :=
  { Game.new 800 600 none with
    corridor := sampleCorridor,
    rocket := { Rocket.new x 95 with vx := vx } }

/-- A level-3 game on entry to the asteroid pass: the rocket at (400, 480) is invulnerable
(as after a hit earlier in the frame or less than 0.4 s ago) and one asteroid of size 30
sits 1 px above it. -/
def shieldedPass : Game :=
  { samplePlaying 3 0 with
    rocket := { Rocket.new 400 480 with invulnerable := true, invulnerableTimer := 2 / 5 },
    asteroids := [{ x := 400, y := 479, size := 30, rotation := 0, rotationSpeed := 0 }],
    currentScrollSpeed := 60 }

/-- The number of `takeDamage` calls of the wall step that returned true (game.js 2062-2063):
1 when the rocket touches a wall and is not invulnerable, 0 otherwise. -/
def Game.wallTicks (g : Game) : ℕ :=
  if g.touchingWall && (g.containedRocket.takeDamage g.damageAmount).1 then 1 else 0

/-- The number of `takeDamage` calls of the asteroid pass that returned true
(game.js 2148-2149); the call is made only for an asteroid that overlaps the rocket, and not
at all once the pass has returned with game over. -/
def Game.asteroidTicks (E : MathEnv) (dt : ℚ) : List Asteroid → Game → ℕ
  | [], _ => 0
  | asteroid :: rest, g =>
    let done := Game.asteroidPass E dt rest g
    let moved := asteroid.update dt done.game.currentScrollSpeed
    Game.asteroidTicks E dt rest g +
      (if !done.over &&
          moved.checkCollision E done.game.rocket.x done.game.rocket.y
            done.game.rocket.collisionRadius &&
          (done.game.rocket.takeDamage done.game.damageAmount).1 then 1 else 0)

/-- The number of `takeDamage` calls that returned true in one `updatePlaying` call. -/
def Game.damageTicks (E : MathEnv) (g : Game) (input : Input) (dt : ℚ) : ℕ :=
  if input.pause then 0
  else
    let progressed := Game.stepProgress E g dt
    if progressed.2 then 0
    else
      let moved := Game.stepMotion E progressed.1 dt input g.appliedScrollSpeed
      let walled := Game.stepWalls moved
      if walled.2 then moved.wallTicks
      else
        let shot := Game.stepMissiles E (Game.stepSpawnAsteroids E walled.1 dt) dt
        moved.wallTicks + Game.asteroidTicks E dt shot.asteroids shot

/-- The sample landing with the rocket over the pad centre at height 492, tilted by 1 rad
(about 57 degrees, inside the tilt clamp) and descending at 35 px/s. -/
def tiltedLanding : Game :=
  { sampleLanding 492 0 35 with
    rocket := { Rocket.new 400 492 with landingMode := true, vy := 35, angle := 1 } }

/-- What every height-map point satisfies after `Terrain.generate`: the point of index `i`
has `x = 12*i` and `y >= 80`, and its `y` is the pad height `max(canvasHeight - 80, 80)` when
its `x` lies within 10 px of the pad span. -/
def Terrain.Shaped (canvasHeight padX padWidth : ℚ) (pts : List Point) : Prop :=
  ∀ (i : ℕ) (p : Point), pts[i]? = some p →
    p.x = (i : ℚ) * 12 ∧ 80 ≤ p.y ∧
    (p.x ≥ padX - padWidth / 2 - 10 ∧ p.x ≤ padX + padWidth / 2 + 10 →
      p.y = max (canvasHeight - 80) 80)

/-! # Theorems -/

/-! ## Double arithmetic -/

theorem ulp_pos (q : ℚ) : 0 < ulp q := by
  unfold ulp
  positivity

theorem ulp_neg (q : ℚ) : ulp (-q) = ulp q := by
  unfold ulp
  rw [abs_neg]

theorem roundHalfEven_ge_floor (q : ℚ) : ⌊q⌋ ≤ roundHalfEven q := by
  unfold roundHalfEven
  split_ifs <;> omega

theorem roundHalfEven_le_floor_succ (q : ℚ) : roundHalfEven q ≤ ⌊q⌋ + 1 := by
  unfold roundHalfEven
  split_ifs <;> omega

theorem roundHalfEven_near (q : ℚ) : |(roundHalfEven q : ℚ) - q| ≤ 1 / 2 := by
  have h1 := Int.floor_le q
  have h2 := Int.lt_floor_add_one q
  unfold roundHalfEven
  rw [abs_le]
  split_ifs with a b c
  · constructor <;> linarith
  · push_cast
    constructor <;> linarith
  · have e : q - ⌊q⌋ = 1 / 2 := le_antisymm (not_lt.mp b) (not_lt.mp a)
    constructor <;> linarith
  · have e : q - ⌊q⌋ = 1 / 2 := le_antisymm (not_lt.mp b) (not_lt.mp a)
    push_cast
    constructor <;> linarith

theorem roundHalfEven_of_near (q : ℚ) (n : ℤ) (h : |q - n| < 1 / 2) : roundHalfEven q = n := by
  rw [abs_lt] at h
  obtain ⟨h1, h2⟩ := h
  by_cases hn : (n : ℚ) ≤ q
  · have hf : ⌊q⌋ = n := by
      rw [Int.floor_eq_iff]
      constructor <;> linarith
    unfold roundHalfEven
    rw [hf, if_pos (by linarith)]
  · have hf : ⌊q⌋ = n - 1 := by
      rw [Int.floor_eq_iff]
      push_cast
      constructor <;> linarith
    unfold roundHalfEven
    rw [hf]
    push_cast
    rw [if_neg (by linarith), if_pos (by linarith)]
    ring

theorem roundHalfEven_intCast (n : ℤ) : roundHalfEven (n : ℚ) = n :=
  roundHalfEven_of_near _ n (by simp)

theorem roundHalfEven_mono (y z : ℚ) (h : y ≤ z) : roundHalfEven y ≤ roundHalfEven z := by
  have hf : ⌊y⌋ ≤ ⌊z⌋ := Int.floor_mono h
  rcases hf.lt_or_eq with hlt | heq
  · have h1 := roundHalfEven_le_floor_succ y
    have h2 := roundHalfEven_ge_floor z
    omega
  · unfold roundHalfEven
    rw [heq]
    split_ifs <;> first | omega | (exfalso; linarith)

theorem roundHalfEven_neg (q : ℚ) : roundHalfEven (-q) = -roundHalfEven q := by
  by_cases hq : (⌊q⌋ : ℚ) = q
  · rw [← hq, ← Int.cast_neg, roundHalfEven_intCast, roundHalfEven_intCast]
  · have h1 := Int.floor_le q
    have h2 := Int.lt_floor_add_one q
    have hlt : (⌊q⌋ : ℚ) < q := lt_of_le_of_ne h1 hq
    have hf : ⌊-q⌋ = -⌊q⌋ - 1 := by
      rw [Int.floor_eq_iff]
      push_cast
      constructor <;> linarith
    unfold roundHalfEven
    rw [hf]
    push_cast
    split_ifs <;> first | omega | (exfalso; linarith)

theorem roundDouble_neg (q : ℚ) : roundDouble (-q) = -roundDouble q := by
  unfold roundDouble
  rw [ulp_neg, neg_div, roundHalfEven_neg]
  push_cast
  ring

theorem roundDouble_zero : roundDouble 0 = 0 := by
  unfold roundDouble
  rw [zero_div]
  have : roundHalfEven 0 = 0 := by
    have := roundHalfEven_intCast 0
    simpa using this
  rw [this]
  simp

theorem ulp_of_binade (q : ℚ) (e : ℤ) (h1 : (2 : ℚ) ^ e ≤ |q|) (h2 : |q| < (2 : ℚ) ^ (e + 1)) :
    ulp q = (2 : ℚ) ^ (e - 52) := by
  have hpos : 0 < |q| := lt_of_lt_of_le (by positivity) h1
  have l1 : e ≤ Int.log 2 |q| :=
    (Int.zpow_le_iff_le_log (by norm_num) hpos).mp (by simpa using h1)
  have l2 : Int.log 2 |q| < e + 1 :=
    (Int.lt_zpow_iff_log_lt (by norm_num) hpos).mp (by simpa using h2)
  have e2 : Int.log 2 |q| = e := by omega
  unfold ulp
  rw [e2]

theorem ulp_le (q : ℚ) (hq : q ≠ 0) : ulp q ≤ |q| / 2 ^ 52 := by
  have hpos : 0 < |q| := abs_pos.mpr hq
  have h1 : (2 : ℚ) ^ (Int.log 2 |q|) ≤ |q| := by
    simpa using Int.zpow_log_le_self (b := 2) (by norm_num) hpos
  unfold ulp
  rw [zpow_sub₀ (by norm_num : (2 : ℚ) ≠ 0)]
  have e : (2 : ℚ) ^ (52 : ℤ) = 2 ^ 52 := by norm_cast
  rw [e]
  exact div_le_div_of_nonneg_right h1 (by positivity)

theorem roundDouble_error (q : ℚ) : |roundDouble q - q| ≤ |q| / 2 ^ 53 := by
  by_cases hq : q = 0
  · rw [hq, roundDouble_zero]
    simp
  · have hu := ulp_pos q
    have hn := roundHalfEven_near (q / ulp q)
    have hl := ulp_le q hq
    have e : roundDouble q - q = ((roundHalfEven (q / ulp q) : ℚ) - q / ulp q) * ulp q := by
      unfold roundDouble
      field_simp
    rw [e, abs_mul, abs_of_pos hu]
    calc |(roundHalfEven (q / ulp q) : ℚ) - q / ulp q| * ulp q
        ≤ 1 / 2 * ulp q := mul_le_mul_of_nonneg_right hn hu.le
      _ ≤ 1 / 2 * (|q| / 2 ^ 52) := mul_le_mul_of_nonneg_left hl (by norm_num)
      _ = |q| / 2 ^ 53 := by ring

theorem scaled_bounds (q : ℚ) (hq : 0 < q) :
    ((2 ^ 52 : ℤ) : ℚ) ≤ q / ulp q ∧ q / ulp q ≤ ((2 ^ 53 : ℤ) : ℚ) := by
  have h1 : (2 : ℚ) ^ (Int.log 2 q) ≤ q := by
    simpa using Int.zpow_log_le_self (b := 2) (by norm_num) hq
  have h2 : q < (2 : ℚ) ^ (Int.log 2 q + 1) := by
    simpa using Int.lt_zpow_succ_log_self (b := 2) (by norm_num) q
  rw [zpow_add_one₀ (by norm_num : (2 : ℚ) ≠ 0)] at h2
  have hP : (0 : ℚ) < (2 : ℚ) ^ (Int.log 2 q) := by positivity
  have hu : ulp q = (2 : ℚ) ^ (Int.log 2 q) / 2 ^ 52 := by
    unfold ulp
    rw [abs_of_pos hq, zpow_sub₀ (by norm_num : (2 : ℚ) ≠ 0)]
    norm_cast
  have hup := ulp_pos q
  push_cast
  constructor
  · rw [le_div_iff₀ hup, hu]
    have e : (4503599627370496 : ℚ) * ((2 : ℚ) ^ (Int.log 2 q) / 2 ^ 52) =
        (2 : ℚ) ^ (Int.log 2 q) := by
      field_simp
      ring
    rw [e]
    exact h1
  · rw [div_le_iff₀ hup, hu]
    have e : (9007199254740992 : ℚ) * ((2 : ℚ) ^ (Int.log 2 q) / 2 ^ 52) =
        (2 : ℚ) ^ (Int.log 2 q) * 2 := by
      field_simp
      ring
    rw [e]
    exact h2.le

theorem roundDouble_binade (q : ℚ) (hq : 0 < q) :
    (2 : ℚ) ^ (Int.log 2 q) ≤ roundDouble q ∧ roundDouble q ≤ (2 : ℚ) ^ (Int.log 2 q + 1) := by
  obtain ⟨b1, b2⟩ := scaled_bounds q hq
  have r1 := roundHalfEven_mono _ _ b1
  have r2 := roundHalfEven_mono _ _ b2
  rw [roundHalfEven_intCast] at r1 r2
  have c1 : ((2 ^ 52 : ℤ) : ℚ) ≤ (roundHalfEven (q / ulp q) : ℚ) := by exact_mod_cast r1
  have c2 : (roundHalfEven (q / ulp q) : ℚ) ≤ ((2 ^ 53 : ℤ) : ℚ) := by exact_mod_cast r2
  have hup := ulp_pos q
  have hu : ulp q = (2 : ℚ) ^ (Int.log 2 q) / 2 ^ 52 := by
    unfold ulp
    rw [abs_of_pos hq, zpow_sub₀ (by norm_num : (2 : ℚ) ≠ 0)]
    norm_cast
  have hP : (0 : ℚ) < (2 : ℚ) ^ (Int.log 2 q) := by positivity
  push_cast at c1 c2
  unfold roundDouble
  constructor
  · calc (2 : ℚ) ^ (Int.log 2 q) = 2 ^ 52 * ulp q := by rw [hu]; field_simp
      _ ≤ (roundHalfEven (q / ulp q) : ℚ) * ulp q := mul_le_mul_of_nonneg_right c1 hup.le
  · calc (roundHalfEven (q / ulp q) : ℚ) * ulp q ≤ 2 ^ 53 * ulp q :=
          mul_le_mul_of_nonneg_right c2 hup.le
      _ = (2 : ℚ) ^ (Int.log 2 q + 1) := by
          rw [hu, zpow_add_one₀ (by norm_num : (2 : ℚ) ≠ 0)]
          field_simp
          ring

theorem roundDouble_pos (q : ℚ) (hq : 0 < q) : 0 < roundDouble q :=
  lt_of_lt_of_le (by positivity) (roundDouble_binade q hq).1

theorem roundDouble_neg_of_neg (q : ℚ) (hq : q < 0) : roundDouble q < 0 := by
  have h := roundDouble_pos (-q) (by linarith)
  rw [roundDouble_neg] at h
  linarith

theorem roundDouble_nonpos_iff (q : ℚ) : roundDouble q ≤ 0 ↔ q ≤ 0 := by
  constructor
  · intro h
    by_contra hc
    have := roundDouble_pos q (not_le.mp hc)
    linarith
  · intro h
    rcases h.lt_or_eq with hlt | heq
    · exact (roundDouble_neg_of_neg q hlt).le
    · rw [heq, roundDouble_zero]

theorem roundDouble_mono_pos (x z : ℚ) (hx : 0 < x) (h : x ≤ z) :
    roundDouble x ≤ roundDouble z := by
  have hz : 0 < z := lt_of_lt_of_le hx h
  have hl : Int.log 2 x ≤ Int.log 2 z := Int.log_mono_right hx h
  rcases hl.lt_or_eq with hlt | heq
  · have b1 := (roundDouble_binade x hx).2
    have b2 := (roundDouble_binade z hz).1
    have : (2 : ℚ) ^ (Int.log 2 x + 1) ≤ (2 : ℚ) ^ (Int.log 2 z) :=
      zpow_le_zpow_right₀ (by norm_num) (by omega)
    linarith
  · have hu : ulp x = ulp z := by
      unfold ulp
      rw [abs_of_pos hx, abs_of_pos hz, heq]
    have hup := ulp_pos z
    unfold roundDouble
    rw [hu]
    apply mul_le_mul_of_nonneg_right _ hup.le
    have := roundHalfEven_mono (x / ulp z) (z / ulp z)
      (div_le_div_of_nonneg_right h hup.le)
    exact_mod_cast this

theorem roundDouble_mono (x z : ℚ) (h : x ≤ z) : roundDouble x ≤ roundDouble z := by
  rcases lt_trichotomy x 0 with hx | hx | hx
  · rcases lt_trichotomy z 0 with hz | hz | hz
    · have := roundDouble_mono_pos (-z) (-x) (by linarith) (by linarith)
      rw [roundDouble_neg, roundDouble_neg] at this
      linarith
    · rw [hz, roundDouble_zero]
      exact (roundDouble_neg_of_neg x hx).le
    · exact ((roundDouble_neg_of_neg x hx).trans (roundDouble_pos z hz)).le
  · rw [hx, roundDouble_zero]
    rcases h.lt_or_eq with hz | hz
    · exact (roundDouble_pos z (by linarith)).le
    · rw [← hz, hx, roundDouble_zero]
  · exact roundDouble_mono_pos x z hx h

theorem roundDouble_of_near (q : ℚ) (e n : ℤ) (h1 : (2 : ℚ) ^ e ≤ |q|)
    (h2 : |q| < (2 : ℚ) ^ (e + 1)) (h3 : |q / (2 : ℚ) ^ (e - 52) - n| < 1 / 2) :
    roundDouble q = n * (2 : ℚ) ^ (e - 52) := by
  unfold roundDouble
  rw [ulp_of_binade q e h1 h2, roundHalfEven_of_near _ n h3]

theorem roundDouble_exact (q : ℚ) (e n : ℤ) (h1 : (2 : ℚ) ^ e ≤ |q|)
    (h2 : |q| < (2 : ℚ) ^ (e + 1)) (hq : q = n * (2 : ℚ) ^ (e - 52)) : roundDouble q = q := by
  rw [roundDouble_of_near q e n h1 h2, ← hq]
  have hp : (0 : ℚ) < (2 : ℚ) ^ (e - 52) := by positivity
  rw [hq, mul_div_assoc, div_self hp.ne']
  simp

theorem roundDouble_PI : roundDouble PI = PI := by
  apply roundDouble_exact PI 1 7074237752028440
  · unfold PI; rw [abs_of_pos (by norm_num)]; norm_num
  · unfold PI; rw [abs_of_pos (by norm_num)]; norm_num
  · unfold PI; norm_num

theorem roundHalfEven_half (m : ℤ) :
    roundHalfEven ((m : ℚ) + 1 / 2) = if m % 2 = 0 then m else m + 1 := by
  have hf : ⌊(m : ℚ) + 1 / 2⌋ = m := by
    rw [Int.floor_eq_iff]
    constructor <;> linarith
  unfold roundHalfEven
  rw [hf]
  have e : (m : ℚ) + 1 / 2 - m = 1 / 2 := by ring
  rw [e]
  simp

theorem roundDouble_of_tie (q : ℚ) (e m n : ℤ) (h1 : (2 : ℚ) ^ e ≤ |q|)
    (h2 : |q| < (2 : ℚ) ^ (e + 1)) (h3 : q / (2 : ℚ) ^ (e - 52) = (m : ℚ) + 1 / 2)
    (hn : n = if m % 2 = 0 then m else m + 1) :
    roundDouble q = n * (2 : ℚ) ^ (e - 52) := by
  unfold roundDouble
  rw [ulp_of_binade q e h1 h2, h3, roundHalfEven_half, hn]

/-! ## Rocket: shield and health -/

theorem Rocket.update_shield (E : MathEnv) (r : Rocket) (dt : ℚ) (input : Input)
    (cw ch ss : ℚ) :
    (r.update E dt input cw ch ss).shield = r.shield ∧
    (r.update E dt input cw ch ss).health = r.health ∧
    (r.update E dt input cw ch ss).maxShield = r.maxShield ∧
    (r.update E dt input cw ch ss).maxHealth = r.maxHealth := by
  unfold Rocket.update Rocket.updateTimers Rocket.updateRotation
  simp only []
  split_ifs <;> simp [Rocket.updateLanding, Rocket.updateFlying]

theorem Rocket.applyOp_inBounds (r : Rocket) (op : RocketOp) (h : r.StatsInBounds)
    (ha : 0 ≤ op.amount) : (r.applyOp op).StatsInBounds := by
  obtain ⟨h1, h2, h3, h4⟩ := h
  cases op with
  | takeDamage amount =>
    simp only [RocketOp.amount] at ha
    unfold Rocket.applyOp Rocket.takeDamage Rocket.StatsInBounds
    by_cases hi : r.invulnerable = true
    · simp [hi, h1, h2, h3, h4]
    · by_cases hs : r.shield > 0
      · simp only [hi, hs, if_true, Bool.false_eq_true, if_false]
        refine ⟨le_max_left _ _, max_le (by linarith) (by linarith), h3, h4⟩
      · simp only [hi, hs, if_false, Bool.false_eq_true]
        refine ⟨h1, h2, le_max_left _ _, max_le (by linarith) (by linarith)⟩
  | addShield amount =>
    simp only [RocketOp.amount] at ha
    unfold Rocket.applyOp Rocket.addShield Rocket.StatsInBounds
    refine ⟨le_min (by linarith) (by linarith), min_le_left _ _, h3, h4⟩
  | addHealth amount =>
    simp only [RocketOp.amount] at ha
    unfold Rocket.applyOp Rocket.addHealth Rocket.StatsInBounds
    refine ⟨h1, h2, le_min (by linarith) (by linarith), min_le_left _ _⟩
  | repairAll =>
    unfold Rocket.applyOp Rocket.repairAll Rocket.StatsInBounds
    exact ⟨by linarith, le_refl _, by linarith, le_refl _⟩
  | update E dt input cw ch ss =>
    obtain ⟨e1, e2, e3, e4⟩ := Rocket.update_shield E r dt input cw ch ss
    unfold Rocket.applyOp Rocket.StatsInBounds
    rw [e1, e2, e3, e4]
    exact ⟨h1, h2, h3, h4⟩

/-- Claim C1. Shield/health bounds are an invariant: from any rocket state with
`0 <= shield <= maxShield` and `0 <= health <= maxHealth` (whatever its invulnerability flag),
every finite sequence of `takeDamage`, `addShield`, `addHealth` and `repairAll` calls with
amounts `>= 0`, interleaved with arbitrary `update` frames (which expire the invulnerability
window), ends in a state that satisfies the same bounds. -/
theorem C1_shield_health_bounds_invariant (r : Rocket) (ops : List RocketOp)
    (h : r.StatsInBounds) (hops : ∀ op ∈ ops, 0 ≤ op.amount) :
    (r.applyOps ops).StatsInBounds := by
  induction ops generalizing r with
  | nil => exact h
  | cons op rest ih =>
    have hstep := Rocket.applyOp_inBounds r op h (hops op (List.mem_cons_self _ _))
    exact ih (r.applyOp op) hstep (fun o ho => hops o (List.mem_cons_of_mem _ ho))

/-- Witness for C1: a fresh rocket takes 150 damage, a frame passes, it takes 12 more, then
picks up shield and health and is repaired. -/
theorem C1_shield_health_bounds_invariant_witness :
    (Rocket.new 400 480).StatsInBounds ∧
    ((Rocket.new 400 480).applyOps
      [RocketOp.takeDamage 150,
       RocketOp.update sampleMath (1 / 2) ⟨false, false, true, false, false⟩ 800 600 60,
       RocketOp.takeDamage 12, RocketOp.addShield 30, RocketOp.addHealth 25,
       RocketOp.repairAll]).StatsInBounds :=
  ⟨by simp [Rocket.StatsInBounds, Rocket.new],
   C1_shield_health_bounds_invariant _ _ (by simp [Rocket.StatsInBounds, Rocket.new])
     (by simp [RocketOp.amount])⟩

/-- Claim C2. `takeDamage(amount)` returns false exactly when the rocket is invulnerable, and
then leaves the whole rocket unchanged; otherwise it returns true, sets `invulnerable` and
sets `invulnerableTimer` to `invulnerableDuration`, which the constructor fixes at 0.4. -/
theorem C2_takeDamage_invulnerability (r : Rocket) (amount : ℚ) :
    ((r.takeDamage amount).1 = false ↔ r.invulnerable = true) ∧
    (r.invulnerable = true → (r.takeDamage amount).2 = r) ∧
    (r.invulnerable = false →
      (r.takeDamage amount).1 = true ∧
      (r.takeDamage amount).2.invulnerable = true ∧
      (r.takeDamage amount).2.invulnerableTimer = r.invulnerableDuration ∧
      (r.takeDamage amount).2.invulnerableDuration = r.invulnerableDuration) ∧
    (∀ x y : ℚ, (Rocket.new x y).invulnerableDuration = 2 / 5 ∧
      ((Rocket.new x y).takeDamage amount).2.invulnerableTimer = 2 / 5) := by
  refine ⟨?_, ?_, ?_, ?_⟩
  · unfold Rocket.takeDamage
    by_cases hi : r.invulnerable = true <;> simp [hi]
  · intro hi
    simp [Rocket.takeDamage, hi]
  · intro hi
    simp [Rocket.takeDamage, hi]
  · intro x y
    simp [Rocket.takeDamage, Rocket.new]

/-- Counterexample to C3 as stated: with shield 5 and health 100 a hit of 12 empties the
shield and leaves health at 100, so shield + health falls by 5, not by min(12, 105) = 12. -/
theorem C3_counterexample :
    ({ Rocket.new 400 480 with shield := 5 }.takeDamage 12).2.shield = 0 ∧
    ({ Rocket.new 400 480 with shield := 5 }.takeDamage 12).2.health = 100 ∧
    ¬ (({ Rocket.new 400 480 with shield := 5 }.shield +
          { Rocket.new 400 480 with shield := 5 }.health) -
        (({ Rocket.new 400 480 with shield := 5 }.takeDamage 12).2.shield +
          ({ Rocket.new 400 480 with shield := 5 }.takeDamage 12).2.health) =
        min 12 ({ Rocket.new 400 480 with shield := 5 }.shield +
          { Rocket.new 400 480 with shield := 5 }.health)) := by
  simp [Rocket.takeDamage, Rocket.new]
  norm_num

/-- Claim C3, amended. On a non-invulnerable rocket `takeDamage(amount)` charges one pool
only: while any shield is left the shield absorbs
`min(amount, shield)` and health is untouched (the excess is dropped); once the shield is 0
health absorbs `min(amount, health)` and the shield stays 0. -/
theorem C3_takeDamage_one_pool (r : Rocket) (amount : ℚ) (hi : r.invulnerable = false) :
    (0 < r.shield →
      (r.takeDamage amount).2.shield = r.shield - min amount r.shield ∧
      (r.takeDamage amount).2.health = r.health) ∧
    (r.shield = 0 →
      (r.takeDamage amount).2.shield = 0 ∧
      (r.takeDamage amount).2.health = r.health - min amount r.health) := by
  constructor
  · intro hpos
    simp only [Rocket.takeDamage, hi, hpos, gt_iff_lt, if_true, Bool.false_eq_true, if_false,
      and_true]
    rcases le_total amount r.shield with h | h
    · rw [min_eq_left h, max_eq_right (by linarith)]
    · rw [min_eq_right h, max_eq_left (by linarith)]
      ring
  · intro hz
    have hnp : ¬ (r.shield > 0) := by rw [hz]; exact lt_irrefl 0
    simp only [Rocket.takeDamage, hi, Bool.false_eq_true, if_false]
    rw [if_neg hnp, if_neg hnp]
    refine ⟨hz, ?_⟩
    rcases le_total amount r.health with h | h
    · rw [min_eq_left h, max_eq_right (by linarith)]
    · rw [min_eq_right h, max_eq_left (by linarith)]
      ring

/-- Witness for the amended C3: a hit of 12 on shield 5, health 100. -/
theorem C3_takeDamage_one_pool_witness :
    ({ Rocket.new 400 480 with shield := 5 }.takeDamage 12).2.shield = 5 - min 12 5 ∧
    ({ Rocket.new 400 480 with shield := 5 }.takeDamage 12).2.health = 100 :=
  (C3_takeDamage_one_pool { Rocket.new 400 480 with shield := 5 } 12
    (by simp [Rocket.new])).1 (by simp [Rocket.new])

/-! ## Rocket: tilt clamp -/

theorem normalizeDown_of_le (a : ℚ) (h : a ≤ PI) : normalizeDown a = a := by
  rw [normalizeDown]
  simp [not_lt.mpr h]

theorem normalizeUp_of_ge (a : ℚ) (h : -PI ≤ a) : normalizeUp a = a := by
  rw [normalizeUp]
  simp [not_lt.mpr h]

theorem normalizeAngle_of_mem (a : ℚ) (h1 : -PI ≤ a) (h2 : a ≤ PI) : normalizeAngle a = a := by
  unfold normalizeAngle
  rw [normalizeDown_of_le a h2, normalizeUp_of_ge a h1]

theorem Rocket.update_angle (E : MathEnv) (r : Rocket) (dt : ℚ) (input : Input)
    (cw ch ss : ℚ) :
    (r.update E dt input cw ch ss).angle = (r.updateRotation E dt input).angle ∧
    (r.update E dt input cw ch ss).angularVelocity =
      (r.updateRotation E dt input).angularVelocity := by
  unfold Rocket.update Rocket.updateTimers
  simp only []
  split_ifs <;> simp [Rocket.updateLanding, Rocket.updateFlying]

theorem Rocket.updateRotation_angle_mem (E : MathEnv) (r : Rocket) (dt : ℚ) (input : Input) :
    -(PI / 2) ≤ (r.updateRotation E dt input).angle ∧
    (r.updateRotation E dt input).angle ≤ PI / 2 := by
  have hp := PI_pos
  unfold Rocket.updateRotation
  simp only []
  split_ifs with h1 h2
  · exact ⟨by simp only []; linarith, le_refl _⟩
  · exact ⟨le_refl _, by simp only []; linarith⟩
  · exact ⟨not_lt.mp h2, not_lt.mp h1⟩

theorem Rocket.updateRotation_zeroes (E : MathEnv) (r : Rocket) (dt : ℚ) (input : Input)
    (h : r.integratedAngle E dt input > PI / 2 ∨ r.integratedAngle E dt input < -(PI / 2)) :
    (r.updateRotation E dt input).angularVelocity = 0 := by
  unfold Rocket.updateRotation
  simp only []
  split_ifs with h1 h2
  · rfl
  · rfl
  · rcases h with h | h
    · exact absurd h h1
    · exact absurd h h2

/-- Claim C4. Hard tilt clamp: for every rocket state (any angle and angular velocity, either
mode), every `dt` (in particular every `dt >= 0`) and every input, the angle after
`Rocket.update` lies in `[-PI/2, PI/2]`; hence it stays there along every sequence of updates
from a fresh rocket; and whenever the integrated (and normalised) angle exceeds the limit on
either side the angular velocity is 0 after the update, which for a raw integrated angle
within `[-PI, PI]` is the raw angle itself. -/
theorem C4_hard_tilt_clamp (E : MathEnv) :
    (∀ (r : Rocket) (dt : ℚ) (input : Input) (cw ch ss : ℚ),
      -(PI / 2) ≤ (r.update E dt input cw ch ss).angle ∧
      (r.update E dt input cw ch ss).angle ≤ PI / 2) ∧
    (∀ (x y : ℚ) (frames : List RocketFrame),
      -(PI / 2) ≤ (Rocket.runFrames E (Rocket.new x y) frames).angle ∧
      (Rocket.runFrames E (Rocket.new x y) frames).angle ≤ PI / 2) ∧
    (∀ (r : Rocket) (dt : ℚ) (input : Input) (cw ch ss : ℚ),
      (r.integratedAngle E dt input > PI / 2 ∨ r.integratedAngle E dt input < -(PI / 2)) →
      (r.update E dt input cw ch ss).angularVelocity = 0) ∧
    (∀ (r : Rocket) (dt : ℚ) (input : Input) (cw ch ss : ℚ),
      -PI ≤ r.angle + r.turnRate E dt input * dt → r.angle + r.turnRate E dt input * dt ≤ PI →
      (r.angle + r.turnRate E dt input * dt > PI / 2 ∨
        r.angle + r.turnRate E dt input * dt < -(PI / 2)) →
      (r.update E dt input cw ch ss).angularVelocity = 0) := by
  have hstep : ∀ (r : Rocket) (dt : ℚ) (input : Input) (cw ch ss : ℚ),
      -(PI / 2) ≤ (r.update E dt input cw ch ss).angle ∧
      (r.update E dt input cw ch ss).angle ≤ PI / 2 := by
    intro r dt input cw ch ss
    rw [(Rocket.update_angle E r dt input cw ch ss).1]
    exact Rocket.updateRotation_angle_mem E r dt input
  have hzero : ∀ (r : Rocket) (dt : ℚ) (input : Input) (cw ch ss : ℚ),
      (r.integratedAngle E dt input > PI / 2 ∨ r.integratedAngle E dt input < -(PI / 2)) →
      (r.update E dt input cw ch ss).angularVelocity = 0 := by
    intro r dt input cw ch ss h
    rw [(Rocket.update_angle E r dt input cw ch ss).2]
    exact Rocket.updateRotation_zeroes E r dt input h
  refine ⟨hstep, ?_, hzero, ?_⟩
  · intro x y frames
    have hp := PI_pos
    have key : ∀ (fs : List RocketFrame) (r : Rocket),
        (-(PI / 2) ≤ r.angle ∧ r.angle ≤ PI / 2) →
        -(PI / 2) ≤ (Rocket.runFrames E r fs).angle ∧
          (Rocket.runFrames E r fs).angle ≤ PI / 2 := by
      intro fs
      induction fs with
      | nil => intro r h; exact h
      | cons f rest ih =>
        intro r _
        exact ih _ (hstep r f.dt f.input f.canvasWidth f.canvasHeight f.scrollSpeed)
    apply key
    simp only [Rocket.new]
    constructor <;> linarith
  · intro r dt input cw ch ss h1 h2 h
    apply hzero
    unfold Rocket.integratedAngle
    rw [normalizeAngle_of_mem _ h1 h2]
    exact h

/-- Witness for C4: a rocket tilted to the limit and still turning right is held at `PI/2`
with its angular velocity zeroed. -/
theorem C4_hard_tilt_clamp_witness :
    ({ Rocket.new 400 480 with angle := PI / 2, angularVelocity := 3 }.update sampleMath
      (1 / 10) ⟨false, true, false, false, false⟩ 800 600 60).angularVelocity = 0 := by
  have ht : Rocket.turnRate sampleMath
      { Rocket.new 400 480 with angle := PI / 2, angularVelocity := 3 } (1 / 10)
      ⟨false, true, false, false, false⟩ = 16 / 5 := by
    simp [Rocket.turnRate, clamp, sampleMath, Rocket.new]
    norm_num
  refine (C4_hard_tilt_clamp sampleMath).2.2.2 _ _ _ 800 600 60 ?_ ?_ ?_
  · rw [ht]; simp only [Rocket.new, PI]; norm_num
  · rw [ht]; simp only [Rocket.new, PI]; norm_num
  · left; rw [ht]; simp only [Rocket.new, PI]; norm_num

/-! ## Corridor: interpolated bounds -/

theorem Corridor.scanLower_spec (y : ℚ) (segs : List Segment) :
    ∀ acc : Option Segment, (∀ a, acc = some a → y ≤ a.y) →
      ((∃ s ∈ segs, y ≤ s.y) ∨ acc.isSome = true) →
      ∃ l, Corridor.scanLower y acc segs = some l ∧ y ≤ l.y ∧ (l ∈ segs ∨ acc = some l) ∧
        (∀ s ∈ segs, y ≤ s.y → l.y ≤ s.y) ∧ (∀ a, acc = some a → l.y ≤ a.y) := by
  induction segs with
  | nil =>
    intro acc hacc hex
    rcases hex with ⟨s, hs, _⟩ | h
    · cases hs
    · cases acc with
      | none => simp at h
      | some a =>
        refine ⟨a, rfl, hacc a rfl, Or.inr rfl, ?_, ?_⟩
        · intro s hs; cases hs
        · intro b hb; cases hb; exact le_refl _
  | cons s rest ih =>
    intro acc hacc hex
    by_cases hs : y ≤ s.y
    · cases acc with
      | none =>
        obtain ⟨l, hl, hly, hmem, hmin, hle⟩ :=
          ih (some s) (by intro a ha; cases ha; exact hs) (Or.inr rfl)
        refine ⟨l, ?_, hly, Or.inl ?_, ?_, ?_⟩
        · simpa [Corridor.scanLower, hs] using hl
        · rcases hmem with h | h
          · exact List.mem_cons_of_mem _ h
          · cases h; exact List.mem_cons_self _ _
        · intro t ht hty
          rcases List.mem_cons.mp ht with h | h
          · rw [h]; exact hle s rfl
          · exact hmin t h hty
        · intro a ha; cases ha
      | some a =>
        by_cases hlt : s.y < a.y
        · obtain ⟨l, hl, hly, hmem, hmin, hle⟩ :=
            ih (some s) (by intro b hb; cases hb; exact hs) (Or.inr rfl)
          refine ⟨l, ?_, hly, Or.inl ?_, ?_, ?_⟩
          · simpa [Corridor.scanLower, hs, hlt] using hl
          · rcases hmem with h | h
            · exact List.mem_cons_of_mem _ h
            · cases h; exact List.mem_cons_self _ _
          · intro t ht hty
            rcases List.mem_cons.mp ht with h | h
            · rw [h]; exact hle s rfl
            · exact hmin t h hty
          · intro b hb; cases hb
            exact le_trans (hle s rfl) (le_of_lt hlt)
        · obtain ⟨l, hl, hly, hmem, hmin, hle⟩ := ih (some a) hacc (Or.inr rfl)
          refine ⟨l, ?_, hly, ?_, ?_, hle⟩
          · simpa [Corridor.scanLower, hs, hlt] using hl
          · rcases hmem with h | h
            · exact Or.inl (List.mem_cons_of_mem _ h)
            · exact Or.inr h
          · intro t ht hty
            rcases List.mem_cons.mp ht with h | h
            · rw [h]; exact le_trans (hle a rfl) (not_lt.mp hlt)
            · exact hmin t h hty
    · have hex' : (∃ t ∈ rest, y ≤ t.y) ∨ acc.isSome = true := by
        rcases hex with ⟨t, ht, hty⟩ | h
        · rcases List.mem_cons.mp ht with h | h
          · rw [h] at hty; exact absurd hty hs
          · exact Or.inl ⟨t, h, hty⟩
        · exact Or.inr h
      obtain ⟨l, hl, hly, hmem, hmin, hle⟩ := ih acc hacc hex'
      refine ⟨l, ?_, hly, ?_, ?_, hle⟩
      · simpa [Corridor.scanLower, hs] using hl
      · rcases hmem with h | h
        · exact Or.inl (List.mem_cons_of_mem _ h)
        · exact Or.inr h
      · intro t ht hty
        rcases List.mem_cons.mp ht with h | h
        · rw [h] at hty; exact absurd hty hs
        · exact hmin t h hty

theorem Corridor.scanUpper_spec (y : ℚ) (segs : List Segment) :
    ∀ acc : Option Segment, (∀ a, acc = some a → a.y ≤ y) →
      ((∃ s ∈ segs, s.y ≤ y) ∨ acc.isSome = true) →
      ∃ u, Corridor.scanUpper y acc segs = some u ∧ u.y ≤ y ∧ (u ∈ segs ∨ acc = some u) ∧
        (∀ s ∈ segs, s.y ≤ y → s.y ≤ u.y) ∧ (∀ a, acc = some a → a.y ≤ u.y) := by
  induction segs with
  | nil =>
    intro acc hacc hex
    rcases hex with ⟨s, hs, _⟩ | h
    · cases hs
    · cases acc with
      | none => simp at h
      | some a =>
        refine ⟨a, rfl, hacc a rfl, Or.inr rfl, ?_, ?_⟩
        · intro s hs; cases hs
        · intro b hb; cases hb; exact le_refl _
  | cons s rest ih =>
    intro acc hacc hex
    by_cases hs : s.y ≤ y
    · cases acc with
      | none =>
        obtain ⟨u, hu, huy, hmem, hmax, hge⟩ :=
          ih (some s) (by intro a ha; cases ha; exact hs) (Or.inr rfl)
        refine ⟨u, ?_, huy, Or.inl ?_, ?_, ?_⟩
        · simpa [Corridor.scanUpper, hs] using hu
        · rcases hmem with h | h
          · exact List.mem_cons_of_mem _ h
          · cases h; exact List.mem_cons_self _ _
        · intro t ht hty
          rcases List.mem_cons.mp ht with h | h
          · rw [h]; exact hge s rfl
          · exact hmax t h hty
        · intro a ha; cases ha
      | some a =>
        by_cases hgt : s.y > a.y
        · obtain ⟨u, hu, huy, hmem, hmax, hge⟩ :=
            ih (some s) (by intro b hb; cases hb; exact hs) (Or.inr rfl)
          refine ⟨u, ?_, huy, Or.inl ?_, ?_, ?_⟩
          · simpa [Corridor.scanUpper, hs, hgt] using hu
          · rcases hmem with h | h
            · exact List.mem_cons_of_mem _ h
            · cases h; exact List.mem_cons_self _ _
          · intro t ht hty
            rcases List.mem_cons.mp ht with h | h
            · rw [h]; exact hge s rfl
            · exact hmax t h hty
          · intro b hb; cases hb
            exact le_trans (le_of_lt hgt) (hge s rfl)
        · obtain ⟨u, hu, huy, hmem, hmax, hge⟩ := ih (some a) hacc (Or.inr rfl)
          refine ⟨u, ?_, huy, ?_, ?_, hge⟩
          · simpa [Corridor.scanUpper, hs, hgt] using hu
          · rcases hmem with h | h
            · exact Or.inl (List.mem_cons_of_mem _ h)
            · exact Or.inr h
          · intro t ht hty
            rcases List.mem_cons.mp ht with h | h
            · rw [h]; exact le_trans (not_lt.mp hgt) (hge a rfl)
            · exact hmax t h hty
    · have hex' : (∃ t ∈ rest, t.y ≤ y) ∨ acc.isSome = true := by
        rcases hex with ⟨t, ht, hty⟩ | h
        · rcases List.mem_cons.mp ht with h | h
          · rw [h] at hty; exact absurd hty hs
          · exact Or.inl ⟨t, h, hty⟩
        · exact Or.inr h
      obtain ⟨u, hu, huy, hmem, hmax, hge⟩ := ih acc hacc hex'
      refine ⟨u, ?_, huy, ?_, ?_, hge⟩
      · simpa [Corridor.scanUpper, hs] using hu
      · rcases hmem with h | h
        · exact Or.inl (List.mem_cons_of_mem _ h)
        · exact Or.inr h
      · intro t ht hty
        rcases List.mem_cons.mp ht with h | h
        · rw [h] at hty; exact absurd hty hs
        · exact hmax t h hty

theorem lerp_mem (a b t : ℚ) (h0 : 0 ≤ t) (h1 : t ≤ 1) :
    min a b ≤ lerp a b t ∧ lerp a b t ≤ max a b := by
  unfold lerp
  rcases le_total a b with h | h
  · rw [min_eq_left h, max_eq_right h]
    have h2 : 0 ≤ (b - a) * t := mul_nonneg (by linarith) h0
    have h3 : (b - a) * t ≤ (b - a) * 1 := mul_le_mul_of_nonneg_left h1 (by linarith)
    constructor <;> linarith
  · rw [min_eq_right h, max_eq_left h]
    have h2 : 0 ≤ (a - b) * t := mul_nonneg (by linarith) h0
    have h3 : (a - b) * t ≤ (a - b) * 1 := mul_le_mul_of_nonneg_left h1 (by linarith)
    constructor <;> nlinarith

/-- Claim C5. `getBoundsAtY` interpolation is bounded: whenever some segment has
`y >= y0` and some segment has `y <= y0`, the result is the linear interpolation, with a
parameter `t` in `[0, 1]`, between the nearest segment at or beyond `y0` (`lower`) and the
nearest at or before `y0` (`upper`); so the returned `centerX` and `width` lie between the
minimum and maximum of those two segments' values, and `left` and `right` are `centerX`
minus and plus `width/2`. -/
theorem C5_getBoundsAtY_interpolation_bounded (c : Corridor) (y : ℚ)
    (hlo : ∃ s ∈ c.segments, s.y ≥ y) (hup : ∃ s ∈ c.segments, s.y ≤ y) :
    ∃ lower ∈ c.segments, ∃ upper ∈ c.segments, ∃ t : ℚ,
      lower.y ≥ y ∧ (∀ s ∈ c.segments, s.y ≥ y → lower.y ≤ s.y) ∧
      upper.y ≤ y ∧ (∀ s ∈ c.segments, s.y ≤ y → s.y ≤ upper.y) ∧
      0 ≤ t ∧ t ≤ 1 ∧
      (c.getBoundsAtY y).centerX = lerp upper.centerX lower.centerX t ∧
      (c.getBoundsAtY y).width = lerp upper.width lower.width t ∧
      min upper.centerX lower.centerX ≤ (c.getBoundsAtY y).centerX ∧
      (c.getBoundsAtY y).centerX ≤ max upper.centerX lower.centerX ∧
      min upper.width lower.width ≤ (c.getBoundsAtY y).width ∧
      (c.getBoundsAtY y).width ≤ max upper.width lower.width ∧
      (c.getBoundsAtY y).left = (c.getBoundsAtY y).centerX - (c.getBoundsAtY y).width / 2 ∧
      (c.getBoundsAtY y).right = (c.getBoundsAtY y).centerX + (c.getBoundsAtY y).width / 2 := by
  obtain ⟨l, hl, hly, hlmem, hlmin, -⟩ :=
    Corridor.scanLower_spec y c.segments none (by intro a ha; cases ha) (Or.inl hlo)
  obtain ⟨u, hu, huy, humem, humax, -⟩ :=
    Corridor.scanUpper_spec y c.segments none (by intro a ha; cases ha) (Or.inl hup)
  have hlmem' : l ∈ c.segments := by
    rcases hlmem with h | h
    · exact h
    · cases h
  have humem' : u ∈ c.segments := by
    rcases humem with h | h
    · exact h
    · cases h
  have ht : 0 ≤ (if l.y = u.y then (0 : ℚ) else (y - u.y) / (l.y - u.y)) ∧
      (if l.y = u.y then (0 : ℚ) else (y - u.y) / (l.y - u.y)) ≤ 1 := by
    split_ifs with he
    · exact ⟨le_refl _, zero_le_one⟩
    · have hne : u.y < l.y := lt_of_le_of_ne (le_trans huy hly) (fun h => he h.symm)
      have hpos : 0 < l.y - u.y := by linarith
      exact ⟨div_nonneg (by linarith) (le_of_lt hpos),
        (div_le_one hpos).mpr (by linarith)⟩
  have hc := lerp_mem u.centerX l.centerX _ ht.1 ht.2
  have hw := lerp_mem u.width l.width _ ht.1 ht.2
  refine ⟨l, hlmem', u, humem', (if l.y = u.y then (0 : ℚ) else (y - u.y) / (l.y - u.y)),
    hly, hlmin, huy, humax, ht.1, ht.2, ?_⟩
  unfold Corridor.getBoundsAtY
  rw [hl, hu]
  exact ⟨rfl, rfl, hc.1, hc.2, hw.1, hw.2, rfl, rfl⟩

/-- Witness for C5: at `y = 95` between the segments at 100 and 80 the interpolated centre is
402.5 and the width 337.5. -/
theorem C5_getBoundsAtY_interpolation_bounded_witness :
    (∃ s ∈ sampleCorridor.segments, s.y ≥ 95) ∧ (∃ s ∈ sampleCorridor.segments, s.y ≤ 95) ∧
    (sampleCorridor.getBoundsAtY 95).centerX = 805 / 2 ∧
    (sampleCorridor.getBoundsAtY 95).width = 675 / 2 ∧
    ∃ lower ∈ sampleCorridor.segments, ∃ upper ∈ sampleCorridor.segments,
      min upper.centerX lower.centerX ≤ (sampleCorridor.getBoundsAtY 95).centerX ∧
      (sampleCorridor.getBoundsAtY 95).centerX ≤ max upper.centerX lower.centerX ∧
      min upper.width lower.width ≤ (sampleCorridor.getBoundsAtY 95).width ∧
      (sampleCorridor.getBoundsAtY 95).width ≤ max upper.width lower.width := by
  have h1 : ∃ s ∈ sampleCorridor.segments, s.y ≥ 95 :=
    ⟨{ y := 100, centerX := 400, width := 350 }, by simp [sampleCorridor], by norm_num⟩
  have h2 : ∃ s ∈ sampleCorridor.segments, s.y ≤ 95 :=
    ⟨{ y := 80, centerX := 410, width := 300 }, by simp [sampleCorridor], by norm_num⟩
  obtain ⟨l, hl, u, hu, t, -, -, -, -, -, -, -, -, c1, c2, w1, w2, -, -⟩ :=
    C5_getBoundsAtY_interpolation_bounded sampleCorridor 95 h1 h2
  refine ⟨h1, h2, ?_, ?_, l, hl, u, hu, c1, c2, w1, w2⟩
  · simp [Corridor.getBoundsAtY, Corridor.scanLower, Corridor.scanUpper, sampleCorridor,
      Corridor.new, lerp]
    norm_num
  · simp [Corridor.getBoundsAtY, Corridor.scanLower, Corridor.scanUpper, sampleCorridor,
      Corridor.new, lerp]
    norm_num

/-! ## Playing frame: what each step leaves alone -/

theorem foldl_invariant {α β : Type} (f : β → α → β) (Q : β → Prop)
    (h : ∀ b a, Q b → Q (f b a)) : ∀ (l : List α) (b : β), Q b → Q (l.foldl f b) := by
  intro l
  induction l with
  | nil => intro b hb; exact hb
  | cons a rest ih => intro b hb; exact ih (f b a) (h b a hb)

theorem Game.spawnAsteroid_keeps (E : MathEnv) (g : Game) (yo : Option ℚ) :
    (Game.spawnAsteroid E g yo).score = g.score ∧
    (Game.spawnAsteroid E g yo).level = g.level ∧
    (Game.spawnAsteroid E g yo).state = g.state ∧
    (Game.spawnAsteroid E g yo).corridor = g.corridor ∧
    (Game.spawnAsteroid E g yo).asteroids.length = g.asteroids.length + 1 := by
  simp [Game.spawnAsteroid]

theorem Game.seedAsteroids_keeps (E : MathEnv) (g : Game) (target : ℕ) :
    (Game.seedAsteroids E g target).score = g.score ∧
    (Game.seedAsteroids E g target).level = g.level ∧
    (Game.seedAsteroids E g target).state = g.state ∧
    (Game.seedAsteroids E g target).corridor = g.corridor := by
  unfold Game.seedAsteroids
  apply foldl_invariant _
    (fun acc : Game => acc.score = g.score ∧ acc.level = g.level ∧ acc.state = g.state ∧
      acc.corridor = g.corridor)
  · intro b a hb
    obtain ⟨h1, h2, h3, h4, -⟩ := Game.spawnAsteroid_keeps E { b with rng := b.rng + 1 }
      (some (-random E b.rng 80 (b.canvasHeight + 80) - (a : ℚ) * 95))
    exact ⟨h1.trans hb.1, h2.trans hb.2.1, h3.trans hb.2.2.1, h4.trans hb.2.2.2⟩
  · exact ⟨rfl, rfl, rfl, rfl⟩

theorem Game.seedAsteroids_length (E : MathEnv) (target : ℕ) :
    ∀ g : Game, (Game.seedAsteroids E g target).asteroids.length =
      g.asteroids.length + target := by
  unfold Game.seedAsteroids
  induction target with
  | zero => intro g; simp
  | succ n ih =>
    intro g
    rw [List.range_succ, List.foldl_append]
    simp only [List.foldl_cons, List.foldl_nil]
    rw [(Game.spawnAsteroid_keeps E _ _).2.2.2.2]
    simp only []
    rw [ih g]
    omega

theorem Game.startLandingPhase_keeps (E : MathEnv) (g : Game) :
    (Game.startLandingPhase E g).score = g.score ∧
    (Game.startLandingPhase E g).level = g.level ∧
    (Game.startLandingPhase E g).state = GameState.landing ∧
    (Game.startLandingPhase E g).corridor = g.corridor ∧
    (Game.startLandingPhase E g).asteroids = [] ∧
    (Game.startLandingPhase E g).missiles = [] ∧
    (Game.startLandingPhase E g).pickups = [] ∧
    (Game.startLandingPhase E g).rocket.landingMode = true ∧
    (Game.startLandingPhase E g).rocket.fuel = g.rocket.maxFuel := by
  simp [Game.startLandingPhase, Rocket.startLanding]

theorem Game.nextLevel_score (E : MathEnv) (g : Game) :
    (Game.nextLevel E g).score = g.score ∧ (Game.nextLevel E g).level = g.level + 1 := by
  unfold Game.nextLevel
  simp only []
  split_ifs with h1 h2
  · obtain ⟨e1, e2, -⟩ := Game.startLandingPhase_keeps E
      { g with level := g.level + 1, levelDistance := 0, checkpointWarningShown := false }
    exact ⟨e1, e2⟩
  · obtain ⟨e1, e2, -⟩ := Game.seedAsteroids_keeps E
      { g with level := g.level + 1, levelDistance := 0, checkpointWarningShown := false,
               corridor := g.corridor.setDifficulty (g.level + 1),
               asteroidSpawnInterval :=
                 max (3 / 10) (4 / 5 - (((g.level + 1 : ℕ) : ℚ) - 1) * (8 / 100)),
               asteroids := [], missiles := [] }
      (Game.getAsteroidTargetCount
        { g with level := g.level + 1, levelDistance := 0, checkpointWarningShown := false,
                 corridor := g.corridor.setDifficulty (g.level + 1),
                 asteroidSpawnInterval :=
                   max (3 / 10) (4 / 5 - (((g.level + 1 : ℕ) : ℚ) - 1) * (8 / 100)) })
    exact ⟨e1, e2⟩
  · exact ⟨rfl, rfl⟩

theorem Game.gameOver_keeps (g : Game) (reason : String) :
    (g.gameOver reason).score = g.score ∧ (g.gameOver reason).level = g.level := by
  simp [Game.gameOver]

theorem Game.stepProgress_keeps (E : MathEnv) (g : Game) (dt : ℚ) :
    (Game.stepProgress E g dt).1.score = g.score ∧
    ((Game.stepProgress E g dt).2 = false → (Game.stepProgress E g dt).1.level = g.level) := by
  unfold Game.stepProgress
  simp only []
  split_ifs with h
  · exact ⟨(Game.nextLevel_score E _).1, by intro hf; cases hf⟩
  · exact ⟨rfl, fun _ => rfl⟩

theorem Game.stepMotion_keeps (E : MathEnv) (g : Game) (dt : ℚ) (input : Input) (a : ℚ) :
    (Game.stepMotion E g dt input a).score = g.score ∧
    (Game.stepMotion E g dt input a).level = g.level := by
  simp [Game.stepMotion]

theorem Game.stepWalls_keeps (g : Game) :
    (Game.stepWalls g).1.score = g.score ∧ (Game.stepWalls g).1.level = g.level := by
  unfold Game.stepWalls
  simp only []
  split_ifs <;> simp [Game.gameOver, Game.triggerShake]

theorem Game.stepSpawnAsteroids_keeps (E : MathEnv) (g : Game) (dt : ℚ) :
    (Game.stepSpawnAsteroids E g dt).score = g.score ∧
    (Game.stepSpawnAsteroids E g dt).level = g.level := by
  unfold Game.stepSpawnAsteroids
  simp only []
  split_ifs
  · exact ⟨rfl, rfl⟩
  · exact ⟨rfl, rfl⟩
  · exact ⟨(Game.spawnAsteroid_keeps E _ none).1, (Game.spawnAsteroid_keeps E _ none).2.1⟩
  · exact ⟨rfl, rfl⟩

theorem Game.asteroidPass_keeps (E : MathEnv) (dt : ℚ) (asteroids : List Asteroid) (g : Game) :
    (Game.asteroidPass E dt asteroids g).game.score = g.score ∧
    (Game.asteroidPass E dt asteroids g).game.level = g.level := by
  induction asteroids with
  | nil => exact ⟨rfl, rfl⟩
  | cons a rest ih =>
    simp only [Game.asteroidPass]
    split_ifs
    · exact ih
    · exact ⟨(Game.gameOver_keeps _ _).1.trans ih.1, (Game.gameOver_keeps _ _).2.trans ih.2⟩
    · exact ih
    · exact ih
    · exact ih

theorem Game.stepAsteroids_keeps (E : MathEnv) (g : Game) (dt : ℚ) :
    (Game.stepAsteroids E g dt).1.score = g.score ∧
    (Game.stepAsteroids E g dt).1.level = g.level := by
  unfold Game.stepAsteroids
  exact Game.asteroidPass_keeps E dt g.asteroids g

theorem Game.stepPickups_keeps (E : MathEnv) (g : Game) (dt : ℚ) :
    (Game.stepPickups E g dt).score = g.score ∧ (Game.stepPickups E g dt).level = g.level := by
  unfold Game.stepPickups
  simp only []
  split_ifs <;> simp [Game.spawnPickup]

theorem Game.stepMissiles_level (E : MathEnv) (g : Game) (dt : ℚ) :
    (Game.stepMissiles E g dt).level = g.level := by
  simp [Game.stepMissiles]

/-! ## Missile pass -/

theorem Game.findHit_some (E : MathEnv) (m : Missile) :
    ∀ (asteroids : List Asteroid) (j : ℕ), Game.findHit E m asteroids = some j →
      j < asteroids.length ∧ ∃ a, asteroids[j]? = some a ∧ m.checkCollision E a = true := by
  intro asteroids
  induction asteroids with
  | nil => intro j h; simp [Game.findHit] at h
  | cons a rest ih =>
    intro j h
    simp only [Game.findHit] at h
    cases hr : Game.findHit E m rest with
    | some k =>
      rw [hr] at h
      simp only [Option.some.injEq] at h
      obtain ⟨hk, b, hb, hc⟩ := ih k hr
      subst h
      exact ⟨by simp only [List.length_cons]; omega, b, by simpa using hb, hc⟩
    | none =>
      rw [hr] at h
      simp only [] at h
      by_cases hc : m.checkCollision E a = true
      · rw [if_pos hc] at h
        simp only [Option.some.injEq] at h
        subst h
        exact ⟨by simp, a, by simp, hc⟩
      · rw [if_neg hc] at h
        cases h

theorem Game.findHit_none (E : MathEnv) (m : Missile) :
    ∀ asteroids : List Asteroid, Game.findHit E m asteroids = none →
      ∀ a ∈ asteroids, m.checkCollision E a = false := by
  intro asteroids
  induction asteroids with
  | nil => intro _ a ha; cases ha
  | cons b rest ih =>
    intro h a ha
    simp only [Game.findHit] at h
    cases hr : Game.findHit E m rest with
    | some k => rw [hr] at h; cases h
    | none =>
      rw [hr] at h
      simp only [] at h
      by_cases hc : m.checkCollision E b = true
      · rw [if_pos hc] at h; cases h
      · rcases List.mem_cons.mp ha with e | e
        · rw [e]; simpa using hc
        · exact ih hr a e

theorem Game.missilePass_hit (E : MathEnv) (dt cw ch : ℚ) (m : Missile) (rest : List Missile)
    (asteroids : List Asteroid) (score : ℚ)
    (hon : (m.update E dt).isOffScreen cw ch = false) (j : ℕ)
    (hj : Game.findHit E (m.update E dt)
      (Game.missilePass E dt cw ch rest asteroids score).asteroids = some j) :
    Game.missilePass E dt cw ch (m :: rest) asteroids score =
      { missiles := (Game.missilePass E dt cw ch rest asteroids score).missiles,
        asteroids := (Game.missilePass E dt cw ch rest asteroids score).asteroids.eraseIdx j,
        score := (Game.missilePass E dt cw ch rest asteroids score).score + 10 } := by
  rw [Game.missilePass]
  simp only [hon, Bool.false_eq_true, if_false]
  rw [hj]

theorem Game.missilePass_miss (E : MathEnv) (dt cw ch : ℚ) (m : Missile) (rest : List Missile)
    (asteroids : List Asteroid) (score : ℚ)
    (hon : (m.update E dt).isOffScreen cw ch = false)
    (hj : Game.findHit E (m.update E dt)
      (Game.missilePass E dt cw ch rest asteroids score).asteroids = none) :
    Game.missilePass E dt cw ch (m :: rest) asteroids score =
      { Game.missilePass E dt cw ch rest asteroids score with
        missiles := m.update E dt ::
          (Game.missilePass E dt cw ch rest asteroids score).missiles } := by
  rw [Game.missilePass]
  simp only [hon, Bool.false_eq_true, if_false]
  rw [hj]

theorem Game.missilePass_off (E : MathEnv) (dt cw ch : ℚ) (m : Missile) (rest : List Missile)
    (asteroids : List Asteroid) (score : ℚ)
    (hoff : (m.update E dt).isOffScreen cw ch = true) :
    Game.missilePass E dt cw ch (m :: rest) asteroids score =
      Game.missilePass E dt cw ch rest asteroids score := by
  rw [Game.missilePass]
  simp only [hoff, if_true]

theorem Game.missilePass_spec (E : MathEnv) (dt cw ch : ℚ) (missiles : List Missile)
    (asteroids : List Asteroid) (score : ℚ) :
    ∃ k : ℕ,
      (Game.missilePass E dt cw ch missiles asteroids score).asteroids.length + k =
        asteroids.length ∧
      (Game.missilePass E dt cw ch missiles asteroids score).score = score + 10 * (k : ℚ) ∧
      (Game.missilePass E dt cw ch missiles asteroids score).missiles.length + k ≤
        missiles.length ∧
      (Game.missilePass E dt cw ch missiles asteroids score).asteroids.Sublist asteroids := by
  induction missiles with
  | nil => exact ⟨0, by simp [Game.missilePass], by simp [Game.missilePass],
      by simp [Game.missilePass], by simp [Game.missilePass]⟩
  | cons m rest ih =>
    obtain ⟨k, h1, h2, h3, h4⟩ := ih
    by_cases hoff : (m.update E dt).isOffScreen cw ch = true
    · rw [Game.missilePass_off E dt cw ch m rest asteroids score hoff]
      exact ⟨k, h1, h2, by simp only [List.length_cons]; omega, h4⟩
    · have hon : (m.update E dt).isOffScreen cw ch = false := by simpa using hoff
      cases hj : Game.findHit E (m.update E dt)
          (Game.missilePass E dt cw ch rest asteroids score).asteroids with
      | some j =>
        rw [Game.missilePass_hit E dt cw ch m rest asteroids score hon j hj]
        obtain ⟨hlt, -⟩ := Game.findHit_some E _ _ j hj
        refine ⟨k + 1, ?_, ?_, ?_, ?_⟩
        · simp only []
          rw [List.length_eraseIdx_of_lt hlt]
          omega
        · simp only []
          rw [h2]
          push_cast
          ring
        · simp only [List.length_cons]
          omega
        · exact (List.eraseIdx_sublist _ j).trans h4
      | none =>
        rw [Game.missilePass_miss E dt cw ch m rest asteroids score hon hj]
        exact ⟨k, h1, h2, by simp only [List.length_cons]; omega, h4⟩

theorem Game.pauseGame_score (g : Game) : g.pauseGame.game.score = g.score := by
  unfold Game.pauseGame
  split_ifs <;> rfl

theorem Game.updateLanding_score (E : MathEnv) (g : Game) (input : Input) (dt : ℚ) :
    (Game.updateLanding E g input dt).game.score = g.score := by
  unfold Game.updateLanding
  split_ifs
  · rfl
  · exact Game.pauseGame_score g
  · simp only []
    split
    · rfl
    · split
      · rfl
      · split_ifs <;> simp [Game.beginLandingSuccessCountdown, Game.crashLanding] <;>
          split_ifs <;> rfl

theorem Game.updateLandingSuccessWait_score (g : Game) (dt : ℚ) :
    (g.updateLandingSuccessWait dt).score = g.score := by
  unfold Game.updateLandingSuccessWait Game.showStationMenu
  simp only []
  split_ifs <;> rfl

theorem Game.findHit_last (E : MathEnv) (m : Missile) :
    ∀ (asteroids : List Asteroid) (j : ℕ), Game.findHit E m asteroids = some j →
      ∀ (k : ℕ) (b : Asteroid), j < k → asteroids[k]? = some b →
        m.checkCollision E b = false := by
  intro asteroids
  induction asteroids with
  | nil => intro j h; simp [Game.findHit] at h
  | cons a rest ih =>
    intro j h k b hjk hb
    simp only [Game.findHit] at h
    obtain ⟨k', rfl⟩ : ∃ k', k = k' + 1 := ⟨k - 1, by omega⟩
    rw [List.getElem?_cons_succ] at hb
    cases hr : Game.findHit E m rest with
    | some i =>
      rw [hr] at h
      simp only [Option.some.injEq] at h
      exact ih i hr k' b (by omega) hb
    | none => exact Game.findHit_none E m rest hr b (List.getElem?_mem hb)

theorem Game.findHit_any (E : MathEnv) (m : Missile) (asteroids : List Asteroid) :
    asteroids.any (fun a => m.checkCollision E a) = (Game.findHit E m asteroids).isSome := by
  cases hj : Game.findHit E m asteroids with
  | some j =>
    obtain ⟨-, a, ha, hc⟩ := Game.findHit_some E m asteroids j hj
    simp only [Option.isSome_some, List.any_eq_true]
    exact ⟨a, List.getElem?_mem ha, hc⟩
  | none =>
    simp only [Option.isSome_none, List.any_eq_false]
    intro a ha
    simp [Game.findHit_none E m asteroids hj a ha]

theorem Game.missilePass_lists (E : MathEnv) (dt cw ch : ℚ) (missiles : List Missile)
    (asteroids : List Asteroid) (s t : ℚ) :
    (Game.missilePass E dt cw ch missiles asteroids s).asteroids =
      (Game.missilePass E dt cw ch missiles asteroids t).asteroids ∧
    (Game.missilePass E dt cw ch missiles asteroids s).missiles =
      (Game.missilePass E dt cw ch missiles asteroids t).missiles := by
  induction missiles with
  | nil => simp [Game.missilePass]
  | cons m rest ih =>
    obtain ⟨ha, hm⟩ := ih
    by_cases hoff : (m.update E dt).isOffScreen cw ch = true
    · rw [Game.missilePass_off E dt cw ch m rest asteroids s hoff,
        Game.missilePass_off E dt cw ch m rest asteroids t hoff]
      exact ⟨ha, hm⟩
    · have hon : (m.update E dt).isOffScreen cw ch = false := by simpa using hoff
      cases hj : Game.findHit E (m.update E dt)
          (Game.missilePass E dt cw ch rest asteroids s).asteroids with
      | some j =>
        have hj' := hj
        rw [ha] at hj'
        rw [Game.missilePass_hit E dt cw ch m rest asteroids s hon j hj,
          Game.missilePass_hit E dt cw ch m rest asteroids t hon j hj']
        exact ⟨by simp only [ha], hm⟩
      | none =>
        have hj' := hj
        rw [ha] at hj'
        rw [Game.missilePass_miss E dt cw ch m rest asteroids s hon hj,
          Game.missilePass_miss E dt cw ch m rest asteroids t hon hj']
        exact ⟨ha, by simp only [hm]⟩

theorem Game.missileHits_cons (E : MathEnv) (dt cw ch : ℚ) (m : Missile) (rest : List Missile)
    (asteroids : List Asteroid) (score : ℚ) :
    Game.missileHits E dt cw ch (m :: rest) asteroids =
      Game.missileHits E dt cw ch rest asteroids +
        (if (m.update E dt).isOffScreen cw ch = false ∧
            (Game.findHit E (m.update E dt)
              (Game.missilePass E dt cw ch rest asteroids score).asteroids).isSome = true
         then 1 else 0) := by
  simp only [Game.missileHits, Game.targetsLeft, Game.findHit_any]
  rw [(Game.missilePass_lists E dt cw ch rest asteroids 0 score).1]
  congr 1
  by_cases hoff : (m.update E dt).isOffScreen cw ch = true <;> simp [hoff]

theorem Game.missilePass_hits (E : MathEnv) (dt cw ch : ℚ) (missiles : List Missile)
    (asteroids : List Asteroid) (score : ℚ) :
    (Game.missilePass E dt cw ch missiles asteroids score).asteroids.length +
        Game.missileHits E dt cw ch missiles asteroids = asteroids.length ∧
    (Game.missilePass E dt cw ch missiles asteroids score).score =
      score + 10 * (Game.missileHits E dt cw ch missiles asteroids : ℚ) ∧
    (Game.missilePass E dt cw ch missiles asteroids score).missiles.length +
        Game.missileHits E dt cw ch missiles asteroids ≤ missiles.length ∧
    (Game.missilePass E dt cw ch missiles asteroids score).asteroids.Sublist asteroids := by
  induction missiles with
  | nil => simp [Game.missilePass, Game.missileHits]
  | cons m rest ih =>
    obtain ⟨h1, h2, h3, h4⟩ := ih
    rw [Game.missileHits_cons E dt cw ch m rest asteroids score]
    by_cases hoff : (m.update E dt).isOffScreen cw ch = true
    · rw [Game.missilePass_off E dt cw ch m rest asteroids score hoff]
      simp only [hoff, Bool.true_eq_false, false_and, if_false, add_zero]
      exact ⟨h1, h2, by simp only [List.length_cons]; omega, h4⟩
    · have hon : (m.update E dt).isOffScreen cw ch = false := by simpa using hoff
      cases hj : Game.findHit E (m.update E dt)
          (Game.missilePass E dt cw ch rest asteroids score).asteroids with
      | some j =>
        rw [Game.missilePass_hit E dt cw ch m rest asteroids score hon j hj]
        obtain ⟨hlt, -⟩ := Game.findHit_some E _ _ j hj
        simp only [hon, Option.isSome_some, and_self, if_true]
        refine ⟨?_, ?_, ?_, (List.eraseIdx_sublist _ j).trans h4⟩
        · rw [List.length_eraseIdx_of_lt hlt]
          omega
        · rw [h2]
          push_cast
          ring
        · simp only [List.length_cons]
          omega
      | none =>
        rw [Game.missilePass_miss E dt cw ch m rest asteroids score hon hj]
        simp only [hon, Option.isSome_none, Bool.false_eq_true, and_false, if_false, add_zero]
        exact ⟨h1, h2, by simp only [List.length_cons]; omega, h4⟩

theorem Game.stepMissiles_hits (E : MathEnv) (g : Game) (dt : ℚ) :
    (Game.stepMissiles E g dt).score =
      g.score + 10 * (Game.missileHits E dt g.canvasWidth g.canvasHeight g.missiles
        g.asteroids : ℚ) ∧
    (Game.stepMissiles E g dt).asteroids.length +
      Game.missileHits E dt g.canvasWidth g.canvasHeight g.missiles g.asteroids =
        g.asteroids.length ∧
    (Game.stepMissiles E g dt).missiles.length +
      Game.missileHits E dt g.canvasWidth g.canvasHeight g.missiles g.asteroids ≤
        g.missiles.length := by
  obtain ⟨h1, h2, h3, -⟩ :=
    Game.missilePass_hits E dt g.canvasWidth g.canvasHeight g.missiles g.asteroids g.score
  simp only [Game.stepMissiles]
  exact ⟨h2, h1, h3⟩

theorem Game.updatePlaying_score (E : MathEnv) (g : Game) (input : Input) (dt : ℚ) :
    (Game.updatePlaying E g input dt).game.score =
      g.score + 10 * ((match Game.enterMissilePass E g input dt with
        | some entry =>
          Game.missileHits E dt entry.canvasWidth entry.canvasHeight entry.missiles
            entry.asteroids
        | none => 0 : ℕ) : ℚ) := by
  unfold Game.updatePlaying Game.enterMissilePass
  by_cases hp : input.pause = true
  · simp only [hp, if_true]
    rw [Game.pauseGame_score]
    simp
  · simp only [hp, Bool.false_eq_true, if_false]
    by_cases h1 : (Game.stepProgress E g dt).2 = true
    · simp only [h1, if_true]
      rw [(Game.stepProgress_keeps E g dt).1]
      simp
    · simp only [h1, Bool.false_eq_true, if_false]
      have e1 := (Game.stepProgress_keeps E g dt).1
      have e2 := (Game.stepMotion_keeps E (Game.stepProgress E g dt).1 dt input
        g.appliedScrollSpeed).1
      have e3 := (Game.stepWalls_keeps (Game.stepMotion E (Game.stepProgress E g dt).1 dt input
        g.appliedScrollSpeed)).1
      by_cases h2 : (Game.stepWalls (Game.stepMotion E (Game.stepProgress E g dt).1 dt input
          g.appliedScrollSpeed)).2 = true
      · simp only [h2, if_true]
        rw [e3, e2, e1]
        simp
      · simp only [h2, Bool.false_eq_true, if_false]
        have e4 := (Game.stepSpawnAsteroids_keeps E (Game.stepWalls (Game.stepMotion E
          (Game.stepProgress E g dt).1 dt input g.appliedScrollSpeed)).1 dt).1
        have e5 := (Game.stepMissiles_hits E (Game.stepSpawnAsteroids E (Game.stepWalls
          (Game.stepMotion E (Game.stepProgress E g dt).1 dt input g.appliedScrollSpeed)).1 dt)
          dt).1
        have e6 := (Game.stepAsteroids_keeps E (Game.stepMissiles E (Game.stepSpawnAsteroids E
          (Game.stepWalls (Game.stepMotion E (Game.stepProgress E g dt).1 dt input
            g.appliedScrollSpeed)).1 dt) dt) dt).1
        rw [e4, e3, e2, e1] at e5
        split_ifs
        · rw [e6, e5]; norm_num
        · rw [(Game.stepPickups_keeps E _ dt).1, e6, e5]; norm_num

theorem Game.update_score (E : MathEnv) (g : Game) (input : Input) (dt : ℚ) :
    (Game.update E g input dt).game.score =
      g.score + 10 * (Game.missileKills E g input dt : ℚ) := by
  unfold Game.update Game.missileKills
  by_cases hs : g.state = GameState.playing
  · simp only [hs, if_true]
    exact Game.updatePlaying_score E g input dt
  · simp only [hs, if_false]
    split_ifs
    · rw [Game.updateLanding_score]; simp
    · simp only []; rw [Game.updateLandingSuccessWait_score]; simp
    · simp

theorem Game.run_score (E : MathEnv) (frames : List (Input × ℚ)) :
    ∀ g : Game, (Game.run E g frames).score = g.score + 10 * (Game.killsInRun E g frames : ℚ) := by
  induction frames with
  | nil => intro g; simp [Game.run, Game.killsInRun]
  | cons f rest ih =>
    intro g
    simp only [Game.run, Game.killsInRun]
    split_ifs with ht
    · rw [Game.update_score]; simp
    · rw [ih, Game.update_score]
      push_cast
      ring

/-- Claim C6. Missile kills score exactly 10 each.  (a) In the missile pass a missile that is
still on screen after its move and is closer than `asteroid.size` to an asteroid still in the
list destroys exactly the last such asteroid of the list (index `j`, the first one the
downward loop meets): the asteroids become the list with entry `j` erased, the missile is
dropped, every other missile is kept and the score rises by exactly 10; a missile that is
near none is kept with asteroids and score unchanged; a missile that left the screen is
dropped and changes nothing else.  (b) Over the whole pass the surviving asteroids are a
sublist of the original ones, and with `H` the number of missiles that hit (counted by
`Game.missileHits` from the collision test), the score rises by `10 * H`, exactly `H`
asteroids are removed and at least `H` missiles are used up.  (c) A `Game.update` frame
changes the score by exactly 10 times the missiles that hit in it, and when the frame
reaches the missile pass that number is the number of asteroids the pass removes.  (d) Over
any run of frames the score rises by exactly 10 times the number of missile hits. -/
theorem C6_missile_kills_score_ten (E : MathEnv) :
    (∀ (dt cw ch : ℚ) (m : Missile) (rest : List Missile) (asteroids : List Asteroid)
        (score : ℚ),
      ((m.update E dt).isOffScreen cw ch = false →
        (∃ a ∈ (Game.missilePass E dt cw ch rest asteroids score).asteroids,
          (m.update E dt).checkCollision E a = true) →
        ∃ (j : ℕ) (a : Asteroid),
          (Game.missilePass E dt cw ch rest asteroids score).asteroids[j]? = some a ∧
          (m.update E dt).checkCollision E a = true ∧
          (∀ (k : ℕ) (b : Asteroid), j < k →
            (Game.missilePass E dt cw ch rest asteroids score).asteroids[k]? = some b →
            (m.update E dt).checkCollision E b = false) ∧
          (Game.missilePass E dt cw ch (m :: rest) asteroids score).asteroids =
            (Game.missilePass E dt cw ch rest asteroids score).asteroids.eraseIdx j ∧
          (Game.missilePass E dt cw ch (m :: rest) asteroids score).asteroids.length + 1 =
            (Game.missilePass E dt cw ch rest asteroids score).asteroids.length ∧
          (Game.missilePass E dt cw ch (m :: rest) asteroids score).missiles =
            (Game.missilePass E dt cw ch rest asteroids score).missiles ∧
          (Game.missilePass E dt cw ch (m :: rest) asteroids score).score =
            (Game.missilePass E dt cw ch rest asteroids score).score + 10) ∧
      ((m.update E dt).isOffScreen cw ch = false →
        (∀ a ∈ (Game.missilePass E dt cw ch rest asteroids score).asteroids,
          (m.update E dt).checkCollision E a = false) →
        (Game.missilePass E dt cw ch (m :: rest) asteroids score).missiles =
          m.update E dt :: (Game.missilePass E dt cw ch rest asteroids score).missiles ∧
        (Game.missilePass E dt cw ch (m :: rest) asteroids score).asteroids =
          (Game.missilePass E dt cw ch rest asteroids score).asteroids ∧
        (Game.missilePass E dt cw ch (m :: rest) asteroids score).score =
          (Game.missilePass E dt cw ch rest asteroids score).score) ∧
      ((m.update E dt).isOffScreen cw ch = true →
        Game.missilePass E dt cw ch (m :: rest) asteroids score =
          Game.missilePass E dt cw ch rest asteroids score)) ∧
    (∀ (dt cw ch : ℚ) (missiles : List Missile) (asteroids : List Asteroid) (score : ℚ),
      (Game.missilePass E dt cw ch missiles asteroids score).asteroids.Sublist asteroids ∧
      (Game.missilePass E dt cw ch missiles asteroids score).score =
        score + 10 * (Game.missileHits E dt cw ch missiles asteroids : ℚ) ∧
      (Game.missilePass E dt cw ch missiles asteroids score).asteroids.length +
        Game.missileHits E dt cw ch missiles asteroids = asteroids.length ∧
      (Game.missilePass E dt cw ch missiles asteroids score).missiles.length +
        Game.missileHits E dt cw ch missiles asteroids ≤ missiles.length) ∧
    (∀ (g : Game) (input : Input) (dt : ℚ),
      (Game.update E g input dt).game.score =
        g.score + 10 * (Game.missileKills E g input dt : ℚ) ∧
      ∀ entry : Game, g.state = GameState.playing →
        Game.enterMissilePass E g input dt = some entry →
        (Game.stepMissiles E entry dt).score =
          entry.score + 10 * (Game.missileKills E g input dt : ℚ) ∧
        (Game.stepMissiles E entry dt).asteroids.length + Game.missileKills E g input dt =
          entry.asteroids.length ∧
        (Game.stepMissiles E entry dt).missiles.length + Game.missileKills E g input dt ≤
          entry.missiles.length) ∧
    (∀ (g : Game) (frames : List (Input × ℚ)),
      (Game.run E g frames).score = g.score + 10 * (Game.killsInRun E g frames : ℚ)) := by
  refine ⟨?_, ?_, ?_, fun g frames => Game.run_score E frames g⟩
  · intro dt cw ch m rest asteroids score
    refine ⟨?_, ?_, Game.missilePass_off E dt cw ch m rest asteroids score⟩
    · rintro hon ⟨a, ha, hc⟩
      cases hj : Game.findHit E (m.update E dt)
          (Game.missilePass E dt cw ch rest asteroids score).asteroids with
      | none =>
        have := Game.findHit_none E _ _ hj a ha
        rw [this] at hc
        cases hc
      | some j =>
        obtain ⟨hlt, b, hb, hcb⟩ := Game.findHit_some E _ _ j hj
        rw [Game.missilePass_hit E dt cw ch m rest asteroids score hon j hj]
        refine ⟨j, b, hb, hcb, Game.findHit_last E _ _ j hj, rfl, ?_, rfl, rfl⟩
        simp only []
        rw [List.length_eraseIdx_of_lt hlt]
        omega
    · intro hon hall
      cases hj : Game.findHit E (m.update E dt)
          (Game.missilePass E dt cw ch rest asteroids score).asteroids with
      | none =>
        rw [Game.missilePass_miss E dt cw ch m rest asteroids score hon hj]
        exact ⟨rfl, rfl, rfl⟩
      | some j =>
        obtain ⟨-, a, ha, hc⟩ := Game.findHit_some E _ _ j hj
        have hmem : a ∈ (Game.missilePass E dt cw ch rest asteroids score).asteroids :=
          List.getElem?_mem ha
        rw [hall a hmem] at hc
        cases hc
  · intro dt cw ch missiles asteroids score
    obtain ⟨h1, h2, h3, h4⟩ := Game.missilePass_hits E dt cw ch missiles asteroids score
    exact ⟨h4, h2, h1, h3⟩
  · intro g input dt
    refine ⟨Game.update_score E g input dt, ?_⟩
    intro entry hs he
    have hk : Game.missileKills E g input dt =
        Game.missileHits E dt entry.canvasWidth entry.canvasHeight entry.missiles
          entry.asteroids := by
      simp only [Game.missileKills, hs, if_true, he]
    rw [hk]
    exact Game.stepMissiles_hits E entry dt

/-- Witness for C6: one missile flying into one asteroid is counted as one hit, removes
both and scores 10. -/
theorem C6_missile_kills_score_ten_witness :
    (Game.missilePass sampleMath (1 / 10) 800 600 [Missile.new 400 300 0]
      [{ x := 400, y := 240, size := 20, rotation := 0, rotationSpeed := 0 }] 0).missiles = [] ∧
    (Game.missilePass sampleMath (1 / 10) 800 600 [Missile.new 400 300 0]
      [{ x := 400, y := 240, size := 20, rotation := 0, rotationSpeed := 0 }] 0).asteroids.length
        + 1 = 1 ∧
    (Game.missilePass sampleMath (1 / 10) 800 600 [Missile.new 400 300 0]
      [{ x := 400, y := 240, size := 20, rotation := 0, rotationSpeed := 0 }] 0).score = 10 ∧
    Game.missileHits sampleMath (1 / 10) 800 600 [Missile.new 400 300 0]
      [{ x := 400, y := 240, size := 20, rotation := 0, rotationSpeed := 0 }] = 1 := by
  have h := ((C6_missile_kills_score_ten sampleMath).1 (1 / 10) 800 600 (Missile.new 400 300 0) []
    [{ x := 400, y := 240, size := 20, rotation := 0, rotationSpeed := 0 }] 0).1
    (by simp [Missile.isOffScreen, Missile.update, Missile.new, sampleMath]; norm_num)
    ⟨{ x := 400, y := 240, size := 20, rotation := 0, rotationSpeed := 0 },
      by simp [Game.missilePass],
      by simp [Missile.checkCollision, Missile.update, Missile.new, sampleMath, distance]
         norm_num⟩
  obtain ⟨j, a, -, -, -, -, h2, h1, h4⟩ := h
  have h3 : (Game.missilePass sampleMath (1 / 10) 800 600 [Missile.new 400 300 0]
      [{ x := 400, y := 240, size := 20, rotation := 0, rotationSpeed := 0 }] 0).asteroids.length
        + 1 = 1 := by simpa [Game.missilePass] using h2
  obtain ⟨-, -, h5, -⟩ := (C6_missile_kills_score_ten sampleMath).2.1 (1 / 10) 800 600
    [Missile.new 400 300 0]
    [{ x := 400, y := 240, size := 20, rotation := 0, rotationSpeed := 0 }] 0
  refine ⟨by simpa [Game.missilePass] using h1, h3, ?_, ?_⟩
  · rw [h4]
    simp [Game.missilePass]
  · simp only [List.length_singleton] at h5
    omega

/-! ## Landing frame -/

theorem Rocket.update_landing (E : MathEnv) (r : Rocket) (dt : ℚ) (input : Input)
    (cw ch ss : ℚ) (hm : r.landingMode = true) :
    (r.update E dt input cw ch ss).y =
      ((r.updateRotation E dt input).updateLanding E dt input cw ch).y ∧
    (r.update E dt input cw ch ss).vy =
      ((r.updateRotation E dt input).updateLanding E dt input cw ch).vy ∧
    (r.update E dt input cw ch ss).height = r.height ∧
    (r.update E dt input cw ch ss).width = r.width := by
  have hm' : (r.updateRotation E dt input).landingMode = true := by
    unfold Rocket.updateRotation
    simp only []
    split_ifs <;> exact hm
  have hh : (r.updateRotation E dt input).height = r.height ∧
      (r.updateRotation E dt input).width = r.width := by
    unfold Rocket.updateRotation
    simp only []
    split_ifs <;> exact ⟨rfl, rfl⟩
  unfold Rocket.update
  simp only [hm', if_true]
  refine ⟨rfl, rfl, ?_, ?_⟩
  · rw [← hh.1]; rfl
  · rw [← hh.2]; rfl

theorem Rocket.updateRotation_pos (E : MathEnv) (r : Rocket) (dt : ℚ) (input : Input) :
    (r.updateRotation E dt input).y = r.y ∧ (r.updateRotation E dt input).height = r.height ∧
    (r.updateRotation E dt input).vy = r.vy := by
  unfold Rocket.updateRotation
  simp only []
  split_ifs <;> exact ⟨rfl, rfl, rfl⟩

theorem Rocket.updateLanding_descent (E : MathEnv) (r : Rocket) (dt : ℚ) (input : Input)
    (cw ch : ℚ) (h0 : 0 ≤ dt) (h1 : dt ≤ 1 / 10) (hy : r.height / 2 ≤ r.y)
    (hv : |(r.updateLanding E dt input cw ch).vy| < 50) :
    (r.updateLanding E dt input cw ch).y ≤ r.y + 5 := by
  unfold Rocket.updateLanding at hv ⊢
  simp only [] at hv ⊢
  split_ifs at hv ⊢ with hb hc hc
  · linarith
  · have hlt := (abs_lt.mp hv).2
    nlinarith
  · linarith
  · have hlt := (abs_lt.mp hv).2
    nlinarith

theorem Game.updateLanding_contact (E : MathEnv) (g : Game) (input : Input) (dt : ℚ)
    (pad : LandingPad) (terrain : Terrain)
    (hcrash : g.landingCrashed = false) (hpause : input.pause = false)
    (hpad : g.landingPad = some pad) (hterrain : g.terrain = some terrain)
    (hcontact : terrain.getHeightAt (g.rocket.update E dt input g.canvasWidth g.canvasHeight 0).x ≤
      (g.rocket.update E dt input g.canvasWidth g.canvasHeight 0).y +
        (g.rocket.update E dt input g.canvasWidth g.canvasHeight 0).height / 2) :
    ∃ g2 : Game, g2.state = g.state ∧ g2.landingCrashed = false ∧
      g2.pendingGameOver = g.pendingGameOver ∧
      g2.rocket = g.rocket.update E dt input g.canvasWidth g.canvasHeight 0 ∧
      Game.updateLanding E g input dt =
        (if (pad.checkLanding E g2.rocket).onPad = true then
          (if ((pad.checkLanding E g2.rocket).safeVelocity &&
              (pad.checkLanding E g2.rocket).safeAngle) = true then
            { game := g2.beginLandingSuccessCountdown, thrown := false }
          else
            { game := g2.crashLanding
                (if (pad.checkLanding E g2.rocket).safeVelocity = true then
                  "Ship not level! Angle too steep!"
                 else "Crashed on landing pad! Too fast!"),
              thrown := false })
        else { game := g2.crashLanding "Crashed into the terrain!", thrown := false }) := by
  refine ⟨{ g with
      rocket := g.rocket.update E dt input g.canvasWidth g.canvasHeight 0,
      landingPad := some (pad.update dt),
      shakeDuration := if g.shakeDuration > 0 then g.shakeDuration - dt else g.shakeDuration,
      shakeAmount := if g.shakeDuration > 0 then g.shakeAmount else 0 },
    rfl, hcrash, rfl, rfl, ?_⟩
  unfold Game.updateLanding
  simp only [hcrash, hpause, Bool.false_eq_true, if_false, hpad, hterrain]
  have hge : (g.rocket.update E dt input g.canvasWidth g.canvasHeight 0).y +
      (g.rocket.update E dt input g.canvasWidth g.canvasHeight 0).height / 2 ≥
      terrain.getHeightAt (g.rocket.update E dt input g.canvasWidth g.canvasHeight 0).x :=
    hcontact
  rw [if_pos hge]
  rfl

/-- Claim C7, amended. Successful landing: in the landing phase (not crashed, pause not
pressed, rocket in landing mode with its constructor height 50, below the ceiling clamp, pad
of height 8), for a frame with `0 <= dt <= 0.1` before which the rocket's bottom edge was
above the terrain under it, that terrain already being at the pad's `y` (the rocket was over
the pad plateau), and after whose physics step the bottom edge
`y + height/2` reaches or passes the terrain height at its `x`, that height being the pad's
`y`: if the footprint is within the pad width plus 10 px and `|vy| < 50`, `|vx| < 30`,
`|angle| < PI/12`, then `updateLanding` enters `landingWait` with `landingSuccessTimer = 2`
and does not call `crashLanding`.  `Math.cos` is assumed to lie in `[0.8, 1]` on angles below
15 degrees. -/
theorem C7_successful_landing (E : MathEnv) (g : Game) (input : Input) (dt : ℚ)
    (pad : LandingPad) (terrain : Terrain)
    (hcos : ∀ a : ℚ, |a| < PI / 12 → 4 / 5 ≤ E.cos a ∧ E.cos a ≤ 1)
    (hstate : g.state = GameState.landing) (hcrash : g.landingCrashed = false)
    (hpause : input.pause = false)
    (hpad : g.landingPad = some pad) (hterrain : g.terrain = some terrain)
    (hmode : g.rocket.landingMode = true) (hheight : g.rocket.height = 50)
    (hpadh : pad.height = 8) (hceil : g.rocket.height / 2 ≤ g.rocket.y)
    (hdt0 : 0 ≤ dt) (hdt1 : dt ≤ 1 / 10)
    (hbefore : g.rocket.y + g.rocket.height / 2 < terrain.getHeightAt g.rocket.x)
    (hflat : terrain.getHeightAt g.rocket.x = pad.y)
    (hcontact : terrain.getHeightAt (g.rocket.update E dt input g.canvasWidth g.canvasHeight 0).x ≤
      (g.rocket.update E dt input g.canvasWidth g.canvasHeight 0).y +
        (g.rocket.update E dt input g.canvasWidth g.canvasHeight 0).height / 2)
    (hlevel : terrain.getHeightAt
      (g.rocket.update E dt input g.canvasWidth g.canvasHeight 0).x = pad.y)
    (hleft : pad.x - pad.width / 2 - 10 ≤
      (g.rocket.update E dt input g.canvasWidth g.canvasHeight 0).x -
        (g.rocket.update E dt input g.canvasWidth g.canvasHeight 0).width / 2)
    (hright : (g.rocket.update E dt input g.canvasWidth g.canvasHeight 0).x +
        (g.rocket.update E dt input g.canvasWidth g.canvasHeight 0).width / 2 ≤
      pad.x + pad.width / 2 + 10)
    (hvy : |(g.rocket.update E dt input g.canvasWidth g.canvasHeight 0).vy| < 50)
    (hvx : |(g.rocket.update E dt input g.canvasWidth g.canvasHeight 0).vx| < 30)
    (hangle : |(g.rocket.update E dt input g.canvasWidth g.canvasHeight 0).angle| < PI / 12) :
    (Game.updateLanding E g input dt).game.state = GameState.landingWait ∧
    (Game.updateLanding E g input dt).game.landingSuccessTimer = 2 ∧
    (Game.updateLanding E g input dt).game.landingCrashed = false ∧
    (Game.updateLanding E g input dt).game.pendingGameOver = g.pendingGameOver ∧
    (Game.updateLanding E g input dt).thrown = false := by
  obtain ⟨g2, hs2, hc2, hp2, hr2, hres⟩ :=
    Game.updateLanding_contact E g input dt pad terrain hcrash hpause hpad hterrain hcontact
  obtain ⟨ey, evy, eh, -⟩ :=
    Rocket.update_landing E g.rocket dt input g.canvasWidth g.canvasHeight 0 hmode
  obtain ⟨py, ph, -⟩ := Rocket.updateRotation_pos E g.rocket dt input
  have hdesc : (g.rocket.update E dt input g.canvasWidth g.canvasHeight 0).y ≤
      g.rocket.y + 5 := by
    rw [ey, ← py]
    apply Rocket.updateLanding_descent E _ dt input _ _ hdt0 hdt1
    · rw [ph, py]; exact hceil
    · rw [← evy]; exact hvy
  obtain ⟨hc1, hc2'⟩ := hcos _ hangle
  rw [hlevel] at hcontact
  rw [hflat] at hbefore
  rw [eh, hheight] at hcontact
  rw [hheight] at hbefore
  have honPad : (pad.checkLanding E g2.rocket).onPad = true := by
    rw [hr2]
    simp only [LandingPad.checkLanding, Bool.and_eq_true, decide_eq_true_eq, ge_iff_le]
    rw [eh, hheight, hpadh]
    refine ⟨⟨⟨?_, ?_⟩, hleft⟩, hright⟩
    · nlinarith
    · nlinarith
  have hsafeV : (pad.checkLanding E g2.rocket).safeVelocity = true := by
    rw [hr2]
    simp only [LandingPad.checkLanding, Bool.and_eq_true, decide_eq_true_eq]
    exact ⟨hvy, hvx⟩
  have hsafeA : (pad.checkLanding E g2.rocket).safeAngle = true := by
    rw [hr2]
    simp only [LandingPad.checkLanding, decide_eq_true_eq]
    exact hangle
  rw [hres, if_pos honPad, hsafeV, hsafeA]
  have hnw : ¬ g2.state = GameState.landingWait := by
    rw [hs2, hstate]; decide
  simp only [Bool.and_self, if_true, Game.beginLandingSuccessCountdown, hnw, if_false]
  exact ⟨trivial, trivial, hc2, hp2, trivial⟩

theorem normalizeAngle_zero : normalizeAngle 0 = 0 :=
  normalizeAngle_of_mem 0 (by have := PI_pos; linarith) (le_of_lt PI_pos)

theorem sampleMath_cos (a : ℚ) (h : |a| < PI / 12) :
    4 / 5 ≤ sampleMath.cos a ∧ sampleMath.cos a ≤ 1 := by
  have hP : PI / 12 < 1 / 2 := by unfold PI; norm_num
  obtain ⟨h1, h2⟩ := abs_lt.mp h
  simp only [sampleMath]
  constructor <;> nlinarith

theorem sampleLanding_step (y vx vy : ℚ) (hx1 : ¬ (399 + vx * (999 / 1000) * (1 / 10) < 15))
    (hx2 : ¬ (399 + vx * (999 / 1000) * (1 / 10) > 800 - 15))
    (hy : ¬ (y + (vy + 5) * (999 / 1000) * (1 / 10) < 25)) :
    ((sampleLanding y vx vy).rocket.update sampleMath (1 / 10) noInput 800 600 0).x =
      399 + vx * (999 / 1000) * (1 / 10) ∧
    ((sampleLanding y vx vy).rocket.update sampleMath (1 / 10) noInput 800 600 0).y =
      y + (vy + 5) * (999 / 1000) * (1 / 10) ∧
    ((sampleLanding y vx vy).rocket.update sampleMath (1 / 10) noInput 800 600 0).vx =
      vx * (999 / 1000) ∧
    ((sampleLanding y vx vy).rocket.update sampleMath (1 / 10) noInput 800 600 0).vy =
      (vy + 5) * (999 / 1000) ∧
    ((sampleLanding y vx vy).rocket.update sampleMath (1 / 10) noInput 800 600 0).angle = 0 ∧
    ((sampleLanding y vx vy).rocket.update sampleMath (1 / 10) noInput 800 600 0).height = 50 ∧
    ((sampleLanding y vx vy).rocket.update sampleMath (1 / 10) noInput 800 600 0).width = 30 := by
  have hP := PI_pos
  have hrot : Rocket.updateRotation sampleMath (sampleLanding y vx vy).rocket (1 / 10) noInput =
      (sampleLanding y vx vy).rocket := by
    have ht : Rocket.turnRate sampleMath (sampleLanding y vx vy).rocket (1 / 10) noInput = 0 := by
      simp only [Rocket.turnRate, clamp, sampleMath, noInput, sampleLanding, Rocket.new,
        Bool.false_eq_true, if_false]
      rw [min_eq_right (by norm_num), max_eq_right (by norm_num)]
      norm_num
    have hi : Rocket.integratedAngle sampleMath (sampleLanding y vx vy).rocket (1 / 10)
        noInput = 0 := by
      unfold Rocket.integratedAngle
      rw [ht]
      simp [sampleLanding, Rocket.new, normalizeAngle_zero]
    unfold Rocket.updateRotation
    simp only [hi, ht]
    rw [if_neg (by linarith), if_neg (by linarith)]
    rfl
  have hx1' : ¬ (399 + vx * (999 / 1000) * (1 / 10) < 30 / 2) := by norm_num at hx1 ⊢; exact hx1
  have hx2' : ¬ (399 + vx * (999 / 1000) * (1 / 10) > 800 - 30 / 2) := by
    norm_num at hx2 ⊢; exact hx2
  have hy' : ¬ (y + (vy + 50 * (1 / 10)) * (999 / 1000) * (1 / 10) < 50 / 2) := by
    norm_num at hy ⊢; exact hy
  unfold Rocket.update
  rw [hrot]
  simp only [Rocket.updateTimers, Rocket.updateLanding, sampleLanding, Rocket.new, noInput,
    Bool.and_false, Bool.false_eq_true, if_false, if_true, if_neg hx1', if_neg hx2', if_neg hy']
  norm_num

theorem sampleTerrain_height (x : ℚ) (h0 : 0 ≤ x) (h1 : x ≤ 800) :
    sampleTerrain.getHeightAt x = 520 := by
  simp [Terrain.getHeightAt, Terrain.heightIn, sampleTerrain, lerp, h0, h1]

/-- Witness for C7: the spec's example.  The step ends with `vy = 40`, `vx = 10`,
`angle = 0` over the pad centre, 1 px below the pad surface, and the landing succeeds. -/
theorem C7_successful_landing_witness :
    ((sampleLanding 492 (10000 / 999) (40000 / 999 - 5)).rocket.update sampleMath (1 / 10)
      noInput 800 600 0).vy = 40 ∧
    ((sampleLanding 492 (10000 / 999) (40000 / 999 - 5)).rocket.update sampleMath (1 / 10)
      noInput 800 600 0).vx = 10 ∧
    ((sampleLanding 492 (10000 / 999) (40000 / 999 - 5)).rocket.update sampleMath (1 / 10)
      noInput 800 600 0).x = 400 ∧
    (Game.updateLanding sampleMath (sampleLanding 492 (10000 / 999) (40000 / 999 - 5)) noInput
      (1 / 10)).game.state = GameState.landingWait ∧
    (Game.updateLanding sampleMath (sampleLanding 492 (10000 / 999) (40000 / 999 - 5)) noInput
      (1 / 10)).game.landingSuccessTimer = 2 ∧
    (Game.updateLanding sampleMath (sampleLanding 492 (10000 / 999) (40000 / 999 - 5)) noInput
      (1 / 10)).game.landingCrashed = false := by
  obtain ⟨ex, ey, evx, evy, ea, eh, ew⟩ :=
    sampleLanding_step 492 (10000 / 999) (40000 / 999 - 5) (by norm_num) (by norm_num)
      (by norm_num)
  have hx : ((sampleLanding 492 (10000 / 999) (40000 / 999 - 5)).rocket.update sampleMath
      (1 / 10) noInput 800 600 0).x = 400 := by rw [ex]; norm_num
  have hy : ((sampleLanding 492 (10000 / 999) (40000 / 999 - 5)).rocket.update sampleMath
      (1 / 10) noInput 800 600 0).y = 496 := by rw [ey]; norm_num
  have hvx : ((sampleLanding 492 (10000 / 999) (40000 / 999 - 5)).rocket.update sampleMath
      (1 / 10) noInput 800 600 0).vx = 10 := by rw [evx]; norm_num
  have hvy : ((sampleLanding 492 (10000 / 999) (40000 / 999 - 5)).rocket.update sampleMath
      (1 / 10) noInput 800 600 0).vy = 40 := by rw [evy]; norm_num
  have hT400 := sampleTerrain_height 400 (by norm_num) (by norm_num)
  have hT399 := sampleTerrain_height 399 (by norm_num) (by norm_num)
  have hP := PI_pos
  have h := C7_successful_landing sampleMath (sampleLanding 492 (10000 / 999) (40000 / 999 - 5))
    noInput (1 / 10) (LandingPad.new 400 520 100) sampleTerrain sampleMath_cos rfl rfl rfl rfl rfl
    rfl rfl rfl
    (by simp only [sampleLanding, Rocket.new]; norm_num) (by norm_num) (by norm_num)
    (by
      show (492 : ℚ) + 50 / 2 < sampleTerrain.getHeightAt 399
      rw [hT399]; norm_num)
    (by
      show sampleTerrain.getHeightAt 399 = 520
      exact hT399)
    (by
      show sampleTerrain.getHeightAt ((sampleLanding 492 (10000 / 999)
        (40000 / 999 - 5)).rocket.update sampleMath (1 / 10) noInput 800 600 0).x ≤ _
      rw [hx, hT400]
      show (520 : ℚ) ≤ ((sampleLanding 492 (10000 / 999) (40000 / 999 - 5)).rocket.update
        sampleMath (1 / 10) noInput 800 600 0).y + ((sampleLanding 492 (10000 / 999)
        (40000 / 999 - 5)).rocket.update sampleMath (1 / 10) noInput 800 600 0).height / 2
      rw [hy, eh]; norm_num)
    (by
      show sampleTerrain.getHeightAt ((sampleLanding 492 (10000 / 999)
        (40000 / 999 - 5)).rocket.update sampleMath (1 / 10) noInput 800 600 0).x = 520
      rw [hx, hT400])
    (by
      show (400 : ℚ) - 100 / 2 - 10 ≤ ((sampleLanding 492 (10000 / 999)
        (40000 / 999 - 5)).rocket.update sampleMath (1 / 10) noInput 800 600 0).x -
        ((sampleLanding 492 (10000 / 999) (40000 / 999 - 5)).rocket.update sampleMath (1 / 10)
          noInput 800 600 0).width / 2
      rw [hx, ew]; norm_num)
    (by
      show ((sampleLanding 492 (10000 / 999) (40000 / 999 - 5)).rocket.update sampleMath
        (1 / 10) noInput 800 600 0).x + ((sampleLanding 492 (10000 / 999)
        (40000 / 999 - 5)).rocket.update sampleMath (1 / 10) noInput 800 600 0).width / 2 ≤
        (400 : ℚ) + 100 / 2 + 10
      rw [hx, ew]; norm_num)
    (by
      show |((sampleLanding 492 (10000 / 999) (40000 / 999 - 5)).rocket.update sampleMath
        (1 / 10) noInput 800 600 0).vy| < 50
      rw [hvy]; norm_num)
    (by
      show |((sampleLanding 492 (10000 / 999) (40000 / 999 - 5)).rocket.update sampleMath
        (1 / 10) noInput 800 600 0).vx| < 30
      rw [hvx]; norm_num)
    (by
      show |((sampleLanding 492 (10000 / 999) (40000 / 999 - 5)).rocket.update sampleMath
        (1 / 10) noInput 800 600 0).angle| < PI / 12
      rw [ea]; simp only [abs_zero]; linarith)
  exact ⟨hvy, hvx, hx, h.1, h.2.1, h.2.2.1⟩

/-- Claim C8. Landing crash reason: when terrain contact is detected in `updateLanding`
(landing phase, not yet crashed, pause not pressed), then (a) `onPad` with an unsafe velocity
(`|vy| >= 50` or `|vx| >= 30`) crashes with 'Crashed on landing pad! Too fast!' whatever the
angle, (b) `onPad` with a safe velocity and `|angle| >= PI/12` crashes with
'Ship not level! Angle too steep!', (c) `onPad` false crashes with
'Crashed into the terrain!'; in each case `landingCrashed` becomes true, the state stays
`landing` (not `landingWait`), and the scheduled `gameOver` reports that reason. -/
theorem C8_landing_crash_reason (E : MathEnv) (g : Game) (input : Input) (dt : ℚ)
    (pad : LandingPad) (terrain : Terrain)
    (hstate : g.state = GameState.landing) (hcrash : g.landingCrashed = false)
    (hpause : input.pause = false)
    (hpad : g.landingPad = some pad) (hterrain : g.terrain = some terrain)
    (hcontact : terrain.getHeightAt (g.rocket.update E dt input g.canvasWidth g.canvasHeight 0).x ≤
      (g.rocket.update E dt input g.canvasWidth g.canvasHeight 0).y +
        (g.rocket.update E dt input g.canvasWidth g.canvasHeight 0).height / 2) :
    ((pad.checkLanding E (g.rocket.update E dt input g.canvasWidth g.canvasHeight 0)).onPad = true →
      (50 ≤ |(g.rocket.update E dt input g.canvasWidth g.canvasHeight 0).vy| ∨
        30 ≤ |(g.rocket.update E dt input g.canvasWidth g.canvasHeight 0).vx|) →
      (Game.updateLanding E g input dt).game.pendingGameOver =
        some "Crashed on landing pad! Too fast!" ∧
      (Game.updateLanding E g input dt).game.firePendingGameOver.deathReason =
        "Crashed on landing pad! Too fast!" ∧
      (Game.updateLanding E g input dt).game.landingCrashed = true ∧
      (Game.updateLanding E g input dt).game.state = GameState.landing) ∧
    ((pad.checkLanding E (g.rocket.update E dt input g.canvasWidth g.canvasHeight 0)).onPad = true →
      |(g.rocket.update E dt input g.canvasWidth g.canvasHeight 0).vy| < 50 →
      |(g.rocket.update E dt input g.canvasWidth g.canvasHeight 0).vx| < 30 →
      PI / 12 ≤ |(g.rocket.update E dt input g.canvasWidth g.canvasHeight 0).angle| →
      (Game.updateLanding E g input dt).game.pendingGameOver =
        some "Ship not level! Angle too steep!" ∧
      (Game.updateLanding E g input dt).game.firePendingGameOver.deathReason =
        "Ship not level! Angle too steep!" ∧
      (Game.updateLanding E g input dt).game.landingCrashed = true ∧
      (Game.updateLanding E g input dt).game.state = GameState.landing) ∧
    ((pad.checkLanding E (g.rocket.update E dt input g.canvasWidth g.canvasHeight 0)).onPad = false →
      (Game.updateLanding E g input dt).game.pendingGameOver =
        some "Crashed into the terrain!" ∧
      (Game.updateLanding E g input dt).game.firePendingGameOver.deathReason =
        "Crashed into the terrain!" ∧
      (Game.updateLanding E g input dt).game.landingCrashed = true ∧
      (Game.updateLanding E g input dt).game.state = GameState.landing) := by
  obtain ⟨g2, hs2, -, -, hr2, hres⟩ :=
    Game.updateLanding_contact E g input dt pad terrain hcrash hpause hpad hterrain hcontact
  rw [hres, hr2]
  refine ⟨?_, ?_, ?_⟩
  · intro hon hfast
    have hv : (pad.checkLanding E
        (g.rocket.update E dt input g.canvasWidth g.canvasHeight 0)).safeVelocity = false := by
      simp only [LandingPad.checkLanding, Bool.and_eq_false_imp, decide_eq_true_eq,
        decide_eq_false_iff_not, not_lt]
      intro hvy
      rcases hfast with h | h
      · exact absurd hvy (not_lt.mpr h)
      · exact h
    rw [if_pos hon, hv]
    simp only [Bool.false_and, Bool.false_eq_true, if_false, Game.crashLanding,
      Game.firePendingGameOver, Game.gameOver]
    exact ⟨trivial, trivial, trivial, hs2.trans hstate⟩
  · intro hon hvy hvx hang
    have hv : (pad.checkLanding E
        (g.rocket.update E dt input g.canvasWidth g.canvasHeight 0)).safeVelocity = true := by
      simp only [LandingPad.checkLanding, Bool.and_eq_true, decide_eq_true_eq]
      exact ⟨hvy, hvx⟩
    have ha : (pad.checkLanding E
        (g.rocket.update E dt input g.canvasWidth g.canvasHeight 0)).safeAngle = false := by
      simp only [LandingPad.checkLanding, decide_eq_false_iff_not, not_lt]
      exact hang
    rw [if_pos hon, hv, ha]
    simp only [Bool.and_false, Bool.false_eq_true, if_false, if_true, Game.crashLanding,
      Game.firePendingGameOver, Game.gameOver]
    exact ⟨trivial, trivial, trivial, hs2.trans hstate⟩
  · intro hoff
    rw [hoff]
    simp only [Bool.false_eq_true, if_false, Game.crashLanding, Game.firePendingGameOver,
      Game.gameOver]
    exact ⟨trivial, trivial, trivial, hs2.trans hstate⟩

theorem Game.updateLanding_terrain_crash (E : MathEnv) (g : Game) (input : Input) (dt : ℚ)
    (pad : LandingPad) (terrain : Terrain)
    (hcrash : g.landingCrashed = false) (hpause : input.pause = false)
    (hpad : g.landingPad = some pad) (hterrain : g.terrain = some terrain)
    (hcontact : terrain.getHeightAt (g.rocket.update E dt input g.canvasWidth g.canvasHeight 0).x ≤
      (g.rocket.update E dt input g.canvasWidth g.canvasHeight 0).y +
        (g.rocket.update E dt input g.canvasWidth g.canvasHeight 0).height / 2)
    (hoff : (pad.checkLanding E
      (g.rocket.update E dt input g.canvasWidth g.canvasHeight 0)).onPad = false) :
    (Game.updateLanding E g input dt).game.pendingGameOver = some "Crashed into the terrain!" ∧
    (Game.updateLanding E g input dt).game.landingCrashed = true ∧
    (Game.updateLanding E g input dt).game.state = g.state := by
  obtain ⟨g2, hs2, -, -, hr2, hres⟩ :=
    Game.updateLanding_contact E g input dt pad terrain hcrash hpause hpad hterrain hcontact
  rw [hres, hr2, hoff]
  simp only [Bool.false_eq_true, if_false, Game.crashLanding]
  exact ⟨trivial, trivial, hs2⟩

theorem Rocket.updateRotation_rest (E : MathEnv) (r : Rocket) (dt : ℚ) (input : Input)
    (ha : r.angle = 0) (hv : r.angularVelocity = 0) (hl : input.left = false)
    (hr : input.right = false) : r.updateRotation E dt input = r := by
  have hP := PI_pos
  have ht : r.turnRate E dt input = 0 := by
    simp only [Rocket.turnRate, clamp, hv, hl, hr, Bool.false_eq_true, if_false]
    rw [min_eq_right (by norm_num), max_eq_right (by norm_num)]
    norm_num
  have hi : r.integratedAngle E dt input = 0 := by
    unfold Rocket.integratedAngle
    rw [ht, ha]
    simp [normalizeAngle_zero]
  unfold Rocket.updateRotation
  simp only [hi, ht]
  rw [if_neg (by linarith), if_neg (by linarith)]
  cases r
  simp only [Rocket.mk.injEq, and_true, true_and] at ha hv ⊢
  exact ⟨ha.symm, hv.symm⟩

theorem ceil_100_12 : ⌈(100 : ℚ) / 12⌉ = 9 := by
  rw [Int.ceil_eq_iff]
  constructor <;> norm_num

theorem smallPoints_smooth : Terrain.smoothPass 50 100 smallPoints = smallPoints := by
  have hr : List.range 9 = [0, 1, 2, 3, 4, 5, 6, 7, 8] := by decide
  simp only [Terrain.smoothPass, smallPoints, List.length_cons, List.length_nil]
  norm_num [hr, Terrain.smoothAt]

theorem smallTerrain_samples (rng : ℕ) :
    (Terrain.samples lowMath 100 160 50 100 rng 11).1 = smallPoints := by
  have hr : List.range 11 = [0, 1, 2, 3, 4, 5, 6, 7, 8, 9, 10] := by decide
  simp only [Terrain.samples, hr, List.foldl]
  norm_num [Terrain.sample, lowMath, sampleMath, random, smallPoints]

theorem smallTerrain_points (rng : ℕ) :
    (Terrain.new lowMath rng 100 160 50 100).1.points = smallPoints := by
  unfold Terrain.new
  simp only [ceil_100_12]
  have h11 : ((9 : ℤ) + 1 + 1).toNat = 11 := by decide
  rw [h11, smallTerrain_samples, smallPoints_smooth, smallPoints_smooth]

theorem smallLanding_terrain :
    ∃ t : Terrain, smallLanding.terrain = some t ∧ t.getHeightAt (-50) = 160 ∧
      t.getHeightAt 15 = 80 := by
  refine ⟨(Terrain.new lowMath 2 100 160 (100 / 2) 100).1, rfl, ?_, ?_⟩
  · have hp : (Terrain.new lowMath 2 100 160 (100 / 2) 100).1.points = smallPoints := by
      have h50 : (100 : ℚ) / 2 = 50 := by norm_num
      rw [h50]
      exact smallTerrain_points 2
    have hc : (Terrain.new lowMath 2 100 160 (100 / 2) 100).1.canvasHeight = 160 := rfl
    unfold Terrain.getHeightAt
    rw [hp, hc]
    norm_num [Terrain.heightIn, smallPoints]
  · have hp : (Terrain.new lowMath 2 100 160 (100 / 2) 100).1.points = smallPoints := by
      have h50 : (100 : ℚ) / 2 = 50 := by norm_num
      rw [h50]
      exact smallTerrain_points 2
    unfold Terrain.getHeightAt
    rw [hp]
    norm_num [Terrain.heightIn, smallPoints, lerp]

theorem smallLanding_step :
    smallLanding.rocket.x = -50 ∧ smallLanding.rocket.y = 80 ∧
    smallLanding.rocket.height = 50 ∧
    (smallLanding.rocket.update lowMath (1 / 10) noInput 100 160 0).x = 15 ∧
    (smallLanding.rocket.update lowMath (1 / 10) noInput 100 160 0).y = 160999 / 2000 ∧
    (smallLanding.rocket.update lowMath (1 / 10) noInput 100 160 0).vx = 2997 / 500 ∧
    (smallLanding.rocket.update lowMath (1 / 10) noInput 100 160 0).vy = 999 / 200 ∧
    (smallLanding.rocket.update lowMath (1 / 10) noInput 100 160 0).angle = 0 ∧
    (smallLanding.rocket.update lowMath (1 / 10) noInput 100 160 0).height = 50 ∧
    (smallLanding.rocket.update lowMath (1 / 10) noInput 100 160 0).width = 30 := by
  have hrot : Rocket.updateRotation lowMath smallLanding.rocket (1 / 10) noInput =
      smallLanding.rocket :=
    Rocket.updateRotation_rest lowMath smallLanding.rocket (1 / 10) noInput rfl rfl rfl rfl
  unfold Rocket.update
  rw [hrot]
  simp only [Rocket.updateTimers, Rocket.updateLanding, smallLanding, Game.startLandingPhase,
    Rocket.startLanding, Game.new, Game.startGame, Rocket.new, noInput, random, lowMath,
    sampleMath, Bool.and_false, Bool.false_eq_true, if_false, if_true]
  norm_num

/-- Counterexample to C7 as stated: on a 100 x 160 canvas the rocket spawns left of the
canvas at `x = -50`, where `getHeightAt` falls back to the canvas height 160, so its bottom
edge (105) is above the terrain before the first frame.  The frame (`dt = 0.1`) moves it to
the left wall at `x = 15`, where the terrain is the pad plateau (80 = pad `y`): contact holds,
the footprint is within the pad plus 10 px, `|vy| < 50`, `|vx| < 30`, `angle = 0`; but the
bottom edge is 25.5 px below the pad surface, `onPad` is false and the frame crashes with
'Crashed into the terrain!' instead of entering `landingWait`. -/
theorem C7_counterexample :
    smallLanding.state = GameState.landing ∧ smallLanding.landingCrashed = false ∧
    smallLanding.landingPad = some (LandingPad.new (100 / 2) (160 - 80) 100) ∧
    (∃ t : Terrain, smallLanding.terrain = some t ∧
      smallLanding.rocket.y + smallLanding.rocket.height / 2 <
        t.getHeightAt smallLanding.rocket.x ∧
      t.getHeightAt (smallLanding.rocket.update lowMath (1 / 10) noInput 100 160 0).x ≤
        (smallLanding.rocket.update lowMath (1 / 10) noInput 100 160 0).y +
          (smallLanding.rocket.update lowMath (1 / 10) noInput 100 160 0).height / 2 ∧
      t.getHeightAt (smallLanding.rocket.update lowMath (1 / 10) noInput 100 160 0).x =
        160 - 80) ∧
    (100 : ℚ) / 2 - 100 / 2 - 10 ≤
      (smallLanding.rocket.update lowMath (1 / 10) noInput 100 160 0).x -
        (smallLanding.rocket.update lowMath (1 / 10) noInput 100 160 0).width / 2 ∧
    (smallLanding.rocket.update lowMath (1 / 10) noInput 100 160 0).x +
        (smallLanding.rocket.update lowMath (1 / 10) noInput 100 160 0).width / 2 ≤
      (100 : ℚ) / 2 + 100 / 2 + 10 ∧
    |(smallLanding.rocket.update lowMath (1 / 10) noInput 100 160 0).vy| < 50 ∧
    |(smallLanding.rocket.update lowMath (1 / 10) noInput 100 160 0).vx| < 30 ∧
    |(smallLanding.rocket.update lowMath (1 / 10) noInput 100 160 0).angle| < PI / 12 ∧
    (Game.updateLanding lowMath smallLanding noInput (1 / 10)).game.state ≠
      GameState.landingWait ∧
    (Game.updateLanding lowMath smallLanding noInput (1 / 10)).game.landingCrashed = true ∧
    (Game.updateLanding lowMath smallLanding noInput (1 / 10)).game.pendingGameOver =
      some "Crashed into the terrain!" := by
  obtain ⟨t, ht, hT50, hT15⟩ := smallLanding_terrain
  obtain ⟨e0x, e0y, e0h, ex, ey, evx, evy, ea, eh, ew⟩ := smallLanding_step
  have hP := PI_pos
  have hcontact : t.getHeightAt
      (smallLanding.rocket.update lowMath (1 / 10) noInput smallLanding.canvasWidth
        smallLanding.canvasHeight 0).x ≤
      (smallLanding.rocket.update lowMath (1 / 10) noInput smallLanding.canvasWidth
        smallLanding.canvasHeight 0).y +
      (smallLanding.rocket.update lowMath (1 / 10) noInput smallLanding.canvasWidth
        smallLanding.canvasHeight 0).height / 2 := by
    show t.getHeightAt (smallLanding.rocket.update lowMath (1 / 10) noInput 100 160 0).x ≤
      (smallLanding.rocket.update lowMath (1 / 10) noInput 100 160 0).y +
      (smallLanding.rocket.update lowMath (1 / 10) noInput 100 160 0).height / 2
    rw [ex, ey, eh, hT15]; norm_num
  have hoff : (LandingPad.checkLanding lowMath (LandingPad.new (100 / 2) (160 - 80) 100)
      (smallLanding.rocket.update lowMath (1 / 10) noInput smallLanding.canvasWidth
        smallLanding.canvasHeight 0)).onPad = false := by
    show (LandingPad.checkLanding lowMath (LandingPad.new (100 / 2) (160 - 80) 100)
      (smallLanding.rocket.update lowMath (1 / 10) noInput 100 160 0)).onPad = false
    simp only [LandingPad.checkLanding, ex, ey, eh, ew, ea, LandingPad.new]
    simp only [lowMath, sampleMath]
    norm_num
  have h := Game.updateLanding_terrain_crash lowMath smallLanding noInput (1 / 10)
    (LandingPad.new (100 / 2) (160 - 80) 100) t rfl rfl rfl ht hcontact hoff
  refine ⟨rfl, rfl, rfl, ⟨t, ht, ?_, ?_, ?_⟩, ?_, ?_, ?_, ?_, ?_, ?_, h.2.1, h.1⟩
  · rw [e0x, e0y, e0h, hT50]; norm_num
  · rw [ex, ey, eh, hT15]; norm_num
  · rw [ex, hT15]; norm_num
  · rw [ex, ew]; norm_num
  · rw [ex, ew]; norm_num
  · rw [evy]; norm_num [abs_lt]
  · rw [evx]; norm_num [abs_lt]
  · rw [ea]; simp only [abs_zero]; linarith
  · rw [h.2.2]; decide

/-- Witness for C8: the spec's example.  Contact over the pad centre with `vy = 80`,
`vx = 10`, `angle = 0` crashes with the 'too fast' reason. -/
theorem C8_landing_crash_reason_witness :
    ((sampleLanding 488 (10000 / 999) (80000 / 999 - 5)).rocket.update sampleMath (1 / 10)
      noInput 800 600 0).vy = 80 ∧
    (Game.updateLanding sampleMath (sampleLanding 488 (10000 / 999) (80000 / 999 - 5)) noInput
      (1 / 10)).game.pendingGameOver = some "Crashed on landing pad! Too fast!" ∧
    (Game.updateLanding sampleMath (sampleLanding 488 (10000 / 999) (80000 / 999 - 5)) noInput
      (1 / 10)).game.landingCrashed = true ∧
    (Game.updateLanding sampleMath (sampleLanding 488 (10000 / 999) (80000 / 999 - 5)) noInput
      (1 / 10)).game.state = GameState.landing := by
  obtain ⟨ex, ey, evx, evy, ea, eh, ew⟩ :=
    sampleLanding_step 488 (10000 / 999) (80000 / 999 - 5) (by norm_num) (by norm_num)
      (by norm_num)
  have hx : ((sampleLanding 488 (10000 / 999) (80000 / 999 - 5)).rocket.update sampleMath
      (1 / 10) noInput 800 600 0).x = 400 := by rw [ex]; norm_num
  have hy : ((sampleLanding 488 (10000 / 999) (80000 / 999 - 5)).rocket.update sampleMath
      (1 / 10) noInput 800 600 0).y = 496 := by rw [ey]; norm_num
  have hvy : ((sampleLanding 488 (10000 / 999) (80000 / 999 - 5)).rocket.update sampleMath
      (1 / 10) noInput 800 600 0).vy = 80 := by rw [evy]; norm_num
  have hT400 := sampleTerrain_height 400 (by norm_num) (by norm_num)
  have h := (C8_landing_crash_reason sampleMath
    (sampleLanding 488 (10000 / 999) (80000 / 999 - 5)) noInput (1 / 10)
    (LandingPad.new 400 520 100) sampleTerrain rfl rfl rfl rfl rfl
    (by
      show sampleTerrain.getHeightAt ((sampleLanding 488 (10000 / 999)
        (80000 / 999 - 5)).rocket.update sampleMath (1 / 10) noInput 800 600 0).x ≤
        ((sampleLanding 488 (10000 / 999) (80000 / 999 - 5)).rocket.update
        sampleMath (1 / 10) noInput 800 600 0).y + ((sampleLanding 488 (10000 / 999)
        (80000 / 999 - 5)).rocket.update sampleMath (1 / 10) noInput 800 600 0).height / 2
      rw [hx, hT400, hy, eh]; norm_num)).1
    (by
      show (LandingPad.checkLanding sampleMath (LandingPad.new 400 520 100)
        ((sampleLanding 488 (10000 / 999) (80000 / 999 - 5)).rocket.update sampleMath (1 / 10)
          noInput 800 600 0)).onPad = true
      simp only [LandingPad.checkLanding, hx, hy, eh, ew, ea, LandingPad.new]
      simp only [sampleMath]
      norm_num)
    (Or.inl (by
      show (50 : ℚ) ≤ |((sampleLanding 488 (10000 / 999) (80000 / 999 - 5)).rocket.update
        sampleMath (1 / 10) noInput 800 600 0).vy|
      rw [hvy]; norm_num))
  exact ⟨hvy, h.1, h.2.2.1, h.2.2.2⟩

/-! ## Level progress -/

theorem Game.spawnAsteroid_levelDistance (E : MathEnv) (g : Game) (yo : Option ℚ) :
    (Game.spawnAsteroid E g yo).levelDistance = g.levelDistance := by
  simp [Game.spawnAsteroid]

theorem Game.seedAsteroids_levelDistance (E : MathEnv) (g : Game) (target : ℕ) :
    (Game.seedAsteroids E g target).levelDistance = g.levelDistance := by
  unfold Game.seedAsteroids
  apply foldl_invariant _ (fun acc : Game => acc.levelDistance = g.levelDistance)
  · intro b a hb
    exact (Game.spawnAsteroid_levelDistance E _ _).trans hb
  · rfl

theorem Game.nextLevel_normal (E : MathEnv) (g : Game)
    (h : (g.level + 1) % g.checkpointLevel ≠ 0) :
    (Game.nextLevel E g).state = g.state ∧
    (Game.nextLevel E g).level = g.level + 1 ∧
    (Game.nextLevel E g).levelDistance = 0 ∧
    (Game.nextLevel E g).corridor = g.corridor.setDifficulty (g.level + 1) ∧
    (Game.nextLevel E g).asteroids.length =
      (if g.level + 1 < 3 then 0 else 5 + (g.level + 1 - 3) * 3) := by
  unfold Game.nextLevel
  simp only [h, if_false]
  split_ifs with h2 h3 h3
  · exfalso
    simp only [Game.getAsteroidTargetCount, h3, if_true] at h2
    exact absurd h2 (lt_irrefl 0)
  · obtain ⟨-, e2, e3, e4⟩ := Game.seedAsteroids_keeps E
      { g with level := g.level + 1, levelDistance := 0, checkpointWarningShown := false,
               corridor := g.corridor.setDifficulty (g.level + 1),
               asteroidSpawnInterval :=
                 max (3 / 10) (4 / 5 - (((g.level + 1 : ℕ) : ℚ) - 1) * (8 / 100)),
               asteroids := [], missiles := [] }
      (Game.getAsteroidTargetCount
        { g with level := g.level + 1, levelDistance := 0, checkpointWarningShown := false,
                 corridor := g.corridor.setDifficulty (g.level + 1),
                 asteroidSpawnInterval :=
                   max (3 / 10) (4 / 5 - (((g.level + 1 : ℕ) : ℚ) - 1) * (8 / 100)) })
    refine ⟨e3, e2, ?_, e4, ?_⟩
    · exact Game.seedAsteroids_levelDistance E _ _
    · rw [Game.seedAsteroids_length]
      simp only [Game.getAsteroidTargetCount, h3, if_false, List.length_nil, zero_add]
  · exact ⟨rfl, rfl, rfl, rfl, rfl⟩
  · exfalso
    simp only [Game.getAsteroidTargetCount, h3, if_false] at h2
    omega

theorem Game.nextLevel_checkpoint (E : MathEnv) (g : Game)
    (h : (g.level + 1) % g.checkpointLevel = 0) :
    (Game.nextLevel E g).state = GameState.landing ∧
    (Game.nextLevel E g).level = g.level + 1 ∧
    (Game.nextLevel E g).corridor = g.corridor ∧
    (Game.nextLevel E g).asteroids = [] ∧
    (Game.nextLevel E g).missiles = [] ∧
    (Game.nextLevel E g).pickups = [] ∧
    (Game.nextLevel E g).rocket.landingMode = true := by
  unfold Game.nextLevel
  simp only [h, if_true]
  obtain ⟨-, e2, e3, e4, e5, e6, e7, e8, -⟩ := Game.startLandingPhase_keeps E
    { g with level := g.level + 1, levelDistance := 0, checkpointWarningShown := false }
  exact ⟨e3, e2, e4, e5, e6, e7, e8⟩

theorem Game.update_level_end (E : MathEnv) (g : Game) (input : Input) (dt : ℚ)
    (hstate : g.state = GameState.playing) (hpause : input.pause = false)
    (hend : g.levelDistance + g.appliedScrollSpeed * dt ≥ g.canvasHeight * 2) :
    ∃ g1 : Game, g1.level = g.level ∧ g1.state = g.state ∧
      g1.checkpointLevel = g.checkpointLevel ∧ g1.corridor = g.corridor ∧
      Game.update E g input dt = { game := Game.nextLevel E g1, thrown := false } := by
  refine ⟨{ g with totalTime := g.totalTime + dt, levelDistance := 0,
                   checkpointWarningShown :=
                     (decide ((g.level + 1) % g.checkpointLevel = 0) &&
                       decide (clamp ((g.levelDistance + g.appliedScrollSpeed * dt) /
                         (g.canvasHeight * 2)) 0 1 ≥ 3 / 4) &&
                       !g.checkpointWarningShown) || g.checkpointWarningShown },
    rfl, rfl, rfl, rfl, ?_⟩
  unfold Game.update Game.updatePlaying Game.stepProgress
  simp only [hstate, if_true, hpause, Bool.false_eq_true, if_false, if_pos hend]

theorem Game.update_level_continues (E : MathEnv) (g : Game) (input : Input) (dt : ℚ)
    (hstate : g.state = GameState.playing) (hpause : input.pause = false)
    (hlt : g.levelDistance + g.appliedScrollSpeed * dt < g.canvasHeight * 2) :
    (Game.update E g input dt).game.level = g.level := by
  have hnot : ¬ (g.levelDistance + g.appliedScrollSpeed * dt ≥ g.canvasHeight * 2) :=
    not_le.mpr hlt
  have hp2 : (Game.stepProgress E g dt).2 = false := by
    unfold Game.stepProgress
    simp only [if_neg hnot]
  have e1 := (Game.stepProgress_keeps E g dt).2 hp2
  have e2 := (Game.stepMotion_keeps E (Game.stepProgress E g dt).1 dt input
    g.appliedScrollSpeed).2
  have e3 := (Game.stepWalls_keeps (Game.stepMotion E (Game.stepProgress E g dt).1 dt input
    g.appliedScrollSpeed)).2
  have e4 := (Game.stepSpawnAsteroids_keeps E (Game.stepWalls (Game.stepMotion E
    (Game.stepProgress E g dt).1 dt input g.appliedScrollSpeed)).1 dt).2
  have e5 := Game.stepMissiles_level E (Game.stepSpawnAsteroids E (Game.stepWalls
    (Game.stepMotion E (Game.stepProgress E g dt).1 dt input g.appliedScrollSpeed)).1 dt) dt
  have e6 := (Game.stepAsteroids_keeps E (Game.stepMissiles E (Game.stepSpawnAsteroids E
    (Game.stepWalls (Game.stepMotion E (Game.stepProgress E g dt).1 dt input
      g.appliedScrollSpeed)).1 dt) dt) dt).2
  unfold Game.update Game.updatePlaying
  simp only [hstate, if_true, hpause, Bool.false_eq_true, if_false, hp2]
  split_ifs
  · rw [e3, e2, e1]
  · rw [e6, e5, e4, e3, e2, e1]
  · rw [(Game.stepPickups_keeps E _ dt).2, e6, e5, e4, e3, e2, e1]

/-- Claim C9. Level-up by distance: in state `playing` at level 1 with pause not pressed
(and the constructor's `checkpointLevel = 5`), a frame after which the accumulated
`levelDistance` is at least `2 * canvasHeight` (in particular exactly equal) runs `nextLevel`
and leaves `level = 2`, `levelDistance = 0`, `getAsteroidTargetCount() = 0`, an empty
asteroid list and the state `playing`; a frame after which `levelDistance` is still below
`2 * canvasHeight` leaves the level unchanged. -/
theorem C9_level_up_by_distance (E : MathEnv) (g : Game) (input : Input) (dt : ℚ)
    (hstate : g.state = GameState.playing) (hlevel : g.level = 1)
    (hpause : input.pause = false) (hcp : g.checkpointLevel = 5) :
    (g.levelDistance + g.appliedScrollSpeed * dt ≥ g.canvasHeight * 2 →
      (Game.update E g input dt).game.level = 2 ∧
      (Game.update E g input dt).game.levelDistance = 0 ∧
      (Game.update E g input dt).game.getAsteroidTargetCount = 0 ∧
      (Game.update E g input dt).game.asteroids = [] ∧
      (Game.update E g input dt).game.state = GameState.playing ∧
      (Game.update E g input dt).thrown = false) ∧
    (g.levelDistance + g.appliedScrollSpeed * dt < g.canvasHeight * 2 →
      (Game.update E g input dt).game.level = 1) := by
  constructor
  · intro hend
    obtain ⟨g1, hl1, hs1, hc1, -, hres⟩ := Game.update_level_end E g input dt hstate hpause hend
    have hncp : (g1.level + 1) % g1.checkpointLevel ≠ 0 := by
      rw [hl1, hc1, hlevel, hcp]; decide
    obtain ⟨e1, e2, e3, -, e5⟩ := Game.nextLevel_normal E g1 hncp
    rw [hres]
    simp only []
    rw [hl1, hlevel] at e2 e5
    refine ⟨e2, e3, ?_, ?_, ?_, trivial⟩
    · simp only [Game.getAsteroidTargetCount, e2]
      decide
    · apply List.length_eq_zero.mp
      rw [e5]
      decide
    · rw [e1, hs1, hstate]
  · intro hlt
    rw [Game.update_level_continues E g input dt hstate hpause hlt, hlevel]

/-- Witness for C9: at level 1 on an 800 x 600 canvas with 1194 px scrolled, a frame of
`dt = 0.1` at scroll speed 60 brings the distance to exactly 1200 = 2 * 600 and levels up. -/
theorem C9_level_up_by_distance_witness :
    (samplePlaying 1 1194).levelDistance + (samplePlaying 1 1194).appliedScrollSpeed * (1 / 10) =
      (samplePlaying 1 1194).canvasHeight * 2 ∧
    (Game.update sampleMath (samplePlaying 1 1194) noInput (1 / 10)).game.level = 2 ∧
    (Game.update sampleMath (samplePlaying 1 1194) noInput (1 / 10)).game.levelDistance = 0 ∧
    (Game.update sampleMath (samplePlaying 1 1194) noInput
      (1 / 10)).game.getAsteroidTargetCount = 0 ∧
    (Game.update sampleMath (samplePlaying 1 1194) noInput (1 / 10)).game.asteroids = [] := by
  have hd : (samplePlaying 1 1194).levelDistance +
      (samplePlaying 1 1194).appliedScrollSpeed * (1 / 10) =
      (samplePlaying 1 1194).canvasHeight * 2 := by
    simp [samplePlaying, Game.appliedScrollSpeed, Game.continueFromStation, Game.new,
      Game.startGame, Rocket.endLanding, Rocket.new, Corridor.setDifficulty, Corridor.init,
      Corridor.new]
    norm_num
  have h := (C9_level_up_by_distance sampleMath (samplePlaying 1 1194) noInput (1 / 10)
    rfl rfl rfl rfl).1 (le_of_eq hd.symm)
  exact ⟨hd, h.1, h.2.1, h.2.2.1, h.2.2.2.1⟩

/-- Counterexample to C10 as stated: a game playing level 5 (after the station) whose scroll
distance reaches the level length does not enter the landing phase; it performs the normal
level reset to level 6, re-scaling the corridor (scroll speed 92 to 100) and re-seeding 14
asteroids. -/
theorem C10_counterexample :
    (samplePlaying 5 (5954 / 5)).state = GameState.playing ∧
    (samplePlaying 5 (5954 / 5)).level = 5 ∧
    (samplePlaying 5 (5954 / 5)).levelDistance +
      (samplePlaying 5 (5954 / 5)).appliedScrollSpeed * (1 / 10) =
      (samplePlaying 5 (5954 / 5)).canvasHeight * 2 ∧
    (Game.update sampleMath (samplePlaying 5 (5954 / 5)) noInput (1 / 10)).game.state ≠
      GameState.landing ∧
    (Game.update sampleMath (samplePlaying 5 (5954 / 5)) noInput (1 / 10)).game.state =
      GameState.playing ∧
    (Game.update sampleMath (samplePlaying 5 (5954 / 5)) noInput (1 / 10)).game.level = 6 ∧
    (samplePlaying 5 (5954 / 5)).corridor.scrollSpeed = 92 ∧
    (Game.update sampleMath (samplePlaying 5 (5954 / 5)) noInput
      (1 / 10)).game.corridor.scrollSpeed = 100 ∧
    (Game.update sampleMath (samplePlaying 5 (5954 / 5)) noInput
      (1 / 10)).game.asteroids.length = 14 := by
  have hss : (samplePlaying 5 (5954 / 5)).corridor.scrollSpeed = 92 := by
    simp [samplePlaying, Game.continueFromStation, Game.new, Game.startGame,
      Corridor.setDifficulty, Corridor.init, Corridor.new]
    norm_num
  have hd : (samplePlaying 5 (5954 / 5)).levelDistance +
      (samplePlaying 5 (5954 / 5)).appliedScrollSpeed * (1 / 10) =
      (samplePlaying 5 (5954 / 5)).canvasHeight * 2 := by
    have hb : (samplePlaying 5 (5954 / 5)).rocket.boosted = false := rfl
    simp only [Game.appliedScrollSpeed, hb, Bool.false_eq_true, if_false, hss]
    simp [samplePlaying, Game.continueFromStation, Game.new, Game.startGame]
    norm_num
  obtain ⟨g1, hl1, hs1, hc1, hcor, hres⟩ := Game.update_level_end sampleMath
    (samplePlaying 5 (5954 / 5)) noInput (1 / 10) rfl rfl (le_of_eq hd.symm)
  have hl : g1.level = 5 := hl1
  have hc : g1.checkpointLevel = 5 := hc1
  have hncp : (g1.level + 1) % g1.checkpointLevel ≠ 0 := by
    rw [hl, hc]; decide
  obtain ⟨e1, e2, -, e4, e5⟩ := Game.nextLevel_normal sampleMath g1 hncp
  rw [hres]
  simp only []
  have hst : (Game.nextLevel sampleMath g1).state = GameState.playing := by
    rw [e1, hs1]; rfl
  refine ⟨rfl, rfl, hd, ?_, hst, ?_, hss, ?_, ?_⟩
  · rw [hst]; decide
  · rw [e2, hl]
  · rw [e4, hcor, hl]
    simp [samplePlaying, Game.continueFromStation, Game.new, Game.startGame,
      Corridor.setDifficulty, Corridor.init, Corridor.new]
    norm_num
  · rw [e5, hl]
    decide

/-- Claim C10, amended. The checkpoint is entered at the end of level 4, when the level
number becomes 5: for a game in state `playing` at level 4 (pause not pressed,
`checkpointLevel = 5`), the frame in which the accumulated scroll distance reaches the level
length `2 * canvasHeight` sets `level = 5`, enters the landing phase (`state = landing`, rocket
in landing mode) and performs no normal level reset: the corridor is left as it was and the
asteroid and missile lists are emptied rather than re-seeded. -/
theorem C10_checkpoint_after_level_four (E : MathEnv) (g : Game) (input : Input) (dt : ℚ)
    (hstate : g.state = GameState.playing) (hlevel : g.level = 4)
    (hpause : input.pause = false) (hcp : g.checkpointLevel = 5)
    (hend : g.levelDistance + g.appliedScrollSpeed * dt ≥ g.canvasHeight * 2) :
    (Game.update E g input dt).game.state = GameState.landing ∧
    (Game.update E g input dt).game.level = 5 ∧
    (Game.update E g input dt).game.corridor = g.corridor ∧
    (Game.update E g input dt).game.asteroids = [] ∧
    (Game.update E g input dt).game.missiles = [] ∧
    (Game.update E g input dt).game.rocket.landingMode = true := by
  obtain ⟨g1, hl1, -, hc1, hcor, hres⟩ := Game.update_level_end E g input dt hstate hpause hend
  have hcpt : (g1.level + 1) % g1.checkpointLevel = 0 := by
    rw [hl1, hc1, hlevel, hcp]
  obtain ⟨e1, e2, e3, e4, e5, -, e7⟩ := Game.nextLevel_checkpoint E g1 hcpt
  rw [hres]
  simp only []
  refine ⟨e1, ?_, e3.trans hcor, e4, e5, e7⟩
  rw [e2, hl1, hlevel]

/-- Witness for the amended C10: at level 4 (scroll speed 84) with 1191.6 px scrolled, a
frame of `dt = 0.1` reaches 1200 = 2 * 600 and enters the landing phase at level 5. -/
theorem C10_checkpoint_after_level_four_witness :
    (samplePlaying 4 (5958 / 5)).levelDistance +
      (samplePlaying 4 (5958 / 5)).appliedScrollSpeed * (1 / 10) =
      (samplePlaying 4 (5958 / 5)).canvasHeight * 2 ∧
    (Game.update sampleMath (samplePlaying 4 (5958 / 5)) noInput (1 / 10)).game.state =
      GameState.landing ∧
    (Game.update sampleMath (samplePlaying 4 (5958 / 5)) noInput (1 / 10)).game.level = 5 := by
  have hd : (samplePlaying 4 (5958 / 5)).levelDistance +
      (samplePlaying 4 (5958 / 5)).appliedScrollSpeed * (1 / 10) =
      (samplePlaying 4 (5958 / 5)).canvasHeight * 2 := by
    simp [samplePlaying, Game.appliedScrollSpeed, Game.continueFromStation, Game.new,
      Game.startGame, Rocket.endLanding, Rocket.new, Corridor.setDifficulty, Corridor.init,
      Corridor.new]
    norm_num
  have h := C10_checkpoint_after_level_four sampleMath (samplePlaying 4 (5958 / 5)) noInput
    (1 / 10) rfl rfl rfl rfl (le_of_eq hd.symm)
  exact ⟨hd, h.1, h.2.1⟩

/-! ## Game over, firing, fallback bounds, difficulty -/

/-- Claim C12. Final score and best score: `gameOver(reason)` computes the final score
`floor(totalTime*10) + (level-1)*100`, sets the state to `gameOver` with the given reason, and
afterwards `bestScore` is the maximum of the previous best and the final score; the stored
best score is overwritten with the final score exactly when the final score is strictly
greater than the previous best, and is otherwise left as it was. -/
theorem C12_final_score_and_best (g : Game) (reason : String) :
    g.finalScore = ⌊g.totalTime * 10⌋ + ((g.level : ℤ) - 1) * 100 ∧
    (g.gameOver reason).state = GameState.gameOver ∧
    (g.gameOver reason).deathReason = reason ∧
    (g.gameOver reason).bestScore = max g.bestScore g.finalScore ∧
    (g.finalScore > g.bestScore → (g.gameOver reason).storedBest = some g.finalScore) ∧
    (¬ g.finalScore > g.bestScore → (g.gameOver reason).storedBest = g.storedBest) ∧
    (g.gameOver reason).totalTime = g.totalTime ∧ (g.gameOver reason).level = g.level ∧
    (g.gameOver reason).score = g.score := by
  refine ⟨rfl, rfl, rfl, ?_, ?_, ?_, rfl, rfl, rfl⟩
  · simp only [Game.gameOver, decide_eq_true_eq]
    split_ifs with h
    · exact (max_eq_right (le_of_lt h)).symm
    · exact (max_eq_left (not_lt.mp h)).symm
  · intro h
    simp only [Game.gameOver, decide_eq_true_eq, if_pos h]
  · intro h
    simp only [Game.gameOver, decide_eq_true_eq, if_neg h]

/-- Claim C13. Firing contract: `canShoot()` holds iff `ammo > 0`, `shootCooldown <= 0` and the
rocket is not in landing mode; when it holds, `shoot()` lowers `ammo` by exactly 1, sets
`shootCooldown` to `shootCooldownTime` (0.2 from the constructor), changes nothing else and
returns a missile whose heading is the rocket's angle and whose position is
`(x + sin(angle)*height/2, y - cos(angle)*height/2)`; when it does not hold, `shoot()` returns
`null` and leaves the rocket unchanged. -/
theorem C13_firing_contract (E : MathEnv) (r : Rocket) :
    (r.canShoot = true ↔ (r.ammo > 0 ∧ r.shootCooldown ≤ 0 ∧ r.landingMode = false)) ∧
    (r.canShoot = true →
      (r.shoot E).2 = { r with ammo := r.ammo - 1, shootCooldown := r.shootCooldownTime } ∧
      (r.shoot E).2.ammo = r.ammo - 1 ∧
      (r.shoot E).2.shootCooldown = r.shootCooldownTime ∧
      (r.shoot E).1 = some (Missile.new (r.x + E.sin r.angle * r.height / 2)
        (r.y - E.cos r.angle * r.height / 2) r.angle) ∧
      (∀ m, (r.shoot E).1 = some m → m.angle = r.angle ∧
        m.x = r.x + E.sin r.angle * r.height / 2 ∧
        m.y = r.y - E.cos r.angle * r.height / 2)) ∧
    (r.canShoot = false → (r.shoot E).1 = none ∧ (r.shoot E).2 = r) ∧
    (∀ x y : ℚ, (Rocket.new x y).shootCooldownTime = 1 / 5) := by
  refine ⟨?_, ?_, ?_, fun _ _ => rfl⟩
  · simp only [Rocket.canShoot, Bool.and_eq_true, decide_eq_true_eq, Bool.not_eq_true',
      and_assoc]
  · intro h
    have hs : r.shoot E = (some (Missile.new (r.x + E.sin r.angle * r.height / 2)
        (r.y - E.cos r.angle * r.height / 2) r.angle),
        { r with ammo := r.ammo - 1, shootCooldown := r.shootCooldownTime }) := by
      simp [Rocket.shoot, h]
    rw [hs]
    refine ⟨rfl, rfl, rfl, rfl, ?_⟩
    intro m hm
    simp only [Option.some.injEq] at hm
    subst hm
    exact ⟨rfl, rfl, rfl⟩
  · intro h
    simp [Rocket.shoot, h]

theorem Corridor.scanLower_none (y : ℚ) (segs : List Segment)
    (h : ∀ s ∈ segs, s.y < y) : Corridor.scanLower y none segs = none := by
  induction segs with
  | nil => rfl
  | cons s rest ih =>
    have hs : ¬ (s.y ≥ y) := not_le.mpr (h s (List.mem_cons_self _ _))
    simp only [Corridor.scanLower, if_neg hs]
    exact ih (fun t ht => h t (List.mem_cons_of_mem _ ht))

theorem Corridor.scanUpper_none (y : ℚ) (segs : List Segment)
    (h : ∀ s ∈ segs, y < s.y) : Corridor.scanUpper y none segs = none := by
  induction segs with
  | nil => rfl
  | cons s rest ih =>
    have hs : ¬ (s.y ≤ y) := not_le.mpr (h s (List.mem_cons_self _ _))
    simp only [Corridor.scanUpper, if_neg hs]
    exact ih (fun t ht => h t (List.mem_cons_of_mem _ ht))

theorem Corridor.getBoundsAtY_fallback (c : Corridor) (y : ℚ)
    (h : (∀ s ∈ c.segments, s.y < y) ∨ (∀ s ∈ c.segments, y < s.y)) :
    c.getBoundsAtY y =
      { left := 0, right := c.canvasHeight, centerX := c.centerX, width := c.width } := by
  unfold Corridor.getBoundsAtY
  rcases h with h | h
  · rw [Corridor.scanLower_none y c.segments h]
  · rw [Corridor.scanUpper_none y c.segments h]
    cases Corridor.scanLower y none c.segments <;> rfl

/-- Claim C14, evaluated on the code: a corridor initialised for an 800 x 600 canvas, asked
for the bounds at `y = 700` (below every segment), takes the fallback branch and returns
`left = 0` and `right = 600`, the canvas height, not the canvas width 800. -/
theorem C14_fallback_right_is_canvas_height :
    (∀ s ∈ ((Corridor.new 600).init 800 600).segments, s.y < 700) ∧
    (((Corridor.new 600).init 800 600).getBoundsAtY 700).left = 0 ∧
    (((Corridor.new 600).init 800 600).getBoundsAtY 700).right = 600 ∧
    (((Corridor.new 600).init 800 600).getBoundsAtY 700).right ≠ 800 := by
  have hall : ∀ s ∈ ((Corridor.new 600).init 800 600).segments, s.y < 700 := by
    intro s hs
    simp only [Corridor.init, Corridor.new, List.mem_map, List.mem_range] at hs
    obtain ⟨i, -, rfl⟩ := hs
    have : (0 : ℚ) ≤ (i : ℚ) * 20 := by positivity
    simp only []
    linarith
  have hb := Corridor.getBoundsAtY_fallback ((Corridor.new 600).init 800 600) 700 (Or.inl hall)
  refine ⟨hall, ?_, ?_, ?_⟩
  · rw [hb]
  · rw [hb]; rfl
  · rw [hb]
    show (600 : ℚ) ≠ 800
    norm_num

/-- Claim C16. `setDifficulty(level)` on a corridor with the constructor's constants
(`baseScrollSpeed = 60`, `baseWidth = 350`, `minWidth = 120`) sets, for every level `>= 1`,
`scrollSpeed = 60 + 8*(level-1)`, `width = max(120, 350 - 25*(level-1))` and
`waviness = 0.5 + 0.12*(level-1)`; scroll speed and waviness strictly increase with the level,
the width is non-increasing in the level and never below 120. -/
theorem C16_setDifficulty_scaling (c : Corridor) (hb : c.baseScrollSpeed = 60)
    (hw : c.baseWidth = 350) (hm : c.minWidth = 120) :
    (∀ level : ℕ, 1 ≤ level →
      (c.setDifficulty level).scrollSpeed = 60 + 8 * ((level : ℚ) - 1) ∧
      (c.setDifficulty level).width = max 120 (350 - 25 * ((level : ℚ) - 1)) ∧
      (c.setDifficulty level).waviness = 1 / 2 + 12 / 100 * ((level : ℚ) - 1) ∧
      120 ≤ (c.setDifficulty level).width) ∧
    (∀ a b : ℕ, 1 ≤ a → a < b →
      (c.setDifficulty a).scrollSpeed < (c.setDifficulty b).scrollSpeed ∧
      (c.setDifficulty a).waviness < (c.setDifficulty b).waviness ∧
      (c.setDifficulty b).width ≤ (c.setDifficulty a).width) := by
  constructor
  · intro level _
    simp only [Corridor.setDifficulty, hb, hw, hm]
    refine ⟨by ring, by ring_nf, by ring, le_max_left _ _⟩
  · intro a b _ hab
    have hq : (a : ℚ) < (b : ℚ) := by exact_mod_cast hab
    simp only [Corridor.setDifficulty, hb, hw, hm]
    refine ⟨by linarith, by linarith, ?_⟩
    exact max_le_max (le_refl _) (by linarith)

/-- Witness for C16: the corridor built by the constructor, at levels 1 and 12. -/
theorem C16_setDifficulty_scaling_witness :
    ((Corridor.new 600).setDifficulty 1).scrollSpeed = 60 + 8 * (((1 : ℕ) : ℚ) - 1) ∧
    ((Corridor.new 600).setDifficulty 12).width = max 120 (350 - 25 * (((12 : ℕ) : ℚ) - 1)) ∧
    ((Corridor.new 600).setDifficulty 1).scrollSpeed <
      ((Corridor.new 600).setDifficulty 12).scrollSpeed :=
  ⟨((C16_setDifficulty_scaling (Corridor.new 600) rfl rfl rfl).1 1 (le_refl 1)).1,
   ((C16_setDifficulty_scaling (Corridor.new 600) rfl rfl rfl).1 12 (by decide)).2.1,
   ((C16_setDifficulty_scaling (Corridor.new 600) rfl rfl rfl).2 1 12 (le_refl 1)
     (by decide)).1⟩

/-! ## Level change, pause, landing countdown -/

theorem Game.spawnAsteroid_appends (E : MathEnv) (g : Game) (v : ℚ) :
    (Game.spawnAsteroid E g (some v)).missiles = g.missiles ∧
    (Game.spawnAsteroid E g (some v)).canvasHeight = g.canvasHeight ∧
    ∃ a : Asteroid, a.y = v ∧ (Game.spawnAsteroid E g (some v)).asteroids = g.asteroids ++ [a] := by
  refine ⟨rfl, rfl, (Asteroid.new E (g.rng + 2)
    (random E g.rng ((g.corridor.getBoundsAtY 0).left + 40)
      ((g.corridor.getBoundsAtY 0).right - 40)) v
    (random E (g.rng + 1) 20 (35 + (g.level : ℚ) * 3))).1, ?_, rfl⟩
  simp [Asteroid.new]

theorem Game.seedAsteroids_above (E : MathEnv) (g : Game) (target : ℕ)
    (hrand : ∀ n, 0 ≤ E.rand n) (hch : 0 ≤ g.canvasHeight)
    (h0 : ∀ a ∈ g.asteroids, a.y < 0) :
    (Game.seedAsteroids E g target).missiles = g.missiles ∧
    ∀ a ∈ (Game.seedAsteroids E g target).asteroids, a.y < 0 := by
  unfold Game.seedAsteroids
  have key := foldl_invariant
    (fun (acc : Game) (i : ℕ) =>
      Game.spawnAsteroid E { acc with rng := acc.rng + 1 }
        (some (-random E acc.rng 80 (acc.canvasHeight + 80) - (i : ℚ) * 95)))
    (fun acc : Game => acc.missiles = g.missiles ∧ acc.canvasHeight = g.canvasHeight ∧
      ∀ a ∈ acc.asteroids, a.y < 0)
    (by
      intro b i hb
      obtain ⟨hm, hc, a, ha, hl⟩ := Game.spawnAsteroid_appends E { b with rng := b.rng + 1 }
        (-random E b.rng 80 (b.canvasHeight + 80) - (i : ℚ) * 95)
      refine ⟨hm.trans hb.1, hc.trans hb.2.1, ?_⟩
      intro t ht
      rw [hl] at ht
      rcases List.mem_append.mp ht with h | h
      · exact hb.2.2 t h
      · simp only [List.mem_singleton] at h
        rw [h, ha]
        have h1 : 0 ≤ E.rand b.rng * (b.canvasHeight + 80 - 80) := by
          apply mul_nonneg (hrand _)
          rw [hb.2.1]; linarith
        have h2 : (0 : ℚ) ≤ (i : ℚ) * 95 := by positivity
        simp only [random]
        linarith)
    (List.range target) g ⟨rfl, rfl, h0⟩
  exact ⟨key.1, key.2.2⟩

/-- Claim C17. Asteroid re-seeding: `getAsteroidTargetCount()` is 0 for `level < 3` and
`5 + 3*(level-3)` for `level >= 3` (5, 8, 11 at levels 3, 4, 5); and when `nextLevel`
advances to a level that is not a multiple of 5 (`checkpointLevel = 5`), the asteroid list
then holds exactly `getAsteroidTargetCount()` asteroids, each with `y < 0`, the missile list
is empty and the corridor is `setDifficulty` of the new level.  `Math.random()` is taken to
return values `>= 0` and the canvas height is non-negative. -/
theorem C17_asteroid_reseeding (E : MathEnv) (g : Game)
    (hrand : ∀ n, 0 ≤ E.rand n) (hch : 0 ≤ g.canvasHeight)
    (hcp : g.checkpointLevel = 5) (hncp : (g.level + 1) % 5 ≠ 0) :
    (∀ g' : Game, g'.level < 3 → g'.getAsteroidTargetCount = 0) ∧
    (∀ g' : Game, 3 ≤ g'.level → g'.getAsteroidTargetCount = 5 + 3 * (g'.level - 3)) ∧
    (∀ g' : Game, (g'.level = 3 → g'.getAsteroidTargetCount = 5) ∧
      (g'.level = 4 → g'.getAsteroidTargetCount = 8) ∧
      (g'.level = 5 → g'.getAsteroidTargetCount = 11)) ∧
    (Game.nextLevel E g).level = g.level + 1 ∧
    (Game.nextLevel E g).asteroids.length = (Game.nextLevel E g).getAsteroidTargetCount ∧
    (∀ a ∈ (Game.nextLevel E g).asteroids, a.y < 0) ∧
    (Game.nextLevel E g).missiles = [] ∧
    (Game.nextLevel E g).corridor = g.corridor.setDifficulty (Game.nextLevel E g).level := by
  have hn : (g.level + 1) % g.checkpointLevel ≠ 0 := by rw [hcp]; exact hncp
  obtain ⟨-, e2, -, e4, e5⟩ := Game.nextLevel_normal E g hn
  refine ⟨?_, ?_, ?_, e2, ?_, ?_, ?_, ?_⟩
  · intro g' h
    simp only [Game.getAsteroidTargetCount, h, if_true]
  · intro g' h
    simp only [Game.getAsteroidTargetCount, not_lt.mpr h, if_false]
    ring
  · intro g'
    refine ⟨?_, ?_, ?_⟩ <;> intro h <;> simp [Game.getAsteroidTargetCount, h]
  · rw [e5]
    simp only [Game.getAsteroidTargetCount, e2]
  · unfold Game.nextLevel
    simp only [hn, if_false]
    split_ifs
    · refine (Game.seedAsteroids_above E _ _ hrand ?_ ?_).2
      · exact hch
      · intro a ha; exact absurd ha (List.not_mem_nil a)
    · intro a ha; exact absurd ha (List.not_mem_nil a)
  · unfold Game.nextLevel
    simp only [hn, if_false]
    split_ifs
    · refine (Game.seedAsteroids_above E _ _ hrand ?_ ?_).1
      · exact hch
      · intro a ha; exact absurd ha (List.not_mem_nil a)
    · rfl
  · rw [e4, e2]

/-- Witness for C17: from level 2 on an 800 x 600 canvas, `nextLevel` seeds the 5 asteroids
of level 3 above the screen. -/
theorem C17_asteroid_reseeding_witness :
    (Game.nextLevel sampleMath (samplePlaying 2 0)).level = 3 ∧
    (Game.nextLevel sampleMath (samplePlaying 2 0)).asteroids.length = 5 ∧
    (∀ a ∈ (Game.nextLevel sampleMath (samplePlaying 2 0)).asteroids, a.y < 0) ∧
    (Game.nextLevel sampleMath (samplePlaying 2 0)).missiles = [] := by
  have h := C17_asteroid_reseeding sampleMath (samplePlaying 2 0)
    (by intro n; simp [sampleMath])
    (by simp [samplePlaying, Game.continueFromStation, Game.new, Game.startGame])
    rfl (by decide)
  obtain ⟨-, -, h3, e1, e2, e3, e4, -⟩ := h
  have hl : (Game.nextLevel sampleMath (samplePlaying 2 0)).level = 3 := e1
  exact ⟨hl, by rw [e2]; exact (h3 _).1 hl, e3, e4⟩

theorem Game.startLandingPhase_fuel (E : MathEnv) (g : Game) :
    (Game.startLandingPhase E g).levelDistance = g.levelDistance ∧
    (Game.startLandingPhase E g).rocket.fuel = (Game.startLandingPhase E g).rocket.maxFuel ∧
    (Game.startLandingPhase E g).rocket.maxFuel = g.rocket.maxFuel := by
  simp [Game.startLandingPhase, Rocket.startLanding]

/-- Claim C18. Checkpoint every 5th level: for a game playing level `L >= 1` (with
`checkpointLevel = 5`), `nextLevel` sets the level to `L + 1` and `levelDistance` to 0; if
`L + 1` is a multiple of 5 it enters the landing phase (`state = landing`, rocket in landing
mode with `fuel = maxFuel`, asteroid, missile and pickup lists emptied, corridor left as it
was), otherwise the state stays `playing`. -/
theorem C18_checkpoint_every_fifth_level (E : MathEnv) (g : Game)
    (hstate : g.state = GameState.playing) (hcp : g.checkpointLevel = 5) (hL : 1 ≤ g.level) :
    (Game.nextLevel E g).level = g.level + 1 ∧
    (Game.nextLevel E g).levelDistance = 0 ∧
    ((g.level + 1) % 5 = 0 →
      (Game.nextLevel E g).state = GameState.landing ∧
      (Game.nextLevel E g).rocket.landingMode = true ∧
      (Game.nextLevel E g).rocket.fuel = (Game.nextLevel E g).rocket.maxFuel ∧
      (Game.nextLevel E g).asteroids = [] ∧
      (Game.nextLevel E g).missiles = [] ∧
      (Game.nextLevel E g).pickups = [] ∧
      (Game.nextLevel E g).corridor = g.corridor) ∧
    ((g.level + 1) % 5 ≠ 0 → (Game.nextLevel E g).state = GameState.playing) := by
  have _ := hL
  by_cases h : (g.level + 1) % 5 = 0
  · have hc : (g.level + 1) % g.checkpointLevel = 0 := by rw [hcp]; exact h
    obtain ⟨e1, e2, e3, e4, e5, e6, e7⟩ := Game.nextLevel_checkpoint E g hc
    have hf : (Game.nextLevel E g).levelDistance = 0 ∧
        (Game.nextLevel E g).rocket.fuel = (Game.nextLevel E g).rocket.maxFuel := by
      unfold Game.nextLevel
      simp only [hc, if_true]
      obtain ⟨f1, f2, -⟩ := Game.startLandingPhase_fuel E
        { g with level := g.level + 1, levelDistance := 0, checkpointWarningShown := false }
      exact ⟨f1, f2⟩
    exact ⟨e2, hf.1, fun _ => ⟨e1, e7, hf.2, e4, e5, e6, e3⟩, fun hn => absurd h hn⟩
  · have hc : (g.level + 1) % g.checkpointLevel ≠ 0 := by rw [hcp]; exact h
    obtain ⟨e1, e2, e3, -, -⟩ := Game.nextLevel_normal E g hc
    exact ⟨e2, e3, fun hy => absurd hy h, fun _ => e1.trans hstate⟩

/-- Witness for C18: from level 4 the next level 5 is a checkpoint, from level 1 it is not. -/
theorem C18_checkpoint_every_fifth_level_witness :
    (Game.nextLevel sampleMath (samplePlaying 4 0)).level = 5 ∧
    (Game.nextLevel sampleMath (samplePlaying 4 0)).state = GameState.landing ∧
    (Game.nextLevel sampleMath (samplePlaying 1 0)).level = 2 ∧
    (Game.nextLevel sampleMath (samplePlaying 1 0)).state = GameState.playing :=
  ⟨(C18_checkpoint_every_fifth_level sampleMath (samplePlaying 4 0) rfl rfl (by decide)).1,
   ((C18_checkpoint_every_fifth_level sampleMath (samplePlaying 4 0) rfl rfl
     (by decide)).2.2.1 (by decide)).1,
   (C18_checkpoint_every_fifth_level sampleMath (samplePlaying 1 0) rfl rfl (by decide)).1,
   (C18_checkpoint_every_fifth_level sampleMath (samplePlaying 1 0) rfl rfl
     (by decide)).2.2.2 (by decide)⟩

/-- Claim C19, evaluated on the code: in a playing game a frame with `pause = true` switches
to `paused` and records the previous state, everything else unchanged, but the call
`this.input.clearPause()` that follows raises a `TypeError` (the frame does not complete);
`resumeGame` restores `playing` and raises in the same way. -/
theorem C19_pause_raises :
    (samplePlaying 1 0).state = GameState.playing ∧
    (Game.update sampleMath (samplePlaying 1 0) pauseInput (1 / 60)).thrown = true ∧
    (Game.update sampleMath (samplePlaying 1 0) pauseInput (1 / 60)).game =
      { samplePlaying 1 0 with previousState := some GameState.playing,
                               state := GameState.paused } ∧
    (Game.resumeGame
      (Game.update sampleMath (samplePlaying 1 0) pauseInput (1 / 60)).game).thrown = true ∧
    (Game.resumeGame
      (Game.update sampleMath (samplePlaying 1 0) pauseInput (1 / 60)).game).game.state =
      GameState.playing := by
  have hs : (samplePlaying 1 0).state = GameState.playing := rfl
  have hu : Game.update sampleMath (samplePlaying 1 0) pauseInput (1 / 60) =
      { game := { samplePlaying 1 0 with previousState := some GameState.playing,
                                         state := GameState.paused },
        thrown := true } := by
    simp [Game.update, Game.updatePlaying, Game.pauseGame, hs, pauseInput]
  rw [hu]
  refine ⟨hs, rfl, rfl, ?_, ?_⟩ <;> simp [Game.resumeGame]

/-! ## Landing-success countdown -/

theorem Game.update_landingWait (E : MathEnv) (g : Game) (input : Input) (dt : ℚ)
    (h : g.state = GameState.landingWait) :
    Game.update E g input dt = { game := g.updateLandingSuccessWait dt, thrown := false } := by
  simp [Game.update, h]

theorem Game.update_station (E : MathEnv) (g : Game) (input : Input) (dt : ℚ)
    (h : g.state = GameState.station) :
    Game.update E g input dt = { game := g, thrown := false } := by
  simp [Game.update, h]

theorem Game.updateLandingSuccessWait_keeps (g : Game) (dt : ℚ) :
    (g.updateLandingSuccessWait dt).rocket = g.rocket ∧
    (g.updateLandingSuccessWait dt).landingSuccessTimer =
      roundDouble (g.landingSuccessTimer - dt) ∧
    (0 < roundDouble (g.landingSuccessTimer - dt) →
      (g.updateLandingSuccessWait dt).state = g.state) ∧
    (roundDouble (g.landingSuccessTimer - dt) ≤ 0 →
      (g.updateLandingSuccessWait dt).state = GameState.station) := by
  unfold Game.updateLandingSuccessWait Game.showStationMenu
  refine ⟨?_, ?_, ?_, ?_⟩
  · dsimp only
    split_ifs <;> rfl
  · dsimp only
    split_ifs <;> rfl
  · intro h
    have : ¬ (roundDouble (g.landingSuccessTimer - dt) ≤ 0) := not_le.mpr h
    simp only [this, if_false]
  · intro h
    simp only [h, if_true]

theorem elapsed_cons (f : Input × ℚ) (fs : List (Input × ℚ)) :
    elapsed (f :: fs) = f.2 + elapsed fs := by
  simp [elapsed]

theorem countdown_cons (t : ℚ) (f : Input × ℚ) (fs : List (Input × ℚ)) :
    countdown t (f :: fs) = countdown (roundDouble (t - f.2)) fs := by
  simp [countdown]

theorem countdown_append (t : ℚ) (pre : List (Input × ℚ)) (f : Input × ℚ) :
    countdown t (pre ++ [f]) = roundDouble (countdown t pre - f.2) := by
  simp [countdown]

theorem countdown_exact (fs : List (Input × ℚ)) :
    ∀ t : ℚ, (∀ k, 0 < k → k ≤ fs.length →
        roundDouble (t - elapsed (fs.take k)) = t - elapsed (fs.take k)) →
      countdown t fs = t - elapsed fs := by
  induction fs with
  | nil => intro t _; simp [countdown, elapsed]
  | cons f rest ih =>
    intro t h
    have h1 : roundDouble (t - f.2) = t - f.2 := by
      have := h 1 Nat.one_pos (by simp)
      simpa [elapsed] using this
    rw [countdown_cons, h1, ih (t - f.2), elapsed_cons]
    · ring
    · intro k hk0 hkl
      have := h (k + 1) (Nat.succ_pos k) (by simpa using hkl)
      rw [List.take_succ_cons, elapsed_cons] at this
      have e : t - f.2 - elapsed (List.take k rest) = t - (f.2 + elapsed (List.take k rest)) := by
        ring
      rw [e]
      exact this

theorem Game.run_wait (E : MathEnv) (fs : List (Input × ℚ)) :
    ∀ g : Game, g.state = GameState.landingWait →
      (∀ k, 0 < k → k ≤ fs.length → 0 < countdown g.landingSuccessTimer (fs.take k)) →
      (Game.run E g fs).state = GameState.landingWait ∧
      (Game.run E g fs).landingSuccessTimer = countdown g.landingSuccessTimer fs := by
  induction fs with
  | nil =>
    intro g h _
    exact ⟨h, by simp [Game.run, countdown]⟩
  | cons f rest ih =>
    intro g h hk
    obtain ⟨-, k2, k3, -⟩ := Game.updateLandingSuccessWait_keeps g f.2
    have h1 : 0 < roundDouble (g.landingSuccessTimer - f.2) := by
      have := hk 1 Nat.one_pos (by simp)
      simpa [countdown] using this
    have hr : Game.run E g (f :: rest) = Game.run E (g.updateLandingSuccessWait f.2) rest := by
      simp [Game.run, Game.update_landingWait E g f.1 f.2 h]
    have := ih (g.updateLandingSuccessWait f.2) ((k3 h1).trans h) (by
      intro k hk0 hkl
      have := hk (k + 1) (Nat.succ_pos k) (by simpa using hkl)
      rw [List.take_succ_cons, countdown_cons] at this
      rw [k2]
      exact this)
    rw [hr, this.1, this.2, k2, countdown_cons]
    exact ⟨rfl, rfl⟩

theorem Game.run_wait_done (E : MathEnv) (f : Input × ℚ) (pre : List (Input × ℚ)) :
    ∀ g : Game, g.state = GameState.landingWait →
      (∀ k, 0 < k → k ≤ pre.length → 0 < countdown g.landingSuccessTimer (pre.take k)) →
      countdown g.landingSuccessTimer (pre ++ [f]) ≤ 0 →
      (Game.run E g (pre ++ [f])).state = GameState.station := by
  induction pre with
  | nil =>
    intro g h _ hd
    obtain ⟨-, -, -, k4⟩ := Game.updateLandingSuccessWait_keeps g f.2
    have : roundDouble (g.landingSuccessTimer - f.2) ≤ 0 := by simpa [countdown] using hd
    simp [Game.run, Game.update_landingWait E g f.1 f.2 h, k4 this]
  | cons p rest ih =>
    intro g h hk hd
    obtain ⟨-, k2, k3, -⟩ := Game.updateLandingSuccessWait_keeps g p.2
    have h1 : 0 < roundDouble (g.landingSuccessTimer - p.2) := by
      have := hk 1 Nat.one_pos (by simp)
      simpa [countdown] using this
    have hr : Game.run E g (p :: rest ++ [f]) =
        Game.run E (g.updateLandingSuccessWait p.2) (rest ++ [f]) := by
      simp [Game.run, Game.update_landingWait E g p.1 p.2 h]
    rw [hr]
    refine ih (g.updateLandingSuccessWait p.2) ((k3 h1).trans h) ?_ ?_
    · intro k hk0 hkl
      have := hk (k + 1) (Nat.succ_pos k) (by simpa using hkl)
      rw [List.take_succ_cons, countdown_cons] at this
      rw [k2]
      exact this
    · rw [List.cons_append, countdown_cons] at hd
      rw [k2]
      exact hd

theorem Game.run_wait_rocket (E : MathEnv) (fs : List (Input × ℚ)) :
    ∀ g : Game, g.state = GameState.landingWait ∨ g.state = GameState.station →
      (Game.run E g fs).rocket = g.rocket := by
  induction fs with
  | nil => intro g _; rfl
  | cons f rest ih =>
    intro g h
    rcases h with h | h
    · obtain ⟨k1, -, k3, k4⟩ := Game.updateLandingSuccessWait_keeps g f.2
      have hr : Game.run E g (f :: rest) = Game.run E (g.updateLandingSuccessWait f.2) rest := by
        simp [Game.run, Game.update_landingWait E g f.1 f.2 h]
      rw [hr, ih, k1]
      rcases lt_or_le 0 (roundDouble (g.landingSuccessTimer - f.2)) with hlt | hle
      · exact Or.inl ((k3 hlt).trans h)
      · exact Or.inr (k4 hle)
    · have hr : Game.run E g (f :: rest) = Game.run E g rest := by
        simp [Game.run, Game.update_station E g f.1 f.2 h]
      rw [hr]
      exact ih g (Or.inr h)

theorem Game.beginLandingSuccessCountdown_fresh (g : Game)
    (hs : g.state ≠ GameState.landingWait) :
    g.beginLandingSuccessCountdown.state = GameState.landingWait ∧
    g.beginLandingSuccessCountdown.landingSuccessTimer = 2 ∧
    g.beginLandingSuccessCountdown.rocket.vx = 0 ∧
    g.beginLandingSuccessCountdown.rocket.vy = 0 ∧
    g.beginLandingSuccessCountdown.rocket.angle = 0 ∧
    g.beginLandingSuccessCountdown.rocket.angularVelocity = 0 ∧
    (∀ pad, g.landingPad = some pad →
      g.beginLandingSuccessCountdown.rocket.x = pad.x ∧
      g.beginLandingSuccessCountdown.rocket.y = pad.y - g.rocket.height / 2) := by
  unfold Game.beginLandingSuccessCountdown
  rw [if_neg hs]
  refine ⟨rfl, rfl, rfl, rfl, rfl, rfl, ?_⟩
  intro pad hp
  simp [hp]

/-- The countdown timer over frames of `dt04` (0.4 s): 2, 1.6, 1.2000000000000002,
0.8000000000000002, 0.40000000000000013 and then `2 ^ -53`, not 0. -/
theorem countdown_dt04 :
    roundDouble (2 - dt04) = 3602879701896397 / 2251799813685248 ∧
    roundDouble (3602879701896397 / 2251799813685248 - dt04) =
      1351079888211149 / 1125899906842624 ∧
    roundDouble (1351079888211149 / 1125899906842624 - dt04) =
      7205759403792795 / 9007199254740992 ∧
    roundDouble (7205759403792795 / 9007199254740992 - dt04) =
      1801439850948199 / 4503599627370496 ∧
    roundDouble (1801439850948199 / 4503599627370496 - dt04) = 1 / 9007199254740992 := by
  unfold dt04
  refine ⟨?_, ?_, ?_, ?_, ?_⟩
  · rw [roundDouble_of_tie _ 0 7205759403792793 7205759403792794]
    · norm_num
    · rw [abs_of_pos (by norm_num)]; norm_num
    · rw [abs_of_pos (by norm_num)]; norm_num
    · norm_num
    · norm_num
  · rw [roundDouble_of_tie _ 0 5404319552844595 5404319552844596]
    · norm_num
    · rw [abs_of_pos (by norm_num)]; norm_num
    · rw [abs_of_pos (by norm_num)]; norm_num
    · norm_num
    · norm_num
  · rw [roundDouble_of_near _ (-1) 7205759403792795]
    · norm_num
    · rw [abs_of_pos (by norm_num)]; norm_num
    · rw [abs_of_pos (by norm_num)]; norm_num
    · rw [abs_lt]; constructor <;> norm_num
  · rw [roundDouble_of_near _ (-2) 7205759403792796]
    · norm_num
    · rw [abs_of_pos (by norm_num)]; norm_num
    · rw [abs_of_pos (by norm_num)]; norm_num
    · rw [abs_lt]; constructor <;> norm_num
  · rw [roundDouble_of_near _ (-53) 4503599627370496]
    · norm_num
    · rw [abs_of_pos (by norm_num)]; norm_num
    · rw [abs_of_pos (by norm_num)]; norm_num
    · rw [abs_lt]; constructor <;> norm_num

theorem Game.run_countdown (E : MathEnv) (g : Game) (h : g.state = GameState.landingWait)
    (pre : List (Input × ℚ)) (f : Input × ℚ)
    (hpos : ∀ k, 0 < k → k ≤ pre.length → 0 < countdown g.landingSuccessTimer (pre.take k))
    (hdone : countdown g.landingSuccessTimer (pre ++ [f]) ≤ 0) :
    (∀ k, k ≤ pre.length →
      (Game.run E g (pre.take k)).state = GameState.landingWait ∧
      (Game.run E g (pre.take k)).landingSuccessTimer =
        countdown g.landingSuccessTimer (pre.take k)) ∧
    (Game.run E g (pre ++ [f])).state = GameState.station := by
  constructor
  · intro k hk
    refine Game.run_wait E (pre.take k) g h ?_
    intro j hj0 hjl
    rw [List.take_take]
    have hjk : j ≤ k := le_trans hjl (List.length_take_le k pre)
    rw [min_eq_left hjk]
    exact hpos j hj0 (le_trans hjl (List.length_take_le' k pre))
  · exact Game.run_wait_done E f pre g h hpos hdone

theorem idleFrames_succ (k : ℕ) (dt : ℚ) :
    idleFrames (k + 1) dt = idleFrames k dt ++ [(noInput, dt)] := by
  simp [idleFrames, List.replicate_succ']

theorem idleFrames_take (k n : ℕ) (dt : ℚ) (h : k ≤ n) :
    (idleFrames n dt).take k = idleFrames k dt := by
  simp [idleFrames, List.take_replicate, min_eq_left h]

theorem countdown_idle_succ (t : ℚ) (k : ℕ) (dt : ℚ) :
    countdown t (idleFrames (k + 1) dt) = roundDouble (countdown t (idleFrames k dt) - dt) := by
  rw [idleFrames_succ, countdown_append]

theorem countdown_idle_dt04 :
    countdown 2 (idleFrames 1 dt04) = 3602879701896397 / 2251799813685248 ∧
    countdown 2 (idleFrames 2 dt04) = 1351079888211149 / 1125899906842624 ∧
    countdown 2 (idleFrames 3 dt04) = 7205759403792795 / 9007199254740992 ∧
    countdown 2 (idleFrames 4 dt04) = 1801439850948199 / 4503599627370496 ∧
    countdown 2 (idleFrames 5 dt04) = 1 / 9007199254740992 := by
  obtain ⟨s1, s2, s3, s4, s5⟩ := countdown_dt04
  have c0 : countdown 2 (idleFrames 0 dt04) = 2 := rfl
  have c1 : countdown 2 (idleFrames 1 dt04) = 3602879701896397 / 2251799813685248 := by
    rw [countdown_idle_succ, c0, s1]
  have c2 : countdown 2 (idleFrames 2 dt04) = 1351079888211149 / 1125899906842624 := by
    rw [countdown_idle_succ, c1, s2]
  have c3 : countdown 2 (idleFrames 3 dt04) = 7205759403792795 / 9007199254740992 := by
    rw [countdown_idle_succ, c2, s3]
  have c4 : countdown 2 (idleFrames 4 dt04) = 1801439850948199 / 4503599627370496 := by
    rw [countdown_idle_succ, c3, s4]
  have c5 : countdown 2 (idleFrames 5 dt04) = 1 / 9007199254740992 := by
    rw [countdown_idle_succ, c4, s5]
  exact ⟨c1, c2, c3, c4, c5⟩

theorem elapsed_idle (k : ℕ) (dt : ℚ) : elapsed (idleFrames k dt) = k * dt := by
  simp [elapsed, idleFrames]

/-- Counterexample for claim C20: five frames of 0.4 s (the double nearest to 0.4) after a
touchdown on the sample pad.  The accumulated `dt` is below 2 after each of the first four
frames and at least 2 after the fifth, but the rounded subtractions leave the timer at
`2 ^ -53` after the fifth frame, so the state is still `landingWait` there; the station is
entered one frame later. -/
theorem C20_counterexample :
    (sampleLanding 490 0 10).state ≠ GameState.landingWait ∧
    (∀ k, k ≤ 4 → elapsed (idleFrames k dt04) < 2) ∧
    2 ≤ elapsed (idleFrames 5 dt04) ∧
    (Game.run sampleMath (sampleLanding 490 0 10).beginLandingSuccessCountdown
      (idleFrames 5 dt04)).state = GameState.landingWait ∧
    (Game.run sampleMath (sampleLanding 490 0 10).beginLandingSuccessCountdown
      (idleFrames 5 dt04)).landingSuccessTimer = 1 / 9007199254740992 ∧
    (Game.run sampleMath (sampleLanding 490 0 10).beginLandingSuccessCountdown
      (idleFrames 6 dt04)).state = GameState.station := by
  have hs : (sampleLanding 490 0 10).state ≠ GameState.landingWait := by
    simp [sampleLanding]
  obtain ⟨f1, f2, -⟩ := Game.beginLandingSuccessCountdown_fresh (sampleLanding 490 0 10) hs
  obtain ⟨c1, c2, c3, c4, c5⟩ := countdown_idle_dt04
  have hpos : ∀ k, 0 < k → k ≤ (idleFrames 5 dt04).length →
      0 < countdown (sampleLanding 490 0 10).beginLandingSuccessCountdown.landingSuccessTimer
        ((idleFrames 5 dt04).take k) := by
    intro k hk0 hkl
    have hk5 : k ≤ 5 := by simpa [idleFrames] using hkl
    rw [f2, idleFrames_take k 5 dt04 hk5]
    interval_cases k
    · rw [c1]; norm_num
    · rw [c2]; norm_num
    · rw [c3]; norm_num
    · rw [c4]; norm_num
    · rw [c5]; norm_num
  have hdone :
      countdown (sampleLanding 490 0 10).beginLandingSuccessCountdown.landingSuccessTimer
        (idleFrames 5 dt04 ++ [(noInput, dt04)]) ≤ 0 := by
    rw [f2, countdown_append, c5, roundDouble_nonpos_iff]
    unfold dt04
    norm_num
  have h := Game.run_countdown sampleMath _ f1 (idleFrames 5 dt04) (noInput, dt04) hpos hdone
  have h5 := h.1 5 (by simp [idleFrames])
  rw [idleFrames_take 5 5 dt04 (le_refl 5), f2, c5] at h5
  refine ⟨hs, ?_, ?_, h5.1, h5.2, ?_⟩
  · intro k hk
    rw [elapsed_idle]
    unfold dt04
    interval_cases k <;> norm_num
  · rw [elapsed_idle]
    unfold dt04
    norm_num
  · rw [idleFrames_succ]
    exact h.2

/-- Claim C20, amended. Landing-success countdown: `beginLandingSuccessCountdown` called in
state `landingWait` changes nothing; called in any other state it sets
`state = landingWait`, `landingSuccessTimer = 2` and freezes the ship (`vx = vy = 0`,
`angle = 0`, `angularVelocity = 0`, position snapped onto the pad).  Each
`updateLandingSuccessWait(dt)` replaces the timer by the double nearest to `timer - dt`,
keeps `landingWait` when `dt < timer` and enters `station` when `timer <= dt`.  Over frames
run from the begun countdown the state is `landingWait` (timer `countdown 2` of the frames
so far) as long as the timer so computed is positive, and is `station` after the first
frame that leaves it at or below 0.  When no subtraction on the way is rounded (every
`2 - accumulated dt` is a double), that frame is the first one where the accumulated `dt`
reaches 2.  The rocket's velocity, angle and angular velocity are 0 after every number of
frames. -/
theorem C20_landing_success_countdown (E : MathEnv) (g : Game)
    (hs : g.state ≠ GameState.landingWait) :
    (∀ w : Game, w.state = GameState.landingWait → w.beginLandingSuccessCountdown = w) ∧
    (g.beginLandingSuccessCountdown.state = GameState.landingWait ∧
      g.beginLandingSuccessCountdown.landingSuccessTimer = 2 ∧
      g.beginLandingSuccessCountdown.rocket.vx = 0 ∧
      g.beginLandingSuccessCountdown.rocket.vy = 0 ∧
      g.beginLandingSuccessCountdown.rocket.angle = 0 ∧
      g.beginLandingSuccessCountdown.rocket.angularVelocity = 0 ∧
      (∀ pad, g.landingPad = some pad →
        g.beginLandingSuccessCountdown.rocket.x = pad.x ∧
        g.beginLandingSuccessCountdown.rocket.y = pad.y - g.rocket.height / 2)) ∧
    (∀ (w : Game) (dt : ℚ),
      (w.updateLandingSuccessWait dt).landingSuccessTimer =
        roundDouble (w.landingSuccessTimer - dt) ∧
      (dt < w.landingSuccessTimer → (w.updateLandingSuccessWait dt).state = w.state) ∧
      (w.landingSuccessTimer ≤ dt →
        (w.updateLandingSuccessWait dt).state = GameState.station)) ∧
    (∀ (pre : List (Input × ℚ)) (f : Input × ℚ),
      (∀ k, 0 < k → k ≤ pre.length → 0 < countdown 2 (pre.take k)) →
      countdown 2 (pre ++ [f]) ≤ 0 →
      (∀ k, k ≤ pre.length →
        (Game.run E g.beginLandingSuccessCountdown (pre.take k)).state = GameState.landingWait ∧
        (Game.run E g.beginLandingSuccessCountdown (pre.take k)).landingSuccessTimer =
          countdown 2 (pre.take k)) ∧
      (Game.run E g.beginLandingSuccessCountdown (pre ++ [f])).state = GameState.station) ∧
    (∀ (pre : List (Input × ℚ)) (f : Input × ℚ),
      (∀ k, 0 < k → k ≤ pre.length + 1 →
        roundDouble (2 - elapsed ((pre ++ [f]).take k)) = 2 - elapsed ((pre ++ [f]).take k)) →
      (∀ k, 0 < k → k ≤ pre.length → elapsed (pre.take k) < 2) →
      2 ≤ elapsed (pre ++ [f]) →
      (∀ k, k ≤ pre.length →
        (Game.run E g.beginLandingSuccessCountdown (pre.take k)).state = GameState.landingWait ∧
        (Game.run E g.beginLandingSuccessCountdown (pre.take k)).landingSuccessTimer =
          2 - elapsed (pre.take k)) ∧
      (Game.run E g.beginLandingSuccessCountdown (pre ++ [f])).state = GameState.station) ∧
    (∀ fs : List (Input × ℚ),
      (Game.run E g.beginLandingSuccessCountdown fs).rocket.vx = 0 ∧
      (Game.run E g.beginLandingSuccessCountdown fs).rocket.vy = 0 ∧
      (Game.run E g.beginLandingSuccessCountdown fs).rocket.angle = 0 ∧
      (Game.run E g.beginLandingSuccessCountdown fs).rocket.angularVelocity = 0) := by
  have hf := Game.beginLandingSuccessCountdown_fresh g hs
  obtain ⟨f1, f2, f3, f4, f5, f6, -⟩ := Game.beginLandingSuccessCountdown_fresh g hs
  have hrun : ∀ (pre : List (Input × ℚ)) (f : Input × ℚ),
      (∀ k, 0 < k → k ≤ pre.length → 0 < countdown 2 (pre.take k)) →
      countdown 2 (pre ++ [f]) ≤ 0 →
      (∀ k, k ≤ pre.length →
        (Game.run E g.beginLandingSuccessCountdown (pre.take k)).state = GameState.landingWait ∧
        (Game.run E g.beginLandingSuccessCountdown (pre.take k)).landingSuccessTimer =
          countdown 2 (pre.take k)) ∧
      (Game.run E g.beginLandingSuccessCountdown (pre ++ [f])).state = GameState.station := by
    intro pre f hpos hdone
    have := Game.run_countdown E g.beginLandingSuccessCountdown f1 pre f
      (by rw [f2]; exact hpos) (by rw [f2]; exact hdone)
    rw [f2] at this
    exact this
  refine ⟨?_, hf, ?_, hrun, ?_, ?_⟩
  · intro w hw
    simp [Game.beginLandingSuccessCountdown, hw]
  · intro w dt
    obtain ⟨-, k2, k3, k4⟩ := Game.updateLandingSuccessWait_keeps w dt
    refine ⟨k2, fun h => k3 ?_, fun h => k4 ?_⟩
    · by_contra hc
      have := (roundDouble_nonpos_iff _).mp (not_lt.mp hc)
      linarith
    · exact (roundDouble_nonpos_iff _).mpr (by linarith)
  · intro pre f hex hpre hdone
    have hcd : ∀ k, k ≤ pre.length + 1 →
        countdown 2 ((pre ++ [f]).take k) = 2 - elapsed ((pre ++ [f]).take k) := by
      intro k hk
      apply countdown_exact
      intro j hj0 hjl
      rw [List.take_take]
      have hjk : j ≤ k := le_trans hjl (List.length_take_le k _)
      rw [min_eq_left hjk]
      exact hex j hj0 (le_trans hjk hk)
    have hpk : ∀ k, k ≤ pre.length →
        countdown 2 (pre.take k) = 2 - elapsed (pre.take k) := by
      intro k hk
      have := hcd k (by omega)
      rw [List.take_append_of_le_length hk] at this
      exact this
    have hall : countdown 2 (pre ++ [f]) = 2 - elapsed (pre ++ [f]) := by
      have := hcd (pre.length + 1) (le_refl _)
      rw [List.take_of_length_le (by simp)] at this
      exact this
    have h := hrun pre f
      (by
        intro k hk0 hkl
        rw [hpk k hkl]
        have := hpre k hk0 hkl
        linarith)
      (by rw [hall]; linarith)
    refine ⟨fun k hk => ?_, h.2⟩
    have := h.1 k hk
    rw [hpk k hk] at this
    exact this
  · intro fs
    rw [Game.run_wait_rocket E fs g.beginLandingSuccessCountdown (Or.inl f1)]
    exact ⟨f3, f4, f5, f6⟩

theorem roundDouble_samples :
    roundDouble 1 = 1 ∧ roundDouble (1 / 2) = 1 / 2 ∧ roundDouble (-1 / 2) = -1 / 2 := by
  refine ⟨?_, ?_, ?_⟩
  · apply roundDouble_exact 1 0 4503599627370496
    · rw [abs_of_pos (by norm_num)]; norm_num
    · rw [abs_of_pos (by norm_num)]; norm_num
    · norm_num
  · apply roundDouble_exact (1 / 2) (-1) 4503599627370496
    · rw [abs_of_pos (by norm_num)]; norm_num
    · rw [abs_of_pos (by norm_num)]; norm_num
    · norm_num
  · apply roundDouble_exact (-1 / 2) (-1) (-4503599627370496)
    · rw [abs_of_neg (by norm_num)]; norm_num
    · rw [abs_of_neg (by norm_num)]; norm_num
    · norm_num

/-- Witness for C20: a touchdown on the sample pad, then frames of 1 s, 1/2 s and 1 s, whose
differences from 2 are doubles: still waiting after 1.5 s with the timer at 1/2, in the
station after the third frame. -/
theorem C20_landing_success_countdown_witness :
    (sampleLanding 490 0 10).state ≠ GameState.landingWait ∧
    (Game.run sampleMath (sampleLanding 490 0 10).beginLandingSuccessCountdown
      [(noInput, 1), (noInput, 1 / 2)]).state = GameState.landingWait ∧
    (Game.run sampleMath (sampleLanding 490 0 10).beginLandingSuccessCountdown
      [(noInput, 1), (noInput, 1 / 2)]).landingSuccessTimer = 1 / 2 ∧
    (Game.run sampleMath (sampleLanding 490 0 10).beginLandingSuccessCountdown
      [(noInput, 1), (noInput, 1 / 2), (noInput, 1)]).state = GameState.station := by
  have hs : (sampleLanding 490 0 10).state ≠ GameState.landingWait := by
    simp [sampleLanding]
  obtain ⟨r1, r2, r3⟩ := roundDouble_samples
  have h := (C20_landing_success_countdown sampleMath (sampleLanding 490 0 10) hs).2.2.2.2.1
    [(noInput, 1), (noInput, 1 / 2)] (noInput, 1)
    (by
      intro k hk0 hkl
      have hk3 : k ≤ 3 := hkl
      interval_cases k
      · have e : (2 : ℚ) - elapsed (([(noInput, 1), (noInput, 1 / 2)] ++
            [((noInput, 1) : Input × ℚ)]).take 1) = 1 := by
          norm_num [elapsed]
        rw [e, r1]
      · have e : (2 : ℚ) - elapsed (([(noInput, 1), (noInput, 1 / 2)] ++
            [((noInput, 1) : Input × ℚ)]).take 2) = 1 / 2 := by
          norm_num [elapsed]
        rw [e, r2]
      · have e : (2 : ℚ) - elapsed (([(noInput, 1), (noInput, 1 / 2)] ++
            [((noInput, 1) : Input × ℚ)]).take 3) = -1 / 2 := by
          norm_num [elapsed]
        rw [e, r3])
    (by
      intro k hk0 hkl
      have hk2 : k ≤ 2 := hkl
      interval_cases k <;> norm_num [elapsed])
    (by simp [elapsed]; norm_num)
  have h2 := h.1 2 (le_refl 2)
  refine ⟨hs, h2.1, h2.2.trans ?_, h.2⟩
  norm_num [elapsed]

/-! ## Corridor: the segment stack spans the screen -/

theorem Corridor.refill_done (E : MathEnv) (sh cx w : ℚ) (target : ℤ) (segs : List Segment)
    (rng : ℕ) (h : ¬ ((segs.length : ℤ) < target)) :
    Corridor.refill E sh cx w target segs rng = (segs, rng) := by
  rw [Corridor.refill, if_neg h]

theorem Corridor.refill_one (E : MathEnv) (sh cx w : ℚ) (target : ℤ) (segs : List Segment)
    (rng : ℕ) (l : Segment) (hl : segs.getLast? = some l)
    (h : (segs.length : ℤ) + 1 = target) :
    (Corridor.refill E sh cx w target segs rng).1 =
      segs ++ [{ y := l.y - sh, centerX := cx + random E rng (-5) 5, width := w }] := by
  rw [Corridor.refill, if_pos (by omega)]
  simp only [hl]
  rw [Corridor.refill_done]
  simp only [List.length_append, List.length_singleton]
  push_cast
  omega

theorem Corridor.ladder_shift (segs : List Segment) (n : ℕ) (y0 d : ℚ)
    (h : segs.map Segment.y = (List.range n).map fun (i : ℕ) => y0 - (i : ℚ) * 20) :
    (segs.map fun s => { s with y := s.y + d }).map Segment.y =
      (List.range n).map fun (i : ℕ) => (y0 + d) - (i : ℚ) * 20 := by
  have e : (segs.map fun s : Segment => { s with y := s.y + d }).map Segment.y =
      (segs.map Segment.y).map (fun v => v + d) := by
    rw [List.map_map, List.map_map]
    rfl
  rw [e, h, List.map_map]
  apply List.map_congr_left
  intro i _
  simp only [Function.comp]
  ring

theorem Corridor.ladder_mem (segs : List Segment) (n : ℕ) (y0 : ℚ)
    (h : segs.map Segment.y = (List.range n).map fun (i : ℕ) => y0 - (i : ℚ) * 20)
    (s : Segment) (hs : s ∈ segs) : ∃ i : ℕ, i < n ∧ s.y = y0 - (i : ℚ) * 20 := by
  have : s.y ∈ segs.map Segment.y := List.mem_map_of_mem _ hs
  rw [h] at this
  simp only [List.mem_map, List.mem_range] at this
  obtain ⟨i, hi, hiy⟩ := this
  exact ⟨i, hi, hiy.symm⟩

theorem Corridor.init_ladder (c : Corridor) (w h : ℚ) (hsh : c.segmentHeight = 20) :
    (c.init w h).Ladder h := by
  refine ⟨hsh, h, le_refl h, by linarith, ?_⟩
  simp only [Corridor.init, List.map_map, hsh]
  rfl

theorem Corridor.update_ladder (E : MathEnv) (c : Corridor) (rng : ℕ) (dt w h : ℚ)
    (hL : c.Ladder h) (h0 : 0 ≤ h) (hs0 : 0 ≤ c.scrollSpeed * dt)
    (hs1 : c.scrollSpeed * dt ≤ 20) :
    (Corridor.update E c rng dt w h).1.Ladder h := by
  obtain ⟨hsh, y0, hy0, hy1, hmap⟩ := hL
  have hceil : (0 : ℤ) ≤ ⌈h / 20⌉ := Int.ceil_nonneg (by positivity)
  obtain ⟨k, hk⟩ : ∃ k : ℕ, (⌈h / 20⌉ + 10).toNat = k + 2 :=
    ⟨(⌈h / 20⌉ + 10).toNat - 2, by omega⟩
  have htarget : ⌈h / c.segmentHeight⌉ + 10 = ((k + 2 : ℕ) : ℤ) := by
    rw [hsh]; omega
  have hseg : (Corridor.update E c rng dt w h).1.segments =
      (Corridor.refill E c.segmentHeight
        (lerp c.centerX (w / 2 + E.sin (c.noiseOffset + dt * c.waviness) * (w * (1 / 4)) *
          c.waviness) (dt * 2)) c.width (⌈h / c.segmentHeight⌉ + 10)
        ((c.segments.map fun s => { s with y := s.y + c.scrollSpeed * dt }).filter
          fun s => decide (s.y < h + c.segmentHeight * 2)) rng).1 := rfl
  refine ⟨hsh, ?_⟩
  rw [hseg, hk, htarget]
  rw [hk] at hmap
  by_cases hA : y0 + c.scrollSpeed * dt < h + 40
  · refine ⟨y0 + c.scrollSpeed * dt, by linarith, hA, ?_⟩
    have hfilter : ((c.segments.map fun s => { s with y := s.y + c.scrollSpeed * dt }).filter
        fun s => decide (s.y < h + c.segmentHeight * 2)) =
        c.segments.map fun s => { s with y := s.y + c.scrollSpeed * dt } := by
      rw [List.filter_eq_self]
      intro s hs
      simp only [List.mem_map] at hs
      obtain ⟨s', hs', rfl⟩ := hs
      obtain ⟨i, -, hiy⟩ := Corridor.ladder_mem c.segments _ y0 hmap s' hs'
      have : (0 : ℚ) ≤ (i : ℚ) * 20 := by positivity
      simp only [decide_eq_true_eq, hsh, hiy]
      linarith
    rw [hfilter, Corridor.refill_done]
    · exact Corridor.ladder_shift c.segments _ y0 _ hmap
    · have hlen : c.segments.length = k + 2 := by
        have := congrArg List.length hmap
        simpa using this
      simp only [List.length_map, hlen]
      omega
  · refine ⟨y0 - 20 + c.scrollSpeed * dt, by linarith, by linarith, ?_⟩
    rw [List.range_succ_eq_map] at hmap
    cases hsegs : c.segments with
    | nil => rw [hsegs] at hmap; simp at hmap
    | cons s0 rest =>
      rw [hsegs] at hmap
      simp only [List.map_cons, List.map_map, List.cons.injEq] at hmap
      obtain ⟨hs0y, hrest⟩ := hmap
      have hrest' : rest.map Segment.y =
          (List.range (k + 1)).map fun (i : ℕ) => (y0 - 20) - (i : ℚ) * 20 := by
        rw [hrest]
        apply List.map_congr_left
        intro i _
        simp only [Function.comp, Nat.succ_eq_add_one]
        push_cast
        ring
      have hmoved := Corridor.ladder_shift rest _ (y0 - 20) (c.scrollSpeed * dt) hrest'
      have hfilter : ((List.map (fun s : Segment => { s with y := s.y + c.scrollSpeed * dt })
          (s0 :: rest)).filter fun s => decide (s.y < h + c.segmentHeight * 2)) =
          rest.map fun s => { s with y := s.y + c.scrollSpeed * dt } := by
        rw [List.map_cons, List.filter_cons_of_neg, List.filter_eq_self]
        · intro s hs
          simp only [List.mem_map] at hs
          obtain ⟨s', hs', rfl⟩ := hs
          obtain ⟨i, -, hiy⟩ := Corridor.ladder_mem rest _ (y0 - 20) hrest' s' hs'
          have : (0 : ℚ) ≤ (i : ℚ) * 20 := by positivity
          simp only [decide_eq_true_eq, hsh, hiy]
          linarith
        · simp only [decide_eq_true_eq, hsh, hs0y]
          push_cast
          linarith
      have hlen : rest.length = k + 1 := by
        have := congrArg List.length hrest'
        simpa using this
      obtain ⟨l, hl⟩ : ∃ l, rest.getLast? = some l := by
        cases hr : rest.getLast? with
        | none =>
          rw [List.getLast?_eq_none_iff] at hr
          rw [hr] at hlen; simp at hlen
        | some l => exact ⟨l, rfl⟩
      have hly : l.y = y0 - 20 - (k : ℚ) * 20 := by
        have h1 : (rest.map Segment.y).getLast? = some l.y := by
          rw [List.getLast?_map, hl]; rfl
        rw [hrest', List.range_succ, List.map_append, List.map_singleton,
          List.getLast?_append] at h1
        simpa using h1.symm
      rw [hfilter, Corridor.refill_one E _ _ _ _ _ rng
        { l with y := l.y + c.scrollSpeed * dt }
        (by rw [List.getLast?_map, hl]; rfl)
        (by simp only [List.length_map, hlen]; push_cast; ring)]
      rw [List.map_append, hmoved, List.range_succ (k + 1), List.map_append]
      simp only [List.map_singleton, hly, hsh]
      congr 2
      push_cast
      ring

theorem Corridor.ladder_get (segs : List Segment) (n : ℕ) (y0 : ℚ)
    (h : segs.map Segment.y = (List.range n).map fun (i : ℕ) => y0 - (i : ℚ) * 20)
    (i : ℕ) (s : Segment) (hs : segs[i]? = some s) : i < n ∧ s.y = y0 - (i : ℚ) * 20 := by
  have h1 : (segs.map Segment.y)[i]? = some s.y := by
    rw [List.getElem?_map, hs]; rfl
  rw [h, List.getElem?_map] at h1
  have hi : i < n := by
    by_contra hc
    have : (List.range n)[i]? = none := List.getElem?_eq_none (by simp; omega)
    rw [this] at h1
    simp at h1
  rw [List.getElem?_range hi] at h1
  exact ⟨hi, by simpa using h1.symm⟩

theorem Corridor.getBoundsAtY_pair (c : Corridor) (y : ℚ)
    (hlo : ∃ s ∈ c.segments, y ≤ s.y) (hup : ∃ s ∈ c.segments, s.y ≤ y) :
    ∃ lower ∈ c.segments, ∃ upper ∈ c.segments, ∃ t : ℚ, 0 ≤ t ∧ t ≤ 1 ∧
      Corridor.scanLower y none c.segments = some lower ∧
      Corridor.scanUpper y none c.segments = some upper ∧
      upper.y ≤ y ∧ y ≤ lower.y ∧
      c.getBoundsAtY y =
        { left := lerp upper.centerX lower.centerX t - lerp upper.width lower.width t / 2,
          right := lerp upper.centerX lower.centerX t + lerp upper.width lower.width t / 2,
          centerX := lerp upper.centerX lower.centerX t,
          width := lerp upper.width lower.width t } := by
  obtain ⟨l, hl, hly, hlmem, -, -⟩ :=
    Corridor.scanLower_spec y c.segments none (by intro a ha; cases ha) (Or.inl hlo)
  obtain ⟨u, hu, huy, humem, -, -⟩ :=
    Corridor.scanUpper_spec y c.segments none (by intro a ha; cases ha) (Or.inl hup)
  have hlmem' : l ∈ c.segments := by
    rcases hlmem with h | h
    · exact h
    · cases h
  have humem' : u ∈ c.segments := by
    rcases humem with h | h
    · exact h
    · cases h
  have ht : 0 ≤ (if l.y = u.y then (0 : ℚ) else (y - u.y) / (l.y - u.y)) ∧
      (if l.y = u.y then (0 : ℚ) else (y - u.y) / (l.y - u.y)) ≤ 1 := by
    split_ifs with he
    · exact ⟨le_refl _, zero_le_one⟩
    · have hne : u.y < l.y := lt_of_le_of_ne (le_trans huy hly) (fun h => he h.symm)
      have hpos : 0 < l.y - u.y := by linarith
      exact ⟨div_nonneg (by linarith) (le_of_lt hpos),
        (div_le_one hpos).mpr (by linarith)⟩
  refine ⟨l, hlmem', u, humem', _, ht.1, ht.2, hl, hu, huy, hly, ?_⟩
  unfold Corridor.getBoundsAtY
  rw [hl, hu]

theorem Corridor.Ladder.covers (c : Corridor) (h : ℚ) (hL : c.Ladder h) (h0 : 0 ≤ h) :
    (∃ s ∈ c.segments, h ≤ s.y) ∧ (∃ s ∈ c.segments, s.y ≤ -140) := by
  obtain ⟨-, y0, hy0, hy1, hmap⟩ := hL
  have hceil : (0 : ℤ) ≤ ⌈h / 20⌉ := Int.ceil_nonneg (by positivity)
  obtain ⟨k, hk⟩ : ∃ k : ℕ, (⌈h / 20⌉ + 10).toNat = k + 2 :=
    ⟨(⌈h / 20⌉ + 10).toNat - 2, by omega⟩
  have hkz : ((k : ℤ) : ℚ) = (⌈h / 20⌉ : ℚ) + 8 := by
    have : (k : ℤ) = ⌈h / 20⌉ + 8 := by omega
    rw [this]; push_cast; rfl
  have hkq : h / 20 + 8 ≤ (k : ℚ) := by
    have := Int.le_ceil (h / 20)
    have e : ((k : ℤ) : ℚ) = (k : ℚ) := by norm_cast
    linarith
  rw [hk] at hmap
  have m0 : y0 - ((0 : ℕ) : ℚ) * 20 ∈ c.segments.map Segment.y := by
    rw [hmap]
    exact List.mem_map_of_mem _ (List.mem_range.mpr (by omega))
  have m1 : y0 - ((k + 1 : ℕ) : ℚ) * 20 ∈ c.segments.map Segment.y := by
    rw [hmap]
    exact List.mem_map_of_mem _ (List.mem_range.mpr (by omega))
  obtain ⟨s0, hs0, e0⟩ := List.mem_map.mp m0
  obtain ⟨s1, hs1, e1⟩ := List.mem_map.mp m1
  refine ⟨⟨s0, hs0, ?_⟩, ⟨s1, hs1, ?_⟩⟩
  · rw [e0]; push_cast; linarith
  · rw [e1]; push_cast; linarith

theorem Corridor.Ladder.facts (c : Corridor) (h : ℚ) (hL : c.Ladder h) (h0 : 0 ≤ h) :
    ((c.segments.length : ℤ) = ⌈h / c.segmentHeight⌉ + 10) ∧
    (∀ s ∈ c.segments, s.y < h + 40) ∧
    (∀ (i : ℕ) (s t : Segment), c.segments[i]? = some s → c.segments[i + 1]? = some t →
      t.y = s.y - c.segmentHeight) ∧
    (∃ s, c.segments.head? = some s ∧ h ≤ s.y ∧ ∀ t ∈ c.segments, t.y ≤ s.y) ∧
    (∃ s, c.segments.getLast? = some s ∧ s.y ≤ 0 ∧ ∀ t ∈ c.segments, s.y ≤ t.y) := by
  obtain ⟨hsh, y0, hy0, hy1, hmap⟩ := hL
  have hceil : (0 : ℤ) ≤ ⌈h / 20⌉ := Int.ceil_nonneg (by positivity)
  have hlen : c.segments.length = (⌈h / 20⌉ + 10).toNat := by
    have := congrArg List.length hmap
    simpa using this
  obtain ⟨k, hk⟩ : ∃ k : ℕ, (⌈h / 20⌉ + 10).toNat = k + 2 :=
    ⟨(⌈h / 20⌉ + 10).toNat - 2, by omega⟩
  have hkq : h / 20 + 8 ≤ (k : ℚ) := by
    have h1 : (k : ℤ) = ⌈h / 20⌉ + 8 := by omega
    have h2 : ((k : ℤ) : ℚ) = (⌈h / 20⌉ : ℚ) + 8 := by rw [h1]; push_cast; rfl
    have := Int.le_ceil (h / 20)
    have e : ((k : ℤ) : ℚ) = (k : ℚ) := by norm_cast
    linarith
  refine ⟨?_, ?_, ?_, ?_, ?_⟩
  · rw [hlen, hsh]; omega
  · intro s hs
    obtain ⟨i, -, hiy⟩ := Corridor.ladder_mem c.segments _ y0 hmap s hs
    have : (0 : ℚ) ≤ (i : ℚ) * 20 := by positivity
    linarith
  · intro i s t hs ht
    obtain ⟨-, e1⟩ := Corridor.ladder_get c.segments _ y0 hmap i s hs
    obtain ⟨-, e2⟩ := Corridor.ladder_get c.segments _ y0 hmap (i + 1) t ht
    rw [e1, e2, hsh]; push_cast; ring
  · cases hsegs : c.segments with
    | nil => rw [hsegs] at hlen; simp at hlen; omega
    | cons s0 rest =>
      have e0 := (Corridor.ladder_get c.segments _ y0 hmap 0 s0 (by rw [hsegs]; simp)).2
      refine ⟨s0, rfl, by rw [e0]; push_cast; linarith, ?_⟩
      intro t ht
      rw [← hsegs] at ht
      obtain ⟨i, -, hiy⟩ := Corridor.ladder_mem c.segments _ y0 hmap t ht
      have : (0 : ℚ) ≤ (i : ℚ) * 20 := by positivity
      rw [e0, hiy]; push_cast; linarith
  · obtain ⟨l, hl⟩ : ∃ l, c.segments.getLast? = some l := by
      cases hr : c.segments.getLast? with
      | none =>
        rw [List.getLast?_eq_none_iff] at hr
        rw [hr] at hlen; simp at hlen; omega
      | some l => exact ⟨l, rfl⟩
    have hly : l.y = y0 - ((k + 1 : ℕ) : ℚ) * 20 := by
      have h1 : (c.segments.map Segment.y).getLast? = some l.y := by
        rw [List.getLast?_map, hl]; rfl
      rw [hmap, hk, List.range_succ, List.map_append, List.map_singleton,
        List.getLast?_append] at h1
      simpa using h1.symm
    refine ⟨l, hl, ?_, ?_⟩
    · rw [hly]; push_cast; linarith
    · intro t ht
      obtain ⟨i, hi, hiy⟩ := Corridor.ladder_mem c.segments _ y0 hmap t ht
      have hi2 : i ≤ k + 1 := by omega
      have : (i : ℚ) ≤ ((k + 1 : ℕ) : ℚ) := by exact_mod_cast hi2
      rw [hly, hiy]; linarith

theorem Corridor.runFrames_ladder (E : MathEnv) (h : ℚ) (h0 : 0 ≤ h)
    (frames : List CorridorFrame) :
    ∀ s : Corridor × ℕ, s.1.Ladder h →
      (∀ f ∈ frames, 0 ≤ f.scrollSpeed * f.dt ∧ f.scrollSpeed * f.dt ≤ 20) →
      (Corridor.runFrames E h s frames).1.Ladder h := by
  induction frames with
  | nil => intro s hs _; exact hs
  | cons f rest ih =>
    intro s hs hf
    have h1 := hf f (List.mem_cons_self _ _)
    have hs' : Corridor.Ladder { s.1 with scrollSpeed := f.scrollSpeed } h := hs
    exact ih _ (Corridor.update_ladder E _ s.2 f.dt f.canvasWidth h hs' h0 h1.1 h1.2)
      (fun g hg => hf g (List.mem_cons_of_mem _ hg))

/-- Claim C15. Corridor stack always spans the screen: for a corridor (with
`segmentHeight = 20`, as the constructor sets it) initialised by `init(w, h)` with a canvas
height `h >= 0` and then updated any number of times with the same `h` and
`0 <= scrollSpeed*dt <= 20` per update, the stack has exactly `ceil(h/20) + 10` segments,
every segment has `y < h + 40`, consecutive segments are exactly `segmentHeight` apart in
decreasing `y`, the first (lowest on screen) segment has `y >= h` and the last (highest) has
`y <= 0`; hence for every `y` in `[0, h]` the scan of `getBoundsAtY` finds a straddling pair
and the result is the interpolated record, not the fallback. -/
theorem C15_corridor_stack_spans_screen (E : MathEnv) (c : Corridor) (w h : ℚ) (rng : ℕ)
    (frames : List CorridorFrame) (hsh : c.segmentHeight = 20) (h0 : 0 ≤ h)
    (hscroll : ∀ f ∈ frames, 0 ≤ f.scrollSpeed * f.dt ∧ f.scrollSpeed * f.dt ≤ 20) :
    (((Corridor.runFrames E h (c.init w h, rng) frames).1.segments.length : ℤ) =
      ⌈h / (Corridor.runFrames E h (c.init w h, rng) frames).1.segmentHeight⌉ + 10) ∧
    (∀ s ∈ (Corridor.runFrames E h (c.init w h, rng) frames).1.segments, s.y < h + 40) ∧
    (∀ (i : ℕ) (s t : Segment),
      (Corridor.runFrames E h (c.init w h, rng) frames).1.segments[i]? = some s →
      (Corridor.runFrames E h (c.init w h, rng) frames).1.segments[i + 1]? = some t →
      t.y = s.y - (Corridor.runFrames E h (c.init w h, rng) frames).1.segmentHeight) ∧
    (∃ s, (Corridor.runFrames E h (c.init w h, rng) frames).1.segments.head? = some s ∧
      h ≤ s.y ∧
      ∀ t ∈ (Corridor.runFrames E h (c.init w h, rng) frames).1.segments, t.y ≤ s.y) ∧
    (∃ s, (Corridor.runFrames E h (c.init w h, rng) frames).1.segments.getLast? = some s ∧
      s.y ≤ 0 ∧
      ∀ t ∈ (Corridor.runFrames E h (c.init w h, rng) frames).1.segments, s.y ≤ t.y) ∧
    (∀ y : ℚ, 0 ≤ y → y ≤ h →
      ∃ lower ∈ (Corridor.runFrames E h (c.init w h, rng) frames).1.segments,
      ∃ upper ∈ (Corridor.runFrames E h (c.init w h, rng) frames).1.segments, ∃ t : ℚ,
        0 ≤ t ∧ t ≤ 1 ∧
        Corridor.scanLower y none
          (Corridor.runFrames E h (c.init w h, rng) frames).1.segments = some lower ∧
        Corridor.scanUpper y none
          (Corridor.runFrames E h (c.init w h, rng) frames).1.segments = some upper ∧
        upper.y ≤ y ∧ y ≤ lower.y ∧
        (Corridor.runFrames E h (c.init w h, rng) frames).1.getBoundsAtY y =
          { left := lerp upper.centerX lower.centerX t - lerp upper.width lower.width t / 2,
            right := lerp upper.centerX lower.centerX t + lerp upper.width lower.width t / 2,
            centerX := lerp upper.centerX lower.centerX t,
            width := lerp upper.width lower.width t }) := by
  have hL := Corridor.runFrames_ladder E h h0 frames (c.init w h, rng)
    (Corridor.init_ladder c w h hsh) hscroll
  obtain ⟨f1, f2, f3, f4, f5⟩ := Corridor.Ladder.facts _ h hL h0
  refine ⟨f1, f2, f3, f4, f5, ?_⟩
  intro y hy0 hyh
  obtain ⟨⟨a, ha, hay⟩, ⟨b, hb, hby⟩⟩ := Corridor.Ladder.covers _ h hL h0
  exact Corridor.getBoundsAtY_pair _ y ⟨a, ha, by linarith⟩ ⟨b, hb, by linarith⟩

/-- Witness for C15: the constructor's corridor on an 800 x 600 canvas, after updates that
scroll by 6, 20 and 0 pixels: 40 segments, and the bounds at `y = 300` come from a
straddling pair. -/
theorem C15_corridor_stack_spans_screen_witness :
    (Corridor.new 600).segmentHeight = 20 ∧ (0 : ℚ) ≤ 600 ∧
    (((Corridor.runFrames sampleMath 600 ((Corridor.new 600).init 800 600, 0)
      [{ scrollSpeed := 60, dt := 1 / 10, canvasWidth := 800 },
       { scrollSpeed := 200, dt := 1 / 10, canvasWidth := 800 },
       { scrollSpeed := 60, dt := 0, canvasWidth := 800 }]).1.segments.length : ℤ) =
      ⌈(600 : ℚ) / 20⌉ + 10) ∧
    (∃ lower upper : Segment,
      Corridor.scanLower 300 none
        (Corridor.runFrames sampleMath 600 ((Corridor.new 600).init 800 600, 0)
          [{ scrollSpeed := 60, dt := 1 / 10, canvasWidth := 800 },
           { scrollSpeed := 200, dt := 1 / 10, canvasWidth := 800 },
           { scrollSpeed := 60, dt := 0, canvasWidth := 800 }]).1.segments = some lower ∧
      Corridor.scanUpper 300 none
        (Corridor.runFrames sampleMath 600 ((Corridor.new 600).init 800 600, 0)
          [{ scrollSpeed := 60, dt := 1 / 10, canvasWidth := 800 },
           { scrollSpeed := 200, dt := 1 / 10, canvasWidth := 800 },
           { scrollSpeed := 60, dt := 0, canvasWidth := 800 }]).1.segments = some upper) := by
  have h := C15_corridor_stack_spans_screen sampleMath (Corridor.new 600) 800 600 0
    [{ scrollSpeed := 60, dt := 1 / 10, canvasWidth := 800 },
     { scrollSpeed := 200, dt := 1 / 10, canvasWidth := 800 },
     { scrollSpeed := 60, dt := 0, canvasWidth := 800 }] rfl (by norm_num)
    (by
      intro f hf
      simp only [List.mem_cons, List.mem_singleton, List.not_mem_nil, or_false] at hf
      rcases hf with rfl | rfl | rfl <;> norm_num)
  obtain ⟨h1, -, -, -, -, h6⟩ := h
  obtain ⟨lower, -, upper, -, t, -, -, hl, hu, -, -, -⟩ := h6 300 (by norm_num) (by norm_num)
  exact ⟨rfl, by norm_num, h1, lower, upper, hl, hu⟩

/-! ## Wall containment over a run -/

theorem Rocket.takeDamage_track (r : Rocket) (amount : ℚ) :
    (r.takeDamage amount).2.track = r.track := by
  unfold Rocket.takeDamage
  split_ifs <;> rfl

theorem Game.pickupPass_track (E : MathEnv) (dt ss ch : ℚ) (pickups : List Pickup)
    (r : Rocket) : (Game.pickupPass E dt ss ch pickups r).2.track = r.track := by
  induction pickups with
  | nil => rfl
  | cons p rest ih =>
    simp only [Game.pickupPass]
    split_ifs
    · rw [← ih]
      cases (p.update dt ss).type <;> rfl
    · exact ih
    · exact ih

theorem Game.asteroidPass_track (E : MathEnv) (dt : ℚ) (asteroids : List Asteroid) (g : Game) :
    (Game.asteroidPass E dt asteroids g).game.track = g.track := by
  induction asteroids with
  | nil => rfl
  | cons a rest ih =>
    have hd := Rocket.takeDamage_track (Game.asteroidPass E dt rest g).game.rocket
      (Game.asteroidPass E dt rest g).game.damageAmount
    have hg : ∀ reason, (Game.gameOver (Game.triggerShake
        { (Game.asteroidPass E dt rest g).game with
          rocket := ((Game.asteroidPass E dt rest g).game.rocket.takeDamage
            (Game.asteroidPass E dt rest g).game.damageAmount).2 } 10 (1 / 4)) reason).track =
        g.track := by
      intro reason
      rw [← ih]
      simp only [Game.track, Game.gameOver, Game.triggerShake, hd]
    have hs : (Game.triggerShake
        { (Game.asteroidPass E dt rest g).game with
          rocket := ((Game.asteroidPass E dt rest g).game.rocket.takeDamage
            (Game.asteroidPass E dt rest g).game.damageAmount).2 } 10 (1 / 4)).track =
        g.track := by
      rw [← ih]
      simp only [Game.track, Game.triggerShake, hd]
    simp only [Game.asteroidPass]
    split_ifs
    · exact ih
    · exact hg _
    · exact hs
    · exact ih
    · exact ih

theorem Game.stepAsteroids_track (E : MathEnv) (g : Game) (dt : ℚ) :
    (Game.stepAsteroids E g dt).1.track = g.track := by
  unfold Game.stepAsteroids
  exact Game.asteroidPass_track E dt g.asteroids g

theorem Game.stepSpawnAsteroids_track (E : MathEnv) (g : Game) (dt : ℚ) :
    (Game.stepSpawnAsteroids E g dt).track = g.track := by
  unfold Game.stepSpawnAsteroids
  simp only []
  split_ifs <;> rfl

theorem Game.stepMissiles_track (E : MathEnv) (g : Game) (dt : ℚ) :
    (Game.stepMissiles E g dt).track = g.track := rfl

theorem Game.stepPickups_track (E : MathEnv) (g : Game) (dt : ℚ) :
    (Game.stepPickups E g dt).track = g.track := by
  unfold Game.stepPickups
  simp only [Game.track, Game.pickupPass_track]
  split_ifs <;> rfl

theorem Game.updatePlaying_track (E : MathEnv) (g : Game) (input : Input) (dt : ℚ)
    (hp : input.pause = false) (hprog : (Game.stepProgress E g dt).2 = false) :
    (Game.updatePlaying E g input dt).thrown = false ∧
    (Game.updatePlaying E g input dt).game.track =
      (Game.stepWalls (Game.stepMotion E (Game.stepProgress E g dt).1 dt input
        g.appliedScrollSpeed)).1.track := by
  unfold Game.updatePlaying
  simp only [hp, hprog, Bool.false_eq_true, if_false]
  split_ifs
  · exact ⟨rfl, rfl⟩
  · refine ⟨rfl, ?_⟩
    rw [Game.stepAsteroids_track, Game.stepMissiles_track, Game.stepSpawnAsteroids_track]
  · refine ⟨rfl, ?_⟩
    rw [Game.stepPickups_track, Game.stepAsteroids_track, Game.stepMissiles_track,
      Game.stepSpawnAsteroids_track]

theorem Corridor.refill_mem (E : MathEnv) (sh cx w : ℚ) (target : ℤ) :
    ∀ (n : ℕ) (segs : List Segment) (rng : ℕ), (target - segs.length).toNat = n →
      ∀ s ∈ (Corridor.refill E sh cx w target segs rng).1, s ∈ segs ∨ s.width = w := by
  intro n
  induction n using Nat.strong_induction_on with
  | _ n ih =>
    intro segs rng hn s hs
    rw [Corridor.refill] at hs
    split_ifs at hs with hlt
    · simp only [] at hs
      have hm := ih _ (by
        simp only [List.length_append, List.length_singleton]
        push_cast
        omega) _ (rng + 1) rfl s hs
      rcases hm with hm | hm
      · rcases List.mem_append.mp hm with h1 | h1
        · exact Or.inl h1
        · simp only [List.mem_singleton] at h1
          right; rw [h1]
      · exact Or.inr hm
    · exact Or.inl hs

theorem Corridor.update_widths (E : MathEnv) (c : Corridor) (rng : ℕ) (dt cw ch : ℚ)
    (h : ∀ s ∈ c.segments, s.width = c.width) :
    (Corridor.update E c rng dt cw ch).1.width = c.width ∧
    ∀ s ∈ (Corridor.update E c rng dt cw ch).1.segments, s.width = c.width := by
  refine ⟨rfl, ?_⟩
  intro s hs
  have hs' : s ∈ (Corridor.refill E c.segmentHeight
      (lerp c.centerX (cw / 2 + E.sin (c.noiseOffset + dt * c.waviness) * (cw * (1 / 4)) *
        c.waviness) (dt * 2)) c.width (⌈ch / c.segmentHeight⌉ + 10)
      ((c.segments.map fun s => { s with y := s.y + c.scrollSpeed * dt }).filter
        fun s => decide (s.y < ch + c.segmentHeight * 2)) rng).1 := hs
  rcases Corridor.refill_mem E _ _ _ _ _ _ _ rfl s hs' with h1 | h1
  · have h2 := List.mem_of_mem_filter h1
    simp only [List.mem_map] at h2
    obtain ⟨s', hs2, rfl⟩ := h2
    exact h s' hs2
  · exact h1

theorem Rocket.shoot_track (E : MathEnv) (r : Rocket) : (r.shoot E).2.track = r.track := by
  unfold Rocket.shoot
  split_ifs <;> rfl

theorem clampY_range (y h : ℚ) (h0 : 0 ≤ h) :
    -60 ≤ (if (if y < h * (3 / 10) then h * (3 / 10) else y) > h - 60 then h - 60
      else (if y < h * (3 / 10) then h * (3 / 10) else y)) ∧
    (if (if y < h * (3 / 10) then h * (3 / 10) else y) > h - 60 then h - 60
      else (if y < h * (3 / 10) then h * (3 / 10) else y)) ≤ h := by
  split_ifs <;> constructor <;> linarith

theorem Rocket.update_flying_track (E : MathEnv) (r : Rocket) (dt : ℚ) (input : Input)
    (cw ch ss : ℚ) (hm : r.landingMode = false) (h0 : 0 ≤ ch) :
    (r.update E dt input cw ch ss).collisionRadius = r.collisionRadius ∧
    (r.update E dt input cw ch ss).landingMode = false ∧
    -60 ≤ (r.update E dt input cw ch ss).y ∧ (r.update E dt input cw ch ss).y ≤ ch := by
  have hm' : (r.updateRotation E dt input).landingMode = false := by
    unfold Rocket.updateRotation
    simp only []
    split_ifs <;> exact hm
  have hc : (r.updateRotation E dt input).collisionRadius = r.collisionRadius := by
    unfold Rocket.updateRotation
    simp only []
    split_ifs <;> rfl
  have hu : r.update E dt input cw ch ss =
      ((r.updateRotation E dt input).updateFlying E dt input cw ch ss).updateTimers dt := by
    unfold Rocket.update
    simp only [hm', Bool.false_eq_true, if_false]
  have hy : ∃ Y : ℚ, (r.update E dt input cw ch ss).y =
      (if (if Y < ch * (3 / 10) then ch * (3 / 10) else Y) > ch - 60 then ch - 60
        else (if Y < ch * (3 / 10) then ch * (3 / 10) else Y)) := by
    rw [hu]
    exact ⟨_, rfl⟩
  obtain ⟨Y, hY⟩ := hy
  have hr := clampY_range Y ch h0
  rw [← hY] at hr
  refine ⟨?_, ?_, hr.1, hr.2⟩
  · rw [hu]; exact hc
  · rw [hu]; exact hm'

theorem Game.stepMotion_track (E : MathEnv) (g : Game) (dt : ℚ) (input : Input) (a : ℚ) :
    (Game.stepMotion E g dt input a).corridor =
      { (Corridor.update E { g.corridor with scrollSpeed := a } g.rng dt g.canvasWidth
          g.canvasHeight).1 with scrollSpeed := g.corridor.scrollSpeed } ∧
    (Game.stepMotion E g dt input a).canvasHeight = g.canvasHeight ∧
    (Game.stepMotion E g dt input a).rocket.track =
      (g.rocket.update E dt input g.canvasWidth g.canvasHeight a).track := by
  refine ⟨rfl, rfl, ?_⟩
  unfold Game.stepMotion
  simp only []
  split_ifs
  · exact Rocket.shoot_track E _
  · rfl

theorem Game.stepWalls_track (g : Game) :
    (Game.stepWalls g).1.track =
      (g.corridor, g.canvasHeight,
        ((if decide (g.rocket.x - g.rocket.collisionRadius <
              (g.corridor.getBoundsAtY g.rocket.y).left) = true then
            (g.corridor.getBoundsAtY g.rocket.y).left + g.rocket.collisionRadius
          else if (!decide (g.rocket.x - g.rocket.collisionRadius <
              (g.corridor.getBoundsAtY g.rocket.y).left) &&
              decide (g.rocket.x + g.rocket.collisionRadius >
                (g.corridor.getBoundsAtY g.rocket.y).right)) = true then
            (g.corridor.getBoundsAtY g.rocket.y).right - g.rocket.collisionRadius
          else g.rocket.x),
         g.rocket.y, g.rocket.collisionRadius, g.rocket.landingMode)) := by
  unfold Game.stepWalls
  simp only []
  split_ifs <;>
    simp only [Game.track, Game.gameOver, Game.triggerShake, Rocket.takeDamage_track] <;> rfl

theorem Game.nextLevel_leaves_straight (E : MathEnv) (g : Game) :
    (Game.nextLevel E g).state = GameState.landing ∨
    0 < (Game.nextLevel E g).corridor.waviness := by
  by_cases hc : (g.level + 1) % g.checkpointLevel = 0
  · exact Or.inl (Game.nextLevel_checkpoint E g hc).1
  · right
    rw [(Game.nextLevel_normal E g hc).2.2.2.1]
    have : (0 : ℚ) ≤ (g.level : ℚ) := Nat.cast_nonneg _
    simp only [Corridor.setDifficulty]
    push_cast
    linarith

theorem Game.stepProgress_track (E : MathEnv) (g : Game) (dt : ℚ) :
    ((Game.stepProgress E g dt).2 = false →
      (Game.stepProgress E g dt).1.corridor = g.corridor ∧
      (Game.stepProgress E g dt).1.rocket = g.rocket ∧
      (Game.stepProgress E g dt).1.canvasHeight = g.canvasHeight ∧
      (Game.stepProgress E g dt).1.canvasWidth = g.canvasWidth ∧
      (Game.stepProgress E g dt).1.rng = g.rng) ∧
    ((Game.stepProgress E g dt).2 = true →
      (Game.stepProgress E g dt).1.state = GameState.landing ∨
      0 < (Game.stepProgress E g dt).1.corridor.waviness) := by
  unfold Game.stepProgress
  simp only []
  split_ifs with h
  · exact ⟨fun hf => (by cases hf), fun _ => Game.nextLevel_leaves_straight E _⟩
  · exact ⟨fun _ => ⟨rfl, rfl, rfl, rfl, rfl⟩, fun hf => (by cases hf)⟩

theorem contained_near (x r cx wd : ℚ) (hr : r ≤ wd / 2) :
    |(if decide (x - r < cx - wd / 2) = true then cx - wd / 2 + r
      else if (!decide (x - r < cx - wd / 2) && decide (x + r > cx + wd / 2)) = true then
        cx + wd / 2 - r
      else x) - cx| ≤ wd / 2 - r := by
  by_cases h1 : x - r < cx - wd / 2
  · simp only [h1, decide_True, if_true]
    rw [abs_le]; constructor <;> linarith
  · by_cases h2 : x + r > cx + wd / 2
    · simp only [h1, h2, decide_False, decide_True, Bool.not_false, Bool.and_self,
        Bool.false_eq_true, if_false, if_true]
      rw [abs_le]; constructor <;> linarith
    · simp only [h1, h2, decide_False, Bool.not_false, Bool.and_false,
        Bool.false_eq_true, if_false]
      rw [abs_le]; constructor <;> linarith

theorem Game.stepWalls_near (g : Game) (hg : g.OnTrack) (hy0 : -140 ≤ g.rocket.y)
    (hy1 : g.rocket.y ≤ g.canvasHeight) :
    (Game.stepWalls g).1.OnTrack ∧ (Game.stepWalls g).1.drift ≤ 157 := by
  obtain ⟨h0, hL, hss, hwd, hsw, hcr, hlm⟩ := hg
  have htr := Game.stepWalls_track g
  simp only [Game.track, Rocket.track, Prod.mk.injEq] at htr
  obtain ⟨t1, t2, t3, t4, t5, t6⟩ := htr
  obtain ⟨⟨a, ha, hay⟩, ⟨b, hb, hby⟩⟩ := Corridor.Ladder.covers _ _ hL h0
  obtain ⟨l, hl, u, hu, t, -, -, -, -, -, -, hbd⟩ :=
    Corridor.getBoundsAtY_pair g.corridor g.rocket.y ⟨a, ha, by linarith⟩ ⟨b, hb, by linarith⟩
  have hw : lerp u.width l.width t = 350 := by
    rw [hsw u hu, hsw l hl]; unfold lerp; ring
  refine ⟨⟨?_, ?_, ?_, ?_, ?_, ?_, ?_⟩, ?_⟩
  · rw [t2]; exact h0
  · rw [t1, t2]; exact hL
  · rw [t1]; exact hss
  · rw [t1]; exact hwd
  · rw [t1]; exact hsw
  · rw [t5]; exact hcr
  · rw [t6]; exact hlm
  · unfold Game.drift
    rw [t1, t4, t3, hbd]
    simp only [hw, hcr]
    have := contained_near g.rocket.x 18 (lerp u.centerX l.centerX t) 350 (by norm_num)
    norm_num at this ⊢
    exact this

theorem Game.update_onTrack (E : MathEnv) (g : Game) (input : Input) (dt : ℚ)
    (hg : g.OnTrack) (hs : g.state = GameState.playing) (hdt0 : 0 ≤ dt) (hdt1 : dt ≤ 1 / 10)
    (hs' : (Game.update E g input dt).game.state = GameState.playing)
    (hw' : (Game.update E g input dt).game.corridor.waviness = 0) :
    (Game.update E g input dt).thrown = false ∧ (Game.update E g input dt).game.OnTrack ∧
    (Game.update E g input dt).game.drift ≤ 157 := by
  have hu : Game.update E g input dt = Game.updatePlaying E g input dt := by
    simp [Game.update, hs]
  rw [hu] at hs' hw' ⊢
  cases hp : input.pause with
  | true =>
    exfalso
    have : (Game.updatePlaying E g input dt).game.state = GameState.paused := by
      simp [Game.updatePlaying, hp, Game.pauseGame, hs]
    rw [this] at hs'
    cases hs'
  | false =>
    obtain ⟨pf, pt⟩ := Game.stepProgress_track E g dt
    cases hprog : (Game.stepProgress E g dt).2 with
    | true =>
      exfalso
      have hgm : (Game.updatePlaying E g input dt).game = (Game.stepProgress E g dt).1 := by
        simp [Game.updatePlaying, hp, hprog]
      rw [hgm] at hs' hw'
      rcases pt hprog with h | h
      · rw [h] at hs'; cases hs'
      · rw [hw'] at h; exact lt_irrefl _ h
    | false =>
      obtain ⟨e1, e2, e3, e4, e5⟩ := pf hprog
      obtain ⟨ht, htr⟩ := Game.updatePlaying_track E g input dt hp hprog
      obtain ⟨m1, m2, m3⟩ := Game.stepMotion_track E (Game.stepProgress E g dt).1 dt input
        g.appliedScrollSpeed
      rw [e1, e3, e4, e5] at m1
      rw [e2, e3, e4] at m3
      rw [e3] at m2
      obtain ⟨h0, hL, hss, hwd, hsw, hcr, hlm⟩ := hg
      obtain ⟨u1, u2, u3, u4⟩ := Rocket.update_flying_track E g.rocket dt input g.canvasWidth
        g.canvasHeight g.appliedScrollSpeed hlm h0
      simp only [Rocket.track, Prod.mk.injEq] at m3
      obtain ⟨-, r2, r3, r4⟩ := m3
      have ha : 0 ≤ g.appliedScrollSpeed * dt ∧ g.appliedScrollSpeed * dt ≤ 20 := by
        unfold Game.appliedScrollSpeed
        rw [hss]
        split_ifs <;> constructor <;> linarith
      have hL' : Corridor.Ladder { g.corridor with scrollSpeed := g.appliedScrollSpeed }
          g.canvasHeight := hL
      have hlad := Corridor.update_ladder E { g.corridor with scrollSpeed := g.appliedScrollSpeed }
        g.rng dt g.canvasWidth g.canvasHeight hL' h0 ha.1 ha.2
      have hwid := Corridor.update_widths E
        { g.corridor with scrollSpeed := g.appliedScrollSpeed } g.rng dt g.canvasWidth
        g.canvasHeight (fun s hs => (hsw s hs).trans hwd.symm)
      have hM : (Game.stepMotion E (Game.stepProgress E g dt).1 dt input
          g.appliedScrollSpeed).OnTrack := by
        refine ⟨?_, ?_, ?_, ?_, ?_, ?_, ?_⟩
        · rw [m2]; exact h0
        · rw [m1, m2]; exact hlad
        · rw [m1]; exact hss
        · rw [m1]; exact hwid.1.trans hwd
        · rw [m1]; exact fun s hs => (hwid.2 s hs).trans hwd
        · rw [r3, u1]; exact hcr
        · rw [r4]; exact u2
      have hnear := Game.stepWalls_near _ hM (by rw [r2]; linarith) (by rw [r2, m2]; exact u4)
      obtain ⟨⟨w1, w2, w3, w4, w5, w6, w7⟩, wd⟩ := hnear
      simp only [Game.track, Rocket.track, Prod.mk.injEq] at htr
      obtain ⟨t1, t2, t3, t4, t5, t6⟩ := htr
      refine ⟨ht, ⟨?_, ?_, ?_, ?_, ?_, ?_, ?_⟩, ?_⟩
      · rw [t2]; exact w1
      · rw [t1, t2]; exact w2
      · rw [t1]; exact w3
      · rw [t1]; exact w4
      · rw [t1]; exact w5
      · rw [t5]; exact w6
      · rw [t6]; exact w7
      · unfold Game.drift at wd ⊢
        rw [t1, t3, t4]
        exact wd

theorem Game.run_drift (E : MathEnv) (frames : List (Input × ℚ)) :
    ∀ g : Game, g.OnTrack → g.drift ≤ 157 →
      (∀ f ∈ frames, 0 ≤ f.2 ∧ f.2 ≤ 1 / 10) →
      (∀ k ≤ frames.length, (Game.run E g (frames.take k)).state = GameState.playing ∧
        (Game.run E g (frames.take k)).corridor.waviness = 0) →
      (Game.run E g frames).drift ≤ 157 := by
  induction frames with
  | nil => intro g _ hd _ _; exact hd
  | cons f rest ih =>
    intro g hg _ hdt hstay
    have hs : g.state = GameState.playing := (hstay 0 (Nat.zero_le _)).1
    have h1 := hstay 1 (by simp)
    have hone : Game.run E g (List.take 1 (f :: rest)) = (Game.update E g f.1 f.2).game := by
      simp only [List.take_succ_cons, List.take_zero, Game.run]
      split_ifs <;> rfl
    rw [hone] at h1
    have hf := hdt f (List.mem_cons_self _ _)
    obtain ⟨ht, hon, hdr⟩ := Game.update_onTrack E g f.1 f.2 hg hs hf.1 hf.2 h1.1 h1.2
    have hrun : ∀ fs, Game.run E g (f :: fs) = Game.run E (Game.update E g f.1 f.2).game fs := by
      intro fs
      simp only [Game.run, ht, Bool.false_eq_true, if_false]
    rw [hrun]
    refine ih _ hon hdr (fun x hx => hdt x (List.mem_cons_of_mem _ hx)) ?_
    intro k hk
    have := hstay (k + 1) (by simpa using hk)
    rw [List.take_succ_cons, hrun] at this
    exact this

theorem Game.straightStart_onTrack (g : Game) (hh : 0 ≤ g.canvasHeight) :
    g.straightStart.OnTrack ∧ g.straightStart.drift ≤ 157 := by
  have hL : g.straightStart.corridor.Ladder g.straightStart.canvasHeight :=
    Corridor.init_ladder (Corridor.new g.canvasHeight) g.canvasWidth g.canvasHeight rfl
  have hseg : ∀ s ∈ g.straightStart.corridor.segments,
      s.width = 350 ∧ s.centerX = g.canvasWidth / 2 := by
    intro s hs
    have hs' : s ∈ ((Corridor.new g.canvasHeight).init g.canvasWidth g.canvasHeight).segments :=
      hs
    simp only [Corridor.init, Corridor.new, List.mem_map] at hs'
    obtain ⟨i, -, rfl⟩ := hs'
    exact ⟨rfl, rfl⟩
  have hon : g.straightStart.OnTrack := by
    refine ⟨hh, hL, ?_, ?_, fun s hs => (hseg s hs).1, rfl, rfl⟩
    · show (60 : ℚ) + (((1 : ℕ) : ℚ) - 1) * 8 = 60
      norm_num
    · show max (120 : ℚ) (350 - (((1 : ℕ) : ℚ) - 1) * 25) = 350
      norm_num
  refine ⟨hon, ?_⟩
  obtain ⟨⟨a, ha, hay⟩, ⟨b, hb, hby⟩⟩ := Corridor.Ladder.covers _ _ hL hh
  have hy : g.straightStart.rocket.y = g.canvasHeight - 120 := rfl
  have hx : g.straightStart.rocket.x = g.canvasWidth / 2 := rfl
  have hc : g.straightStart.canvasHeight = g.canvasHeight := rfl
  obtain ⟨l, hl, u, hu, t, -, -, -, -, -, -, hbd⟩ :=
    Corridor.getBoundsAtY_pair g.straightStart.corridor g.straightStart.rocket.y
      ⟨a, ha, by rw [hy]; rw [hc] at hay; linarith⟩ ⟨b, hb, by rw [hy]; linarith⟩
  unfold Game.drift
  rw [hbd, hx, (hseg u hu).2, (hseg l hl).2]
  simp only [lerp]
  norm_num

/-- Claim C11. No sideways drift in a straight corridor: starting from `startGame` (rocket at
`x = canvasWidth/2`, `vx = 0`, `angle = 0`, angular velocity 0) with the corridor's waviness
set to 0, on a canvas of non-negative height, for every number of frames and every `dt`
sequence with `0 <= dt <= 0.1`, whatever the inputs (in particular thrust held with no
turn), for as long as the state stays `playing` with waviness 0 after every frame,
`|rocket.x - centerX of getBoundsAtY(rocket.y)|` is at most 157 (half the corridor width
350 minus the collision radius 18), a bound that depends neither on the elapsed time nor on
the number of frames. -/
theorem C11_no_sideways_drift (E : MathEnv) (g : Game) (frames : List (Input × ℚ))
    (hh : 0 ≤ g.canvasHeight)
    (hdt : ∀ f ∈ frames, 0 ≤ f.2 ∧ f.2 ≤ 1 / 10)
    (hstay : ∀ k ≤ frames.length,
      (Game.run E g.straightStart (frames.take k)).state = GameState.playing ∧
      (Game.run E g.straightStart (frames.take k)).corridor.waviness = 0) :
    g.straightStart.rocket.x = g.canvasWidth / 2 ∧
    g.straightStart.rocket.vx = 0 ∧
    g.straightStart.rocket.angle = 0 ∧
    g.straightStart.rocket.angularVelocity = 0 ∧
    g.straightStart.corridor.waviness = 0 ∧
    |(Game.run E g.straightStart frames).rocket.x -
      ((Game.run E g.straightStart frames).corridor.getBoundsAtY
        (Game.run E g.straightStart frames).rocket.y).centerX| ≤ 157 := by
  obtain ⟨hon, hd⟩ := Game.straightStart_onTrack g hh
  exact ⟨rfl, rfl, rfl, rfl, rfl, Game.run_drift E frames g.straightStart hon hd hdt hstay⟩

theorem Rocket.takeDamage_shielded (r : Rocket) (amount : ℚ) (hs : 0 < r.shield) :
    (r.takeDamage amount).2.health = r.health := by
  unfold Rocket.takeDamage
  split_ifs
  · rfl
  · simp only [gt_iff_lt, hs, if_true]

theorem Game.stepWalls_alive (g : Game) (hs : 0 < g.rocket.shield) (hh : 0 < g.rocket.health) :
    (Game.stepWalls g).2 = false ∧ (Game.stepWalls g).1.state = g.state ∧
    (Game.stepWalls g).1.level = g.level := by
  have hal : ∀ r : Rocket, r.shield = g.rocket.shield → r.health = g.rocket.health →
      (!(r.takeDamage g.damageAmount).2.isAlive) = false := by
    intro r h1 h2
    unfold Rocket.isAlive
    rw [Rocket.takeDamage_shielded _ _ (by rw [h1]; exact hs), h2]
    simpa using hh
  unfold Game.stepWalls
  simp only []
  split_ifs with h1 h2 h3 h4 h5 h6 h7 h8
  all_goals first
    | exact ⟨rfl, rfl, rfl⟩
    | (exfalso
       simp only [Game.triggerShake] at *
       simp_all [hal _ rfl rfl])

theorem Game.missilePass_no_asteroids (E : MathEnv) (dt cw ch : ℚ) (ms : List Missile)
    (score : ℚ) : (Game.missilePass E dt cw ch ms [] score).asteroids = [] := by
  induction ms with
  | nil => rfl
  | cons m rest ih =>
    simp only [Game.missilePass]
    split_ifs
    · exact ih
    · rw [ih]
      simp only [Game.findHit]

theorem Game.update_quiet (E : MathEnv) (g : Game) (input : Input) (dt : ℚ)
    (hstate : g.state = GameState.playing) (hpause : input.pause = false)
    (hlt : g.levelDistance + g.appliedScrollSpeed * dt < g.canvasHeight * 2)
    (hlevel : g.level < 3) (hs : 0 < g.rocket.shield) (hh : 0 < g.rocket.health) :
    (Game.update E g input dt).game.state = GameState.playing ∧
    (Game.update E g input dt).game.corridor.waviness = g.corridor.waviness := by
  have hnot : ¬ (g.levelDistance + g.appliedScrollSpeed * dt ≥ g.canvasHeight * 2) :=
    not_le.mpr hlt
  have hprog : (Game.stepProgress E g dt).2 = false := by
    unfold Game.stepProgress
    simp only [if_neg hnot]
  have hp1 : (Game.stepProgress E g dt).1.state = g.state ∧
      (Game.stepProgress E g dt).1.level = g.level := by
    unfold Game.stepProgress
    simp only [if_neg hnot, and_self]
  obtain ⟨e1, e2, -, -, -⟩ := (Game.stepProgress_track E g dt).1 hprog
  have hu : Game.update E g input dt = Game.updatePlaying E g input dt := by
    simp [Game.update, hstate]
  obtain ⟨-, htr⟩ := Game.updatePlaying_track E g input dt hpause hprog
  rw [Game.stepWalls_track] at htr
  simp only [Game.track, Prod.mk.injEq] at htr
  obtain ⟨t1, -, -⟩ := htr
  have hm : (Game.stepMotion E (Game.stepProgress E g dt).1 dt input
      g.appliedScrollSpeed).corridor.waviness = g.corridor.waviness := by
    rw [(Game.stepMotion_track E _ dt input _).1, e1]
    rfl
  have hmr : (Game.stepMotion E (Game.stepProgress E g dt).1 dt input
      g.appliedScrollSpeed).rocket.shield = g.rocket.shield ∧
      (Game.stepMotion E (Game.stepProgress E g dt).1 dt input
      g.appliedScrollSpeed).rocket.health = g.rocket.health := by
    have hu := Rocket.update_shield E (Game.stepProgress E g dt).1.rocket dt input
      (Game.stepProgress E g dt).1.canvasWidth (Game.stepProgress E g dt).1.canvasHeight
      g.appliedScrollSpeed
    rw [e2] at hu
    unfold Game.stepMotion
    simp only []
    split_ifs
    · unfold Rocket.shoot
      split_ifs
      · rw [e2]; exact ⟨hu.1, hu.2.1⟩
      · rw [e2]; exact ⟨hu.1, hu.2.1⟩
    · rw [e2]; exact ⟨hu.1, hu.2.1⟩
  have hms : (Game.stepMotion E (Game.stepProgress E g dt).1 dt input
      g.appliedScrollSpeed).state = g.state ∧
      (Game.stepMotion E (Game.stepProgress E g dt).1 dt input
      g.appliedScrollSpeed).level = g.level := ⟨hp1.1, hp1.2⟩
  obtain ⟨w1, w2, w3⟩ := Game.stepWalls_alive _ (by rw [hmr.1]; exact hs)
    (by rw [hmr.2]; exact hh)
  rw [hu]
  refine ⟨?_, by rw [t1, hm]⟩
  have hsp : ∀ x : Game, x.level < 3 →
      (Game.stepSpawnAsteroids E x dt).asteroids = [] ∧
      (Game.stepSpawnAsteroids E x dt).state = x.state := by
    intro x hx
    unfold Game.stepSpawnAsteroids
    simp only [Game.getAsteroidTargetCount, hx, if_true]
    split_ifs with hl
    · exact ⟨rfl, rfl⟩
    · exact ⟨List.length_eq_zero.mp (by omega), rfl⟩
  obtain ⟨a1, a2⟩ := hsp (Game.stepWalls (Game.stepMotion E (Game.stepProgress E g dt).1 dt
    input g.appliedScrollSpeed)).1 (by rw [w3, hms.2]; exact hlevel)
  have hshot : (Game.stepMissiles E (Game.stepSpawnAsteroids E (Game.stepWalls
      (Game.stepMotion E (Game.stepProgress E g dt).1 dt input g.appliedScrollSpeed)).1 dt)
      dt).asteroids = [] := by
    unfold Game.stepMissiles
    simp only [a1]
    exact Game.missilePass_no_asteroids E dt _ _ _ _
  unfold Game.updatePlaying
  simp only [hpause, hprog, w1, Bool.false_eq_true, if_false]
  have hstr : Game.stepAsteroids E (Game.stepMissiles E (Game.stepSpawnAsteroids E
      (Game.stepWalls (Game.stepMotion E (Game.stepProgress E g dt).1 dt input
        g.appliedScrollSpeed)).1 dt) dt) dt =
      (Game.stepMissiles E (Game.stepSpawnAsteroids E (Game.stepWalls
        (Game.stepMotion E (Game.stepProgress E g dt).1 dt input g.appliedScrollSpeed)).1 dt)
        dt, false) := by
    unfold Game.stepAsteroids
    rw [hshot]
    simp only [Game.asteroidPass]
    rw [← hshot]
  rw [hstr]
  simp only [Bool.false_eq_true, if_false]
  have hpk : ∀ x : Game, (Game.stepPickups E x dt).state = x.state := by
    intro x
    unfold Game.stepPickups
    simp only []
    split_ifs <;> rfl
  rw [hpk]
  show (Game.stepSpawnAsteroids E _ dt).state = GameState.playing
  rw [a2, w2, hms.1, hstate]

/-- Witness for C11: on an 800 x 600 canvas, one frame of `dt = 1/60` with thrust held
leaves the game playing with waviness 0, and the rocket within 157 of the corridor centre. -/
theorem C11_no_sideways_drift_witness :
    (0 : ℚ) ≤ (Game.new 800 600 none).canvasHeight ∧
    (Game.run sampleMath (Game.new 800 600 none).straightStart
      [(thrustInput, 1 / 60)]).state = GameState.playing ∧
    |(Game.run sampleMath (Game.new 800 600 none).straightStart
        [(thrustInput, 1 / 60)]).rocket.x -
      ((Game.run sampleMath (Game.new 800 600 none).straightStart
        [(thrustInput, 1 / 60)]).corridor.getBoundsAtY
        (Game.run sampleMath (Game.new 800 600 none).straightStart
          [(thrustInput, 1 / 60)]).rocket.y).centerX| ≤ 157 := by
  have hh : (0 : ℚ) ≤ (Game.new 800 600 none).canvasHeight := by
    show (0 : ℚ) ≤ 600
    norm_num
  have hq := Game.update_quiet sampleMath (Game.new 800 600 none).straightStart thrustInput
    (1 / 60) rfl rfl
    (by
      show (0 : ℚ) + (60 + (((1 : ℕ) : ℚ) - 1) * 8) * (1 / 60) < 600 * 2
      norm_num)
    (by show 1 < 3; decide)
    (by show (0 : ℚ) < 100; norm_num)
    (by show (0 : ℚ) < 100; norm_num)
  have hone : Game.run sampleMath (Game.new 800 600 none).straightStart
      [(thrustInput, 1 / 60)] =
      (Game.update sampleMath (Game.new 800 600 none).straightStart thrustInput
        (1 / 60)).game := by
    simp only [Game.run]
    split_ifs <;> rfl
  have hstay : ∀ k ≤ [(thrustInput, (1 / 60 : ℚ))].length,
      (Game.run sampleMath (Game.new 800 600 none).straightStart
        ([(thrustInput, (1 / 60 : ℚ))].take k)).state = GameState.playing ∧
      (Game.run sampleMath (Game.new 800 600 none).straightStart
        ([(thrustInput, (1 / 60 : ℚ))].take k)).corridor.waviness = 0 := by
    intro k hk
    have hk1 : k ≤ 1 := hk
    interval_cases k
    · exact ⟨rfl, rfl⟩
    · rw [List.take_succ_cons, List.take_zero, hone]
      exact ⟨hq.1, hq.2.trans rfl⟩
  have h := C11_no_sideways_drift sampleMath (Game.new 800 600 none) [(thrustInput, 1 / 60)] hh
    (by
      intro f hf
      simp only [List.mem_singleton] at hf
      subst hf
      constructor <;> norm_num)
    hstay
  exact ⟨hh, by rw [hone]; exact hq.1, h.2.2.2.2.2⟩

/-! ## Score figures, spawn interval, angle normalisation -/

/-- Claim C30. Missile-kill points do not affect the final score: two games that agree on
`totalTime`, `level` and `bestScore` (whatever their `score` fields) get the same final score
and the same new `bestScore` from `gameOver`, and the same score figure in the HUD; changing
only the `score` field changes none of these. -/
theorem C30_final_score_ignores_kill_points (g1 g2 : Game) (reason : String)
    (ht : g1.totalTime = g2.totalTime) (hl : g1.level = g2.level)
    (hb : g1.bestScore = g2.bestScore) :
    g1.finalScore = g2.finalScore ∧
    (g1.gameOver reason).bestScore = (g2.gameOver reason).bestScore ∧
    g1.hudScore = g2.hudScore ∧
    (∀ s : ℚ, ({ g1 with score := s } : Game).finalScore = g1.finalScore ∧
      (Game.gameOver { g1 with score := s } reason).bestScore = (g1.gameOver reason).bestScore ∧
      ({ g1 with score := s } : Game).hudScore = g1.hudScore) := by
  have hf : g1.finalScore = g2.finalScore := by
    unfold Game.finalScore
    rw [ht, hl]
  refine ⟨hf, ?_, ?_, fun s => ⟨rfl, rfl, rfl⟩⟩
  · simp only [Game.gameOver, hf, hb]
  · unfold Game.hudScore
    rw [ht, hl]

/-- Witness for C30: the same level-3 game after 12.5 s with 0 and with 50 kill points. -/
theorem C30_final_score_ignores_kill_points_witness :
    ({ samplePlaying 3 0 with totalTime := 25 / 2, score := 0 } : Game).finalScore =
      ({ samplePlaying 3 0 with totalTime := 25 / 2, score := 50 } : Game).finalScore ∧
    ({ samplePlaying 3 0 with totalTime := 25 / 2, score := 0 } : Game).hudScore =
      ({ samplePlaying 3 0 with totalTime := 25 / 2, score := 50 } : Game).hudScore :=
  ⟨(C30_final_score_ignores_kill_points
      { samplePlaying 3 0 with totalTime := 25 / 2, score := 0 }
      { samplePlaying 3 0 with totalTime := 25 / 2, score := 50 } "" rfl rfl rfl).1,
   (C30_final_score_ignores_kill_points
      { samplePlaying 3 0 with totalTime := 25 / 2, score := 0 }
      { samplePlaying 3 0 with totalTime := 25 / 2, score := 50 } "" rfl rfl rfl).2.2.1⟩

theorem Game.spawnInterval_antitone (interval : ℚ) (target a b : ℕ) (hi : 0 ≤ interval)
    (hab : a ≤ b) :
    Game.spawnInterval interval target b ≤ Game.spawnInterval interval target a := by
  unfold Game.spawnInterval clamp
  have ha : (0 : ℚ) ≤ (a : ℚ) := Nat.cast_nonneg a
  have hq : (a : ℚ) ≤ (b : ℚ) := by exact_mod_cast hab
  have h1 : max (1 : ℚ) ((a : ℚ) + 1) = (a : ℚ) + 1 := max_eq_right (by linarith)
  have h2 : max (1 : ℚ) ((b : ℚ) + 1) = (b : ℚ) + 1 := max_eq_right (by linarith)
  rw [h1, h2]
  have hdiv : (target : ℚ) / ((b : ℚ) + 1) ≤ (target : ℚ) / ((a : ℚ) + 1) :=
    div_le_div_of_nonneg_left (Nat.cast_nonneg target) (by linarith) (by linarith)
  exact max_le_max (le_refl _)
    (mul_le_mul_of_nonneg_left (max_le_max (le_refl _) (min_le_min (le_refl _) hdiv)) hi)

/-- Claim C28, evaluated on the code: with the asteroid target 5 and the constructor's
`asteroidSpawnInterval = 0.8`, the spawn interval is 1.12 s with no asteroid in the list and
0.8 s with four, so the wait is longer, not shorter, with fewer asteroids; the interval is
non-increasing in the count, the opposite of the direction in the source comment. -/
theorem C28_spawn_interval_longer_when_fewer :
    Game.spawnInterval (4 / 5) 5 0 = 28 / 25 ∧
    Game.spawnInterval (4 / 5) 5 4 = 4 / 5 ∧
    Game.spawnInterval (4 / 5) 5 4 < Game.spawnInterval (4 / 5) 5 0 ∧
    (∀ a b : ℕ, a ≤ b →
      Game.spawnInterval (4 / 5) 5 b ≤ Game.spawnInterval (4 / 5) 5 a) := by
  have e0 : Game.spawnInterval (4 / 5) 5 0 = 28 / 25 := by
    unfold Game.spawnInterval clamp
    norm_num
  have e4 : Game.spawnInterval (4 / 5) 5 4 = 4 / 5 := by
    unfold Game.spawnInterval clamp
    norm_num
  refine ⟨e0, e4, by rw [e0, e4]; norm_num, ?_⟩
  intro a b hab
  exact Game.spawnInterval_antitone _ _ a b (by norm_num) hab

/-! ## `normalizeAngle` in double arithmetic -/

theorem roundDouble_neg_PI : roundDouble (-PI) = -PI := by
  rw [roundDouble_neg, roundDouble_PI]

theorem normalizeUpDouble_neg (n : ℕ) :
    ∀ a : ℚ, normalizeUpDouble n a = (normalizeDownDouble n (-a)).map fun r => -r := by
  induction n with
  | zero =>
    intro a
    simp only [normalizeUpDouble, normalizeDownDouble]
    by_cases h : a < -PI
    · have h2 : PI < -a := by linarith
      simp [h, h2]
    · have h2 : ¬ PI < -a := by linarith
      simp [h, h2]
  | succ n ih =>
    intro a
    simp only [normalizeUpDouble, normalizeDownDouble]
    by_cases h : a < -PI
    · have h2 : PI < -a := by linarith
      have e : -a - PI * 2 = -(a + PI * 2) := by ring
      simp only [h, h2, if_true]
      rw [ih, e, roundDouble_neg]
    · have h2 : ¬ PI < -a := by linarith
      simp [h, h2]

theorem normalizeDownDouble_of_le (n : ℕ) (a : ℚ) (h : a ≤ PI) :
    normalizeDownDouble n a = some a := by
  cases n <;> simp [normalizeDownDouble, not_lt.mpr h]

theorem normalizeUpDouble_of_ge (n : ℕ) (a : ℚ) (h : -PI ≤ a) :
    normalizeUpDouble n a = some a := by
  cases n <;> simp [normalizeUpDouble, not_lt.mpr h]

theorem normalizeDownDouble_succ (n : ℕ) (a : ℚ) (h : PI < a) :
    normalizeDownDouble (n + 1) a = normalizeDownDouble n (roundDouble (a - PI * 2)) := by
  simp [normalizeDownDouble, h]

theorem normalizeDownDouble_mono (n : ℕ) :
    ∀ (a r : ℚ), normalizeDownDouble n a = some r →
      ∀ m, n ≤ m → normalizeDownDouble m a = some r := by
  induction n with
  | zero =>
    intro a r h m _
    by_cases ha : PI < a
    · simp [normalizeDownDouble, ha] at h
    · rw [normalizeDownDouble_of_le 0 a (not_lt.mp ha)] at h
      rw [normalizeDownDouble_of_le m a (not_lt.mp ha)]
      exact h
  | succ n ih =>
    intro a r h m hm
    by_cases ha : PI < a
    · obtain ⟨m', rfl⟩ : ∃ m', m = m' + 1 := ⟨m - 1, by omega⟩
      rw [normalizeDownDouble_succ n a ha] at h
      rw [normalizeDownDouble_succ m' a ha]
      exact ih _ r h m' (by omega)
    · rw [normalizeDownDouble_of_le (n + 1) a (not_lt.mp ha)] at h
      rw [normalizeDownDouble_of_le m a (not_lt.mp ha)]
      exact h

/-- One rounded subtraction of `2 * pi` from an angle above `pi` and at most `10 ^ 15`: the
result is at least `-pi`, lower than the angle by more than 6, and within `b / 2 ^ 53` of
the exact difference. -/
theorem normalizeDown_step (x b : ℚ) (hx : PI < x) (hxb : x ≤ b) (hb : b ≤ 10 ^ 15) :
    -PI ≤ roundDouble (x - PI * 2) ∧ roundDouble (x - PI * 2) ≤ x - 6 ∧
    |roundDouble (x - PI * 2) - (x - PI * 2)| ≤ b / 2 ^ 53 := by
  have hp := PI_pos
  have h1 : -PI ≤ roundDouble (x - PI * 2) := by
    have := roundDouble_mono (-PI) (x - PI * 2) (by linarith)
    rw [roundDouble_neg_PI] at this
    exact this
  have habs : |x - PI * 2| ≤ b := by
    rw [abs_le]
    constructor <;> linarith
  have herr : |roundDouble (x - PI * 2) - (x - PI * 2)| ≤ b / 2 ^ 53 :=
    (roundDouble_error _).trans (div_le_div_of_nonneg_right habs (by positivity))
  refine ⟨h1, ?_, herr⟩
  have h8 : b / 2 ^ 53 ≤ 1 / 8 := by
    rw [div_le_iff₀ (by positivity)]
    calc b ≤ 10 ^ 15 := hb
      _ ≤ 1 / 8 * 2 ^ 53 := by norm_num
  have h6 : (6 : ℚ) + 1 / 8 ≤ PI * 2 := by
    unfold PI
    norm_num
  have := (abs_le.mp herr).2
  linarith

theorem normalizeDownDouble_spec (b : ℚ) (hb : b ≤ 10 ^ 15) (n : ℕ) :
    ∀ x : ℚ, x ≤ b → x ≤ PI + 6 * n →
      ∃ (r : ℚ) (k : ℕ), normalizeDownDouble n x = some r ∧ r ≤ PI ∧
        (x ≤ PI → r = x ∧ k = 0) ∧ (PI < x → -PI ≤ r) ∧
        |r - (x - k * (2 * PI))| ≤ k * (b / 2 ^ 53) := by
  induction n with
  | zero =>
    intro x _ hx
    have hx' : x ≤ PI := by simpa using hx
    exact ⟨x, 0, normalizeDownDouble_of_le 0 x hx', hx', fun _ => ⟨rfl, rfl⟩,
      fun h => absurd h (not_lt.mpr hx'), by simp⟩
  | succ n ih =>
    intro x hxb hx
    by_cases hle : x ≤ PI
    · exact ⟨x, 0, normalizeDownDouble_of_le _ x hle, hle, fun _ => ⟨rfl, rfl⟩,
        fun h => absurd h (not_lt.mpr hle), by simp⟩
    · have hlt : PI < x := not_le.mp hle
      obtain ⟨s1, s2, s3⟩ := normalizeDown_step x b hlt hxb hb
      obtain ⟨r, k, e1, e2, e3, e4, e5⟩ := ih (roundDouble (x - PI * 2)) (by linarith)
        (by push_cast at hx; linarith)
      refine ⟨r, k + 1, ?_, e2, fun h => absurd h hle, fun _ => ?_, ?_⟩
      · rw [normalizeDownDouble_succ n x hlt]
        exact e1
      · by_cases h' : roundDouble (x - PI * 2) ≤ PI
        · rw [(e3 h').1]
          exact s1
        · exact e4 (not_le.mp h')
      · have e : r - (x - ((k + 1 : ℕ) : ℚ) * (2 * PI)) =
            (r - (roundDouble (x - PI * 2) - k * (2 * PI))) +
              (roundDouble (x - PI * 2) - (x - PI * 2)) := by
          push_cast
          ring
        rw [e]
        calc |(r - (roundDouble (x - PI * 2) - k * (2 * PI))) +
              (roundDouble (x - PI * 2) - (x - PI * 2))|
            ≤ |r - (roundDouble (x - PI * 2) - k * (2 * PI))| +
              |roundDouble (x - PI * 2) - (x - PI * 2)| := abs_add _ _
          _ ≤ k * (b / 2 ^ 53) + b / 2 ^ 53 := add_le_add e5 s3
          _ = ((k + 1 : ℕ) : ℚ) * (b / 2 ^ 53) := by push_cast; ring

theorem roundDouble_absorbs : roundDouble (10 ^ 17 - PI * 2) = 10 ^ 17 := by
  rw [roundDouble_of_near _ 56 6250000000000000]
  · norm_num
  · unfold PI; rw [abs_of_pos (by norm_num)]; norm_num
  · unfold PI; rw [abs_of_pos (by norm_num)]; norm_num
  · unfold PI; rw [abs_lt]; constructor <;> norm_num

theorem normalizeDownDouble_hangs (n : ℕ) : normalizeDownDouble n (10 ^ 17) = none := by
  have h : PI < (10 : ℚ) ^ 17 := by unfold PI; norm_num
  induction n with
  | zero => simp [normalizeDownDouble, h]
  | succ n ih => rw [normalizeDownDouble_succ n _ h, roundDouble_absorbs, ih]

/-- Counterexample for claim C24: in double arithmetic the input `-pi` is returned
unchanged, so the value is not in the half-open interval `(-pi, pi]`; and at `10 ^ 17` the
difference `angle - Math.PI * 2` rounds back to `angle`, the loop condition stays true and
the first loop has not exited after any number of iterations. -/
theorem C24_counterexample :
    normalizeAngleDouble 0 (-PI) = some (-PI) ∧
    ¬ (-PI < -PI ∧ -PI ≤ PI) ∧
    PI < (10 : ℚ) ^ 17 ∧
    roundDouble (10 ^ 17 - PI * 2) = 10 ^ 17 ∧
    ∀ fuel : ℕ, normalizeAngleDouble fuel (10 ^ 17) = none := by
  have hp := PI_pos
  refine ⟨?_, fun h => lt_irrefl _ h.1, by unfold PI; norm_num, roundDouble_absorbs, ?_⟩
  · unfold normalizeAngleDouble
    rw [normalizeDownDouble_of_le 0 (-PI) (by linarith)]
    exact normalizeUpDouble_of_ge 0 (-PI) (le_refl _)
  · intro fuel
    unfold normalizeAngleDouble
    rw [normalizeDownDouble_hangs]
    rfl

/-- Claim C24, amended. `normalizeAngle` in double arithmetic, for every angle of magnitude
at most `10 ^ 15`: with `fuel` iterations allowed per loop, `6 * fuel + pi >= |angle|`, the
function returns; the value `r` lies in the closed interval `[-pi, pi]`; it is the input
itself when that already lies in `[-pi, pi]` (so `-pi` is returned as `-pi`); it differs
from the input by an integer multiple `k` of `2 * pi` up to the rounding of the `|k|` sums
or differences computed, at most `|k| * |angle| / 2 ^ 53`; and more iterations allowed
return the same value. -/
theorem C24_normalizeAngle_closed_range (a : ℚ) (ha : |a| ≤ 10 ^ 15) (fuel : ℕ)
    (hfuel : |a| ≤ PI + 6 * fuel) :
    ∃ (r : ℚ) (k : ℤ), normalizeAngleDouble fuel a = some r ∧
      -PI ≤ r ∧ r ≤ PI ∧
      (-PI ≤ a → a ≤ PI → r = a) ∧
      |r - (a + k * (2 * PI))| ≤ |(k : ℚ)| * (|a| / 2 ^ 53) ∧
      ∀ more : ℕ, fuel ≤ more → normalizeAngleDouble more a = some r := by
  have hp := PI_pos
  by_cases h1 : PI < a
  · -- the first loop runs, the second does not
    have haa : |a| = a := abs_of_pos (by linarith)
    obtain ⟨r, k, e1, e2, -, e4, e5⟩ :=
      normalizeDownDouble_spec |a| ha fuel a (le_abs_self a) ((le_abs_self a).trans hfuel)
    have e4' := e4 h1
    refine ⟨r, -(k : ℤ), ?_, e4', e2, fun _ h => absurd h1 (not_lt.mpr h), ?_, ?_⟩
    · unfold normalizeAngleDouble
      rw [e1]
      exact normalizeUpDouble_of_ge fuel r e4'
    · have e : r - (a + ((-(k : ℤ) : ℤ) : ℚ) * (2 * PI)) = r - (a - k * (2 * PI)) := by
        push_cast
        ring
      rw [e]
      have e' : |((-(k : ℤ) : ℤ) : ℚ)| = (k : ℚ) := by
        push_cast
        rw [abs_neg, abs_of_nonneg (by positivity)]
      rw [e']
      exact e5
    · intro more hm
      unfold normalizeAngleDouble
      rw [normalizeDownDouble_mono fuel a r e1 more hm]
      exact normalizeUpDouble_of_ge more r e4'
  · have h1' : a ≤ PI := not_lt.mp h1
    by_cases h2 : a < -PI
    · -- the first loop does not run, the second is the mirror image of the first
      have haa : |a| = -a := abs_of_neg (by linarith)
      obtain ⟨r, k, e1, e2, -, e4, e5⟩ :=
        normalizeDownDouble_spec |a| ha fuel (-a) (by rw [haa]) (by rw [← haa]; exact hfuel)
      have e4' := e4 (by linarith)
      refine ⟨-r, (k : ℤ), ?_, by linarith, by linarith,
        fun h _ => absurd h2 (not_lt.mpr h), ?_, ?_⟩
      · unfold normalizeAngleDouble
        rw [normalizeDownDouble_of_le fuel a h1']
        simp only [Option.some_bind]
        rw [normalizeUpDouble_neg, e1]
        rfl
      · have e : -r - (a + ((k : ℤ) : ℚ) * (2 * PI)) = -(r - (-a - k * (2 * PI))) := by
          push_cast
          ring
        rw [e, abs_neg]
        have e' : |(((k : ℤ) : ℤ) : ℚ)| = (k : ℚ) := by
          push_cast
          exact abs_of_nonneg (by positivity)
        rw [e']
        exact e5
      · intro more hm
        unfold normalizeAngleDouble
        rw [normalizeDownDouble_of_le more a h1']
        simp only [Option.some_bind]
        rw [normalizeUpDouble_neg, normalizeDownDouble_mono fuel (-a) r e1 more hm]
        rfl
    · have h2' : -PI ≤ a := not_lt.mp h2
      have hres : ∀ n : ℕ, normalizeAngleDouble n a = some a := by
        intro n
        unfold normalizeAngleDouble
        rw [normalizeDownDouble_of_le n a h1']
        exact normalizeUpDouble_of_ge n a h2'
      exact ⟨a, 0, hres fuel, h2', h1', fun _ _ => rfl, by simp, fun more _ => hres more⟩

theorem normalizeAngleDouble_four :
    normalizeAngleDouble 1 4 = some (-321329765582243 / 140737488355328) := by
  have h4 : PI < (4 : ℚ) := by unfold PI; norm_num
  have e : (4 : ℚ) - PI * 2 = -321329765582243 / 140737488355328 := by
    unfold PI
    norm_num
  have r : roundDouble (-321329765582243 / 140737488355328) =
      -321329765582243 / 140737488355328 := by
    apply roundDouble_exact _ 1 (-5141276249315888)
    · rw [abs_of_neg (by norm_num)]; norm_num
    · rw [abs_of_neg (by norm_num)]; norm_num
    · norm_num
  unfold normalizeAngleDouble
  rw [normalizeDownDouble_succ 0 4 h4, e, r,
    normalizeDownDouble_of_le 0 _ (by unfold PI; norm_num)]
  exact normalizeUpDouble_of_ge 1 _ (by unfold PI; norm_num)

/-- Witness for C24: the angle 4 is above `pi`; one rounded subtraction of `2 * pi` gives
the double `-2.2831853071795862`, inside `[-pi, pi]`. -/
theorem C24_normalizeAngle_closed_range_witness :
    |(4 : ℚ)| ≤ 10 ^ 15 ∧ |(4 : ℚ)| ≤ PI + 6 * (1 : ℕ) ∧
    normalizeAngleDouble 1 4 = some (-321329765582243 / 140737488355328) ∧
    ∃ (r : ℚ) (k : ℤ), normalizeAngleDouble 1 4 = some r ∧
      -PI ≤ r ∧ r ≤ PI ∧
      (-PI ≤ (4 : ℚ) → (4 : ℚ) ≤ PI → r = 4) ∧
      |r - (4 + k * (2 * PI))| ≤ |(k : ℚ)| * (|(4 : ℚ)| / 2 ^ 53) ∧
      ∀ more : ℕ, 1 ≤ more → normalizeAngleDouble more 4 = some r := by
  have h1 : |(4 : ℚ)| ≤ 10 ^ 15 := by rw [abs_of_pos (by norm_num)]; norm_num
  have h2 : |(4 : ℚ)| ≤ PI + 6 * (1 : ℕ) := by
    rw [abs_of_pos (by norm_num)]
    unfold PI
    norm_num
  exact ⟨h1, h2, normalizeAngleDouble_four, C24_normalizeAngle_closed_range 4 h1 1 h2⟩

/-! ## Wall step -/

theorem Game.stepWalls_unfold (g : Game) :
    Game.stepWalls g =
      if g.touchingWall = true then
        (if (!(if (g.containedRocket.takeDamage g.damageAmount).1 = true then
              Game.triggerShake
                { g with rocket := (g.containedRocket.takeDamage g.damageAmount).2 } 8 (1 / 5)
            else { g with rocket := (g.containedRocket.takeDamage g.damageAmount).2
              }).rocket.isAlive) = true then
          (Game.gameOver
            (if (g.containedRocket.takeDamage g.damageAmount).1 = true then
              Game.triggerShake
                { g with rocket := (g.containedRocket.takeDamage g.damageAmount).2 } 8 (1 / 5)
            else { g with rocket := (g.containedRocket.takeDamage g.damageAmount).2 })
            "Crashed into the wall!", true)
        else
          ((if (g.containedRocket.takeDamage g.damageAmount).1 = true then
              Game.triggerShake
                { g with rocket := (g.containedRocket.takeDamage g.damageAmount).2 } 8 (1 / 5)
            else { g with rocket := (g.containedRocket.takeDamage g.damageAmount).2 }), false))
      else ({ g with rocket := g.containedRocket }, false) := rfl

theorem Game.stepWalls_rocket (g : Game) :
    (Game.stepWalls g).1.rocket =
      (if g.touchingWall = true then (g.containedRocket.takeDamage g.damageAmount).2
       else g.containedRocket) ∧
    (Game.stepWalls g).2 =
      (g.touchingWall && !(g.containedRocket.takeDamage g.damageAmount).2.isAlive) ∧
    ((Game.stepWalls g).2 = true → (Game.stepWalls g).1.state = GameState.gameOver ∧
      (Game.stepWalls g).1.deathReason = "Crashed into the wall!") ∧
    ((Game.stepWalls g).2 = false → (Game.stepWalls g).1.state = g.state ∧
      (Game.stepWalls g).1.deathReason = g.deathReason) ∧
    (Game.stepWalls g).1.damageAmount = g.damageAmount := by
  rw [Game.stepWalls_unfold]
  by_cases ht : g.touchingWall = true
  · simp only [ht, if_true, Bool.true_and]
    by_cases hd : (g.containedRocket.takeDamage g.damageAmount).1 = true
    · simp only [hd, if_true, Game.triggerShake]
      by_cases ha : (g.containedRocket.takeDamage g.damageAmount).2.isAlive = true
      · simp [ha, Game.gameOver]
      · simp [ha, Game.gameOver]
    · simp only [hd, if_false]
      by_cases ha : (g.containedRocket.takeDamage g.damageAmount).2.isAlive = true
      · simp [ha, Game.gameOver]
      · simp [ha, Game.gameOver]
  · simp [ht]

theorem Game.containedRocket_spec (g : Game)
    (hw : (g.corridor.getBoundsAtY g.rocket.y).right -
      (g.corridor.getBoundsAtY g.rocket.y).left ≥ 2 * g.rocket.collisionRadius) :
    (g.corridor.getBoundsAtY g.rocket.y).left + g.rocket.collisionRadius ≤ g.containedRocket.x ∧
    g.containedRocket.x ≤ (g.corridor.getBoundsAtY g.rocket.y).right - g.rocket.collisionRadius ∧
    (g.rocket.x - g.rocket.collisionRadius < (g.corridor.getBoundsAtY g.rocket.y).left →
      g.containedRocket.x = (g.corridor.getBoundsAtY g.rocket.y).left + g.rocket.collisionRadius ∧
      g.containedRocket.vx = max 0 g.rocket.vx ∧ 0 ≤ g.containedRocket.vx ∧
      g.touchingWall = true) ∧
    (¬ (g.rocket.x - g.rocket.collisionRadius < (g.corridor.getBoundsAtY g.rocket.y).left) →
      g.rocket.x + g.rocket.collisionRadius > (g.corridor.getBoundsAtY g.rocket.y).right →
      g.containedRocket.x = (g.corridor.getBoundsAtY g.rocket.y).right - g.rocket.collisionRadius ∧
      g.containedRocket.vx = min 0 g.rocket.vx ∧ g.containedRocket.vx ≤ 0 ∧
      g.touchingWall = true) ∧
    (¬ (g.rocket.x - g.rocket.collisionRadius < (g.corridor.getBoundsAtY g.rocket.y).left) →
      ¬ (g.rocket.x + g.rocket.collisionRadius > (g.corridor.getBoundsAtY g.rocket.y).right) →
      g.containedRocket = g.rocket) := by
  by_cases h1 : g.rocket.x - g.rocket.collisionRadius < (g.corridor.getBoundsAtY g.rocket.y).left
  · have hx : g.containedRocket.x =
        (g.corridor.getBoundsAtY g.rocket.y).left + g.rocket.collisionRadius := by
      simp [Game.containedRocket, h1]
    have hv : g.containedRocket.vx = max 0 g.rocket.vx := by
      simp [Game.containedRocket, h1]
    refine ⟨by rw [hx], by rw [hx]; linarith, fun _ => ⟨hx, hv, by rw [hv]; exact le_max_left _ _,
      ?_⟩, fun h => absurd h1 h, fun h => absurd h1 h⟩
    unfold Game.touchingWall
    simp only [hx, Bool.or_eq_true, decide_eq_true_eq]
    left; linarith
  · by_cases h2 : g.rocket.x + g.rocket.collisionRadius >
        (g.corridor.getBoundsAtY g.rocket.y).right
    · have hx : g.containedRocket.x =
          (g.corridor.getBoundsAtY g.rocket.y).right - g.rocket.collisionRadius := by
        simp [Game.containedRocket, h1, h2]
      have hv : g.containedRocket.vx = min 0 g.rocket.vx := by
        simp [Game.containedRocket, h1, h2]
      refine ⟨by rw [hx]; linarith, by rw [hx], fun h => absurd h h1,
        fun _ _ => ⟨hx, hv, by rw [hv]; exact min_le_left _ _, ?_⟩, fun _ h => absurd h2 h⟩
      unfold Game.touchingWall
      simp only [hx, Bool.or_eq_true, decide_eq_true_eq]
      right; linarith
    · have he : g.containedRocket = g.rocket := by
        simp [Game.containedRocket, h1, h2]
      refine ⟨by rw [he]; linarith, by rw [he]; linarith, fun h => absurd h h1,
        fun _ h => absurd h h2, fun _ _ => he⟩

theorem Rocket.takeDamage_keeps (r : Rocket) (amount : ℚ) :
    (r.takeDamage amount).2.x = r.x ∧ (r.takeDamage amount).2.vx = r.vx ∧
    (0 ≤ r.health → 0 ≤ (r.takeDamage amount).2.health) := by
  unfold Rocket.takeDamage
  split_ifs
  · exact ⟨rfl, rfl, fun h => h⟩
  · exact ⟨rfl, rfl, fun h => h⟩
  · exact ⟨rfl, rfl, fun _ => le_max_left _ _⟩

/-- Claim C23. Wall containment: in the wall step of `updatePlaying`, with
`bounds = getBoundsAtY(rocket.y)` and `bounds.right - bounds.left >= 2*collisionRadius` (and
a rocket whose health is not negative), after the step the rocket satisfies
`bounds.left + r <= x <= bounds.right - r`, with `vx >= 0` if it was pushed off the left wall
and `vx <= 0` if pushed off the right wall; whenever it was pushed back, the rocket after the
step is the contained rocket after exactly one `takeDamage(damageAmount)` call
(`damageAmount = 12` from the constructor), and the step ends the game, with the reason
`Crashed into the wall!`, iff the health is 0 afterwards. -/
theorem C23_wall_containment (g : Game)
    (hw : (g.corridor.getBoundsAtY g.rocket.y).right -
      (g.corridor.getBoundsAtY g.rocket.y).left ≥ 2 * g.rocket.collisionRadius)
    (hh : 0 ≤ g.rocket.health) :
    ((g.corridor.getBoundsAtY g.rocket.y).left + g.rocket.collisionRadius ≤
        (Game.stepWalls g).1.rocket.x ∧
      (Game.stepWalls g).1.rocket.x ≤
        (g.corridor.getBoundsAtY g.rocket.y).right - g.rocket.collisionRadius) ∧
    (g.rocket.x - g.rocket.collisionRadius < (g.corridor.getBoundsAtY g.rocket.y).left →
      0 ≤ (Game.stepWalls g).1.rocket.vx) ∧
    (¬ (g.rocket.x - g.rocket.collisionRadius < (g.corridor.getBoundsAtY g.rocket.y).left) →
      g.rocket.x + g.rocket.collisionRadius > (g.corridor.getBoundsAtY g.rocket.y).right →
      (Game.stepWalls g).1.rocket.vx ≤ 0) ∧
    ((g.rocket.x - g.rocket.collisionRadius < (g.corridor.getBoundsAtY g.rocket.y).left ∨
        g.rocket.x + g.rocket.collisionRadius > (g.corridor.getBoundsAtY g.rocket.y).right) →
      (Game.stepWalls g).1.rocket = (g.containedRocket.takeDamage g.damageAmount).2 ∧
      ((Game.stepWalls g).2 = true ↔ (Game.stepWalls g).1.rocket.health = 0) ∧
      ((Game.stepWalls g).2 = true → (Game.stepWalls g).1.state = GameState.gameOver ∧
        (Game.stepWalls g).1.deathReason = "Crashed into the wall!") ∧
      ((Game.stepWalls g).2 = false → (Game.stepWalls g).1.state = g.state)) ∧
    (∀ (cw ch : ℚ) (stored : Option ℤ), (Game.new cw ch stored).damageAmount = 12) := by
  obtain ⟨c1, c2, c3, c4, c5⟩ := Game.containedRocket_spec g hw
  obtain ⟨s1, s2, s3, s4, -⟩ := Game.stepWalls_rocket g
  obtain ⟨k1, k2, k3⟩ := Rocket.takeDamage_keeps g.containedRocket g.damageAmount
  have hx : (Game.stepWalls g).1.rocket.x = g.containedRocket.x := by
    rw [s1]; split_ifs
    · exact k1
    · rfl
  have hv : (Game.stepWalls g).1.rocket.vx = g.containedRocket.vx := by
    rw [s1]; split_ifs
    · exact k2
    · rfl
  refine ⟨⟨by rw [hx]; exact c1, by rw [hx]; exact c2⟩, ?_, ?_, ?_, fun _ _ _ => rfl⟩
  · intro h; rw [hv]; exact (c3 h).2.2.1
  · intro h1 h2; rw [hv]; exact (c4 h1 h2).2.2.1
  · intro hp
    have ht : g.touchingWall = true := by
      by_cases h1 : g.rocket.x - g.rocket.collisionRadius <
          (g.corridor.getBoundsAtY g.rocket.y).left
      · exact (c3 h1).2.2.2
      · rcases hp with h | h
        · exact absurd h h1
        · exact (c4 h1 h).2.2.2
    have hr : (Game.stepWalls g).1.rocket = (g.containedRocket.takeDamage g.damageAmount).2 := by
      rw [s1, if_pos ht]
    have hnn : 0 ≤ (g.containedRocket.takeDamage g.damageAmount).2.health := k3 hh
    refine ⟨hr, ?_, s3, fun h => (s4 h).1⟩
    rw [s2, hr, ht]
    simp only [Bool.true_and, Rocket.isAlive, Bool.not_eq_true', decide_eq_false_iff_not,
      gt_iff_lt, not_lt]
    exact ⟨fun h => le_antisymm h hnn, fun h => le_of_eq h⟩

theorem sampleCorridor_bounds :
    sampleCorridor.getBoundsAtY 95 =
      { left := 935 / 4, right := 2285 / 4, centerX := 805 / 2, width := 675 / 2 } := by
  simp [Corridor.getBoundsAtY, Corridor.scanLower, Corridor.scanUpper, sampleCorridor,
    Corridor.new, lerp]
  norm_num

/-- Witness for C23: a rocket at `x = 200` in the sample corridor (left wall at 233.75) is
pushed to `x >= 251.75`, takes one hit and the game goes on. -/
theorem C23_wall_containment_witness :
    (sampleWalled 200 (-30)).rocket.x - (sampleWalled 200 (-30)).rocket.collisionRadius <
      ((sampleWalled 200 (-30)).corridor.getBoundsAtY (sampleWalled 200 (-30)).rocket.y).left ∧
    (935 / 4 : ℚ) + 18 ≤ (Game.stepWalls (sampleWalled 200 (-30))).1.rocket.x ∧
    0 ≤ (Game.stepWalls (sampleWalled 200 (-30))).1.rocket.vx := by
  have hb : (sampleWalled 200 (-30)).corridor.getBoundsAtY (sampleWalled 200 (-30)).rocket.y =
      { left := 935 / 4, right := 2285 / 4, centerX := 805 / 2, width := 675 / 2 } :=
    sampleCorridor_bounds
  have hpush : (sampleWalled 200 (-30)).rocket.x - (sampleWalled 200 (-30)).rocket.collisionRadius <
      ((sampleWalled 200 (-30)).corridor.getBoundsAtY (sampleWalled 200 (-30)).rocket.y).left := by
    rw [hb]
    show (200 : ℚ) - 18 < 935 / 4
    norm_num
  have h := C23_wall_containment (sampleWalled 200 (-30))
    (by
      rw [hb]
      show (2285 / 4 : ℚ) - 935 / 4 ≥ 2 * 18
      norm_num)
    (by show (0 : ℚ) ≤ 100; norm_num)
  rw [hb] at h
  exact ⟨hpush, h.1.1, h.2.1 (by rw [hb] at hpush; exact hpush)⟩

/-! ## Pickup pass and asteroid pass -/

theorem Game.pickupPass_keeps (E : MathEnv) (dt ss ch : ℚ) (pickups : List Pickup)
    (r : Rocket) :
    (Game.pickupPass E dt ss ch pickups r).2.ammo = r.ammo ∧
    (Game.pickupPass E dt ss ch pickups r).2.x = r.x ∧
    (Game.pickupPass E dt ss ch pickups r).2.y = r.y ∧
    (Game.pickupPass E dt ss ch pickups r).2.vx = r.vx ∧
    (Game.pickupPass E dt ss ch pickups r).2.vy = r.vy := by
  induction pickups with
  | nil => exact ⟨rfl, rfl, rfl, rfl, rfl⟩
  | cons p rest ih =>
    simp only [Game.pickupPass]
    split_ifs
    · obtain ⟨i1, i2, i3, i4, i5⟩ := ih
      rw [← i1, ← i2, ← i3, ← i4, ← i5]
      cases (p.update dt ss).type <;> exact ⟨rfl, rfl, rfl, rfl, rfl⟩
    · exact ih
    · exact ih

/-- Claim C25. Pickup effects: in the pickup pass, a pickup (carrying the value its
constructor gives its type: 30, 25 or 3) that after moving overlaps the rocket is removed and
its effect applied: `shield` sets shield to `min(maxShield, shield + 30)`, `health` sets
health to `min(maxHealth, health + 25)`, `boost` sets `boosted = true` with `boostTimer = 3`,
each leaving every other field of the rocket as it was; no pickup pass changes ammo, position
or velocity. -/
theorem C25_pickup_effects (E : MathEnv) (dt ss ch : ℚ) (p : Pickup) (rest : List Pickup)
    (r : Rocket) (hv : p.value = (Pickup.new E 0 p.x p.y p.type).1.value)
    (hc : (p.update dt ss).checkCollision E (Game.pickupPass E dt ss ch rest r).2.x
      (Game.pickupPass E dt ss ch rest r).2.y
      (Game.pickupPass E dt ss ch rest r).2.collisionRadius = true) :
    (Game.pickupPass E dt ss ch (p :: rest) r).1 = (Game.pickupPass E dt ss ch rest r).1 ∧
    (p.type = PickupType.shield →
      (Game.pickupPass E dt ss ch (p :: rest) r).2 =
        { (Game.pickupPass E dt ss ch rest r).2 with
          shield := min (Game.pickupPass E dt ss ch rest r).2.maxShield
            ((Game.pickupPass E dt ss ch rest r).2.shield + 30) } ∧
      (Game.pickupPass E dt ss ch (p :: rest) r).2.health =
        (Game.pickupPass E dt ss ch rest r).2.health) ∧
    (p.type = PickupType.health →
      (Game.pickupPass E dt ss ch (p :: rest) r).2 =
        { (Game.pickupPass E dt ss ch rest r).2 with
          health := min (Game.pickupPass E dt ss ch rest r).2.maxHealth
            ((Game.pickupPass E dt ss ch rest r).2.health + 25) } ∧
      (Game.pickupPass E dt ss ch (p :: rest) r).2.shield =
        (Game.pickupPass E dt ss ch rest r).2.shield) ∧
    (p.type = PickupType.boost →
      (Game.pickupPass E dt ss ch (p :: rest) r).2 =
        { (Game.pickupPass E dt ss ch rest r).2 with boosted := true, boostTimer := 3 }) ∧
    (∀ (pickups : List Pickup) (r0 : Rocket),
      (Game.pickupPass E dt ss ch pickups r0).2.ammo = r0.ammo ∧
      (Game.pickupPass E dt ss ch pickups r0).2.x = r0.x ∧
      (Game.pickupPass E dt ss ch pickups r0).2.y = r0.y ∧
      (Game.pickupPass E dt ss ch pickups r0).2.vx = r0.vx ∧
      (Game.pickupPass E dt ss ch pickups r0).2.vy = r0.vy) := by
  have hstep : Game.pickupPass E dt ss ch (p :: rest) r =
      ((Game.pickupPass E dt ss ch rest r).1,
        match (p.update dt ss).type with
        | PickupType.shield => (Game.pickupPass E dt ss ch rest r).2.addShield (p.update dt ss).value
        | PickupType.health => (Game.pickupPass E dt ss ch rest r).2.addHealth (p.update dt ss).value
        | PickupType.boost =>
          (Game.pickupPass E dt ss ch rest r).2.activateBoost (p.update dt ss).value) := by
    simp only [Game.pickupPass, hc, if_true]
    try rfl
  have ht : (p.update dt ss).type = p.type := rfl
  have hval : (p.update dt ss).value = p.value := rfl
  rw [hstep, ht, hval, hv]
  refine ⟨rfl, ?_, ?_, ?_, fun ps r0 => Game.pickupPass_keeps E dt ss ch ps r0⟩
  · intro h; simp only [h, Pickup.new]; exact ⟨rfl, rfl⟩
  · intro h; simp only [h, Pickup.new]; exact ⟨rfl, rfl⟩
  · intro h; simp only [h, Pickup.new]; rfl

/-- Witness for C25: a shield pickup 1 px above a rocket with shield 50 is collected in a
frame of `dt = 1/60` at scroll speed 60 and raises the shield to 80. -/
theorem C25_pickup_effects_witness :
    (Game.pickupPass sampleMath (1 / 60) 60 600
      [(Pickup.new sampleMath 0 400 479 PickupType.shield).1]
      { Rocket.new 400 480 with shield := 50 }).1 = [] ∧
    (Game.pickupPass sampleMath (1 / 60) 60 600
      [(Pickup.new sampleMath 0 400 479 PickupType.shield).1]
      { Rocket.new 400 480 with shield := 50 }).2.shield = 80 := by
  have h := C25_pickup_effects sampleMath (1 / 60) 60 600
    (Pickup.new sampleMath 0 400 479 PickupType.shield).1 []
    { Rocket.new 400 480 with shield := 50 } rfl
    (by
      simp only [Game.pickupPass, Pickup.checkCollision, Pickup.update, Pickup.new, distance,
        Rocket.new, decide_eq_true_eq]
      simp only [sampleMath]
      norm_num)
  refine ⟨h.1, ?_⟩
  rw [(h.2.1 rfl).1]
  show min (100 : ℚ) (50 + 30) = 80
  norm_num

theorem Rocket.takeDamage_invulnerable (r : Rocket) (amount : ℚ)
    (h : r.invulnerable = true) : r.takeDamage amount = (false, r) := by
  simp [Rocket.takeDamage, h]

theorem Rocket.takeDamage_vulnerable (r : Rocket) (amount : ℚ)
    (h : r.invulnerable = false) :
    (r.takeDamage amount).1 = true ∧ (r.takeDamage amount).2.invulnerable = true := by
  simp [Rocket.takeDamage, h]

theorem Game.asteroidPass_invulnerable (E : MathEnv) (dt : ℚ) (asteroids : List Asteroid)
    (g : Game) (h : g.rocket.invulnerable = true) :
    (Game.asteroidPass E dt asteroids g).game = g ∧
    (Game.asteroidPass E dt asteroids g).over = false ∧
    (Game.asteroidPass E dt asteroids g).asteroids =
      (asteroids.map fun a => a.update dt g.currentScrollSpeed).filter
        fun m => !m.isOffScreen g.canvasHeight := by
  induction asteroids with
  | nil => exact ⟨rfl, rfl, rfl⟩
  | cons a rest ih =>
    obtain ⟨i1, i2, i3⟩ := ih
    simp only [Game.asteroidPass, i1, i2, i3, Rocket.takeDamage_invulnerable _ _ h,
      Bool.false_eq_true, if_false, Bool.and_false, List.map_cons]
    by_cases ho : (a.update dt g.currentScrollSpeed).isOffScreen g.canvasHeight = true
    · simp [ho]
    · simp [ho]

theorem Game.stepPickups_asteroids (E : MathEnv) (g : Game) (dt : ℚ) :
    (Game.stepPickups E g dt).asteroids = g.asteroids := by
  unfold Game.stepPickups
  simp only []
  split_ifs <;> rfl

/-- Claim C22, counterexample: the rocket at (400, 480) is invulnerable and one asteroid of
size 30 moves onto it (distance 0 after the move, below `30*0.8 + 18 = 42`).  `takeDamage`
returns false, so the asteroid pass does not remove it: the frame goes on without game over
and the overlapping asteroid is still in the list after the pass and after the pickup pass
that ends the frame. -/
theorem C22_counterexample :
    (Game.stepAsteroids sampleMath shieldedPass (1 / 60)).2 = false ∧
    (Game.stepAsteroids sampleMath shieldedPass (1 / 60)).1.asteroids =
      [{ x := 400, y := 480, size := 30, rotation := 0, rotationSpeed := 0 }] ∧
    (Game.stepAsteroids sampleMath shieldedPass (1 / 60)).1.rocket = shieldedPass.rocket ∧
    Asteroid.checkCollision sampleMath
      { x := 400, y := 480, size := 30, rotation := 0, rotationSpeed := 0 }
      shieldedPass.rocket.x shieldedPass.rocket.y shieldedPass.rocket.collisionRadius = true ∧
    (Game.stepPickups sampleMath (Game.stepAsteroids sampleMath shieldedPass (1 / 60)).1
      (1 / 60)).asteroids =
      [{ x := 400, y := 480, size := 30, rotation := 0, rotationSpeed := 0 }] ∧
    (Game.stepPickups sampleMath (Game.stepAsteroids sampleMath shieldedPass (1 / 60)).1
      (1 / 60)).rocket.x = 400 ∧
    (Game.stepPickups sampleMath (Game.stepAsteroids sampleMath shieldedPass (1 / 60)).1
      (1 / 60)).rocket.y = 480 := by
  obtain ⟨p1, p2, p3⟩ := Game.asteroidPass_invulnerable sampleMath (1 / 60)
    shieldedPass.asteroids shieldedPass rfl
  have hlist : (Game.stepAsteroids sampleMath shieldedPass (1 / 60)).1.asteroids =
      [{ x := 400, y := 480, size := 30, rotation := 0, rotationSpeed := 0 }] := by
    unfold Game.stepAsteroids
    simp only [p3]
    simp only [shieldedPass, samplePlaying, Game.continueFromStation, Game.new, Game.startGame,
      List.map_cons, List.map_nil, Asteroid.update, Asteroid.isOffScreen]
    norm_num
  have hrocket : (Game.stepAsteroids sampleMath shieldedPass (1 / 60)).1.rocket =
      shieldedPass.rocket := by
    unfold Game.stepAsteroids
    simp only [p1]
  have htrack := Game.stepPickups_track sampleMath
    (Game.stepAsteroids sampleMath shieldedPass (1 / 60)).1 (1 / 60)
  simp only [Game.track, Rocket.track, Prod.mk.injEq] at htrack
  obtain ⟨-, -, t3, t4, -, -⟩ := htrack
  refine ⟨?_, hlist, hrocket, ?_, ?_, ?_, ?_⟩
  · unfold Game.stepAsteroids
    exact p2
  · simp only [Asteroid.checkCollision, distance, shieldedPass, Rocket.new, decide_eq_true_eq]
    simp only [sampleMath]
    norm_num
  · rw [Game.stepPickups_asteroids, hlist]
  · rw [t3, hrocket]; rfl
  · rw [t4, hrocket]; rfl

/-- Claim C22, amended. In the asteroid pass of `updatePlaying`, an asteroid that after
moving overlaps the rocket is removed from the list, with the damage applied, exactly when
`takeDamage` returns true, that is when the rocket is not invulnerable at that moment; met
while the rocket is invulnerable, an overlapping asteroid does no damage and stays in the
list unless it is off screen.  A pass entered with an invulnerable rocket therefore removes
off-screen asteroids only and leaves the game as it was. -/
theorem C22_asteroid_hit_needs_vulnerable (E : MathEnv) (dt : ℚ) (a : Asteroid)
    (rest : List Asteroid) (g : Game)
    (hgo : (Game.asteroidPass E dt rest g).over = false)
    (hc : (a.update dt (Game.asteroidPass E dt rest g).game.currentScrollSpeed).checkCollision E
      (Game.asteroidPass E dt rest g).game.rocket.x
      (Game.asteroidPass E dt rest g).game.rocket.y
      (Game.asteroidPass E dt rest g).game.rocket.collisionRadius = true) :
    ((Game.asteroidPass E dt rest g).game.rocket.invulnerable = false →
      (Game.asteroidPass E dt (a :: rest) g).asteroids =
        (Game.asteroidPass E dt rest g).asteroids ∧
      (Game.asteroidPass E dt (a :: rest) g).game.rocket =
        ((Game.asteroidPass E dt rest g).game.rocket.takeDamage
          (Game.asteroidPass E dt rest g).game.damageAmount).2) ∧
    ((Game.asteroidPass E dt rest g).game.rocket.invulnerable = true →
      (Game.asteroidPass E dt (a :: rest) g).game = (Game.asteroidPass E dt rest g).game ∧
      (Game.asteroidPass E dt (a :: rest) g).over = false ∧
      (Game.asteroidPass E dt (a :: rest) g).asteroids =
        (if (a.update dt (Game.asteroidPass E dt rest g).game.currentScrollSpeed).isOffScreen
            (Game.asteroidPass E dt rest g).game.canvasHeight = true then
          (Game.asteroidPass E dt rest g).asteroids
        else a.update dt (Game.asteroidPass E dt rest g).game.currentScrollSpeed ::
          (Game.asteroidPass E dt rest g).asteroids)) ∧
    (∀ (asteroids : List Asteroid) (g0 : Game), g0.rocket.invulnerable = true →
      (Game.asteroidPass E dt asteroids g0).game = g0 ∧
      (Game.asteroidPass E dt asteroids g0).over = false ∧
      (Game.asteroidPass E dt asteroids g0).asteroids =
        (asteroids.map fun b => b.update dt g0.currentScrollSpeed).filter
          fun m => !m.isOffScreen g0.canvasHeight) := by
  refine ⟨?_, ?_, fun as g0 h0 => Game.asteroidPass_invulnerable E dt as g0 h0⟩
  · intro hv
    obtain ⟨t1, -⟩ := Rocket.takeDamage_vulnerable (Game.asteroidPass E dt rest g).game.rocket
      (Game.asteroidPass E dt rest g).game.damageAmount hv
    simp only [Game.asteroidPass, hgo, hc, t1, Bool.false_eq_true, if_false, Bool.and_self,
      if_true]
    split_ifs <;> exact ⟨rfl, rfl⟩
  · intro hi
    simp only [Game.asteroidPass, hgo, hc,
      Rocket.takeDamage_invulnerable _ _ hi, Bool.false_eq_true, if_false, Bool.and_false]
    split_ifs <;> exact ⟨rfl, rfl, rfl⟩

/-- Witness for C22: the invulnerable rocket of `shieldedPass` and the asteroid that moves
onto it: the asteroid stays in the list. -/
theorem C22_asteroid_hit_needs_vulnerable_witness :
    (Game.asteroidPass sampleMath (1 / 60) [] shieldedPass).over = false ∧
    (Game.asteroidPass sampleMath (1 / 60)
      [{ x := 400, y := 479, size := 30, rotation := 0, rotationSpeed := 0 }]
      shieldedPass).asteroids =
      [{ x := 400, y := 480, size := 30, rotation := 0, rotationSpeed := 0 }] := by
  have h := C22_asteroid_hit_needs_vulnerable sampleMath (1 / 60)
    { x := 400, y := 479, size := 30, rotation := 0, rotationSpeed := 0 } [] shieldedPass rfl
    (by
      simp only [Game.asteroidPass, Asteroid.checkCollision, Asteroid.update, distance,
        shieldedPass, Rocket.new, decide_eq_true_eq]
      simp only [sampleMath]
      norm_num)
  refine ⟨rfl, ?_⟩
  rw [(h.2.1 rfl).2.2]
  simp only [Game.asteroidPass, shieldedPass, samplePlaying, Game.continueFromStation, Game.new,
    Game.startGame, Asteroid.update, Asteroid.isOffScreen]
  norm_num

/-! ## Damage ticks in one frame -/

theorem Rocket.takeDamage_sum (r : Rocket) (amount : ℚ) :
    ((r.takeDamage amount).1 = true →
      r.shield + r.health - amount ≤
        (r.takeDamage amount).2.shield + (r.takeDamage amount).2.health ∧
      r.invulnerable = false ∧ (r.takeDamage amount).2.invulnerable = true) ∧
    ((r.takeDamage amount).1 = false → (r.takeDamage amount).2 = r) ∧
    (r.takeDamage amount).2.maxShield = r.maxShield ∧
    (r.takeDamage amount).2.maxHealth = r.maxHealth := by
  by_cases hi : r.invulnerable = true
  · rw [Rocket.takeDamage_invulnerable r amount hi]
    exact ⟨fun h => (by cases h), fun _ => rfl, rfl, rfl⟩
  · have hf : r.invulnerable = false := by simpa using hi
    unfold Rocket.takeDamage
    simp only [hf, Bool.false_eq_true, if_false]
    refine ⟨fun _ => ⟨?_, trivial, trivial⟩, fun h => (by cases h), trivial, trivial⟩
    split_ifs
    · have := le_max_right (0 : ℚ) (r.shield - amount)
      linarith
    · have := le_max_right (0 : ℚ) (r.health - amount)
      linarith

theorem Game.asteroidPass_ticks (E : MathEnv) (dt : ℚ) (asteroids : List Asteroid) (g : Game) :
    Game.asteroidTicks E dt asteroids g ≤ 1 ∧
    (Game.asteroidPass E dt asteroids g).game.damageAmount = g.damageAmount ∧
    (Game.asteroidTicks E dt asteroids g = 0 →
      (Game.asteroidPass E dt asteroids g).game.rocket = g.rocket) ∧
    (Game.asteroidTicks E dt asteroids g = 1 →
      (g.rocket.takeDamage g.damageAmount).1 = true ∧
      (Game.asteroidPass E dt asteroids g).game.rocket =
        (g.rocket.takeDamage g.damageAmount).2) := by
  induction asteroids with
  | nil => exact ⟨Nat.zero_le _, rfl, fun _ => rfl, fun h => (by cases h)⟩
  | cons a rest ih =>
    obtain ⟨i1, i2, i3, i4⟩ := ih
    have hpass : (Game.asteroidPass E dt (a :: rest) g).game.damageAmount =
        (Game.asteroidPass E dt rest g).game.damageAmount ∧
        ((!(Game.asteroidPass E dt rest g).over &&
          (a.update dt (Game.asteroidPass E dt rest g).game.currentScrollSpeed).checkCollision E
            (Game.asteroidPass E dt rest g).game.rocket.x
            (Game.asteroidPass E dt rest g).game.rocket.y
            (Game.asteroidPass E dt rest g).game.rocket.collisionRadius &&
          ((Game.asteroidPass E dt rest g).game.rocket.takeDamage
            (Game.asteroidPass E dt rest g).game.damageAmount).1) = true →
          (Game.asteroidPass E dt (a :: rest) g).game.rocket =
            ((Game.asteroidPass E dt rest g).game.rocket.takeDamage
              (Game.asteroidPass E dt rest g).game.damageAmount).2) ∧
        ((!(Game.asteroidPass E dt rest g).over &&
          (a.update dt (Game.asteroidPass E dt rest g).game.currentScrollSpeed).checkCollision E
            (Game.asteroidPass E dt rest g).game.rocket.x
            (Game.asteroidPass E dt rest g).game.rocket.y
            (Game.asteroidPass E dt rest g).game.rocket.collisionRadius &&
          ((Game.asteroidPass E dt rest g).game.rocket.takeDamage
            (Game.asteroidPass E dt rest g).game.damageAmount).1) = false →
          (Game.asteroidPass E dt (a :: rest) g).game.rocket =
            (Game.asteroidPass E dt rest g).game.rocket) := by
      simp only [Game.asteroidPass]
      by_cases ho : (Game.asteroidPass E dt rest g).over = true
      · simp [ho]
      · by_cases hc : ((a.update dt (Game.asteroidPass E dt rest g).game.currentScrollSpeed).checkCollision E
            (Game.asteroidPass E dt rest g).game.rocket.x
            (Game.asteroidPass E dt rest g).game.rocket.y
            (Game.asteroidPass E dt rest g).game.rocket.collisionRadius &&
            ((Game.asteroidPass E dt rest g).game.rocket.takeDamage
              (Game.asteroidPass E dt rest g).game.damageAmount).1) = true
        · simp only [ho, hc, Bool.false_eq_true, if_false, if_true, Bool.not_false,
            Bool.true_and]
          split_ifs <;> simp [Game.gameOver, Game.triggerShake]
        · simp only [ho, hc, Bool.false_eq_true, if_false, Bool.not_false, Bool.true_and]
          split_ifs <;> simp
    obtain ⟨p1, p2, p3⟩ := hpass
    have hticks : Game.asteroidTicks E dt (a :: rest) g = Game.asteroidTicks E dt rest g +
        (if (!(Game.asteroidPass E dt rest g).over &&
          (a.update dt (Game.asteroidPass E dt rest g).game.currentScrollSpeed).checkCollision E
            (Game.asteroidPass E dt rest g).game.rocket.x
            (Game.asteroidPass E dt rest g).game.rocket.y
            (Game.asteroidPass E dt rest g).game.rocket.collisionRadius &&
          ((Game.asteroidPass E dt rest g).game.rocket.takeDamage
            (Game.asteroidPass E dt rest g).game.damageAmount).1) = true then 1 else 0) := rfl
    rw [hticks]
    by_cases hb : (!(Game.asteroidPass E dt rest g).over &&
          (a.update dt (Game.asteroidPass E dt rest g).game.currentScrollSpeed).checkCollision E
            (Game.asteroidPass E dt rest g).game.rocket.x
            (Game.asteroidPass E dt rest g).game.rocket.y
            (Game.asteroidPass E dt rest g).game.rocket.collisionRadius &&
          ((Game.asteroidPass E dt rest g).game.rocket.takeDamage
            (Game.asteroidPass E dt rest g).game.damageAmount).1) = true
    · rw [if_pos hb]
      have hhit : ((Game.asteroidPass E dt rest g).game.rocket.takeDamage
          (Game.asteroidPass E dt rest g).game.damageAmount).1 = true := by
        simp only [Bool.and_eq_true] at hb
        exact hb.2
      have hvul := ((Rocket.takeDamage_sum _ _).1 hhit).2.1
      have h0 : Game.asteroidTicks E dt rest g = 0 := by
        rcases Nat.le_one_iff_eq_zero_or_eq_one.mp i1 with h | h
        · exact h
        · exfalso
          obtain ⟨q1, q2⟩ := i4 h
          rw [q2, ((Rocket.takeDamage_sum _ _).1 q1).2.2] at hvul
          cases hvul
      have hr := i3 h0
      rw [h0]
      refine ⟨le_refl _, p1.trans i2, fun h => (by cases h), fun _ => ?_⟩
      rw [hr, i2] at hhit
      refine ⟨hhit, ?_⟩
      rw [p2 hb, hr, i2]
    · have hb' : (!(Game.asteroidPass E dt rest g).over &&
          (a.update dt (Game.asteroidPass E dt rest g).game.currentScrollSpeed).checkCollision E
            (Game.asteroidPass E dt rest g).game.rocket.x
            (Game.asteroidPass E dt rest g).game.rocket.y
            (Game.asteroidPass E dt rest g).game.rocket.collisionRadius &&
          ((Game.asteroidPass E dt rest g).game.rocket.takeDamage
            (Game.asteroidPass E dt rest g).game.damageAmount).1) = false := by
        simpa using hb
      rw [if_neg hb, Nat.add_zero]
      refine ⟨i1, p1.trans i2, fun h => (p3 hb').trans (i3 h), fun h => ?_⟩
      obtain ⟨q1, q2⟩ := i4 h
      exact ⟨q1, (p3 hb').trans q2⟩

theorem Game.pickupPass_gain (E : MathEnv) (dt ss ch : ℚ) (pickups : List Pickup) (r : Rocket)
    (hb : r.StatsInBounds) (hp : ∀ p ∈ pickups, 0 ≤ p.value) :
    r.shield ≤ (Game.pickupPass E dt ss ch pickups r).2.shield ∧
    r.health ≤ (Game.pickupPass E dt ss ch pickups r).2.health ∧
    (Game.pickupPass E dt ss ch pickups r).2.StatsInBounds := by
  induction pickups with
  | nil => exact ⟨le_refl _, le_refl _, hb⟩
  | cons p rest ih =>
    obtain ⟨i1, i2, b1, b2, b3, b4⟩ := ih (fun q hq => hp q (List.mem_cons_of_mem _ hq))
    have hv : 0 ≤ (p.update dt ss).value := hp p (List.mem_cons_self _ _)
    simp only [Game.pickupPass]
    split_ifs
    · cases (p.update dt ss).type
      · simp only [Rocket.addShield, Rocket.StatsInBounds]
        exact ⟨le_trans i1 (le_min b2 (by linarith)), i2, le_min (by linarith) (by linarith),
          min_le_left _ _, b3, b4⟩
      · simp only [Rocket.addHealth, Rocket.StatsInBounds]
        exact ⟨i1, le_trans i2 (le_min b4 (by linarith)), b1, b2,
          le_min (by linarith) (by linarith), min_le_left _ _⟩
      · simp only [Rocket.activateBoost, Rocket.StatsInBounds]
        exact ⟨i1, i2, b1, b2, b3, b4⟩
    · exact ⟨i1, i2, b1, b2, b3, b4⟩
    · exact ⟨i1, i2, b1, b2, b3, b4⟩

theorem Game.stepPickups_gain (E : MathEnv) (g : Game) (dt : ℚ)
    (hb : g.rocket.StatsInBounds) (hp : ∀ p ∈ g.pickups, 0 ≤ p.value) :
    g.rocket.shield + g.rocket.health ≤
      (Game.stepPickups E g dt).rocket.shield + (Game.stepPickups E g dt).rocket.health := by
  have key : ∀ x : Game, x.rocket = g.rocket → (∀ p ∈ x.pickups, 0 ≤ p.value) →
      g.rocket.shield + g.rocket.health ≤
        (Game.pickupPass E dt x.currentScrollSpeed x.canvasHeight x.pickups x.rocket).2.shield +
        (Game.pickupPass E dt x.currentScrollSpeed x.canvasHeight x.pickups x.rocket).2.health := by
    intro x hx hxp
    obtain ⟨a1, a2, -⟩ := Game.pickupPass_gain E dt x.currentScrollSpeed x.canvasHeight x.pickups
      x.rocket (by rw [hx]; exact hb) hxp
    rw [hx] at a1 a2 ⊢
    linarith
  unfold Game.stepPickups
  simp only []
  by_cases hs : g.pickupSpawnTimer + dt ≥ g.pickupSpawnInterval
  · simp only [hs, if_true]
    refine key _ rfl ?_
    intro p hpm
    simp only [Game.spawnPickup, List.mem_append, List.mem_singleton] at hpm
    rcases hpm with h | h
    · exact hp p h
    · rw [h]
      simp only [Pickup.new]
      split_ifs <;> norm_num
  · simp only [hs, if_false]
    exact key _ rfl hp

theorem Game.asteroidPass_pickups (E : MathEnv) (dt : ℚ) (asteroids : List Asteroid)
    (g : Game) : (Game.asteroidPass E dt asteroids g).game.pickups = g.pickups := by
  induction asteroids with
  | nil => rfl
  | cons a rest ih =>
    simp only [Game.asteroidPass]
    split_ifs <;> simp [Game.gameOver, Game.triggerShake, ih]

theorem Game.stepSpawnAsteroids_rocket (E : MathEnv) (g : Game) (dt : ℚ) :
    (Game.stepSpawnAsteroids E g dt).rocket = g.rocket ∧
    (Game.stepSpawnAsteroids E g dt).damageAmount = g.damageAmount ∧
    (Game.stepSpawnAsteroids E g dt).pickups = g.pickups := by
  unfold Game.stepSpawnAsteroids
  simp only []
  split_ifs <;> exact ⟨rfl, rfl, rfl⟩

theorem Game.stepMotion_stats (E : MathEnv) (g : Game) (dt : ℚ) (input : Input) (a : ℚ) :
    (Game.stepMotion E g dt input a).rocket.shield = g.rocket.shield ∧
    (Game.stepMotion E g dt input a).rocket.health = g.rocket.health ∧
    (Game.stepMotion E g dt input a).rocket.maxShield = g.rocket.maxShield ∧
    (Game.stepMotion E g dt input a).rocket.maxHealth = g.rocket.maxHealth ∧
    (Game.stepMotion E g dt input a).damageAmount = g.damageAmount ∧
    (Game.stepMotion E g dt input a).pickups = g.pickups := by
  obtain ⟨u1, u2, u3, u4⟩ := Rocket.update_shield E g.rocket dt input g.canvasWidth
    g.canvasHeight a
  refine ⟨?_, ?_, ?_, ?_, rfl, rfl⟩ <;>
  · unfold Game.stepMotion
    simp only []
    split_ifs
    · unfold Rocket.shoot
      split_ifs <;> assumption
    · assumption

theorem Game.seedAsteroids_rocket (E : MathEnv) (g : Game) (target : ℕ) :
    (Game.seedAsteroids E g target).rocket = g.rocket := by
  unfold Game.seedAsteroids
  exact foldl_invariant
    (fun (acc : Game) (i : ℕ) =>
      Game.spawnAsteroid E { acc with rng := acc.rng + 1 }
        (some (-random E acc.rng 80 (acc.canvasHeight + 80) - (i : ℚ) * 95)))
    (fun acc : Game => acc.rocket = g.rocket)
    (fun b _ hb => hb) (List.range target) g rfl

theorem Game.nextLevel_stats (E : MathEnv) (g : Game) :
    (Game.nextLevel E g).rocket.shield = g.rocket.shield ∧
    (Game.nextLevel E g).rocket.health = g.rocket.health := by
  unfold Game.nextLevel
  simp only []
  split_ifs
  · exact ⟨rfl, rfl⟩
  · rw [Game.seedAsteroids_rocket]; exact ⟨rfl, rfl⟩
  · exact ⟨rfl, rfl⟩

theorem Game.stepProgress_stats (E : MathEnv) (g : Game) (dt : ℚ) :
    (Game.stepProgress E g dt).1.rocket.shield = g.rocket.shield ∧
    (Game.stepProgress E g dt).1.rocket.health = g.rocket.health ∧
    ((Game.stepProgress E g dt).2 = false →
      (Game.stepProgress E g dt).1.rocket = g.rocket ∧
      (Game.stepProgress E g dt).1.damageAmount = g.damageAmount ∧
      (Game.stepProgress E g dt).1.pickups = g.pickups) := by
  unfold Game.stepProgress
  simp only []
  split_ifs
  · exact ⟨(Game.nextLevel_stats E _).1, (Game.nextLevel_stats E _).2, fun h => (by cases h)⟩
  · exact ⟨rfl, rfl, fun _ => ⟨rfl, rfl, rfl⟩⟩

theorem Game.stepWalls_pickups (g : Game) : (Game.stepWalls g).1.pickups = g.pickups := by
  unfold Game.stepWalls
  simp only []
  split_ifs <;> simp [Game.gameOver, Game.triggerShake]

theorem Game.stepWalls_ticks (g : Game) (hd : 0 ≤ g.damageAmount)
    (hb : g.rocket.StatsInBounds) :
    g.wallTicks ≤ 1 ∧
    g.rocket.shield + g.rocket.health - g.damageAmount * (g.wallTicks : ℚ) ≤
      (Game.stepWalls g).1.rocket.shield + (Game.stepWalls g).1.rocket.health ∧
    (Game.stepWalls g).1.rocket.StatsInBounds ∧
    (g.wallTicks = 1 → (Game.stepWalls g).1.rocket.invulnerable = true) := by
  obtain ⟨s1, -, -, -, -⟩ := Game.stepWalls_rocket g
  have hC : g.containedRocket.StatsInBounds := hb
  have hCs : g.containedRocket.shield + g.containedRocket.health =
      g.rocket.shield + g.rocket.health := rfl
  obtain ⟨d1, d2, -, -⟩ := Rocket.takeDamage_sum g.containedRocket g.damageAmount
  have hin := Rocket.applyOp_inBounds g.containedRocket (RocketOp.takeDamage g.damageAmount) hC hd
  have hin' : (g.containedRocket.takeDamage g.damageAmount).2.StatsInBounds := hin
  rw [s1]
  unfold Game.wallTicks
  by_cases ht : g.touchingWall = true
  · by_cases hh : (g.containedRocket.takeDamage g.damageAmount).1 = true
    · obtain ⟨e1, -, e3⟩ := d1 hh
      simp only [ht, hh, Bool.and_self, if_true]
      refine ⟨le_refl _, ?_, hin', fun _ => e3⟩
      rw [← hCs]; push_cast; linarith
    · have hf : (g.containedRocket.takeDamage g.damageAmount).1 = false := by simpa using hh
      simp only [ht, hf, Bool.and_false, Bool.false_eq_true, if_false, if_true, d2 hf]
      refine ⟨Nat.zero_le _, ?_, hC, fun h => (by cases h)⟩
      rw [← hCs]; push_cast; linarith
  · simp only [ht, Bool.false_and, Bool.false_eq_true, if_false]
    refine ⟨Nat.zero_le _, ?_, hC, fun h => (by cases h)⟩
    rw [← hCs]; push_cast; linarith

/-- Claim C29. At most one damage tick per frame: in any single `updatePlaying` call,
whatever the asteroids overlapping the rocket and whether or not it also touches a wall,
`takeDamage` returns true at most once; so for a game with `damageAmount >= 0` (12 from the
constructor), a rocket with `0 <= shield <= maxShield` and `0 <= health <= maxHealth`, and
pickups of non-negative value, shield plus health after the frame is at least shield plus
health before it minus `damageAmount` times the number of ticks, hence at least the value
before minus `damageAmount`. -/
theorem C29_one_damage_tick_per_frame (E : MathEnv) (g : Game) (input : Input) (dt : ℚ)
    (hd : 0 ≤ g.damageAmount) (hb : g.rocket.StatsInBounds)
    (hp : ∀ p ∈ g.pickups, 0 ≤ p.value) :
    Game.damageTicks E g input dt ≤ 1 ∧
    g.rocket.shield + g.rocket.health -
        g.damageAmount * (Game.damageTicks E g input dt : ℚ) ≤
      (Game.updatePlaying E g input dt).game.rocket.shield +
        (Game.updatePlaying E g input dt).game.rocket.health ∧
    g.rocket.shield + g.rocket.health - g.damageAmount ≤
      (Game.updatePlaying E g input dt).game.rocket.shield +
        (Game.updatePlaying E g input dt).game.rocket.health := by
  have main : Game.damageTicks E g input dt ≤ 1 ∧
      g.rocket.shield + g.rocket.health -
          g.damageAmount * (Game.damageTicks E g input dt : ℚ) ≤
        (Game.updatePlaying E g input dt).game.rocket.shield +
          (Game.updatePlaying E g input dt).game.rocket.health := by
    unfold Game.damageTicks Game.updatePlaying
    by_cases hpause : input.pause = true
    · simp only [hpause, if_true]
      refine ⟨Nat.zero_le _, ?_⟩
      unfold Game.pauseGame
      split_ifs <;> simp
    · simp only [hpause, Bool.false_eq_true, if_false]
      obtain ⟨q1, q2, q3⟩ := Game.stepProgress_stats E g dt
      by_cases hprog : (Game.stepProgress E g dt).2 = true
      · simp only [hprog, if_true]
        refine ⟨Nat.zero_le _, ?_⟩
        rw [q1, q2]; simp
      · have hprog' : (Game.stepProgress E g dt).2 = false := by simpa using hprog
        obtain ⟨r1, r2, r3⟩ := q3 hprog'
        simp only [hprog', Bool.false_eq_true, if_false]
        obtain ⟨m1, m2, m3, m4, m5, m6⟩ := Game.stepMotion_stats E (Game.stepProgress E g dt).1
          dt input g.appliedScrollSpeed
        rw [r1] at m1 m2 m3 m4
        rw [r2] at m5
        rw [r3] at m6
        generalize Game.stepMotion E (Game.stepProgress E g dt).1 dt input
          g.appliedScrollSpeed = M at m1 m2 m3 m4 m5 m6 ⊢
        have hMb : M.rocket.StatsInBounds := by
          unfold Rocket.StatsInBounds
          rw [m1, m2, m3, m4]; exact hb
        obtain ⟨w1, w2, w3, w4⟩ := Game.stepWalls_ticks M (by rw [m5]; exact hd) hMb
        rw [m1, m2, m5] at w2
        have wdam := (Game.stepWalls_rocket M).2.2.2.2
        have wpk := Game.stepWalls_pickups M
        by_cases hover : (Game.stepWalls M).2 = true
        · simp only [hover, if_true]
          exact ⟨w1, w2⟩
        · simp only [hover, Bool.false_eq_true, if_false]
          obtain ⟨sp1, sp2, sp3⟩ := Game.stepSpawnAsteroids_rocket E (Game.stepWalls M).1 dt
          have hshot : (Game.stepMissiles E (Game.stepSpawnAsteroids E (Game.stepWalls M).1 dt)
              dt).rocket = (Game.stepWalls M).1.rocket ∧
              (Game.stepMissiles E (Game.stepSpawnAsteroids E (Game.stepWalls M).1 dt)
              dt).damageAmount = g.damageAmount ∧
              (Game.stepMissiles E (Game.stepSpawnAsteroids E (Game.stepWalls M).1 dt)
              dt).pickups = g.pickups :=
            ⟨sp1, sp2.trans (wdam.trans m5), sp3.trans (wpk.trans m6)⟩
          obtain ⟨h1, h2, h3⟩ := hshot
          generalize Game.stepMissiles E (Game.stepSpawnAsteroids E (Game.stepWalls M).1 dt)
            dt = T at h1 h2 h3 ⊢
          obtain ⟨a1, a2, a3, a4⟩ := Game.asteroidPass_ticks E dt T.asteroids T
          have apk := Game.asteroidPass_pickups E dt T.asteroids T
          have hsum : M.wallTicks + Game.asteroidTicks E dt T.asteroids T ≤ 1 ∧
              g.rocket.shield + g.rocket.health - g.damageAmount *
                ((M.wallTicks + Game.asteroidTicks E dt T.asteroids T : ℕ) : ℚ) ≤
              (Game.asteroidPass E dt T.asteroids T).game.rocket.shield +
                (Game.asteroidPass E dt T.asteroids T).game.rocket.health ∧
              (Game.asteroidPass E dt T.asteroids T).game.rocket.StatsInBounds := by
            rcases Nat.le_one_iff_eq_zero_or_eq_one.mp a1 with ht | ht
            · rw [ht, a3 ht, h1, Nat.add_zero]
              exact ⟨w1, w2, w3⟩
            · obtain ⟨b1, b2⟩ := a4 ht
              have hvul := ((Rocket.takeDamage_sum _ _).1 b1).2.1
              have hw0 : M.wallTicks = 0 := by
                rcases Nat.le_one_iff_eq_zero_or_eq_one.mp w1 with h | h
                · exact h
                · exfalso
                  rw [h1, w4 h] at hvul
                  cases hvul
              have hs := ((Rocket.takeDamage_sum _ _).1 b1).1
              rw [hw0] at w2
              rw [ht, hw0, b2]
              rw [h1, h2] at hs ⊢
              refine ⟨le_refl _, ?_, ?_⟩
              · push_cast at w2 ⊢
                linarith
              · exact Rocket.applyOp_inBounds _ (RocketOp.takeDamage g.damageAmount) w3 hd
          obtain ⟨c1, c2, c3⟩ := hsum
          have hstruck : Game.stepAsteroids E T dt =
              ({ (Game.asteroidPass E dt T.asteroids T).game with
                  asteroids := (Game.asteroidPass E dt T.asteroids T).asteroids },
                (Game.asteroidPass E dt T.asteroids T).over) := rfl
          rw [hstruck]
          simp only []
          refine ⟨c1, ?_⟩
          split_ifs
          · exact c2
          · have hg := Game.stepPickups_gain E
              { (Game.asteroidPass E dt T.asteroids T).game with
                asteroids := (Game.asteroidPass E dt T.asteroids T).asteroids } dt c3
              (by
                intro p hpm
                have hpm' : p ∈ (Game.asteroidPass E dt T.asteroids T).game.pickups := hpm
                rw [apk, h3] at hpm'
                exact hp p hpm')
            exact le_trans c2 hg
  refine ⟨main.1, main.2, le_trans ?_ main.2⟩
  have h1 : (Game.damageTicks E g input dt : ℚ) ≤ 1 := by exact_mod_cast main.1
  have h2 : g.damageAmount * (Game.damageTicks E g input dt : ℚ) ≤ g.damageAmount * 1 :=
    mul_le_mul_of_nonneg_left h1 hd
  linarith

/-- Witness for C29: a frame of the level-3 sample game (damage amount 12, full shield and
health, no pickups). -/
theorem C29_one_damage_tick_per_frame_witness :
    (0 : ℚ) ≤ (samplePlaying 3 0).damageAmount ∧
    Game.damageTicks sampleMath (samplePlaying 3 0) noInput (1 / 60) ≤ 1 ∧
    (200 : ℚ) - 12 ≤
      (Game.updatePlaying sampleMath (samplePlaying 3 0) noInput (1 / 60)).game.rocket.shield +
      (Game.updatePlaying sampleMath (samplePlaying 3 0) noInput (1 / 60)).game.rocket.health := by
  have hd : (0 : ℚ) ≤ (samplePlaying 3 0).damageAmount := by
    show (0 : ℚ) ≤ 12
    norm_num
  have h := C29_one_damage_tick_per_frame sampleMath (samplePlaying 3 0) noInput (1 / 60) hd
    (by
      show (0 : ℚ) ≤ 100 ∧ (100 : ℚ) ≤ 100 ∧ (0 : ℚ) ≤ 100 ∧ (100 : ℚ) ≤ 100
      norm_num)
    (by intro p hp; cases hp)
  refine ⟨hd, h.1, ?_⟩
  have h3 := h.2.2
  have e : (samplePlaying 3 0).rocket.shield + (samplePlaying 3 0).rocket.health -
      (samplePlaying 3 0).damageAmount = 200 - 12 := by
    show (100 : ℚ) + 100 - 12 = 200 - 12
    norm_num
  rw [e] at h3
  exact h3

/-! ## Landing: steep touchdown on the pad -/

theorem tiltedLanding_step :
    (tiltedLanding.rocket.update sampleMath (1 / 10) noInput 800 600 0).x = 400 ∧
    (tiltedLanding.rocket.update sampleMath (1 / 10) noInput 800 600 0).y = 123999 / 250 ∧
    (tiltedLanding.rocket.update sampleMath (1 / 10) noInput 800 600 0).vx = 0 ∧
    (tiltedLanding.rocket.update sampleMath (1 / 10) noInput 800 600 0).vy = 999 / 25 ∧
    (tiltedLanding.rocket.update sampleMath (1 / 10) noInput 800 600 0).angle = 1 ∧
    (tiltedLanding.rocket.update sampleMath (1 / 10) noInput 800 600 0).height = 50 ∧
    (tiltedLanding.rocket.update sampleMath (1 / 10) noInput 800 600 0).width = 30 := by
  have hP := PI_pos
  have hP1 : (1 : ℚ) ≤ PI := by unfold PI; norm_num
  have hP2 : (1 : ℚ) ≤ PI / 2 := by unfold PI; norm_num
  have ht : Rocket.turnRate sampleMath tiltedLanding.rocket (1 / 10) noInput = 0 := by
    simp only [Rocket.turnRate, clamp, sampleMath, noInput, tiltedLanding, Rocket.new,
      Bool.false_eq_true, if_false]
    rw [min_eq_right (by norm_num), max_eq_right (by norm_num)]
    norm_num
  have hi : Rocket.integratedAngle sampleMath tiltedLanding.rocket (1 / 10) noInput = 1 := by
    unfold Rocket.integratedAngle
    rw [ht]
    have : tiltedLanding.rocket.angle + 0 * (1 / 10) = 1 := by
      show (1 : ℚ) + 0 * (1 / 10) = 1
      norm_num
    rw [this]
    exact normalizeAngle_of_mem 1 (by linarith) hP1
  have hrot : Rocket.updateRotation sampleMath tiltedLanding.rocket (1 / 10) noInput =
      tiltedLanding.rocket := by
    unfold Rocket.updateRotation
    simp only [hi, ht]
    rw [if_neg (by linarith), if_neg (by linarith)]
    rfl
  unfold Rocket.update
  rw [hrot]
  simp only [Rocket.updateTimers, Rocket.updateLanding, tiltedLanding, Rocket.new, noInput,
    Bool.and_false, Bool.false_eq_true, if_false, if_true]
  norm_num

/-- Claim C27, evaluated on the code: the rocket comes down on the middle of the pad (pad
centre 400, surface at 520, width 100) tilted by 1 rad with a safe velocity.  After the frame
its bottom edge `y + height/2 = 520.996` is at the terrain, which is at the pad's `y` there,
its footprint `[385, 415]` is inside the pad's extent, `|vy| = 39.96 < 50`, `|vx| = 0 < 30`
and `pi/12 <= |angle| <= pi/2`; `checkLanding` measures the bottom as
`y + height/2*cos(angle)`, which is below `pad.y - 5`, so `onPad` is false and the crash is
reported as `Crashed into the terrain!`, not `Ship not level! Angle too steep!`. -/
theorem C27_steep_touchdown_reported_as_terrain :
    sampleTerrain.getHeightAt
      (tiltedLanding.rocket.update sampleMath (1 / 10) noInput 800 600 0).x = 520 ∧
    (tiltedLanding.rocket.update sampleMath (1 / 10) noInput 800 600 0).y +
      (tiltedLanding.rocket.update sampleMath (1 / 10) noInput 800 600 0).height / 2 ≥ 520 ∧
    (400 : ℚ) - 100 / 2 - 10 ≤
      (tiltedLanding.rocket.update sampleMath (1 / 10) noInput 800 600 0).x -
      (tiltedLanding.rocket.update sampleMath (1 / 10) noInput 800 600 0).width / 2 ∧
    (tiltedLanding.rocket.update sampleMath (1 / 10) noInput 800 600 0).x +
      (tiltedLanding.rocket.update sampleMath (1 / 10) noInput 800 600 0).width / 2 ≤
      400 + 100 / 2 + 10 ∧
    |(tiltedLanding.rocket.update sampleMath (1 / 10) noInput 800 600 0).vy| < 50 ∧
    |(tiltedLanding.rocket.update sampleMath (1 / 10) noInput 800 600 0).vx| < 30 ∧
    PI / 12 ≤ |(tiltedLanding.rocket.update sampleMath (1 / 10) noInput 800 600 0).angle| ∧
    |(tiltedLanding.rocket.update sampleMath (1 / 10) noInput 800 600 0).angle| ≤ PI / 2 ∧
    ((LandingPad.new 400 520 100).checkLanding sampleMath
      (tiltedLanding.rocket.update sampleMath (1 / 10) noInput 800 600 0)).onPad = false ∧
    ((LandingPad.new 400 520 100).checkLanding sampleMath
      (tiltedLanding.rocket.update sampleMath (1 / 10) noInput 800 600 0)).safeVelocity = true ∧
    (Game.updateLanding sampleMath tiltedLanding noInput (1 / 10)).game.pendingGameOver =
      some "Crashed into the terrain!" ∧
    (Game.updateLanding sampleMath tiltedLanding noInput (1 / 10)).game.pendingGameOver ≠
      some "Ship not level! Angle too steep!" := by
  obtain ⟨ex, ey, evx, evy, ea, eh, ew⟩ := tiltedLanding_step
  have hP1 : PI / 12 ≤ 1 := by unfold PI; norm_num
  have hP2 : (1 : ℚ) ≤ PI / 2 := by unfold PI; norm_num
  have hterr : sampleTerrain.getHeightAt
      (tiltedLanding.rocket.update sampleMath (1 / 10) noInput 800 600 0).x = 520 := by
    rw [ex]; exact sampleTerrain_height 400 (by norm_num) (by norm_num)
  have hoff : ((LandingPad.new 400 520 100).checkLanding sampleMath
      (tiltedLanding.rocket.update sampleMath (1 / 10) noInput 800 600 0)).onPad = false := by
    simp only [LandingPad.checkLanding, LandingPad.new, ex, ey, ea, eh, ew]
    simp only [sampleMath]
    norm_num
  have hsafe : ((LandingPad.new 400 520 100).checkLanding sampleMath
      (tiltedLanding.rocket.update sampleMath (1 / 10) noInput 800 600 0)).safeVelocity =
      true := by
    simp only [LandingPad.checkLanding, evx, evy]
    norm_num [abs_of_nonneg]
  have hcrash := Game.updateLanding_terrain_crash sampleMath tiltedLanding noInput (1 / 10)
    (LandingPad.new 400 520 100) sampleTerrain rfl rfl rfl rfl
    (by
      show sampleTerrain.getHeightAt
        (tiltedLanding.rocket.update sampleMath (1 / 10) noInput 800 600 0).x ≤
        (tiltedLanding.rocket.update sampleMath (1 / 10) noInput 800 600 0).y +
        (tiltedLanding.rocket.update sampleMath (1 / 10) noInput 800 600 0).height / 2
      rw [hterr, ey, eh]; norm_num)
    hoff
  refine ⟨hterr, ?_, ?_, ?_, ?_, ?_, ?_, ?_, hoff, hsafe, hcrash.1, ?_⟩
  · rw [ey, eh]; norm_num
  · rw [ex, ew]; norm_num
  · rw [ex, ew]; norm_num
  · rw [evy]; norm_num [abs_of_nonneg]
  · rw [evx]; norm_num
  · rw [ea, abs_one]; exact hP1
  · rw [ea, abs_one]; exact hP2
  · rw [hcrash.1]
    intro h
    simp only [Option.some.injEq] at h
    exact absurd h (by decide)

/-! ## Terrain: height floor and the plateau under the pad -/

theorem foldl_invariant_mem {α β : Type} (f : β → α → β) (Q : β → Prop) (l : List α)
    (h : ∀ b a, a ∈ l → Q b → Q (f b a)) : ∀ b, Q b → Q (l.foldl f b) := by
  induction l with
  | nil => intro b hb; exact hb
  | cons a rest ih =>
    intro b hb
    exact ih (fun b' a' ha' hb' => h b' a' (List.mem_cons_of_mem _ ha') hb') (f b a)
      (h b a (List.mem_cons_self _ _) hb)

theorem Terrain.sample_shaped (E : MathEnv) (cw ch px pw : ℚ) (rng i : ℕ) :
    (Terrain.sample E cw ch px pw rng i).1.x = (i : ℚ) * 12 ∧
    80 ≤ (Terrain.sample E cw ch px pw rng i).1.y ∧
    ((Terrain.sample E cw ch px pw rng i).1.x ≥ px - pw / 2 - 10 ∧
      (Terrain.sample E cw ch px pw rng i).1.x ≤ px + pw / 2 + 10 →
      (Terrain.sample E cw ch px pw rng i).1.y = max (ch - 80) 80) := by
  unfold Terrain.sample
  by_cases h : (i : ℚ) * 12 ≥ px - pw / 2 - 10 ∧ (i : ℚ) * 12 ≤ px + pw / 2 + 10
  · simp only [h, and_self, if_true]
    exact ⟨trivial, le_max_right _ _, fun _ => trivial⟩
  · simp only [h, if_false]
    exact ⟨trivial, le_max_right _ _, fun h2 => h2.elim⟩

theorem Terrain.samples_succ (E : MathEnv) (cw ch px pw : ℚ) (rng n : ℕ) :
    Terrain.samples E cw ch px pw rng (n + 1) =
      ((Terrain.samples E cw ch px pw rng n).1 ++
        [(Terrain.sample E cw ch px pw (Terrain.samples E cw ch px pw rng n).2 n).1],
       (Terrain.sample E cw ch px pw (Terrain.samples E cw ch px pw rng n).2 n).2) := by
  simp only [Terrain.samples, List.range_succ, List.foldl_append, List.foldl_cons,
    List.foldl_nil]

theorem Terrain.samples_shaped (E : MathEnv) (cw ch px pw : ℚ) (rng n : ℕ) :
    (Terrain.samples E cw ch px pw rng n).1.length = n ∧
    Terrain.Shaped ch px pw (Terrain.samples E cw ch px pw rng n).1 := by
  induction n with
  | zero =>
    refine ⟨rfl, ?_⟩
    intro i p hp
    simp [Terrain.samples] at hp
  | succ n ih =>
    obtain ⟨hl, hs⟩ := ih
    rw [Terrain.samples_succ]
    refine ⟨by simp [hl], ?_⟩
    intro i p hp
    simp only [] at hp
    by_cases hi : i < (Terrain.samples E cw ch px pw rng n).1.length
    · rw [List.getElem?_append_left hi] at hp
      exact hs i p hp
    · rw [List.getElem?_append_right (not_lt.mp hi)] at hp
      have hi2 : i - (Terrain.samples E cw ch px pw rng n).1.length = 0 := by
        by_contra hne
        obtain ⟨m, hm⟩ := Nat.exists_eq_succ_of_ne_zero hne
        rw [hm] at hp
        simp at hp
      rw [hi2] at hp
      simp only [List.getElem?_cons_zero, Option.some.injEq] at hp
      have hin : i = n := by omega
      rw [← hp, hin]
      exact Terrain.sample_shaped E cw ch px pw _ n

theorem Terrain.smoothAt_shaped (ch px pw : ℚ) (pts : List Point) (i : ℕ)
    (h : Terrain.Shaped ch px pw pts) (hi0 : 1 ≤ i) (hi : i + 1 < pts.length) :
    (Terrain.smoothAt px pw pts i).length = pts.length ∧
    Terrain.Shaped ch px pw (Terrain.smoothAt px pw pts i) := by
  obtain ⟨a, ha⟩ : ∃ a, pts[i - 1]? = some a :=
    ⟨_, List.getElem?_eq_getElem (show i - 1 < pts.length by omega)⟩
  obtain ⟨b, hb⟩ : ∃ b, pts[i]? = some b :=
    ⟨_, List.getElem?_eq_getElem (show i < pts.length by omega)⟩
  obtain ⟨c, hc⟩ : ∃ c, pts[i + 1]? = some c := ⟨_, List.getElem?_eq_getElem hi⟩
  obtain ⟨-, a2, -⟩ := h _ _ ha
  obtain ⟨b1, b2, -⟩ := h _ _ hb
  obtain ⟨-, c2, -⟩ := h _ _ hc
  unfold Terrain.smoothAt
  simp only [List.getD_eq_getElem?_getD, ha, hb, hc, Option.getD_some]
  split_ifs with hcond
  · refine ⟨List.length_set _ _ _, ?_⟩
    intro k p hk
    rw [List.getElem?_set] at hk
    by_cases hik : i = k
    · subst hik
      have hlt : i < pts.length := by omega
      simp only [if_true, hlt, Option.some.injEq] at hk
      rw [← hk]
      refine ⟨b1, ?_, fun hz => ?_⟩
      · show (80 : ℚ) ≤ (a.y + b.y + c.y) / 3
        linarith
      · exfalso
        have hz1 : b.x ≥ px - pw / 2 - 10 := hz.1
        have hz2 : b.x ≤ px + pw / 2 + 10 := hz.2
        rcases hcond with hcl | hcr
        · linarith
        · linarith
    · simp only [hik, if_false] at hk
      exact h k p hk
  · exact ⟨rfl, h⟩

theorem Terrain.smoothPass_shaped (ch px pw : ℚ) (pts : List Point)
    (h : Terrain.Shaped ch px pw pts) :
    (Terrain.smoothPass px pw pts).length = pts.length ∧
    Terrain.Shaped ch px pw (Terrain.smoothPass px pw pts) := by
  unfold Terrain.smoothPass
  refine foldl_invariant_mem
    (fun (acc : List Point) (k : ℕ) => Terrain.smoothAt px pw acc (k + 1))
    (fun acc => acc.length = pts.length ∧ Terrain.Shaped ch px pw acc)
    (List.range (pts.length - 2)) ?_ pts ⟨rfl, h⟩
  intro b k hk hb
  have hk2 : k < pts.length - 2 := List.mem_range.mp hk
  obtain ⟨r1, r2⟩ := Terrain.smoothAt_shaped ch px pw b (k + 1) hb.2 (by omega)
    (by rw [hb.1]; omega)
  exact ⟨r1.trans hb.1, r2⟩

theorem Terrain.new_shaped (E : MathEnv) (rng : ℕ) (cw ch px pw : ℚ) :
    (Terrain.new E rng cw ch px pw).1.points.length = (⌈cw / 12⌉ + 1 + 1).toNat ∧
    Terrain.Shaped ch px pw (Terrain.new E rng cw ch px pw).1.points ∧
    (Terrain.new E rng cw ch px pw).1.canvasHeight = ch := by
  obtain ⟨s1, s2⟩ := Terrain.samples_shaped E cw ch px pw rng (⌈cw / 12⌉ + 1 + 1).toNat
  obtain ⟨p1, p2⟩ := Terrain.smoothPass_shaped ch px pw _ s2
  obtain ⟨q1, q2⟩ := Terrain.smoothPass_shaped ch px pw _ p2
  exact ⟨q1.trans (p1.trans s1), q2, rfl⟩

theorem Terrain.heightIn_floor (l : List Point) (x : ℚ) (h : ∀ p ∈ l, 80 ≤ p.y) :
    ∀ v, Terrain.heightIn l x = some v → 80 ≤ v := by
  induction l with
  | nil => intro v hv; simp [Terrain.heightIn] at hv
  | cons p t ih =>
    cases t with
    | nil => intro v hv; simp [Terrain.heightIn] at hv
    | cons q rest =>
      intro v hv
      simp only [Terrain.heightIn] at hv
      split_ifs at hv with hc
      · simp only [Option.some.injEq] at hv
        rw [← hv]
        have ht0 : 0 ≤ (x - p.x) / (q.x - p.x) := div_nonneg (by linarith) (by linarith)
        have ht1 : (x - p.x) / (q.x - p.x) ≤ 1 :=
          div_le_one_of_le₀ (by linarith) (by linarith)
        have hm := (lerp_mem p.y q.y _ ht0 ht1).1
        have hp := h p (List.mem_cons_self _ _)
        have hq := h q (List.mem_cons_of_mem _ (List.mem_cons_self _ _))
        exact le_trans (le_min hp hq) hm
      · exact ih (fun r hr => h r (List.mem_cons_of_mem _ hr)) v hv

theorem Terrain.heightIn_flat (pl pr Y x : ℚ) (hx1 : pl + 2 ≤ x) (hx2 : x ≤ pr - 2)
    (l : List Point) :
    ∀ j : ℕ,
      (∀ (k : ℕ) (p : Point), l[k]? = some p →
        p.x = ((j + k : ℕ) : ℚ) * 12 ∧ (p.x ≥ pl - 10 ∧ p.x ≤ pr + 10 → p.y = Y)) →
      2 ≤ l.length → (j : ℚ) * 12 ≤ x → x ≤ ((j + l.length : ℕ) : ℚ) * 12 - 12 →
      Terrain.heightIn l x = some Y := by
  induction l with
  | nil => intro j _ h2; simp at h2
  | cons p t ih =>
    cases t with
    | nil => intro j _ h2; simp at h2
    | cons q rest =>
      intro j H _ hlo hhi
      obtain ⟨px1, py⟩ := H 0 p (by simp)
      obtain ⟨qx1, qy⟩ := H 1 q (by simp)
      have px2 : p.x = (j : ℚ) * 12 := by rw [px1]; push_cast; ring
      have qx2 : q.x = (j : ℚ) * 12 + 12 := by rw [qx1]; push_cast; ring
      simp only [Terrain.heightIn]
      by_cases hc : x ≥ p.x ∧ x ≤ q.x
      · rw [if_pos hc]
        have e1 : p.y = Y := py ⟨by linarith [hc.2], by linarith [hc.1]⟩
        have e2 : q.y = Y := qy ⟨by linarith [hc.2], by linarith [hc.1]⟩
        rw [e1, e2]
        simp [lerp]
      · rw [if_neg hc]
        have hgt : q.x < x := by
          by_contra hn
          exact hc ⟨by linarith, not_lt.mp hn⟩
        have hlen : ((j + (p :: q :: rest).length : ℕ) : ℚ) =
            (j : ℚ) + (rest.length : ℚ) + 2 := by
          simp only [List.length_cons]; push_cast; ring
        rw [hlen] at hhi
        have hrest : (0 : ℚ) < (rest.length : ℚ) := by linarith
        have hrest' : 0 < rest.length := by exact_mod_cast hrest
        refine ih (j + 1) ?_ ?_ ?_ ?_
        · intro k r hk
          have := H (k + 1) r (by simpa using hk)
          have e : j + 1 + k = j + (k + 1) := by ring
          rw [e]; exact this
        · simp only [List.length_cons]; omega
        · push_cast; linarith
        · have hlen2 : ((j + 1 + (q :: rest).length : ℕ) : ℚ) =
              (j : ℚ) + (rest.length : ℚ) + 2 := by
            simp only [List.length_cons]; push_cast; ring
          rw [hlen2]; exact hhi

/-- Claim C21, amended. Flattened plateau under the pad: for every canvas height `>= 160`,
every pad and every outcome of the random draws, `getHeightAt(x)` equals the pad height
`canvasHeight - 80` for every `x` of the canvas (`0 <= x <= canvasWidth`) that lies in the
pad span shortened by 2 px at each end,
`padX - padWidth/2 + 2 <= x <= padX + padWidth/2 - 2`. -/
theorem C21_plateau_inside_pad (E : MathEnv) (rng : ℕ) (cw ch px pw x : ℚ)
    (hch : 160 ≤ ch) (h0 : 0 ≤ x) (hcw : x ≤ cw)
    (h1 : px - pw / 2 + 2 ≤ x) (h2 : x ≤ px + pw / 2 - 2) :
    (Terrain.new E rng cw ch px pw).1.getHeightAt x = ch - 80 := by
  obtain ⟨hl, hs, -⟩ := Terrain.new_shaped E rng cw ch px pw
  have hceil : (0 : ℤ) ≤ ⌈cw / 12⌉ := Int.ceil_nonneg (by linarith)
  have hY : max (ch - 80) 80 = ch - 80 := max_eq_left (by linarith)
  have hN : (((⌈cw / 12⌉ + 1 + 1).toNat : ℕ) : ℚ) = (⌈cw / 12⌉ : ℚ) + 2 := by
    have : (((⌈cw / 12⌉ + 1 + 1).toNat : ℕ) : ℤ) = ⌈cw / 12⌉ + 2 := by omega
    have h3 : ((((⌈cw / 12⌉ + 1 + 1).toNat : ℕ) : ℤ) : ℚ) = ((⌈cw / 12⌉ + 2 : ℤ) : ℚ) := by
      rw [this]
    push_cast at h3
    exact h3
  have hflat := Terrain.heightIn_flat (px - pw / 2) (px + pw / 2) (ch - 80) x h1 h2
    (Terrain.new E rng cw ch px pw).1.points 0
    (by
      intro k p hk
      obtain ⟨a1, -, a3⟩ := hs k p hk
      refine ⟨by rw [a1]; simp, fun hz => ?_⟩
      rw [a3 hz, hY])
    (by rw [hl]; omega)
    (by simpa using h0)
    (by
      rw [hl]
      have hc := Int.le_ceil (cw / 12)
      simp only [Nat.zero_add]
      rw [hN]
      linarith)
  unfold Terrain.getHeightAt
  rw [hflat, Option.getD_some]

/-- Witness for C21: the pad of the 800 x 600 game (centre 400, width 100) at its centre. -/
theorem C21_plateau_inside_pad_witness :
    (Terrain.new sampleMath 0 800 600 400 100).1.getHeightAt 400 = 600 - 80 :=
  C21_plateau_inside_pad sampleMath 0 800 600 400 100 400 (by norm_num) (by norm_num)
    (by norm_num) (by norm_num) (by norm_num)

theorem Terrain.samples_head (E : MathEnv) (cw ch px pw : ℚ) (rng n : ℕ) :
    (Terrain.samples E cw ch px pw rng (n + 1)).1[0]? =
      some (Terrain.sample E cw ch px pw rng 0).1 := by
  induction n with
  | zero =>
    rw [Terrain.samples_succ]
    have e : Terrain.samples E cw ch px pw rng 0 = ([], rng) := rfl
    rw [e]
    rfl
  | succ n ih =>
    rw [Terrain.samples_succ]
    simp only []
    rw [List.getElem?_append_left
      (by rw [(Terrain.samples_shaped E cw ch px pw rng (n + 1)).1]; omega)]
    exact ih

theorem Terrain.smoothPass_head (px pw : ℚ) (pts : List Point) :
    (Terrain.smoothPass px pw pts)[0]? = pts[0]? := by
  unfold Terrain.smoothPass
  refine foldl_invariant_mem
    (fun (acc : List Point) (k : ℕ) => Terrain.smoothAt px pw acc (k + 1))
    (fun acc => acc[0]? = pts[0]?) (List.range (pts.length - 2)) ?_ pts rfl
  intro b k _ hb
  unfold Terrain.smoothAt
  simp only []
  split_ifs
  · rw [List.getElem?_set_ne (by omega)]
    exact hb
  · exact hb

theorem ceil_122_12 : ⌈(122 : ℚ) / 12⌉ = 11 := by
  rw [Int.ceil_eq_iff]
  constructor <;> norm_num

/-- Claim C21, counterexample: the terrain of a landing phase on a 122 x 600 canvas (pad
centre 61, pad width 100, so the pad span is `[11, 111]` and the pad height 520).  The sample
at `x = 0` lies more than 10 px outside the span and is not flattened, so at the left end of
the pad, `x = 11`, the height is interpolated between it and the flat sample at `x = 12`:
`getHeightAt(11) = 1450/3`, not 520. -/
theorem C21_counterexample :
    (61 : ℚ) - 100 / 2 ≤ 11 ∧ (11 : ℚ) ≤ 61 + 100 / 2 ∧ (160 : ℚ) ≤ 600 ∧
    (Terrain.new sampleMath 0 122 600 61 100).1.getHeightAt 11 = 1450 / 3 ∧
    (Terrain.new sampleMath 0 122 600 61 100).1.getHeightAt 11 ≠ 600 - 80 := by
  obtain ⟨hl, hs, -⟩ := Terrain.new_shaped sampleMath 0 122 600 61 100
  have hlen : (Terrain.new sampleMath 0 122 600 61 100).1.points.length = 13 := by
    rw [hl, ceil_122_12]; decide
  have h0 : (Terrain.new sampleMath 0 122 600 61 100).1.points[0]? =
      some { x := 0, y := 80 } := by
    have e : (Terrain.new sampleMath 0 122 600 61 100).1.points =
        Terrain.smoothPass 61 100 (Terrain.smoothPass 61 100
          (Terrain.samples sampleMath 122 600 61 100 0 (12 + 1)).1) := by
      unfold Terrain.new
      simp only [ceil_122_12]
      rfl
    rw [e, Terrain.smoothPass_head, Terrain.smoothPass_head, Terrain.samples_head]
    simp only [Terrain.sample, sampleMath, random]
    norm_num
  obtain ⟨q, hq⟩ : ∃ q, (Terrain.new sampleMath 0 122 600 61 100).1.points[1]? = some q :=
    ⟨_, List.getElem?_eq_getElem (by rw [hlen]; decide)⟩
  obtain ⟨q1, -, q3⟩ := hs 1 q hq
  have q1' : q.x = 12 := by rw [q1]; norm_num
  have qy : q.y = 520 := by
    rw [q3 ⟨by rw [q1']; norm_num, by rw [q1']; norm_num⟩]
    norm_num
  have hval : (Terrain.new sampleMath 0 122 600 61 100).1.getHeightAt 11 = 1450 / 3 := by
    unfold Terrain.getHeightAt
    cases hp : (Terrain.new sampleMath 0 122 600 61 100).1.points with
    | nil => rw [hp] at hlen; simp at hlen
    | cons a t =>
      cases t with
      | nil => rw [hp] at hlen; simp at hlen
      | cons b rest =>
        rw [hp] at h0 hq
        simp only [List.getElem?_cons_zero, Option.some.injEq] at h0
        simp only [List.getElem?_cons_succ, List.getElem?_cons_zero, Option.some.injEq] at hq
        rw [h0, hq]
        simp only [Terrain.heightIn, q1', qy, lerp]
        norm_num
  refine ⟨by norm_num, by norm_num, by norm_num, hval, ?_⟩
  rw [hval]
  norm_num

/-! ## Terrain height floor -/

theorem Terrain.sampleIsNaN_of_pos (cw px pw : ℚ) (hcw : 0 < cw) (i : ℕ) :
    Terrain.sampleIsNaN cw px pw i = false := by
  unfold Terrain.sampleIsNaN
  simp only []
  split_ifs
  · rfl
  · have h2 : cw / 2 ≠ 0 := by positivity
    have h3 : ¬ (|(i : ℚ) * 12 - cw / 2| / (cw / 2) < 0) :=
      not_lt.mpr (div_nonneg (abs_nonneg _) (by positivity))
    simp [h2, h3]

/-- Counterexample for claim C26: `new Terrain(0, 600, 400, 100)`, a canvas of width 0.  The
height map has two points; the first is the sample with index 0, which smoothing never
touches; it lies outside the flattened span, its `distFromCenter` is 0 and
`canvasWidth / 2` is 0, so `normalizedDist` is `0 / 0 = NaN` and the stored `y` is
`Math.max(NaN, 80) = NaN`, for which `y >= 80` is false. -/
theorem C26_counterexample :
    (Terrain.new sampleMath 0 0 600 400 100).1.points.length = 2 ∧
    (Terrain.new sampleMath 0 0 600 400 100).1.points[0]? =
      some (Terrain.sample sampleMath 0 600 400 100 0 0).1 ∧
    ¬ ((((0 : ℕ) : ℚ) * 12 ≥ 400 - 100 / 2 - 10) ∧ (((0 : ℕ) : ℚ) * 12 ≤ 400 + 100 / 2 + 10)) ∧
    |((0 : ℕ) : ℚ) * 12 - 0 / 2| = 0 ∧ (0 : ℚ) / 2 = 0 ∧
    Terrain.sampleIsNaN 0 400 100 0 = true := by
  obtain ⟨hl, -, -⟩ := Terrain.new_shaped sampleMath 0 0 600 400 100
  refine ⟨?_, ?_, by norm_num, by norm_num, by norm_num, ?_⟩
  · rw [hl]
    norm_num
    rfl
  · have e : (Terrain.new sampleMath 0 0 600 400 100).1.points =
        Terrain.smoothPass 400 100 (Terrain.smoothPass 400 100
          (Terrain.samples sampleMath 0 600 400 100 0 (1 + 1)).1) := by
      unfold Terrain.new
      norm_num
      rfl
    rw [e, Terrain.smoothPass_head, Terrain.smoothPass_head, Terrain.samples_head]
  · unfold Terrain.sampleIsNaN
    norm_num

/-- Claim C26, amended. Terrain height floor: for every canvas of positive width, every
canvas height, pad and outcome of the random draws, no sample of `Terrain.generate` is
`NaN`, after both smoothing passes every height-map point has `y >= 80`, and when
`canvasHeight >= 80`, `getHeightAt(x) >= 80` for every `x` (inside the sampled range it is an
interpolation of two points, outside it is `canvasHeight`). -/
theorem C26_terrain_height_floor (E : MathEnv) (rng : ℕ) (cw ch px pw : ℚ) (hcw : 0 < cw) :
    (∀ i : ℕ, Terrain.sampleIsNaN cw px pw i = false) ∧
    (∀ p ∈ (Terrain.new E rng cw ch px pw).1.points, 80 ≤ p.y) ∧
    (80 ≤ ch → ∀ x : ℚ, 80 ≤ (Terrain.new E rng cw ch px pw).1.getHeightAt x) := by
  obtain ⟨-, hs, hc⟩ := Terrain.new_shaped E rng cw ch px pw
  have hall : ∀ p ∈ (Terrain.new E rng cw ch px pw).1.points, 80 ≤ p.y := by
    intro p hp
    obtain ⟨i, hi⟩ := List.mem_iff_getElem?.mp hp
    exact (hs i p hi).2.1
  refine ⟨Terrain.sampleIsNaN_of_pos cw px pw hcw, hall, fun hch x => ?_⟩
  unfold Terrain.getHeightAt
  cases hv : Terrain.heightIn (Terrain.new E rng cw ch px pw).1.points x with
  | none => rw [Option.getD_none, hc]; exact hch
  | some v =>
    rw [Option.getD_some]
    exact Terrain.heightIn_floor _ x hall v hv

/-- Witness for C26: the terrain of an 800 x 600 canvas with the pad at 400. -/
theorem C26_terrain_height_floor_witness :
    (0 : ℚ) < 800 ∧
    (∀ i : ℕ, Terrain.sampleIsNaN 800 400 100 i = false) ∧
    (∀ p ∈ (Terrain.new sampleMath 0 800 600 400 100).1.points, 80 ≤ p.y) ∧
    (∀ x : ℚ, 80 ≤ (Terrain.new sampleMath 0 800 600 400 100).1.getHeightAt x) := by
  have h := C26_terrain_height_floor sampleMath 0 800 600 400 100 (by norm_num)
  exact ⟨by norm_num, h.1, h.2.1, h.2.2 (by norm_num)⟩

end RiftRunner
